import Mathlib

/-!
# Hybrid-curvature Reeds-Shepp steering (HCpmpm): selector, driver, control emitter

A shallow embedding of `hcpmpm_reeds_shepp_state_space.cpp`.

* Numbers.  The `double`s of the source are read as elements of an arbitrary linearly
  ordered field `K` (`ℚ` gives an executable instance, `ℝ` the ideal one).  `fabs` is the
  absolute value and `pow(x, 2)` is `x ^ 2`.  Rounding, infinities and NaN are outside the
  model; in particular a division by zero yields `0` here, not `inf` or NaN.
* The sentinel.  `numeric_limits<double>::max()` is the constant `Env.dbl_max` of `K`, known
  to be positive.  A field has no largest element, so where the program relies on every
  finite length being below the sentinel, the theorems state that as a hypothesis.
* Collaborators.  Everything the translation unit calls but does not define (libm, the
  geometry utilities, the turn-length calculators, the segment emitters) is a field of `Env`
  or of `Emitters`.  Nothing is assumed about these functions beyond what a theorem states
  as a hypothesis.
* Pointers.  An output pointer of the source is an `Option`; `nullptr` is `none`.
  Dereferencing a null pointer makes the enclosing function return `none`.
* State.  The only mutable state is the pair `distance`, `angle` of the helper object; the
  selector takes the state space (which owns the helper) and returns the updated one.
* Construction.  The base-class constructor is not part of the translation unit: the derived
  constructor takes it as an argument, and a construction that fails returns an error.
-/

namespace steer

/-! ## Data model -/

/-- Description of a kinematic car's state (`steering_functions.hpp`). -/
structure State (K : Type) where
  x : K
  y : K
  theta : K
  kappa : K
  d : K
deriving DecidableEq, Repr

/-- Description of a path segment with its control inputs (`steering_functions.hpp`). -/
structure Control (K : Type) where
  delta_s : K
  kappa : K
  sigma : K
deriving DecidableEq, Repr

/-- Modelled from the spec: the class `Configuration` (its header is not part of the
sources at hand), a pose on the plane with curvature, `(x, y, θ, κ)`. -/
structure Configuration (K : Type) where
  x : K
  y : K
  theta : K
  kappa : K
deriving DecidableEq, Repr

/-- Modelled from the spec: the class `HC_CC_Circle_Param`, the derived constants of a
`(κ_max, σ_max)` pair.  The field order is the argument order of `set_param`. -/
structure HC_CC_Circle_Param (K : Type) where
  kappa : K
  sigma : K
  radius : K
  mu : K
  sin_mu : K
  cos_mu : K
  delta_min : K
deriving DecidableEq, Repr

/-- Modelled from the spec: the class `HC_CC_Circle`: centre, turning and driving direction,
the `regular` flag, the originating configuration `start`, the signed curvature and the
constants taken over from the circle parameters. -/
structure HC_CC_Circle (K : Type) where
  start : Configuration K
  left : Bool
  forward : Bool
  regular : Bool
  xc : K
  yc : K
  kappa : K
  sigma : K
  radius : K
  mu : K
  sin_mu : K
  cos_mu : K
  delta_min : K
deriving DecidableEq, Repr

/-- Modelled from the spec: the enumeration `hc_cc_rs_path_type` of family tags, in the
order of the family/schedule tables. -/
inductive hc_cc_rs_path_type where
  | EMPTY | T | TT | TcT | TcTcT | TcTT | TTcT | TST | TSTcT | TcTST | TcTSTcT
  | TTcTT | TcTTcT | TTT | TcST | TScT | TcScT
deriving DecidableEq, Repr

/-- Modelled from the spec: the constant `nb_hc_cc_rs_paths`, the number of family tags. -/
def nb_hc_cc_rs_paths : Nat := 17

namespace hc_cc_rs_path_type

/-- The integer value of an enumerator. -/
def index : hc_cc_rs_path_type → Nat
  | EMPTY => 0 | T => 1 | TT => 2 | TcT => 3 | TcTcT => 4 | TcTT => 5 | TTcT => 6
  | TST => 7 | TSTcT => 8 | TcTST => 9 | TcTSTcT => 10 | TTcTT => 11 | TcTTcT => 12
  | TTT => 13 | TcST => 14 | TScT => 15 | TcScT => 16

/-- The cast `(hc_cc_rs_path_type) i` of an index below `nb_hc_cc_rs_paths`. -/
def of_index : Nat → hc_cc_rs_path_type
  | 0 => EMPTY | 1 => T | 2 => TT | 3 => TcT | 4 => TcTcT | 5 => TcTT | 6 => TTcT
  | 7 => TST | 8 => TSTcT | 9 => TcTST | 10 => TcTSTcT | 11 => TTcTT | 12 => TcTTcT
  | 13 => TTT | 14 => TcST | 15 => TScT | _ => TcScT

end hc_cc_rs_path_type

/-- Modelled from the spec: the class `HC_CC_RS_Path`, the decomposed path: endpoint
configurations, family tag, the construction parameters, up to four join configurations, the
start and end circles, up to two intermediate circles, and the total length.  The fields are
the constructor arguments in the order the selector passes them. -/
structure HC_CC_RS_Path (K : Type) where
  start : Configuration K
  end_ : Configuration K
  type : hc_cc_rs_path_type
  kappa : K
  sigma : K
  qi1 : Option (Configuration K)
  qi2 : Option (Configuration K)
  qi3 : Option (Configuration K)
  qi4 : Option (Configuration K)
  cstart : Option (HC_CC_Circle K)
  cend : Option (HC_CC_Circle K)
  ci1 : Option (HC_CC_Circle K)
  ci2 : Option (HC_CC_Circle K)
  length : K
deriving DecidableEq, Repr

/-- The members `distance` and `angle` of the helper class `HCpmpm_Reeds_Shepp`
(its third member, the back pointer `parent_`, is the state space passed alongside). -/
structure HCpmpm_Reeds_Shepp (K : Type) where
  distance : K
  angle : K
deriving DecidableEq, Repr

/-- The members of `HCpmpm_Reeds_Shepp_State_Space` (own and inherited) that the translation
unit reads or writes. -/
structure HCpmpm_Reeds_Shepp_State_Space (K : Type) where
  kappa_ : K
  sigma_ : K
  discretization_ : K
  hc_cc_circle_param_ : HC_CC_Circle_Param K
  rs_circle_param_ : HC_CC_Circle_Param K
  radius_ : K
  mu_ : K
  sin_mu_ : K
  cos_mu_ : K
  hcpmpm_reeds_shepp_ : HCpmpm_Reeds_Shepp K
deriving DecidableEq, Repr

/-- The functions and constants the translation unit uses without defining them. -/
structure Env (K : Type) [LinearOrderedField K] where
  /-- The constant `numeric_limits<double>::max()`. -/
  dbl_max : K
  /-- The largest double is positive. -/
  dbl_max_pos : 0 < dbl_max
  /-- The constant `PI`. -/
  PI : K
  /-- The constant `HALF_PI`. -/
  HALF_PI : K
  /-- The tolerance returned by `get_epsilon()`. -/
  get_epsilon : K
  /-- The libm function `sqrt`. -/
  sqrt : K → K
  /-- The libm function `atan2(y, x)`. -/
  atan2 : K → K → K
  /-- The libm function `asin`. -/
  asin : K → K
  /-- The utility `center_distance(c1, c2)`. -/
  center_distance : HC_CC_Circle K → HC_CC_Circle K → K
  /-- The utility `configuration_distance(q1, q2)`. -/
  configuration_distance : Configuration K → Configuration K → K
  /-- The utility `configuration_equal(q1, q2)`. -/
  configuration_equal : Configuration K → Configuration K → Bool
  /-- The utility `configuration_on_hc_cc_circle(c, q)`. -/
  configuration_on_hc_cc_circle : HC_CC_Circle K → Configuration K → Bool
  /-- The utility `global_frame_change(x, y, theta, local_x, local_y, &global_x, &global_y)`,
  returning the two outputs. -/
  global_frame_change : K → K → K → K → K → K × K
  /-- The length query `HC_CC_Circle::rs_turn_length(q)`. -/
  rs_turn_length : HC_CC_Circle K → Configuration K → K
  /-- The length query `HC_CC_Circle::hc_turn_length(q)`. -/
  hc_turn_length : HC_CC_Circle K → Configuration K → K
  /-- The length query `HC_CC_Circle::cc_turn_length(q)`. -/
  cc_turn_length : HC_CC_Circle K → Configuration K → K
  /-- The centre that the `HC_CC_Circle` constructor computes from a start configuration,
  the two direction flags and the circle parameters. -/
  circle_center : Configuration K → Bool → Bool → HC_CC_Circle_Param K → K × K
  /-- The `start` member of a circle constructed from its centre. -/
  center_start : Configuration K

variable {K : Type} [LinearOrderedField K]

/-- The libm function `fabs`. -/
def fabs (x : K) : K := |x|

/-- The libm call `pow(x, 2)`. -/
def pow2 (x : K) : K := x ^ 2

/-- Modelled from the spec: the constructor `HC_CC_Circle(start, left, forward, regular, param)`.
The flags and the start configuration are stored, the curvature is `±κ_max` with the sign
given by `left`, and the remaining constants come from the parameters. -/
def HC_CC_Circle.of_start (E : Env K) (start : Configuration K) (left forward regular : Bool)
    (param : HC_CC_Circle_Param K) : HC_CC_Circle K :=
  { start := start, left := left, forward := forward, regular := regular,
    xc := (E.circle_center start left forward param).1,
    yc := (E.circle_center start left forward param).2,
    kappa := if left then param.kappa else -param.kappa,
    sigma := if left then param.sigma else -param.sigma,
    radius := param.radius, mu := param.mu, sin_mu := param.sin_mu, cos_mu := param.cos_mu,
    delta_min := param.delta_min }

/-- Modelled from the spec: the constructor `HC_CC_Circle(xc, yc, left, forward, regular, param)`
of a circle given by its centre. -/
def HC_CC_Circle.of_center (E : Env K) (xc yc : K) (left forward regular : Bool)
    (param : HC_CC_Circle_Param K) : HC_CC_Circle K :=
  { start := E.center_start, left := left, forward := forward, regular := regular,
    xc := xc, yc := yc,
    kappa := if left then param.kappa else -param.kappa,
    sigma := if left then param.sigma else -param.sigma,
    radius := param.radius, mu := param.mu, sin_mu := param.sin_mu, cos_mu := param.cos_mu,
    delta_min := param.delta_min }

/-- The compile-time flag `HC_REGULAR`. -/
def HC_REGULAR : Bool := false

/-- The compile-time flag `CC_REGULAR`. -/
def CC_REGULAR : Bool := false

/-! ## Family catalog: feasibility predicates -/

namespace HCpmpm_Reeds_Shepp

/-- The member function `TT_exists`. -/
def TT_exists (E : Env K) (S : HCpmpm_Reeds_Shepp_State_Space K) (c1 c2 : HC_CC_Circle K) : Bool :=
  if c1.left = c2.left then false
  else if c1.forward = c2.forward then false
  else decide (fabs (S.hcpmpm_reeds_shepp_.distance - 2 * S.radius_) < E.get_epsilon)

/-- The member function `TcT_exists`. -/
def TcT_exists (E : Env K) (S : HCpmpm_Reeds_Shepp_State_Space K) (c1 c2 : HC_CC_Circle K) : Bool :=
  if c1.left = c2.left then false
  else if c1.forward ≠ c2.forward then false
  else decide (fabs (S.hcpmpm_reeds_shepp_.distance - fabs (2 / c1.kappa)) < E.get_epsilon)

/-- The member function `TcTcT_exists`. -/
def TcTcT_exists (S : HCpmpm_Reeds_Shepp_State_Space K) (c1 c2 : HC_CC_Circle K) : Bool :=
  if c1.left ≠ c2.left then false
  else if c1.forward = c2.forward then false
  else decide (S.hcpmpm_reeds_shepp_.distance ≤ fabs (4 / c1.kappa))

/-- The member function `TcTT_exists`. -/
def TcTT_exists (S : HCpmpm_Reeds_Shepp_State_Space K) (c1 c2 : HC_CC_Circle K) : Bool :=
  if c1.left ≠ c2.left then false
  else if c1.forward ≠ c2.forward then false
  else decide (S.hcpmpm_reeds_shepp_.distance ≤ 2 * S.radius_ + 2 / fabs c1.kappa) &&
    decide (S.hcpmpm_reeds_shepp_.distance ≥ 2 * S.radius_ - 2 / fabs c1.kappa)

/-- The member function `TTcT_exists`. -/
def TTcT_exists (S : HCpmpm_Reeds_Shepp_State_Space K) (c1 c2 : HC_CC_Circle K) : Bool :=
  if c1.left ≠ c2.left then false
  else if c1.forward ≠ c2.forward then false
  else decide (S.hcpmpm_reeds_shepp_.distance ≤ 2 * S.radius_ + 2 / fabs c1.kappa) &&
    decide (S.hcpmpm_reeds_shepp_.distance ≥ 2 * S.radius_ - 2 / fabs c1.kappa)

/-- The member function `TiST_exists`. -/
def TiST_exists (S : HCpmpm_Reeds_Shepp_State_Space K) (c1 c2 : HC_CC_Circle K) : Bool :=
  if c1.left = c2.left then false
  else if c1.forward = c2.forward then false
  else decide (S.hcpmpm_reeds_shepp_.distance ≥ 2 * S.radius_)

/-- The member function `TeST_exists`. -/
def TeST_exists (S : HCpmpm_Reeds_Shepp_State_Space K) (c1 c2 : HC_CC_Circle K) : Bool :=
  if c1.left ≠ c2.left then false
  else if c1.forward = c2.forward then false
  else decide (S.hcpmpm_reeds_shepp_.distance ≥ 2 * S.radius_ * S.sin_mu_)

/-- The member function `TST_exists`. -/
def TST_exists (S : HCpmpm_Reeds_Shepp_State_Space K) (c1 c2 : HC_CC_Circle K) : Bool :=
  TiST_exists S c1 c2 || TeST_exists S c1 c2

/-- The member function `TiSTcT_exists`. -/
def TiSTcT_exists (E : Env K) (S : HCpmpm_Reeds_Shepp_State_Space K) (c1 c2 : HC_CC_Circle K) :
    Bool :=
  if c1.left ≠ c2.left then false
  else if c1.forward ≠ c2.forward then false
  else decide (S.hcpmpm_reeds_shepp_.distance ≥
    E.sqrt (pow2 (2 * S.radius_ * S.sin_mu_ + 2 / fabs c1.kappa) +
      pow2 (2 * S.radius_ * S.cos_mu_)))

/-- The member function `TeSTcT_exists`. -/
def TeSTcT_exists (S : HCpmpm_Reeds_Shepp_State_Space K) (c1 c2 : HC_CC_Circle K) : Bool :=
  if c1.left = c2.left then false
  else if c1.forward ≠ c2.forward then false
  else decide (S.hcpmpm_reeds_shepp_.distance ≥
    2 * (1 / fabs c1.kappa + S.radius_ * S.sin_mu_))

/-- The member function `TSTcT_exists`. -/
def TSTcT_exists (E : Env K) (S : HCpmpm_Reeds_Shepp_State_Space K) (c1 c2 : HC_CC_Circle K) :
    Bool :=
  TiSTcT_exists E S c1 c2 || TeSTcT_exists S c1 c2

/-- The member function `TcTiST_exists`. -/
def TcTiST_exists (E : Env K) (S : HCpmpm_Reeds_Shepp_State_Space K) (c1 c2 : HC_CC_Circle K) :
    Bool :=
  if c1.left ≠ c2.left then false
  else if c1.forward ≠ c2.forward then false
  else decide (S.hcpmpm_reeds_shepp_.distance ≥
    E.sqrt (pow2 (2 * S.radius_ * S.sin_mu_ + 2 / fabs c1.kappa) +
      pow2 (2 * S.radius_ * S.cos_mu_)))

/-- The member function `TcTeST_exists`. -/
def TcTeST_exists (S : HCpmpm_Reeds_Shepp_State_Space K) (c1 c2 : HC_CC_Circle K) : Bool :=
  if c1.left = c2.left then false
  else if c1.forward ≠ c2.forward then false
  else decide (S.hcpmpm_reeds_shepp_.distance ≥
    2 * (1 / fabs c1.kappa + S.radius_ * S.sin_mu_))

/-- The member function `TcTST_exists`. -/
def TcTST_exists (E : Env K) (S : HCpmpm_Reeds_Shepp_State_Space K) (c1 c2 : HC_CC_Circle K) :
    Bool :=
  TcTiST_exists E S c1 c2 || TcTeST_exists S c1 c2

/-- The member function `TcTiSTcT_exists`. -/
def TcTiSTcT_exists (E : Env K) (S : HCpmpm_Reeds_Shepp_State_Space K) (c1 c2 : HC_CC_Circle K) :
    Bool :=
  if c1.left = c2.left then false
  else if c1.forward = c2.forward then false
  else decide (S.hcpmpm_reeds_shepp_.distance ≥
    E.sqrt (pow2 (2 * S.radius_) + 16 * S.radius_ * S.sin_mu_ / fabs c1.kappa +
      pow2 (4 / c1.kappa)))

/-- The member function `TcTeSTcT_exists`. -/
def TcTeSTcT_exists (S : HCpmpm_Reeds_Shepp_State_Space K) (c1 c2 : HC_CC_Circle K) : Bool :=
  if c1.left ≠ c2.left then false
  else if c1.forward = c2.forward then false
  else decide (S.hcpmpm_reeds_shepp_.distance ≥
    4 / fabs c1.kappa + 2 * S.radius_ * S.sin_mu_)

/-- The member function `TcTSTcT_exists`. -/
def TcTSTcT_exists (E : Env K) (S : HCpmpm_Reeds_Shepp_State_Space K) (c1 c2 : HC_CC_Circle K) :
    Bool :=
  TcTiSTcT_exists E S c1 c2 || TcTeSTcT_exists S c1 c2

/-- The member function `TTcTT_exists`. -/
def TTcTT_exists (S : HCpmpm_Reeds_Shepp_State_Space K) (c1 c2 : HC_CC_Circle K) : Bool :=
  if c1.left = c2.left then false
  else if c1.forward ≠ c2.forward then false
  else decide (S.hcpmpm_reeds_shepp_.distance ≤ 4 * S.radius_ + 2 / fabs c1.kappa)

/-- The member function `TcTTcT_exists`. -/
def TcTTcT_exists (S : HCpmpm_Reeds_Shepp_State_Space K) (c1 c2 : HC_CC_Circle K) : Bool :=
  if c1.left = c2.left then false
  else if c1.forward = c2.forward then false
  else decide (S.hcpmpm_reeds_shepp_.distance ≤ 4 / fabs c1.kappa + 2 * S.radius_) &&
    decide (S.hcpmpm_reeds_shepp_.distance ≥ 4 / fabs c1.kappa - 2 * S.radius_)

/-- The member function `TTT_exists`. -/
def TTT_exists (S : HCpmpm_Reeds_Shepp_State_Space K) (c1 c2 : HC_CC_Circle K) : Bool :=
  if c1.left ≠ c2.left then false
  else if c1.forward = c2.forward then false
  else decide (S.hcpmpm_reeds_shepp_.distance ≤ 4 * S.radius_)

/-- The member function `TciST_exists`. -/
def TciST_exists (S : HCpmpm_Reeds_Shepp_State_Space K) (c1 c2 : HC_CC_Circle K) : Bool :=
  if c1.left = c2.left then false
  else if c1.forward ≠ c2.forward then false
  else decide (S.hcpmpm_reeds_shepp_.distance ≥ 2 * S.radius_ * S.cos_mu_)

/-- The member function `TceST_exists`. -/
def TceST_exists (E : Env K) (S : HCpmpm_Reeds_Shepp_State_Space K) (c1 c2 : HC_CC_Circle K) :
    Bool :=
  if c1.left ≠ c2.left then false
  else if c1.forward ≠ c2.forward then false
  else decide (S.hcpmpm_reeds_shepp_.distance ≥ E.get_epsilon)

/-- The member function `TcST_exists`. -/
def TcST_exists (E : Env K) (S : HCpmpm_Reeds_Shepp_State_Space K) (c1 c2 : HC_CC_Circle K) :
    Bool :=
  TciST_exists S c1 c2 || TceST_exists E S c1 c2

/-- The member function `TiScT_exists`. -/
def TiScT_exists (S : HCpmpm_Reeds_Shepp_State_Space K) (c1 c2 : HC_CC_Circle K) : Bool :=
  if c1.left = c2.left then false
  else if c1.forward ≠ c2.forward then false
  else decide (S.hcpmpm_reeds_shepp_.distance ≥ 2 * S.radius_ * S.cos_mu_)

/-- The member function `TeScT_exists`. -/
def TeScT_exists (E : Env K) (S : HCpmpm_Reeds_Shepp_State_Space K) (c1 c2 : HC_CC_Circle K) :
    Bool :=
  if c1.left ≠ c2.left then false
  else if c1.forward ≠ c2.forward then false
  else decide (S.hcpmpm_reeds_shepp_.distance ≥ E.get_epsilon)

/-- The member function `TScT_exists`. -/
def TScT_exists (E : Env K) (S : HCpmpm_Reeds_Shepp_State_Space K) (c1 c2 : HC_CC_Circle K) :
    Bool :=
  TiScT_exists S c1 c2 || TeScT_exists E S c1 c2

/-- The member function `TciScT_exists`. -/
def TciScT_exists (S : HCpmpm_Reeds_Shepp_State_Space K) (c1 c2 : HC_CC_Circle K) : Bool :=
  if c1.left = c2.left then false
  else if c1.forward = c2.forward then false
  else decide (S.hcpmpm_reeds_shepp_.distance ≥ fabs (2 / c1.kappa))

/-- The member function `TceScT_exists`. -/
def TceScT_exists (E : Env K) (S : HCpmpm_Reeds_Shepp_State_Space K) (c1 c2 : HC_CC_Circle K) :
    Bool :=
  if c1.left ≠ c2.left then false
  else if c1.forward = c2.forward then false
  else decide (S.hcpmpm_reeds_shepp_.distance ≥ E.get_epsilon)

/-- The member function `TcScT_exists`. -/
def TcScT_exists (E : Env K) (S : HCpmpm_Reeds_Shepp_State_Space K) (c1 c2 : HC_CC_Circle K) :
    Bool :=
  TciScT_exists S c1 c2 || TceScT_exists E S c1 c2

/-! ## Family catalog: build routines

A build routine returns a length and stores circles and configurations through its output
pointers.  `Decomposition` collects both: the returned length and, for each output pointer,
the table slot the selector passes for it (`q`, `q1 … q4` go to `qi1 … qi4`, `ci` goes to
`ci1`).  `TT_path`, `TcT_path`, `TiST_path` and `TeST_path` are also called with null
pointers by other routines, which then use only the configurations they compute; those parts
are the functions `TT_path_q2`, `TcT_path_q`, `TiST_path_q2q3`, `TeST_path_q2q3`. -/

end HCpmpm_Reeds_Shepp

/-- One row of the selector's tables: `length[i]`, `qi1[i] … qi4[i]`, `cstart[i]`, `ci1[i]`,
`ci2[i]`, `cend[i]`. -/
structure Decomposition (K : Type) where
  length : K
  qi1 : Option (Configuration K)
  qi2 : Option (Configuration K)
  qi3 : Option (Configuration K)
  qi4 : Option (Configuration K)
  cstart : Option (HC_CC_Circle K)
  ci1 : Option (HC_CC_Circle K)
  ci2 : Option (HC_CC_Circle K)
  cend : Option (HC_CC_Circle K)
deriving DecidableEq, Repr

/-- A table row after `double_array_init(length, n, numeric_limits<double>::max())` and
`pointer_array_init`: the length is the sentinel and every pointer is null. -/
def Decomposition.init (E : Env K) : Decomposition K :=
  { length := E.dbl_max, qi1 := none, qi2 := none, qi3 := none, qi4 := none,
    cstart := none, ci1 := none, ci2 := none, cend := none }

/-- The expression `new Configuration(x, y, theta, kappa)` with `x`, `y` the two outputs of a
preceding `global_frame_change`. -/
def conf_at (p : K × K) (theta kappa : K) : Configuration K :=
  { x := p.1, y := p.2, theta := theta, kappa := kappa }

/-- The expression `new Configuration(c.start.x, c.start.y, c.start.theta, c.kappa)`. -/
def start_conf (c : HC_CC_Circle K) : Configuration K :=
  { x := c.start.x, y := c.start.y, theta := c.start.theta, kappa := c.kappa }

namespace HCpmpm_Reeds_Shepp

/-- The configuration `*q2` that `TT_path` computes (for every choice of output pointers). -/
def TT_path_q2 (E : Env K) (S : HCpmpm_Reeds_Shepp_State_Space K) (c1 c2 : HC_CC_Circle K) :
    Configuration K :=
  let x := (c1.xc + c2.xc) / 2
  let y := (c1.yc + c2.yc) / 2
  let angle := E.atan2 (c2.yc - c1.yc) (c2.xc - c1.xc)
  let theta :=
    if c1.left then
      if c1.forward then angle + E.HALF_PI - S.mu_ else angle + E.HALF_PI + S.mu_
    else
      if c1.forward then angle - E.HALF_PI + S.mu_ else angle - E.HALF_PI - S.mu_
  { x := x, y := y, theta := theta, kappa := 0 }

/-- The member function `TT_path`; `full` says that `cstart`, `cend`, `q1`, `q3` are all
non-null. -/
def TT_path (E : Env K) (S : HCpmpm_Reeds_Shepp_State_Space K) (c1 c2 : HC_CC_Circle K)
    (full : Bool) : Decomposition K :=
  let q2 := TT_path_q2 E S c1 c2
  if full then
    let cstart := HC_CC_Circle.of_start E q2 c1.left (!c1.forward) HC_REGULAR S.hc_cc_circle_param_
    let cend := HC_CC_Circle.of_start E q2 c2.left (!c2.forward) HC_REGULAR S.hc_cc_circle_param_
    let q1 := start_conf c1
    let q3 := start_conf c2
    { Decomposition.init E with
      length := E.hc_turn_length cstart q1 + E.hc_turn_length cend q3,
      cstart := some cstart, cend := some cend, qi1 := some q1, qi2 := some q2, qi3 := some q3 }
  else
    { Decomposition.init E with qi2 := some q2 }

/-- The configuration `*q` that `TcT_path` computes (for every choice of output pointers). -/
def TcT_path_q (E : Env K) (c1 c2 : HC_CC_Circle K) : Configuration K :=
  let distance := E.center_distance c1 c2
  let delta_x := 1 / 2 * distance
  let delta_y : K := 0
  let angle := E.atan2 (c2.yc - c1.yc) (c2.xc - c1.xc)
  if c1.left then
    if c1.forward then
      conf_at (E.global_frame_change c1.xc c1.yc angle delta_x delta_y) (angle + E.HALF_PI) c1.kappa
    else
      conf_at (E.global_frame_change c1.xc c1.yc angle delta_x (-delta_y)) (angle + E.HALF_PI)
        c1.kappa
  else
    if c1.forward then
      conf_at (E.global_frame_change c1.xc c1.yc angle delta_x (-delta_y)) (angle - E.HALF_PI)
        c1.kappa
    else
      conf_at (E.global_frame_change c1.xc c1.yc angle delta_x delta_y) (angle - E.HALF_PI) c1.kappa

/-- The member function `TcT_path`; `full` says that `cstart` and `cend` are non-null. -/
def TcT_path (E : Env K) (c1 c2 : HC_CC_Circle K) (full : Bool) : Decomposition K :=
  let q := TcT_path_q E c1 c2
  if full then
    { Decomposition.init E with
      length := E.rs_turn_length c1 q + E.rs_turn_length c2 q,
      cstart := some c1, cend := some c2, qi1 := some q }
  else
    { Decomposition.init E with qi1 := some q }

/-- The member function `TcTcT_tangent_circles`, returning `(*q1, *q2, *q3, *q4)`. -/
def TcTcT_tangent_circles (E : Env K) (S : HCpmpm_Reeds_Shepp_State_Space K)
    (c1 c2 : HC_CC_Circle K) :
    Configuration K × Configuration K × Configuration K × Configuration K :=
  let theta := S.hcpmpm_reeds_shepp_.angle
  let r := fabs (2 / c1.kappa)
  let delta_x := 1 / 2 * S.hcpmpm_reeds_shepp_.distance
  let delta_y := E.sqrt (fabs (pow2 r - pow2 delta_x))
  let p1 := E.global_frame_change c1.xc c1.yc theta delta_x delta_y
  let tgt1 := HC_CC_Circle.of_center E p1.1 p1.2 (!c1.left) (!c1.forward) c1.regular
    S.rs_circle_param_
  let p2 := E.global_frame_change c1.xc c1.yc theta delta_x (-delta_y)
  let tgt2 := HC_CC_Circle.of_center E p2.1 p2.2 (!c1.left) (!c1.forward) c1.regular
    S.rs_circle_param_
  (TcT_path_q E c1 tgt1, TcT_path_q E tgt1 c2, TcT_path_q E c1 tgt2, TcT_path_q E tgt2 c2)

/-- The member function `TcTcT_path`. -/
def TcTcT_path (E : Env K) (S : HCpmpm_Reeds_Shepp_State_Space K) (c1 c2 : HC_CC_Circle K) :
    Decomposition K :=
  let (qa, qb, qc, qd) := TcTcT_tangent_circles E S c1 c2
  let middle1 := HC_CC_Circle.of_start E qa (!c1.left) (!c1.forward) true S.rs_circle_param_
  let middle2 := HC_CC_Circle.of_start E qc (!c1.left) (!c1.forward) true S.rs_circle_param_
  let cstart := c1
  let cend := c2
  let length1 := E.rs_turn_length cstart qa + E.rs_turn_length middle1 qb +
    E.rs_turn_length cend qb
  let length2 := E.rs_turn_length cstart qc + E.rs_turn_length middle2 qd +
    E.rs_turn_length cend qd
  if length1 < length2 then
    { Decomposition.init E with
      length := length1, cstart := some cstart, cend := some cend,
      qi1 := some qa, qi2 := some qb, ci1 := some middle1 }
  else
    { Decomposition.init E with
      length := length2, cstart := some cstart, cend := some cend,
      qi1 := some qc, qi2 := some qd, ci1 := some middle2 }

/-- The member function `TcTT_tangent_circles`, returning `(*q1, *q2, *q3, *q4)`. -/
def TcTT_tangent_circles (E : Env K) (S : HCpmpm_Reeds_Shepp_State_Space K)
    (c1 c2 : HC_CC_Circle K) :
    Configuration K × Configuration K × Configuration K × Configuration K :=
  let theta := S.hcpmpm_reeds_shepp_.angle
  let r1 := 2 / fabs c1.kappa
  let r2 := 2 * S.radius_
  let delta_x := (pow2 r1 + pow2 S.hcpmpm_reeds_shepp_.distance - pow2 r2) /
    (2 * S.hcpmpm_reeds_shepp_.distance)
  let delta_y := E.sqrt (fabs (pow2 r1 - pow2 delta_x))
  let p1 := E.global_frame_change c1.xc c1.yc theta delta_x delta_y
  let tgt1 := HC_CC_Circle.of_center E p1.1 p1.2 (!c1.left) (!c1.forward) c1.regular
    S.hc_cc_circle_param_
  let p2 := E.global_frame_change c1.xc c1.yc theta delta_x (-delta_y)
  let tgt2 := HC_CC_Circle.of_center E p2.1 p2.2 (!c1.left) (!c1.forward) c1.regular
    S.hc_cc_circle_param_
  (TcT_path_q E c1 tgt1, TT_path_q2 E S tgt1 c2, TcT_path_q E c1 tgt2, TT_path_q2 E S tgt2 c2)

/-- The member function `TcTT_path`. -/
def TcTT_path (E : Env K) (S : HCpmpm_Reeds_Shepp_State_Space K) (c1 c2 : HC_CC_Circle K) :
    Decomposition K :=
  let (qa, qb, qc, qd) := TcTT_tangent_circles E S c1 c2
  let end1 := HC_CC_Circle.of_start E qb c2.left (!c2.forward) HC_REGULAR S.hc_cc_circle_param_
  let end2 := HC_CC_Circle.of_start E qd c2.left (!c2.forward) HC_REGULAR S.hc_cc_circle_param_
  let middle1 := HC_CC_Circle.of_start E qb (!c1.left) c1.forward true S.hc_cc_circle_param_
  let middle2 := HC_CC_Circle.of_start E qd (!c1.left) c1.forward true S.hc_cc_circle_param_
  let cstart := c1
  let q2 := start_conf c2
  let length1 := E.rs_turn_length cstart qa + E.hc_turn_length middle1 qa +
    E.hc_turn_length end1 q2
  let length2 := E.rs_turn_length cstart qc + E.hc_turn_length middle2 qc +
    E.hc_turn_length end2 q2
  if length1 < length2 then
    { Decomposition.init E with
      length := length1, cstart := some cstart, qi2 := some q2,
      cend := some end1, qi1 := some qa, ci1 := some middle1 }
  else
    { Decomposition.init E with
      length := length2, cstart := some cstart, qi2 := some q2,
      cend := some end2, qi1 := some qc, ci1 := some middle2 }

/-- The member function `TTcT_tangent_circles`, returning `(*q1, *q2, *q3, *q4)`. -/
def TTcT_tangent_circles (E : Env K) (S : HCpmpm_Reeds_Shepp_State_Space K)
    (c1 c2 : HC_CC_Circle K) :
    Configuration K × Configuration K × Configuration K × Configuration K :=
  let theta := S.hcpmpm_reeds_shepp_.angle
  let r1 := 2 * S.radius_
  let r2 := 2 / fabs c1.kappa
  let delta_x := (pow2 r1 + pow2 S.hcpmpm_reeds_shepp_.distance - pow2 r2) /
    (2 * S.hcpmpm_reeds_shepp_.distance)
  let delta_y := E.sqrt (fabs (pow2 r1 - pow2 delta_x))
  let p1 := E.global_frame_change c1.xc c1.yc theta delta_x delta_y
  let tgt1 := HC_CC_Circle.of_center E p1.1 p1.2 (!c1.left) c1.forward c1.regular
    S.hc_cc_circle_param_
  let p2 := E.global_frame_change c1.xc c1.yc theta delta_x (-delta_y)
  let tgt2 := HC_CC_Circle.of_center E p2.1 p2.2 (!c1.left) c1.forward c1.regular
    S.hc_cc_circle_param_
  (TT_path_q2 E S c1 tgt1, TcT_path_q E tgt1 c2, TT_path_q2 E S c1 tgt2, TcT_path_q E tgt2 c2)

/-- The member function `TTcT_path`. -/
def TTcT_path (E : Env K) (S : HCpmpm_Reeds_Shepp_State_Space K) (c1 c2 : HC_CC_Circle K) :
    Decomposition K :=
  let (qa, qb, qc, qd) := TTcT_tangent_circles E S c1 c2
  let start1 := HC_CC_Circle.of_start E qa c1.left (!c1.forward) HC_REGULAR S.hc_cc_circle_param_
  let start2 := HC_CC_Circle.of_start E qc c1.left (!c1.forward) HC_REGULAR S.hc_cc_circle_param_
  let middle1 := HC_CC_Circle.of_start E qa (!c1.left) c1.forward true S.hc_cc_circle_param_
  let middle2 := HC_CC_Circle.of_start E qc (!c1.left) c1.forward true S.hc_cc_circle_param_
  let cend := c2
  let q1 := start_conf c1
  let length1 := E.hc_turn_length start1 q1 + E.hc_turn_length middle1 qb +
    E.rs_turn_length cend qb
  let length2 := E.hc_turn_length start2 q1 + E.hc_turn_length middle2 qd +
    E.rs_turn_length cend qd
  if length1 < length2 then
    { Decomposition.init E with
      length := length1, cend := some cend, qi1 := some q1,
      cstart := some start1, qi2 := some qb, ci1 := some middle1 }
  else
    { Decomposition.init E with
      length := length2, cend := some cend, qi1 := some q1,
      cstart := some start2, qi2 := some qd, ci1 := some middle2 }

/-- The configurations `(*q2, *q3)` that `TiST_path` computes (for every choice of output
pointers). -/
def TiST_path_q2q3 (E : Env K) (S : HCpmpm_Reeds_Shepp_State_Space K) (c1 c2 : HC_CC_Circle K) :
    Configuration K × Configuration K :=
  let distance := E.center_distance c1 c2
  let angle := E.atan2 (c2.yc - c1.yc) (c2.xc - c1.xc)
  let alpha := fabs (E.asin (2 * S.radius_ * S.cos_mu_ / distance))
  let delta_x := fabs (S.radius_ * S.sin_mu_)
  let delta_y := fabs (S.radius_ * S.cos_mu_)
  if c1.left && c1.forward then
    let theta := angle + alpha
    (conf_at (E.global_frame_change c1.xc c1.yc theta delta_x (-delta_y)) theta 0,
     conf_at (E.global_frame_change c2.xc c2.yc theta (-delta_x) delta_y) theta 0)
  else if c1.left && !c1.forward then
    let theta := angle - alpha
    (conf_at (E.global_frame_change c1.xc c1.yc theta delta_x delta_y) (theta + E.PI) 0,
     conf_at (E.global_frame_change c2.xc c2.yc theta (-delta_x) (-delta_y)) (theta + E.PI) 0)
  else if !c1.left && c1.forward then
    let theta := angle - alpha
    (conf_at (E.global_frame_change c1.xc c1.yc theta delta_x delta_y) theta 0,
     conf_at (E.global_frame_change c2.xc c2.yc theta (-delta_x) (-delta_y)) theta 0)
  else
    let theta := angle + alpha
    (conf_at (E.global_frame_change c1.xc c1.yc theta delta_x (-delta_y)) (theta + E.PI) 0,
     conf_at (E.global_frame_change c2.xc c2.yc theta (-delta_x) delta_y) (theta + E.PI) 0)

/-- The tail shared by the straight-line build routines: from `*q2`, `*q3` build `cstart`,
`cend`, `q1`, `q4` and add up `hc_turn_length + configuration_distance + hc_turn_length`. -/
def hc_straight_hc (E : Env K) (S : HCpmpm_Reeds_Shepp_State_Space K) (c1 c2 : HC_CC_Circle K)
    (q2 q3 : Configuration K) : Decomposition K :=
  let cstart := HC_CC_Circle.of_start E q2 c1.left (!c1.forward) HC_REGULAR S.hc_cc_circle_param_
  let cend := HC_CC_Circle.of_start E q3 c2.left (!c2.forward) HC_REGULAR S.hc_cc_circle_param_
  let q1 := start_conf c1
  let q4 := start_conf c2
  { Decomposition.init E with
    length := E.hc_turn_length cstart q1 + E.configuration_distance q2 q3 +
      E.hc_turn_length cend q4,
    cstart := some cstart, cend := some cend,
    qi1 := some q1, qi2 := some q2, qi3 := some q3, qi4 := some q4 }

/-- The member function `TiST_path`; `full` says that `cstart`, `cend`, `q1`, `q4` are all
non-null. -/
def TiST_path (E : Env K) (S : HCpmpm_Reeds_Shepp_State_Space K) (c1 c2 : HC_CC_Circle K)
    (full : Bool) : Decomposition K :=
  let q := TiST_path_q2q3 E S c1 c2
  if full then hc_straight_hc E S c1 c2 q.1 q.2
  else { Decomposition.init E with qi2 := some q.1, qi3 := some q.2 }

/-- The configurations `(*q2, *q3)` that `TeST_path` computes (for every choice of output
pointers). -/
def TeST_path_q2q3 (E : Env K) (S : HCpmpm_Reeds_Shepp_State_Space K) (c1 c2 : HC_CC_Circle K) :
    Configuration K × Configuration K :=
  let delta_x := fabs (S.radius_ * S.sin_mu_)
  let delta_y := fabs (S.radius_ * S.cos_mu_)
  let theta := E.atan2 (c2.yc - c1.yc) (c2.xc - c1.xc)
  if c1.left && c1.forward then
    (conf_at (E.global_frame_change c1.xc c1.yc theta delta_x (-delta_y)) theta 0,
     conf_at (E.global_frame_change c2.xc c2.yc theta (-delta_x) (-delta_y)) theta 0)
  else if c1.left && !c1.forward then
    (conf_at (E.global_frame_change c1.xc c1.yc theta delta_x delta_y) (theta + E.PI) 0,
     conf_at (E.global_frame_change c2.xc c2.yc theta (-delta_x) delta_y) (theta + E.PI) 0)
  else if !c1.left && c1.forward then
    (conf_at (E.global_frame_change c1.xc c1.yc theta delta_x delta_y) theta 0,
     conf_at (E.global_frame_change c2.xc c2.yc theta (-delta_x) delta_y) theta 0)
  else
    (conf_at (E.global_frame_change c1.xc c1.yc theta delta_x (-delta_y)) (theta + E.PI) 0,
     conf_at (E.global_frame_change c2.xc c2.yc theta (-delta_x) (-delta_y)) (theta + E.PI) 0)

/-- The member function `TeST_path`; `full` says that `cstart`, `cend`, `q1`, `q4` are all
non-null. -/
def TeST_path (E : Env K) (S : HCpmpm_Reeds_Shepp_State_Space K) (c1 c2 : HC_CC_Circle K)
    (full : Bool) : Decomposition K :=
  let q := TeST_path_q2q3 E S c1 c2
  if full then hc_straight_hc E S c1 c2 q.1 q.2
  else { Decomposition.init E with qi2 := some q.1, qi3 := some q.2 }

/-- The member function `TST_path` (called with non-null output pointers).  The last branch
is `return numeric_limits<double>::max()`, with nothing stored. -/
def TST_path (E : Env K) (S : HCpmpm_Reeds_Shepp_State_Space K) (c1 c2 : HC_CC_Circle K) :
    Decomposition K :=
  if TiST_exists S c1 c2 then TiST_path E S c1 c2 true
  else if TeST_exists S c1 c2 then TeST_path E S c1 c2 true
  else Decomposition.init E

/-- The member function `TiSTcT_path`. -/
def TiSTcT_path (E : Env K) (S : HCpmpm_Reeds_Shepp_State_Space K) (c1 c2 : HC_CC_Circle K) :
    Decomposition K :=
  let theta := S.hcpmpm_reeds_shepp_.angle
  let delta_y := (4 * S.radius_ * S.cos_mu_) / (fabs c2.kappa * S.hcpmpm_reeds_shepp_.distance)
  let delta_x := E.sqrt (pow2 (2 / c2.kappa) - pow2 delta_y)
  let p := E.global_frame_change c2.xc c2.yc theta (-delta_x) delta_y
  let tgt1 := HC_CC_Circle.of_center E p.1 p.2 (!c2.left) c2.forward c2.regular
    S.hc_cc_circle_param_
  let q23 := TiST_path_q2q3 E S c1 tgt1
  let q4 := TcT_path_q E tgt1 c2
  let cstart := HC_CC_Circle.of_start E q23.1 c1.left (!c1.forward) HC_REGULAR
    S.hc_cc_circle_param_
  let cend := c2
  let q1 := start_conf c1
  let ci := HC_CC_Circle.of_start E q23.2 (!c1.left) c1.forward true S.hc_cc_circle_param_
  { Decomposition.init E with
    length := E.hc_turn_length cstart q1 + E.configuration_distance q23.1 q23.2 +
      E.hc_turn_length ci q4 + E.rs_turn_length cend q4,
    cstart := some cstart, cend := some cend, ci1 := some ci,
    qi1 := some q1, qi2 := some q23.1, qi3 := some q23.2, qi4 := some q4 }

/-- The member function `TeSTcT_path`. -/
def TeSTcT_path (E : Env K) (S : HCpmpm_Reeds_Shepp_State_Space K) (c1 c2 : HC_CC_Circle K) :
    Decomposition K :=
  let theta := S.hcpmpm_reeds_shepp_.angle
  let delta_x := 2 / fabs c2.kappa
  let delta_y : K := 0
  let p := E.global_frame_change c2.xc c2.yc theta (-delta_x) delta_y
  let tgt1 := HC_CC_Circle.of_center E p.1 p.2 (!c2.left) c2.forward c2.regular
    S.hc_cc_circle_param_
  let q23 := TeST_path_q2q3 E S c1 tgt1
  let q4 := TcT_path_q E tgt1 c2
  let cstart := HC_CC_Circle.of_start E q23.1 c1.left (!c1.forward) HC_REGULAR
    S.hc_cc_circle_param_
  let cend := c2
  let q1 := start_conf c1
  let ci := HC_CC_Circle.of_start E q23.2 c1.left c1.forward true S.hc_cc_circle_param_
  { Decomposition.init E with
    length := E.hc_turn_length cstart q1 + E.configuration_distance q23.1 q23.2 +
      E.hc_turn_length ci q4 + E.rs_turn_length cend q4,
    cstart := some cstart, cend := some cend, ci1 := some ci,
    qi1 := some q1, qi2 := some q23.1, qi3 := some q23.2, qi4 := some q4 }

/-- The member function `TSTcT_path`. -/
def TSTcT_path (E : Env K) (S : HCpmpm_Reeds_Shepp_State_Space K) (c1 c2 : HC_CC_Circle K) :
    Decomposition K :=
  if TiSTcT_exists E S c1 c2 then TiSTcT_path E S c1 c2
  else if TeSTcT_exists S c1 c2 then TeSTcT_path E S c1 c2
  else Decomposition.init E

/-- The member function `TcTiST_path`. -/
def TcTiST_path (E : Env K) (S : HCpmpm_Reeds_Shepp_State_Space K) (c1 c2 : HC_CC_Circle K) :
    Decomposition K :=
  let theta := S.hcpmpm_reeds_shepp_.angle
  let delta_y := (4 * c2.radius) / (fabs c2.kappa * S.hcpmpm_reeds_shepp_.distance)
  let delta_x := E.sqrt (pow2 (2 / c2.kappa) - pow2 delta_y)
  let p := E.global_frame_change c1.xc c1.yc theta delta_x delta_y
  let tgt1 := HC_CC_Circle.of_center E p.1 p.2 (!c2.left) (!c2.forward) c2.regular
    S.hc_cc_circle_param_
  let q1 := TcT_path_q E c1 tgt1
  let q23 := TiST_path_q2q3 E S tgt1 c2
  let cstart := c1
  let cend := HC_CC_Circle.of_start E q23.2 c2.left (!c2.forward) HC_REGULAR
    S.hc_cc_circle_param_
  let q4 := start_conf c2
  let ci := HC_CC_Circle.of_start E q23.1 (!c1.left) c1.forward true S.hc_cc_circle_param_
  { Decomposition.init E with
    length := E.rs_turn_length cstart q1 + E.hc_turn_length ci q1 +
      E.configuration_distance q23.1 q23.2 + E.hc_turn_length cend q4,
    cstart := some cstart, cend := some cend, ci1 := some ci,
    qi1 := some q1, qi2 := some q23.1, qi3 := some q23.2, qi4 := some q4 }

/-- The member function `TcTeST_path`. -/
def TcTeST_path (E : Env K) (S : HCpmpm_Reeds_Shepp_State_Space K) (c1 c2 : HC_CC_Circle K) :
    Decomposition K :=
  let theta := S.hcpmpm_reeds_shepp_.angle
  let delta_x := 2 / fabs c2.kappa
  let delta_y : K := 0
  let p := E.global_frame_change c1.xc c1.yc theta delta_x delta_y
  let tgt1 := HC_CC_Circle.of_center E p.1 p.2 c2.left (!c2.forward) c2.regular
    S.hc_cc_circle_param_
  let q1 := TcT_path_q E c1 tgt1
  let q23 := TeST_path_q2q3 E S tgt1 c2
  let cstart := c1
  let cend := HC_CC_Circle.of_start E q23.2 c2.left (!c2.forward) HC_REGULAR
    S.hc_cc_circle_param_
  let q4 := start_conf c2
  let ci := HC_CC_Circle.of_start E q23.1 (!c1.left) c1.forward true S.hc_cc_circle_param_
  { Decomposition.init E with
    length := E.rs_turn_length cstart q1 + E.hc_turn_length ci q1 +
      E.configuration_distance q23.1 q23.2 + E.hc_turn_length cend q4,
    cstart := some cstart, cend := some cend, ci1 := some ci,
    qi1 := some q1, qi2 := some q23.1, qi3 := some q23.2, qi4 := some q4 }

/-- The member function `TcTST_path`. -/
def TcTST_path (E : Env K) (S : HCpmpm_Reeds_Shepp_State_Space K) (c1 c2 : HC_CC_Circle K) :
    Decomposition K :=
  if TcTiST_exists E S c1 c2 then TcTiST_path E S c1 c2
  else if TcTeST_exists S c1 c2 then TcTeST_path E S c1 c2
  else Decomposition.init E

/-- The member function `TcTiSTcT_path`. -/
def TcTiSTcT_path (E : Env K) (S : HCpmpm_Reeds_Shepp_State_Space K) (c1 c2 : HC_CC_Circle K) :
    Decomposition K :=
  let theta := S.hcpmpm_reeds_shepp_.angle
  let delta_y := (4 * S.radius_ * S.cos_mu_) / (S.hcpmpm_reeds_shepp_.distance * fabs c1.kappa)
  let delta_x := E.sqrt (pow2 (2 / c1.kappa) - pow2 delta_y)
  let p1 := E.global_frame_change c1.xc c1.yc theta delta_x delta_y
  let tgt1 := HC_CC_Circle.of_center E p1.1 p1.2 (!c1.left) (!c1.forward) c1.regular
    S.hc_cc_circle_param_
  let p2 := E.global_frame_change c2.xc c2.yc theta (-delta_x) (-delta_y)
  let tgt2 := HC_CC_Circle.of_center E p2.1 p2.2 (!c2.left) c2.forward c2.regular
    S.hc_cc_circle_param_
  let q1 := TcT_path_q E c1 tgt1
  let q23 := TiST_path_q2q3 E S tgt1 tgt2
  let q4 := TcT_path_q E tgt2 c2
  let cstart := c1
  let cend := c2
  let ci1 := HC_CC_Circle.of_start E q23.1 (!c1.left) c1.forward true S.hc_cc_circle_param_
  let ci2 := HC_CC_Circle.of_start E q23.2 (!c2.left) c2.forward true S.hc_cc_circle_param_
  { Decomposition.init E with
    length := E.rs_turn_length cstart q1 + E.hc_turn_length ci1 q1 +
      E.configuration_distance q23.1 q23.2 + E.hc_turn_length ci2 q4 +
      E.rs_turn_length cend q4,
    cstart := some cstart, cend := some cend, ci1 := some ci1, ci2 := some ci2,
    qi1 := some q1, qi2 := some q23.1, qi3 := some q23.2, qi4 := some q4 }

/-- The member function `TcTeSTcT_path`. -/
def TcTeSTcT_path (E : Env K) (S : HCpmpm_Reeds_Shepp_State_Space K) (c1 c2 : HC_CC_Circle K) :
    Decomposition K :=
  let theta := S.hcpmpm_reeds_shepp_.angle
  let delta_x := 2 / fabs c1.kappa
  let delta_y : K := 0
  let p1 := E.global_frame_change c1.xc c1.yc theta delta_x delta_y
  let tgt1 := HC_CC_Circle.of_center E p1.1 p1.2 (!c1.left) (!c1.forward) c1.regular
    S.hc_cc_circle_param_
  let p2 := E.global_frame_change c2.xc c2.yc theta (-delta_x) delta_y
  let tgt2 := HC_CC_Circle.of_center E p2.1 p2.2 (!c2.left) c2.forward c2.regular
    S.hc_cc_circle_param_
  let q1 := TcT_path_q E c1 tgt1
  let q23 := TeST_path_q2q3 E S tgt1 tgt2
  let q4 := TcT_path_q E tgt2 c2
  let cstart := c1
  let cend := c2
  let ci1 := HC_CC_Circle.of_start E q23.1 (!c1.left) c1.forward true S.hc_cc_circle_param_
  let ci2 := HC_CC_Circle.of_start E q23.2 (!c2.left) c2.forward true S.hc_cc_circle_param_
  { Decomposition.init E with
    length := E.rs_turn_length cstart q1 + E.hc_turn_length ci1 q1 +
      E.configuration_distance q23.1 q23.2 + E.hc_turn_length ci2 q4 +
      E.rs_turn_length cend q4,
    cstart := some cstart, cend := some cend, ci1 := some ci1, ci2 := some ci2,
    qi1 := some q1, qi2 := some q23.1, qi3 := some q23.2, qi4 := some q4 }

/-- The member function `TcTSTcT_path`. -/
def TcTSTcT_path (E : Env K) (S : HCpmpm_Reeds_Shepp_State_Space K) (c1 c2 : HC_CC_Circle K) :
    Decomposition K :=
  if TcTiSTcT_exists E S c1 c2 then TcTiSTcT_path E S c1 c2
  else if TcTeSTcT_exists S c1 c2 then TcTeSTcT_path E S c1 c2
  else Decomposition.init E

/-- The member function `TTcTT_tangent_circles`, returning `(*q1, …, *q6)`. -/
def TTcTT_tangent_circles (E : Env K) (S : HCpmpm_Reeds_Shepp_State_Space K)
    (c1 c2 : HC_CC_Circle K) :
    Configuration K × Configuration K × Configuration K × Configuration K × Configuration K ×
      Configuration K :=
  let theta := S.hcpmpm_reeds_shepp_.angle
  let distance := S.hcpmpm_reeds_shepp_.distance
  let r1 := 2 / fabs c1.kappa
  let r2 := 2 * S.radius_
  let delta : K × K :=
    if distance < 4 * S.radius_ - 2 / fabs c1.kappa then
      ((distance + r1) / 2, E.sqrt (fabs (pow2 r2 - pow2 ((distance + r1) / 2))))
    else
      ((distance - r1) / 2, E.sqrt (fabs (pow2 r2 - pow2 ((distance - r1) / 2))))
  let delta_x := delta.1
  let delta_y := delta.2
  let p1 := E.global_frame_change c1.xc c1.yc theta delta_x delta_y
  let tgt1 := HC_CC_Circle.of_center E p1.1 p1.2 (!c1.left) c1.forward c1.regular
    S.hc_cc_circle_param_
  let p2 := E.global_frame_change c2.xc c2.yc theta (-delta_x) delta_y
  let tgt2 := HC_CC_Circle.of_center E p2.1 p2.2 (!c2.left) (!c2.forward) c2.regular
    S.hc_cc_circle_param_
  let p3 := E.global_frame_change c1.xc c1.yc theta delta_x (-delta_y)
  let tgt3 := HC_CC_Circle.of_center E p3.1 p3.2 (!c1.left) c1.forward c1.regular
    S.hc_cc_circle_param_
  let p4 := E.global_frame_change c2.xc c2.yc theta (-delta_x) (-delta_y)
  let tgt4 := HC_CC_Circle.of_center E p4.1 p4.2 (!c2.left) (!c2.forward) c2.regular
    S.hc_cc_circle_param_
  (TT_path_q2 E S c1 tgt1, TcT_path_q E tgt1 tgt2, TT_path_q2 E S tgt2 c2,
   TT_path_q2 E S c1 tgt3, TcT_path_q E tgt3 tgt4, TT_path_q2 E S tgt4 c2)

/-- The member function `TTcTT_path`. -/
def TTcTT_path (E : Env K) (S : HCpmpm_Reeds_Shepp_State_Space K) (c1 c2 : HC_CC_Circle K) :
    Decomposition K :=
  let (qa, qb, qc, qd, qe, qf) := TTcTT_tangent_circles E S c1 c2
  let start1 := HC_CC_Circle.of_start E qa c1.left (!c1.forward) HC_REGULAR S.hc_cc_circle_param_
  let middle1 := HC_CC_Circle.of_start E qa (!c1.left) c1.forward true S.hc_cc_circle_param_
  let middle2 := HC_CC_Circle.of_start E qc (!c2.left) c2.forward true S.hc_cc_circle_param_
  let end1 := HC_CC_Circle.of_start E qc c2.left (!c2.forward) HC_REGULAR S.hc_cc_circle_param_
  let start2 := HC_CC_Circle.of_start E qd c1.left (!c1.forward) HC_REGULAR S.hc_cc_circle_param_
  let middle3 := HC_CC_Circle.of_start E qd (!c1.left) c1.forward true S.hc_cc_circle_param_
  let middle4 := HC_CC_Circle.of_start E qf (!c2.left) c2.forward true S.hc_cc_circle_param_
  let end2 := HC_CC_Circle.of_start E qf c2.left (!c2.forward) HC_REGULAR S.hc_cc_circle_param_
  let q1 := start_conf c1
  let q3 := start_conf c2
  let length1 := E.hc_turn_length start1 q1 + E.hc_turn_length middle1 qb +
    E.hc_turn_length middle2 qb + E.hc_turn_length end1 q3
  let length2 := E.hc_turn_length start2 q1 + E.hc_turn_length middle3 qe +
    E.hc_turn_length middle4 qe + E.hc_turn_length end2 q3
  if length1 < length2 then
    { Decomposition.init E with
      length := length1, qi1 := some q1, qi3 := some q3,
      cstart := some start1, cend := some end1, ci1 := some middle1, ci2 := some middle2,
      qi2 := some qb }
  else
    { Decomposition.init E with
      length := length2, qi1 := some q1, qi3 := some q3,
      cstart := some start2, cend := some end2, ci1 := some middle3, ci2 := some middle4,
      qi2 := some qe }

/-- The member function `TcTTcT_tangent_circles`, returning `(*q1, …, *q6)`. -/
def TcTTcT_tangent_circles (E : Env K) (S : HCpmpm_Reeds_Shepp_State_Space K)
    (c1 c2 : HC_CC_Circle K) :
    Configuration K × Configuration K × Configuration K × Configuration K × Configuration K ×
      Configuration K :=
  let theta := S.hcpmpm_reeds_shepp_.angle
  let distance := S.hcpmpm_reeds_shepp_.distance
  let r1 := 2 / fabs c1.kappa
  let r2 := S.radius_
  let delta_x := (pow2 r1 + pow2 (distance / 2) - pow2 r2) / distance
  let delta_y := E.sqrt (fabs (pow2 r1 - pow2 delta_x))
  let p1 := E.global_frame_change c1.xc c1.yc theta delta_x delta_y
  let tgt1 := HC_CC_Circle.of_center E p1.1 p1.2 (!c1.left) (!c1.forward) c1.regular
    S.hc_cc_circle_param_
  let p2 := E.global_frame_change c2.xc c2.yc theta (-delta_x) (-delta_y)
  let tgt2 := HC_CC_Circle.of_center E p2.1 p2.2 (!c2.left) c2.forward c2.regular
    S.hc_cc_circle_param_
  let p3 := E.global_frame_change c1.xc c1.yc theta delta_x (-delta_y)
  let tgt3 := HC_CC_Circle.of_center E p3.1 p3.2 (!c1.left) (!c1.forward) c1.regular
    S.hc_cc_circle_param_
  let p4 := E.global_frame_change c2.xc c2.yc theta (-delta_x) delta_y
  let tgt4 := HC_CC_Circle.of_center E p4.1 p4.2 (!c2.left) c2.forward c2.regular
    S.hc_cc_circle_param_
  (TcT_path_q E c1 tgt1, TT_path_q2 E S tgt1 tgt2, TcT_path_q E tgt2 c2,
   TcT_path_q E c1 tgt3, TT_path_q2 E S tgt3 tgt4, TcT_path_q E tgt4 c2)

/-- The member function `TcTTcT_path`. -/
def TcTTcT_path (E : Env K) (S : HCpmpm_Reeds_Shepp_State_Space K) (c1 c2 : HC_CC_Circle K) :
    Decomposition K :=
  let (qa, qb, qc, qd, qe, qf) := TcTTcT_tangent_circles E S c1 c2
  let middle1 := HC_CC_Circle.of_start E qb (!c1.left) c1.forward true S.hc_cc_circle_param_
  let middle2 := HC_CC_Circle.of_start E qb c1.left (!c1.forward) true S.hc_cc_circle_param_
  let middle3 := HC_CC_Circle.of_start E qe (!c1.left) c1.forward true S.hc_cc_circle_param_
  let middle4 := HC_CC_Circle.of_start E qe c1.left (!c1.forward) true S.hc_cc_circle_param_
  let cstart := c1
  let cend := c2
  let length1 := E.rs_turn_length cstart qa + E.hc_turn_length middle1 qa +
    E.hc_turn_length middle2 qc + E.rs_turn_length cend qc
  let length2 := E.rs_turn_length cstart qd + E.hc_turn_length middle3 qd +
    E.hc_turn_length middle4 qf + E.rs_turn_length cend qf
  if length1 < length2 then
    { Decomposition.init E with
      length := length1, cstart := some cstart, cend := some cend,
      qi1 := some qa, qi2 := some qc, ci1 := some middle1, ci2 := some middle2 }
  else
    { Decomposition.init E with
      length := length2, cstart := some cstart, cend := some cend,
      qi1 := some qd, qi2 := some qf, ci1 := some middle3, ci2 := some middle4 }

/-- The member function `TTT_tangent_circles`, returning `(*q1, *q2, *q3, *q4)`. -/
def TTT_tangent_circles (E : Env K) (S : HCpmpm_Reeds_Shepp_State_Space K)
    (c1 c2 : HC_CC_Circle K) :
    Configuration K × Configuration K × Configuration K × Configuration K :=
  let theta := S.hcpmpm_reeds_shepp_.angle
  let r := 2 * S.radius_
  let delta_x := 1 / 2 * S.hcpmpm_reeds_shepp_.distance
  let delta_y := E.sqrt (fabs (pow2 delta_x - pow2 r))
  let p1 := E.global_frame_change c1.xc c1.yc theta delta_x delta_y
  let tgt1 := HC_CC_Circle.of_center E p1.1 p1.2 (!c1.left) c1.forward c1.regular
    S.hc_cc_circle_param_
  let p2 := E.global_frame_change c1.xc c1.yc theta delta_x (-delta_y)
  let tgt2 := HC_CC_Circle.of_center E p2.1 p2.2 (!c1.left) c1.forward c1.regular
    S.hc_cc_circle_param_
  (TT_path_q2 E S c1 tgt1, TT_path_q2 E S tgt1 c2, TT_path_q2 E S c1 tgt2,
   TT_path_q2 E S tgt2 c2)

/-- The member function `TTT_path`. -/
def TTT_path (E : Env K) (S : HCpmpm_Reeds_Shepp_State_Space K) (c1 c2 : HC_CC_Circle K) :
    Decomposition K :=
  let (qa, qb, qc, qd) := TTT_tangent_circles E S c1 c2
  let start1 := HC_CC_Circle.of_start E qa c1.left (!c1.forward) HC_REGULAR S.hc_cc_circle_param_
  let middle1 := HC_CC_Circle.of_start E qa (!c1.left) c1.forward CC_REGULAR
    S.hc_cc_circle_param_
  let end1 := HC_CC_Circle.of_start E qb c2.left (!c2.forward) HC_REGULAR S.hc_cc_circle_param_
  let start2 := HC_CC_Circle.of_start E qc c1.left (!c1.forward) HC_REGULAR S.hc_cc_circle_param_
  let middle2 := HC_CC_Circle.of_start E qc (!c1.left) c1.forward CC_REGULAR
    S.hc_cc_circle_param_
  let end2 := HC_CC_Circle.of_start E qd c2.left (!c2.forward) HC_REGULAR S.hc_cc_circle_param_
  let q1 := start_conf c1
  let q3 := start_conf c2
  let length1 := E.hc_turn_length start1 q1 + E.cc_turn_length middle1 qb +
    E.hc_turn_length end1 q3
  let length2 := E.hc_turn_length start2 q1 + E.cc_turn_length middle2 qd +
    E.hc_turn_length end2 q3
  if length1 < length2 then
    { Decomposition.init E with
      length := length1, qi1 := some q1, qi3 := some q3,
      cstart := some start1, ci1 := some middle1, cend := some end1, qi2 := some qb }
  else
    { Decomposition.init E with
      length := length2, qi1 := some q1, qi3 := some q3,
      cstart := some start2, ci1 := some middle2, cend := some end2, qi2 := some qd }

/-- The member function `TciST_path`. -/
def TciST_path (E : Env K) (S : HCpmpm_Reeds_Shepp_State_Space K) (c1 c2 : HC_CC_Circle K) :
    Decomposition K :=
  let angle := S.hcpmpm_reeds_shepp_.angle
  let alpha := fabs (E.asin (2 * S.radius_ * S.cos_mu_ / S.hcpmpm_reeds_shepp_.distance))
  let delta_x := fabs (S.radius_ * S.sin_mu_)
  let delta_y := fabs (S.radius_ * S.cos_mu_)
  let q : Configuration K × Configuration K :=
    if c1.left && c1.forward then
      let theta := angle - alpha
      (conf_at (E.global_frame_change c1.xc c1.yc theta (-delta_x) delta_y) (theta + E.PI) 0,
       conf_at (E.global_frame_change c2.xc c2.yc theta (-delta_x) (-delta_y)) (theta + E.PI) 0)
    else if c1.left && !c1.forward then
      let theta := angle + alpha
      (conf_at (E.global_frame_change c1.xc c1.yc theta (-delta_x) (-delta_y)) theta 0,
       conf_at (E.global_frame_change c2.xc c2.yc theta (-delta_x) delta_y) theta 0)
    else if !c1.left && c1.forward then
      let theta := angle + alpha
      (conf_at (E.global_frame_change c1.xc c1.yc theta (-delta_x) (-delta_y)) (theta + E.PI) 0,
       conf_at (E.global_frame_change c2.xc c2.yc theta (-delta_x) delta_y) (theta + E.PI) 0)
    else
      let theta := angle - alpha
      (conf_at (E.global_frame_change c1.xc c1.yc theta (-delta_x) delta_y) theta 0,
       conf_at (E.global_frame_change c2.xc c2.yc theta (-delta_x) (-delta_y)) theta 0)
  hc_straight_hc E S c1 c2 q.1 q.2

/-- The member function `TceST_path`. -/
def TceST_path (E : Env K) (S : HCpmpm_Reeds_Shepp_State_Space K) (c1 c2 : HC_CC_Circle K) :
    Decomposition K :=
  let theta := S.hcpmpm_reeds_shepp_.angle
  let delta_x := fabs (S.radius_ * S.sin_mu_)
  let delta_y := fabs (S.radius_ * S.cos_mu_)
  let q : Configuration K × Configuration K :=
    if c1.left && c1.forward then
      (conf_at (E.global_frame_change c1.xc c1.yc theta (-delta_x) delta_y) (theta + E.PI) 0,
       conf_at (E.global_frame_change c2.xc c2.yc theta (-delta_x) delta_y) (theta + E.PI) 0)
    else if c1.left && !c1.forward then
      (conf_at (E.global_frame_change c1.xc c1.yc theta (-delta_x) (-delta_y)) theta 0,
       conf_at (E.global_frame_change c2.xc c2.yc theta (-delta_x) (-delta_y)) theta 0)
    else if !c1.left && c1.forward then
      (conf_at (E.global_frame_change c1.xc c1.yc theta (-delta_x) (-delta_y)) (theta + E.PI) 0,
       conf_at (E.global_frame_change c2.xc c2.yc theta (-delta_x) (-delta_y)) (theta + E.PI) 0)
    else
      (conf_at (E.global_frame_change c1.xc c1.yc theta (-delta_x) delta_y) theta 0,
       conf_at (E.global_frame_change c2.xc c2.yc theta (-delta_x) delta_y) theta 0)
  hc_straight_hc E S c1 c2 q.1 q.2

/-- The member function `TcST_path`. -/
def TcST_path (E : Env K) (S : HCpmpm_Reeds_Shepp_State_Space K) (c1 c2 : HC_CC_Circle K) :
    Decomposition K :=
  if TciST_exists S c1 c2 then TciST_path E S c1 c2
  else if TceST_exists E S c1 c2 then TceST_path E S c1 c2
  else Decomposition.init E

/-- The member function `TiScT_path`. -/
def TiScT_path (E : Env K) (S : HCpmpm_Reeds_Shepp_State_Space K) (c1 c2 : HC_CC_Circle K) :
    Decomposition K :=
  let angle := S.hcpmpm_reeds_shepp_.angle
  let alpha := fabs (E.asin (2 * S.radius_ * S.cos_mu_ / S.hcpmpm_reeds_shepp_.distance))
  let delta_x := fabs (S.radius_ * S.sin_mu_)
  let delta_y := fabs (S.radius_ * S.cos_mu_)
  let q : Configuration K × Configuration K :=
    if c1.left && c1.forward then
      let theta := angle + alpha
      (conf_at (E.global_frame_change c1.xc c1.yc theta delta_x (-delta_y)) theta 0,
       conf_at (E.global_frame_change c2.xc c2.yc theta delta_x delta_y) theta 0)
    else if c1.left && !c1.forward then
      let theta := angle - alpha
      (conf_at (E.global_frame_change c1.xc c1.yc theta delta_x delta_y) (theta + E.PI) 0,
       conf_at (E.global_frame_change c2.xc c2.yc theta delta_x (-delta_y)) (theta + E.PI) 0)
    else if !c1.left && c1.forward then
      let theta := angle - alpha
      (conf_at (E.global_frame_change c1.xc c1.yc theta delta_x delta_y) theta 0,
       conf_at (E.global_frame_change c2.xc c2.yc theta delta_x (-delta_y)) theta 0)
    else
      let theta := angle + alpha
      (conf_at (E.global_frame_change c1.xc c1.yc theta delta_x (-delta_y)) (theta + E.PI) 0,
       conf_at (E.global_frame_change c2.xc c2.yc theta delta_x delta_y) (theta + E.PI) 0)
  hc_straight_hc E S c1 c2 q.1 q.2

/-- The member function `TeScT_path`. -/
def TeScT_path (E : Env K) (S : HCpmpm_Reeds_Shepp_State_Space K) (c1 c2 : HC_CC_Circle K) :
    Decomposition K :=
  let theta := S.hcpmpm_reeds_shepp_.angle
  let delta_x := fabs (S.radius_ * S.sin_mu_)
  let delta_y := fabs (S.radius_ * S.cos_mu_)
  let q : Configuration K × Configuration K :=
    if c1.left && c1.forward then
      (conf_at (E.global_frame_change c1.xc c1.yc theta delta_x (-delta_y)) theta 0,
       conf_at (E.global_frame_change c2.xc c2.yc theta delta_x (-delta_y)) theta 0)
    else if c1.left && !c1.forward then
      (conf_at (E.global_frame_change c1.xc c1.yc theta delta_x delta_y) (theta + E.PI) 0,
       conf_at (E.global_frame_change c2.xc c2.yc theta delta_x delta_y) (theta + E.PI) 0)
    else if !c1.left && c1.forward then
      (conf_at (E.global_frame_change c1.xc c1.yc theta delta_x delta_y) theta 0,
       conf_at (E.global_frame_change c2.xc c2.yc theta delta_x delta_y) theta 0)
    else
      (conf_at (E.global_frame_change c1.xc c1.yc theta delta_x (-delta_y)) (theta + E.PI) 0,
       conf_at (E.global_frame_change c2.xc c2.yc theta delta_x (-delta_y)) (theta + E.PI) 0)
  hc_straight_hc E S c1 c2 q.1 q.2

/-- The member function `TScT_path`. -/
def TScT_path (E : Env K) (S : HCpmpm_Reeds_Shepp_State_Space K) (c1 c2 : HC_CC_Circle K) :
    Decomposition K :=
  if TiScT_exists S c1 c2 then TiScT_path E S c1 c2
  else if TeScT_exists E S c1 c2 then TeScT_path E S c1 c2
  else Decomposition.init E

/-- The tail shared by `TciScT_path` and `TceScT_path`: from `*q1`, `*q2` copy the endpoint
circles and add up `rs_turn_length + configuration_distance + rs_turn_length`. -/
def rs_straight_rs (E : Env K) (c1 c2 : HC_CC_Circle K) (q1 q2 : Configuration K) :
    Decomposition K :=
  let cstart := c1
  let cend := c2
  { Decomposition.init E with
    length := E.rs_turn_length cstart q1 + E.configuration_distance q1 q2 +
      E.rs_turn_length cend q2,
    cstart := some cstart, cend := some cend, qi1 := some q1, qi2 := some q2 }

/-- The member function `TciScT_path`. -/
def TciScT_path (E : Env K) (S : HCpmpm_Reeds_Shepp_State_Space K) (c1 c2 : HC_CC_Circle K) :
    Decomposition K :=
  let angle := S.hcpmpm_reeds_shepp_.angle
  let alpha := fabs (E.asin (2 / (c1.kappa * S.hcpmpm_reeds_shepp_.distance)))
  let delta_x : K := 0
  let delta_y := fabs (1 / c1.kappa)
  let q : Configuration K × Configuration K :=
    if c1.left && c1.forward then
      let theta := angle - alpha
      (conf_at (E.global_frame_change c1.xc c1.yc theta (-delta_x) delta_y) (theta + E.PI)
         c1.kappa,
       conf_at (E.global_frame_change c2.xc c2.yc theta delta_x (-delta_y)) (theta + E.PI)
         c2.kappa)
    else if c1.left && !c1.forward then
      let theta := angle + alpha
      (conf_at (E.global_frame_change c1.xc c1.yc theta (-delta_x) (-delta_y)) theta c1.kappa,
       conf_at (E.global_frame_change c2.xc c2.yc theta delta_x delta_y) theta c2.kappa)
    else if !c1.left && c1.forward then
      let theta := angle + alpha
      (conf_at (E.global_frame_change c1.xc c1.yc theta (-delta_x) (-delta_y)) (theta + E.PI)
         c1.kappa,
       conf_at (E.global_frame_change c2.xc c2.yc theta delta_x delta_y) (theta + E.PI)
         c2.kappa)
    else
      let theta := angle - alpha
      (conf_at (E.global_frame_change c1.xc c1.yc theta (-delta_x) delta_y) theta c1.kappa,
       conf_at (E.global_frame_change c2.xc c2.yc theta delta_x (-delta_y)) theta c2.kappa)
  rs_straight_rs E c1 c2 q.1 q.2

/-- The member function `TceScT_path`. -/
def TceScT_path (E : Env K) (S : HCpmpm_Reeds_Shepp_State_Space K) (c1 c2 : HC_CC_Circle K) :
    Decomposition K :=
  let theta := S.hcpmpm_reeds_shepp_.angle
  let delta_x : K := 0
  let delta_y := fabs (1 / c1.kappa)
  let q : Configuration K × Configuration K :=
    if c1.left && c1.forward then
      (conf_at (E.global_frame_change c1.xc c1.yc theta (-delta_x) delta_y) (theta + E.PI)
         c1.kappa,
       conf_at (E.global_frame_change c2.xc c2.yc theta delta_x delta_y) (theta + E.PI)
         c2.kappa)
    else if c1.left && !c1.forward then
      (conf_at (E.global_frame_change c1.xc c1.yc theta (-delta_x) (-delta_y)) theta c1.kappa,
       conf_at (E.global_frame_change c2.xc c2.yc theta delta_x (-delta_y)) theta c2.kappa)
    else if !c1.left && c1.forward then
      (conf_at (E.global_frame_change c1.xc c1.yc theta (-delta_x) (-delta_y)) (theta + E.PI)
         c1.kappa,
       conf_at (E.global_frame_change c2.xc c2.yc theta delta_x (-delta_y)) (theta + E.PI)
         c2.kappa)
    else
      (conf_at (E.global_frame_change c1.xc c1.yc theta (-delta_x) delta_y) theta c1.kappa,
       conf_at (E.global_frame_change c2.xc c2.yc theta delta_x delta_y) theta c2.kappa)
  rs_straight_rs E c1 c2 q.1 q.2

/-- The member function `TcScT_path`. -/
def TcScT_path (E : Env K) (S : HCpmpm_Reeds_Shepp_State_Space K) (c1 c2 : HC_CC_Circle K) :
    Decomposition K :=
  if TciScT_exists S c1 c2 then TciScT_path E S c1 c2
  else if TceScT_exists E S c1 c2 then TceScT_path E S c1 c2
  else Decomposition.init E

end HCpmpm_Reeds_Shepp

/-! ## Selector -/

/-- Modelled from the spec: the utility `array_index_min(array, size)`, "select the minimum
by length; ties broken by family index": the least index at which the array attains its
minimum over `0 … size - 1`. -/
def array_index_min (array : Nat → K) (size : Nat) : Nat :=
  (List.range size).foldl (fun best i => if array i < array best then i else best) 0

/-- The statement `if (b) { length[i] = X_path(c1, c2, &cstart[i], …); }`: when the guard
holds, row `i` of the tables receives what the build routine returns and stores. -/
def store_if (b : Bool) (i : hc_cc_rs_path_type) (row : Decomposition K)
    (table : Nat → Decomposition K) : Nat → Decomposition K :=
  if b then Function.update table i.index row else table

open HCpmpm_Reeds_Shepp in
/-- The fifteen guarded calls of `hcpmpm_circles_rs_path` between `// case TT` and
`label_end`, in source order. -/
def family_cases (E : Env K) (S : HCpmpm_Reeds_Shepp_State_Space K) (c1 c2 : HC_CC_Circle K)
    (table : Nat → Decomposition K) : Nat → Decomposition K :=
  table
    |> store_if (TT_exists E S c1 c2) .TT (TT_path E S c1 c2 true)
    |> store_if (TcT_exists E S c1 c2) .TcT (TcT_path E c1 c2 true)
    |> store_if (TcTcT_exists S c1 c2) .TcTcT (TcTcT_path E S c1 c2)
    |> store_if (TcTT_exists S c1 c2) .TcTT (TcTT_path E S c1 c2)
    |> store_if (TTcT_exists S c1 c2) .TTcT (TTcT_path E S c1 c2)
    |> store_if (TST_exists S c1 c2) .TST (TST_path E S c1 c2)
    |> store_if (TSTcT_exists E S c1 c2) .TSTcT (TSTcT_path E S c1 c2)
    |> store_if (TcTST_exists E S c1 c2) .TcTST (TcTST_path E S c1 c2)
    |> store_if (TcTSTcT_exists E S c1 c2) .TcTSTcT (TcTSTcT_path E S c1 c2)
    |> store_if (TTcTT_exists S c1 c2) .TTcTT (TTcTT_path E S c1 c2)
    |> store_if (TcTTcT_exists S c1 c2) .TcTTcT (TcTTcT_path E S c1 c2)
    |> store_if (TTT_exists S c1 c2) .TTT (TTT_path E S c1 c2)
    |> store_if (TcST_exists E S c1 c2) .TcST (TcST_path E S c1 c2)
    |> store_if (TScT_exists E S c1 c2) .TScT (TScT_path E S c1 c2)
    |> store_if (TcScT_exists E S c1 c2) .TcScT (TcScT_path E S c1 c2)

/-- The two assignments under `// precomputations`: the helper object's members `distance`
and `angle` are overwritten. -/
def precompute (E : Env K) (S : HCpmpm_Reeds_Shepp_State_Space K) (c1 c2 : HC_CC_Circle K) :
    HCpmpm_Reeds_Shepp_State_Space K :=
  { S with hcpmpm_reeds_shepp_ :=
      { distance := E.center_distance c1 c2,
        angle := E.atan2 (c2.yc - c1.yc) (c2.xc - c1.xc) } }

/-- The tables of `hcpmpm_circles_rs_path` when control reaches `label_end`; `S` is the state
space after the precomputations. -/
def selector_table (E : Env K) (S : HCpmpm_Reeds_Shepp_State_Space K) (c1 c2 : HC_CC_Circle K) :
    Nat → Decomposition K :=
  let table : Nat → Decomposition K := fun _ => Decomposition.init E
  if E.configuration_equal c1.start c2.start then
    Function.update table hc_cc_rs_path_type.EMPTY.index
      { table hc_cc_rs_path_type.EMPTY.index with length := 0 }
  else if E.configuration_on_hc_cc_circle c1 c2.start then
    let cstart := HC_CC_Circle.of_start E c1.start c1.left c1.forward false S.rs_circle_param_
    Function.update table hc_cc_rs_path_type.T.index
      { table hc_cc_rs_path_type.T.index with
        cstart := some cstart, length := E.rs_turn_length cstart c2.start }
  else
    family_cases E S c1 c2 table

/-- The member function `hcpmpm_circles_rs_path`: the returned path and the state space as
the call leaves it. -/
def hcpmpm_circles_rs_path (E : Env K) (S : HCpmpm_Reeds_Shepp_State_Space K)
    (c1 c2 : HC_CC_Circle K) : HC_CC_RS_Path K × HCpmpm_Reeds_Shepp_State_Space K :=
  let S1 := precompute E S c1 c2
  let table := selector_table E S1 c1 c2
  let best_path := hc_cc_rs_path_type.of_index
    (array_index_min (fun i => (table i).length) nb_hc_cc_rs_paths)
  let row := table best_path.index
  ({ start := c1.start, end_ := c2.start, type := best_path, kappa := S1.kappa_,
     sigma := S1.sigma_, qi1 := row.qi1, qi2 := row.qi2, qi3 := row.qi3, qi4 := row.qi4,
     cstart := row.cstart, cend := row.cend, ci1 := row.ci1, ci2 := row.ci2,
     length := row.length }, S1)

/-! ## Driver -/

/-- The configuration `Configuration(state.x, state.y, state.theta, state.kappa)`. -/
def State.configuration (s : State K) : Configuration K :=
  { x := s.x, y := s.y, theta := s.theta, kappa := s.kappa }

/-- The arrays `start_circle[4]` / `end_circle[4]` of `hcpmpm_reeds_shepp`, built at the
configuration `q`. -/
def endpoint_circle (E : Env K) (S : HCpmpm_Reeds_Shepp_State_Space K) (q : Configuration K) :
    Nat → HC_CC_Circle K
  | 0 => HC_CC_Circle.of_start E q true true true S.rs_circle_param_
  | 1 => HC_CC_Circle.of_start E q false true true S.rs_circle_param_
  | 2 => HC_CC_Circle.of_start E q true false true S.rs_circle_param_
  | _ => HC_CC_Circle.of_start E q false false true S.rs_circle_param_

/-- The `continue` chain at the head of each loop body: circle `i` is skipped for an endpoint
of curvature `kappa`. -/
def skip_circle (i : Nat) (kappa : K) : Bool :=
  if i = 0 ∧ kappa < 0 then true
  else if i = 1 ∧ kappa > 0 then true
  else if i = 2 ∧ kappa < 0 then true
  else if i = 3 ∧ kappa > 0 then true
  else false

/-- The local arrays `path[16]`, `lg[16]` of `hcpmpm_reeds_shepp`, together with the state
space (the selector overwrites the helper's members each time it runs). -/
structure Driver_Tables (K : Type) where
  path : Nat → Option (HC_CC_RS_Path K)
  lg : Nat → K
  space : HCpmpm_Reeds_Shepp_State_Space K

/-- The body of the inner loop for the pair `(i, j)`.  `new` never yields a null pointer, so
the test `if (path[4 * i + j])` succeeds. -/
def driver_step (E : Env K) (start_circle end_circle : Nat → HC_CC_Circle K) (state2 : State K)
    (i : Nat) (tables : Driver_Tables K) (j : Nat) : Driver_Tables K :=
  if skip_circle j state2.kappa then tables
  else
    let r := hcpmpm_circles_rs_path E tables.space (start_circle i) (end_circle j)
    { path := Function.update tables.path (4 * i + j) (some r.1),
      lg := Function.update tables.lg (4 * i + j) r.1.length,
      space := r.2 }

/-- The two nested loops of `hcpmpm_reeds_shepp`, run on the freshly initialised arrays. -/
def driver_tables (E : Env K) (S : HCpmpm_Reeds_Shepp_State_Space K) (state1 state2 : State K) :
    Driver_Tables K :=
  let start_circle := endpoint_circle E S state1.configuration
  let end_circle := endpoint_circle E S state2.configuration
  (List.range 4).foldl
    (fun tables i =>
      if skip_circle i state1.kappa then tables
      else (List.range 4).foldl (driver_step E start_circle end_circle state2 i) tables)
    { path := fun _ => none, lg := fun _ => E.dbl_max, space := S }

/-- The member function `hcpmpm_reeds_shepp`: the returned pointer `path[best_path]` (null when
that entry was never written) and the state space as the call leaves it. -/
def hcpmpm_reeds_shepp (E : Env K) (S : HCpmpm_Reeds_Shepp_State_Space K)
    (state1 state2 : State K) :
    Option (HC_CC_RS_Path K) × HCpmpm_Reeds_Shepp_State_Space K :=
  let tables := driver_tables E S state1 state2
  let best_path := array_index_min tables.lg 16
  (tables.path best_path, tables.space)

/-- The member function `get_distance`; `none` stands for dereferencing a null path. -/
def get_distance (E : Env K) (S : HCpmpm_Reeds_Shepp_State_Space K) (state1 state2 : State K) :
    Option K :=
  (hcpmpm_reeds_shepp E S state1 state2).1.map (fun p => p.length)

/-! ## Control emitter -/

/-- The segment emitters that `get_controls` calls, each appending to the control vector;
`σ` is the type of that vector (`List (Control K)` in the program). -/
structure Emitters (K : Type) (σ : Type) where
  /-- The utility `empty_controls(controls)`. -/
  empty_controls : σ → σ
  /-- The utility `rs_turn_controls(c, q, order, controls)`. -/
  rs_turn_controls : HC_CC_Circle K → Configuration K → Bool → σ → σ
  /-- The utility `hc_turn_controls(c, q, order, controls)`. -/
  hc_turn_controls : HC_CC_Circle K → Configuration K → Bool → σ → σ
  /-- The utility `cc_turn_controls(c, q, order, controls)`. -/
  cc_turn_controls : HC_CC_Circle K → Configuration K → Bool → σ → σ
  /-- The utility `straight_controls(q1, q2, controls)`. -/
  straight_controls : Configuration K → Configuration K → σ → σ

/-- The `switch (p->type)` of `get_controls` applied to the control vector `v`; `none` stands
for dereferencing a null member of the path. -/
def path_controls {σ : Type} (em : Emitters K σ) (p : HC_CC_RS_Path K) (v : σ) : Option σ :=
  match p.type with
  | .EMPTY => some (em.empty_controls v)
  | .T => do
    let cstart ← p.cstart
    pure (em.rs_turn_controls cstart p.end_ true v)
  | .TT => do
    let cstart ← p.cstart; let qi1 ← p.qi1
    let v := em.hc_turn_controls cstart qi1 false v
    let cend ← p.cend; let qi3 ← p.qi3
    pure (em.hc_turn_controls cend qi3 true v)
  | .TcT => do
    let cstart ← p.cstart; let qi1 ← p.qi1
    let v := em.rs_turn_controls cstart qi1 true v
    let cend ← p.cend
    pure (em.rs_turn_controls cend qi1 false v)
  | .TcTcT => do
    let cstart ← p.cstart; let qi1 ← p.qi1
    let v := em.rs_turn_controls cstart qi1 true v
    let ci1 ← p.ci1; let qi2 ← p.qi2
    let v := em.rs_turn_controls ci1 qi2 true v
    let cend ← p.cend
    pure (em.rs_turn_controls cend qi2 false v)
  | .TcTT => do
    let cstart ← p.cstart; let qi1 ← p.qi1
    let v := em.rs_turn_controls cstart qi1 true v
    let ci1 ← p.ci1
    let v := em.hc_turn_controls ci1 qi1 false v
    let cend ← p.cend; let qi2 ← p.qi2
    pure (em.hc_turn_controls cend qi2 true v)
  | .TTcT => do
    let cstart ← p.cstart; let qi1 ← p.qi1
    let v := em.hc_turn_controls cstart qi1 false v
    let ci1 ← p.ci1; let qi2 ← p.qi2
    let v := em.hc_turn_controls ci1 qi2 true v
    let cend ← p.cend
    pure (em.rs_turn_controls cend qi2 false v)
  | .TST => do
    let cstart ← p.cstart; let qi1 ← p.qi1
    let v := em.hc_turn_controls cstart qi1 false v
    let qi2 ← p.qi2; let qi3 ← p.qi3
    let v := em.straight_controls qi2 qi3 v
    let cend ← p.cend; let qi4 ← p.qi4
    pure (em.hc_turn_controls cend qi4 true v)
  | .TSTcT => do
    let cstart ← p.cstart; let qi1 ← p.qi1
    let v := em.hc_turn_controls cstart qi1 false v
    let qi2 ← p.qi2; let qi3 ← p.qi3
    let v := em.straight_controls qi2 qi3 v
    let ci1 ← p.ci1; let qi4 ← p.qi4
    let v := em.hc_turn_controls ci1 qi4 true v
    let cend ← p.cend
    pure (em.rs_turn_controls cend qi4 false v)
  | .TcTST => do
    let cstart ← p.cstart; let qi1 ← p.qi1
    let v := em.rs_turn_controls cstart qi1 true v
    let ci1 ← p.ci1
    let v := em.hc_turn_controls ci1 qi1 false v
    let qi2 ← p.qi2; let qi3 ← p.qi3
    let v := em.straight_controls qi2 qi3 v
    let cend ← p.cend; let qi4 ← p.qi4
    pure (em.hc_turn_controls cend qi4 true v)
  | .TcTSTcT => do
    let cstart ← p.cstart; let qi1 ← p.qi1
    let v := em.rs_turn_controls cstart qi1 true v
    let ci1 ← p.ci1
    let v := em.hc_turn_controls ci1 qi1 false v
    let qi2 ← p.qi2; let qi3 ← p.qi3
    let v := em.straight_controls qi2 qi3 v
    let ci2 ← p.ci2; let qi4 ← p.qi4
    let v := em.hc_turn_controls ci2 qi4 true v
    let cend ← p.cend
    pure (em.rs_turn_controls cend qi4 false v)
  | .TTcTT => do
    let cstart ← p.cstart; let qi1 ← p.qi1
    let v := em.hc_turn_controls cstart qi1 false v
    let ci1 ← p.ci1; let qi2 ← p.qi2
    let v := em.hc_turn_controls ci1 qi2 true v
    let ci2 ← p.ci2
    let v := em.hc_turn_controls ci2 qi2 false v
    let cend ← p.cend; let qi3 ← p.qi3
    pure (em.hc_turn_controls cend qi3 true v)
  | .TcTTcT => do
    let cstart ← p.cstart; let qi1 ← p.qi1
    let v := em.rs_turn_controls cstart qi1 true v
    let ci1 ← p.ci1
    let v := em.hc_turn_controls ci1 qi1 false v
    let ci2 ← p.ci2; let qi2 ← p.qi2
    let v := em.hc_turn_controls ci2 qi2 true v
    let cend ← p.cend
    pure (em.rs_turn_controls cend qi2 false v)
  | .TTT => do
    let cstart ← p.cstart; let qi1 ← p.qi1
    let v := em.hc_turn_controls cstart qi1 false v
    let ci1 ← p.ci1; let qi2 ← p.qi2
    let v := em.cc_turn_controls ci1 qi2 true v
    let cend ← p.cend; let qi3 ← p.qi3
    pure (em.hc_turn_controls cend qi3 true v)
  | .TcST | .TScT => do
    let cstart ← p.cstart; let qi1 ← p.qi1
    let v := em.hc_turn_controls cstart qi1 false v
    let qi2 ← p.qi2; let qi3 ← p.qi3
    let v := em.straight_controls qi2 qi3 v
    let cend ← p.cend; let qi4 ← p.qi4
    pure (em.hc_turn_controls cend qi4 true v)
  | .TcScT => do
    let cstart ← p.cstart; let qi1 ← p.qi1
    let v := em.rs_turn_controls cstart qi1 true v
    let qi2 ← p.qi2
    let v := em.straight_controls qi1 qi2 v
    let cend ← p.cend
    pure (em.rs_turn_controls cend qi2 false v)

/-- The member function `get_controls`; `none` stands for dereferencing a null pointer. -/
def get_controls (E : Env K) (em : Emitters K (List (Control K)))
    (S : HCpmpm_Reeds_Shepp_State_Space K) (state1 state2 : State K) :
    Option (List (Control K)) :=
  (hcpmpm_reeds_shepp E S state1 state2).1.bind (fun p => path_controls em p [])

/-! ## The family → control schedule table -/

/-- A circle member of `HC_CC_RS_Path` named in the schedule table. -/
inductive Circle_Slot where
  | cstart | ci1 | ci2 | cend
deriving DecidableEq, Repr

/-- A configuration member of `HC_CC_RS_Path` named in the schedule table. -/
inductive Conf_Slot where
  | qi1 | qi2 | qi3 | qi4 | end_
deriving DecidableEq, Repr

/-- One entry of a schedule: an rs, hc or cc turn on a circle towards a configuration (with
the `order` flag handed to the emitter), or a straight between two configurations. -/
inductive Segment where
  | rs (c : Circle_Slot) (q : Conf_Slot) (order : Bool)
  | hc (c : Circle_Slot) (q : Conf_Slot) (order : Bool)
  | cc (c : Circle_Slot) (q : Conf_Slot) (order : Bool)
  | straight (a b : Conf_Slot)
deriving DecidableEq, Repr

/-- The family → control schedule table, written from the specification (section 6): for
each family tag the emitted segments in order, each with the circle and the join
configuration it is emitted on. -/
def schedule : hc_cc_rs_path_type → List Segment
  | .EMPTY => []
  | .T => [.rs .cstart .end_ true]
  | .TT => [.hc .cstart .qi1 false, .hc .cend .qi3 true]
  | .TcT => [.rs .cstart .qi1 true, .rs .cend .qi1 false]
  | .TcTcT => [.rs .cstart .qi1 true, .rs .ci1 .qi2 true, .rs .cend .qi2 false]
  | .TcTT => [.rs .cstart .qi1 true, .hc .ci1 .qi1 false, .hc .cend .qi2 true]
  | .TTcT => [.hc .cstart .qi1 false, .hc .ci1 .qi2 true, .rs .cend .qi2 false]
  | .TST => [.hc .cstart .qi1 false, .straight .qi2 .qi3, .hc .cend .qi4 true]
  | .TSTcT =>
    [.hc .cstart .qi1 false, .straight .qi2 .qi3, .hc .ci1 .qi4 true, .rs .cend .qi4 false]
  | .TcTST =>
    [.rs .cstart .qi1 true, .hc .ci1 .qi1 false, .straight .qi2 .qi3, .hc .cend .qi4 true]
  | .TcTSTcT =>
    [.rs .cstart .qi1 true, .hc .ci1 .qi1 false, .straight .qi2 .qi3, .hc .ci2 .qi4 true,
     .rs .cend .qi4 false]
  | .TTcTT =>
    [.hc .cstart .qi1 false, .hc .ci1 .qi2 true, .hc .ci2 .qi2 false, .hc .cend .qi3 true]
  | .TcTTcT =>
    [.rs .cstart .qi1 true, .hc .ci1 .qi1 false, .hc .ci2 .qi2 true, .rs .cend .qi2 false]
  | .TTT => [.hc .cstart .qi1 false, .cc .ci1 .qi2 true, .hc .cend .qi3 true]
  | .TcST => [.hc .cstart .qi1 false, .straight .qi2 .qi3, .hc .cend .qi4 true]
  | .TScT => [.hc .cstart .qi1 false, .straight .qi2 .qi3, .hc .cend .qi4 true]
  | .TcScT => [.rs .cstart .qi1 true, .straight .qi1 .qi2, .rs .cend .qi2 false]

/-- The circle a slot of the table denotes in a path (`none` for a null pointer). -/
def HC_CC_RS_Path.circle (p : HC_CC_RS_Path K) : Circle_Slot → Option (HC_CC_Circle K)
  | .cstart => p.cstart
  | .ci1 => p.ci1
  | .ci2 => p.ci2
  | .cend => p.cend

/-- The configuration a slot of the table denotes in a path (`none` for a null pointer). -/
def HC_CC_RS_Path.conf (p : HC_CC_RS_Path K) : Conf_Slot → Option (Configuration K)
  | .qi1 => p.qi1
  | .qi2 => p.qi2
  | .qi3 => p.qi3
  | .qi4 => p.qi4
  | .end_ => some p.end_

/-- Emit one table entry on the control vector `v`. -/
def run_segment {σ : Type} (em : Emitters K σ) (p : HC_CC_RS_Path K) (seg : Segment) (v : σ) :
    Option σ :=
  match seg with
  | .rs c q order => do
    let c ← p.circle c; let q ← p.conf q
    pure (em.rs_turn_controls c q order v)
  | .hc c q order => do
    let c ← p.circle c; let q ← p.conf q
    pure (em.hc_turn_controls c q order v)
  | .cc c q order => do
    let c ← p.circle c; let q ← p.conf q
    pure (em.cc_turn_controls c q order v)
  | .straight a b => do
    let a ← p.conf a; let b ← p.conf b
    pure (em.straight_controls a b v)

/-- Emit the entries of a schedule one after the other. -/
def run_schedule {σ : Type} (em : Emitters K σ) (p : HC_CC_RS_Path K) : List Segment → σ → Option σ
  | [], v => some v
  | seg :: rest, v => (run_segment em p seg v).bind (run_schedule em p rest)

/-- The length query matching one table entry: `rs_turn_length`, `hc_turn_length` or
`cc_turn_length` on the entry's circle and configuration, and `configuration_distance` between
the two configurations of a straight. -/
def segment_length (E : Env K) (p : HC_CC_RS_Path K) (seg : Segment) : Option K :=
  match seg with
  | .rs c q _ => do
    let c ← p.circle c; let q ← p.conf q
    pure (E.rs_turn_length c q)
  | .hc c q _ => do
    let c ← p.circle c; let q ← p.conf q
    pure (E.hc_turn_length c q)
  | .cc c q _ => do
    let c ← p.circle c; let q ← p.conf q
    pure (E.cc_turn_length c q)
  | .straight a b => do
    let a ← p.conf a; let b ← p.conf b
    pure (E.configuration_distance a b)

/-- The sum of the matching length queries over a schedule, from left to right. -/
def schedule_length (E : Env K) (p : HC_CC_RS_Path K) : List Segment → Option K
  | [] => some 0
  | seg :: rest => do
    let a ← segment_length E p seg
    let b ← schedule_length E p rest
    pure (a + b)

open HCpmpm_Reeds_Shepp in
/-- The guard that `hcpmpm_circles_rs_path` evaluates for a family tag (`EMPTY` and `T` are
handled by the early returns and have no predicate). -/
def family_exists (E : Env K) (S : HCpmpm_Reeds_Shepp_State_Space K) (c1 c2 : HC_CC_Circle K) :
    hc_cc_rs_path_type → Bool
  | .EMPTY => false
  | .T => false
  | .TT => TT_exists E S c1 c2
  | .TcT => TcT_exists E S c1 c2
  | .TcTcT => TcTcT_exists S c1 c2
  | .TcTT => TcTT_exists S c1 c2
  | .TTcT => TTcT_exists S c1 c2
  | .TST => TST_exists S c1 c2
  | .TSTcT => TSTcT_exists E S c1 c2
  | .TcTST => TcTST_exists E S c1 c2
  | .TcTSTcT => TcTSTcT_exists E S c1 c2
  | .TTcTT => TTcTT_exists S c1 c2
  | .TcTTcT => TcTTcT_exists S c1 c2
  | .TTT => TTT_exists S c1 c2
  | .TcST => TcST_exists E S c1 c2
  | .TScT => TScT_exists E S c1 c2
  | .TcScT => TcScT_exists E S c1 c2

open HCpmpm_Reeds_Shepp in
/-- The build routine that `hcpmpm_circles_rs_path` calls for a family tag, with the output
pointers it passes (`EMPTY` and `T` have no build routine; their rows stay initialised). -/
def family_path (E : Env K) (S : HCpmpm_Reeds_Shepp_State_Space K) (c1 c2 : HC_CC_Circle K) :
    hc_cc_rs_path_type → Decomposition K
  | .EMPTY => Decomposition.init E
  | .T => Decomposition.init E
  | .TT => TT_path E S c1 c2 true
  | .TcT => TcT_path E c1 c2 true
  | .TcTcT => TcTcT_path E S c1 c2
  | .TcTT => TcTT_path E S c1 c2
  | .TTcT => TTcT_path E S c1 c2
  | .TST => TST_path E S c1 c2
  | .TSTcT => TSTcT_path E S c1 c2
  | .TcTST => TcTST_path E S c1 c2
  | .TcTSTcT => TcTSTcT_path E S c1 c2
  | .TTcTT => TTcTT_path E S c1 c2
  | .TcTTcT => TcTTcT_path E S c1 c2
  | .TTT => TTT_path E S c1 c2
  | .TcST => TcST_path E S c1 c2
  | .TScT => TScT_path E S c1 c2
  | .TcScT => TcScT_path E S c1 c2

/-- The object `new HC_CC_RS_Path(c1.start, c2.start, type, kappa_, sigma_, qi1[type], …,
length[type])` that the selector builds from row `type` of its tables. -/
def path_of_row (S : HCpmpm_Reeds_Shepp_State_Space K) (c1 c2 : HC_CC_Circle K)
    (type : hc_cc_rs_path_type) (row : Decomposition K) : HC_CC_RS_Path K :=
  { start := c1.start, end_ := c2.start, type := type, kappa := S.kappa_, sigma := S.sigma_,
    qi1 := row.qi1, qi2 := row.qi2, qi3 := row.qi3, qi4 := row.qi4,
    cstart := row.cstart, cend := row.cend, ci1 := row.ci1, ci2 := row.ci2,
    length := row.length }

/-! ## The build routines as a list -/

/-- The build routines of the family catalog: the eight routines of the single-variant
families and the internal and external variants of the seven compound families. -/
inductive Build_Routine where
  | TT | TcT | TcTcT | TcTT | TTcT | TiST | TeST | TiSTcT | TeSTcT | TcTiST | TcTeST
  | TcTiSTcT | TcTeSTcT | TTcTT | TcTTcT | TTT | TciST | TceST | TiScT | TeScT | TciScT | TceScT
deriving DecidableEq, Repr

/-- The family tag under which the selector stores what a build routine returns. -/
def Build_Routine.family : Build_Routine → hc_cc_rs_path_type
  | .TT => .TT | .TcT => .TcT | .TcTcT => .TcTcT | .TcTT => .TcTT | .TTcT => .TTcT
  | .TiST => .TST | .TeST => .TST | .TiSTcT => .TSTcT | .TeSTcT => .TSTcT
  | .TcTiST => .TcTST | .TcTeST => .TcTST | .TcTiSTcT => .TcTSTcT | .TcTeSTcT => .TcTSTcT
  | .TTcTT => .TTcTT | .TcTTcT => .TcTTcT | .TTT => .TTT
  | .TciST => .TcST | .TceST => .TcST | .TiScT => .TScT | .TeScT => .TScT
  | .TciScT => .TcScT | .TceScT => .TcScT

open HCpmpm_Reeds_Shepp in
/-- The call of a build routine with all output pointers non-null. -/
def Build_Routine.run (E : Env K) (S : HCpmpm_Reeds_Shepp_State_Space K) (c1 c2 : HC_CC_Circle K) :
    Build_Routine → Decomposition K
  | .TT => TT_path E S c1 c2 true
  | .TcT => TcT_path E c1 c2 true
  | .TcTcT => TcTcT_path E S c1 c2
  | .TcTT => TcTT_path E S c1 c2
  | .TTcT => TTcT_path E S c1 c2
  | .TiST => TiST_path E S c1 c2 true
  | .TeST => TeST_path E S c1 c2 true
  | .TiSTcT => TiSTcT_path E S c1 c2
  | .TeSTcT => TeSTcT_path E S c1 c2
  | .TcTiST => TcTiST_path E S c1 c2
  | .TcTeST => TcTeST_path E S c1 c2
  | .TcTiSTcT => TcTiSTcT_path E S c1 c2
  | .TcTeSTcT => TcTeSTcT_path E S c1 c2
  | .TTcTT => TTcTT_path E S c1 c2
  | .TcTTcT => TcTTcT_path E S c1 c2
  | .TTT => TTT_path E S c1 c2
  | .TciST => TciST_path E S c1 c2
  | .TceST => TceST_path E S c1 c2
  | .TiScT => TiScT_path E S c1 c2
  | .TeScT => TeScT_path E S c1 c2
  | .TciScT => TciScT_path E S c1 c2
  | .TceScT => TceScT_path E S c1 c2

/-! ## Notions used to state the driver's properties -/

/-- The selector's result for start circle `i` and end circle `j` of the driver. -/
def pair_path (E : Env K) (S : HCpmpm_Reeds_Shepp_State_Space K) (state1 state2 : State K)
    (i j : Nat) : HC_CC_RS_Path K :=
  (hcpmpm_circles_rs_path E S (endpoint_circle E S state1.configuration i)
    (endpoint_circle E S state2.configuration j)).1

/-- The pair `(i, j)` survives the curvature filter of the driver. -/
def survives (state1 state2 : State K) (i j : Nat) : Prop :=
  i < 4 ∧ j < 4 ∧ skip_circle i state1.kappa = false ∧ skip_circle j state2.kappa = false

/-- Every entry of the driver's arrays is either untouched (null path, sentinel length) or
holds the selector's result for the surviving pair it is indexed by; the state space differs
from the initial one at most in the helper's members. -/
def Driver_Tables.sound (E : Env K) (S : HCpmpm_Reeds_Shepp_State_Space K)
    (state1 state2 : State K) (tables : Driver_Tables K) : Prop :=
  (∃ h, tables.space = { S with hcpmpm_reeds_shepp_ := h }) ∧
  ∀ k, (tables.path k = none ∧ tables.lg k = E.dbl_max) ∨
    ∃ i j, survives state1 state2 i j ∧ k = 4 * i + j ∧
      tables.path k = some (pair_path E S state1 state2 i j) ∧
      tables.lg k = (pair_path E S state1 state2 i j).length

/-! ## A concrete instance

A rational instance of the collaborators on which the definitions can be run: taxicab
distances, frame changes without rotation, constant turn lengths. -/

/-- A rational toy instance of the collaborators. -/
def toy_env : Env ℚ where
  dbl_max := (2 ^ 53 - 1) * 2 ^ 971
  dbl_max_pos := by norm_num
  PI := 355 / 113
  HALF_PI := 355 / 226
  get_epsilon := 1 / 1000000
  sqrt := fun x => x
  atan2 := fun _ _ => 0
  asin := fun _ => 0
  center_distance := fun c1 c2 => |c2.xc - c1.xc| + |c2.yc - c1.yc|
  configuration_distance := fun q1 q2 => |q2.x - q1.x| + |q2.y - q1.y|
  configuration_equal := fun q1 q2 => decide (q1 = q2)
  configuration_on_hc_cc_circle := fun c q => decide (|q.x - c.xc| + |q.y - c.yc| = c.radius)
  global_frame_change := fun x y _ local_x local_y => (x + local_x, y + local_y)
  rs_turn_length := fun _ _ => 1
  hc_turn_length := fun _ _ => 2
  cc_turn_length := fun _ _ => 3
  circle_center := fun q left _ param =>
    (q.x, if left then q.y + param.radius else q.y - param.radius)
  center_start := { x := 0, y := 0, theta := 0, kappa := 0 }

/-- A state space with `kappa = 1`: rs radius 1, hc/cc radius 2. -/
def toy_space : HCpmpm_Reeds_Shepp_State_Space ℚ :=
  { kappa_ := 1, sigma_ := 1, discretization_ := 1 / 10,
    hc_cc_circle_param_ :=
      { kappa := 1, sigma := 1, radius := 2, mu := 1 / 2, sin_mu := 3 / 5, cos_mu := 4 / 5,
        delta_min := 0 },
    rs_circle_param_ :=
      { kappa := 1, sigma := (2 ^ 53 - 1) * 2 ^ 971, radius := 1, mu := 0, sin_mu := 0,
        cos_mu := 1, delta_min := 0 },
    radius_ := 2, mu_ := 1 / 2, sin_mu_ := 3 / 5, cos_mu_ := 4 / 5,
    hcpmpm_reeds_shepp_ := { distance := 0, angle := 0 } }

/-- Emitters that append one control per call; `empty_controls` appends the zero control. -/
def toy_emitters : Emitters ℚ (List (Control ℚ)) :=
  { empty_controls := fun v => v ++ [{ delta_s := 0, kappa := 0, sigma := 0 }],
    rs_turn_controls := fun c _ _ v => v ++ [{ delta_s := 1, kappa := c.kappa, sigma := 0 }],
    hc_turn_controls := fun c _ _ v => v ++ [{ delta_s := 2, kappa := c.kappa, sigma := 0 }],
    cc_turn_controls := fun c _ _ v => v ++ [{ delta_s := 3, kappa := c.kappa, sigma := 0 }],
    straight_controls := fun a b v =>
      v ++ [{ delta_s := |b.x - a.x| + |b.y - a.y|, kappa := 0, sigma := 0 }] }

/-- The state `(0, 0, 0, 0, 0)`. -/
def state_origin : State ℚ := { x := 0, y := 0, theta := 0, kappa := 0, d := 0 }

/-- The state `(5, 0, 0, 0, 0)`. -/
def state_ahead : State ℚ := { x := 5, y := 0, theta := 0, kappa := 0, d := 0 }

/-- The state `(1, 1, 0, 0, 0)`. -/
def state_near : State ℚ := { x := 1, y := 1, theta := 0, kappa := 0, d := 0 }

/-- The state `(0, 0, 0, 0.5, 0)`. -/
def state_left : State ℚ := { x := 0, y := 0, theta := 0, kappa := 1 / 2, d := 0 }

/-- The state `(4, 0, 0, -0.5, 0)`. -/
def state_right : State ℚ := { x := 4, y := 0, theta := 0, kappa := -(1 / 2), d := 0 }

/-- The start circle of the toy instance at the origin: left, forward. -/
def circle_origin : HC_CC_Circle ℚ :=
  endpoint_circle toy_env toy_space state_origin.configuration 0

/-- The end circle of the toy instance at `(5, 0)`: left, forward. -/
def circle_ahead : HC_CC_Circle ℚ :=
  endpoint_circle toy_env toy_space state_ahead.configuration 0

/-- The end circle of the toy instance at `(1, 1)`: left, forward; its start lies on
`circle_origin` in the taxicab sense. -/
def circle_near : HC_CC_Circle ℚ :=
  endpoint_circle toy_env toy_space state_near.configuration 0

/-! ## The compound families -/

open HCpmpm_Reeds_Shepp in
/-- The feasibility predicate of each build routine. -/
def Build_Routine.feasible (E : Env K) (S : HCpmpm_Reeds_Shepp_State_Space K)
    (c1 c2 : HC_CC_Circle K) : Build_Routine → Bool
  | .TT => TT_exists E S c1 c2
  | .TcT => TcT_exists E S c1 c2
  | .TcTcT => TcTcT_exists S c1 c2
  | .TcTT => TcTT_exists S c1 c2
  | .TTcT => TTcT_exists S c1 c2
  | .TiST => TiST_exists S c1 c2
  | .TeST => TeST_exists S c1 c2
  | .TiSTcT => TiSTcT_exists E S c1 c2
  | .TeSTcT => TeSTcT_exists S c1 c2
  | .TcTiST => TcTiST_exists E S c1 c2
  | .TcTeST => TcTeST_exists S c1 c2
  | .TcTiSTcT => TcTiSTcT_exists E S c1 c2
  | .TcTeSTcT => TcTeSTcT_exists S c1 c2
  | .TTcTT => TTcTT_exists S c1 c2
  | .TcTTcT => TcTTcT_exists S c1 c2
  | .TTT => TTT_exists S c1 c2
  | .TciST => TciST_exists S c1 c2
  | .TceST => TceST_exists E S c1 c2
  | .TiScT => TiScT_exists S c1 c2
  | .TeScT => TeScT_exists E S c1 c2
  | .TciScT => TciScT_exists S c1 c2
  | .TceScT => TceScT_exists E S c1 c2

/-- The compound families, each with its internal and its external build routine. -/
def compound_families : List (hc_cc_rs_path_type × Build_Routine × Build_Routine) :=
  [(.TST, .TiST, .TeST), (.TSTcT, .TiSTcT, .TeSTcT), (.TcTST, .TcTiST, .TcTeST),
   (.TcTSTcT, .TcTiSTcT, .TcTeSTcT), (.TcST, .TciST, .TceST), (.TScT, .TiScT, .TeScT),
   (.TcScT, .TciScT, .TceScT)]

/-! ## The two candidates of the multi-solution families -/

namespace HCpmpm_Reeds_Shepp

/-- What `TcTcT_path` assembles for one candidate from its joins: the first candidate from
`*qa`, `*qb` (tangent circle at `+delta_y`), the second from `*qc`, `*qd` (`-delta_y`). -/
def TcTcT_candidate (E : Env K) (S : HCpmpm_Reeds_Shepp_State_Space K) (c1 c2 : HC_CC_Circle K)
    (qa qb : Configuration K) : Decomposition K :=
  let middle := HC_CC_Circle.of_start E qa (!c1.left) (!c1.forward) true S.rs_circle_param_
  { Decomposition.init E with
    length := E.rs_turn_length c1 qa + E.rs_turn_length middle qb + E.rs_turn_length c2 qb,
    cstart := some c1, cend := some c2, qi1 := some qa, qi2 := some qb, ci1 := some middle }

/-- What `TcTT_path` assembles for one candidate from its joins: the first candidate from
`*qa`, `*qb` (tangent circle at `+delta_y`), the second from `*qc`, `*qd` (`-delta_y`). -/
def TcTT_candidate (E : Env K) (S : HCpmpm_Reeds_Shepp_State_Space K) (c1 c2 : HC_CC_Circle K)
    (qa qb : Configuration K) : Decomposition K :=
  let cend := HC_CC_Circle.of_start E qb c2.left (!c2.forward) HC_REGULAR S.hc_cc_circle_param_
  let middle := HC_CC_Circle.of_start E qb (!c1.left) c1.forward true S.hc_cc_circle_param_
  let q2 := start_conf c2
  { Decomposition.init E with
    length := E.rs_turn_length c1 qa + E.hc_turn_length middle qa + E.hc_turn_length cend q2,
    cstart := some c1, qi2 := some q2, cend := some cend, qi1 := some qa, ci1 := some middle }

/-- What `TTcT_path` assembles for one candidate from its joins: the first candidate from
`*qa`, `*qb` (tangent circle at `+delta_y`), the second from `*qc`, `*qd` (`-delta_y`). -/
def TTcT_candidate (E : Env K) (S : HCpmpm_Reeds_Shepp_State_Space K) (c1 c2 : HC_CC_Circle K)
    (qa qb : Configuration K) : Decomposition K :=
  let cstart := HC_CC_Circle.of_start E qa c1.left (!c1.forward) HC_REGULAR S.hc_cc_circle_param_
  let middle := HC_CC_Circle.of_start E qa (!c1.left) c1.forward true S.hc_cc_circle_param_
  let q1 := start_conf c1
  { Decomposition.init E with
    length := E.hc_turn_length cstart q1 + E.hc_turn_length middle qb + E.rs_turn_length c2 qb,
    cend := some c2, qi1 := some q1, cstart := some cstart, qi2 := some qb,
    ci1 := some middle }

/-- What `TTcTT_path` assembles for one candidate from its joins: the first candidate from
`*qa`, `*qb`, `*qc` (tangent circles at `+delta_y`), the second from `*qd`, `*qe`, `*qf`
(`-delta_y`). -/
def TTcTT_candidate (E : Env K) (S : HCpmpm_Reeds_Shepp_State_Space K) (c1 c2 : HC_CC_Circle K)
    (qa qb qc : Configuration K) : Decomposition K :=
  let cstart := HC_CC_Circle.of_start E qa c1.left (!c1.forward) HC_REGULAR S.hc_cc_circle_param_
  let middle1 := HC_CC_Circle.of_start E qa (!c1.left) c1.forward true S.hc_cc_circle_param_
  let middle2 := HC_CC_Circle.of_start E qc (!c2.left) c2.forward true S.hc_cc_circle_param_
  let cend := HC_CC_Circle.of_start E qc c2.left (!c2.forward) HC_REGULAR S.hc_cc_circle_param_
  let q1 := start_conf c1
  let q3 := start_conf c2
  { Decomposition.init E with
    length := E.hc_turn_length cstart q1 + E.hc_turn_length middle1 qb +
      E.hc_turn_length middle2 qb + E.hc_turn_length cend q3,
    qi1 := some q1, qi3 := some q3, cstart := some cstart, cend := some cend,
    ci1 := some middle1, ci2 := some middle2, qi2 := some qb }

/-- What `TcTTcT_path` assembles for one candidate from its joins: the first candidate from
`*qa`, `*qb`, `*qc` (first tangent circle at `+delta_y`), the second from `*qd`, `*qe`, `*qf`
(first tangent circle at `-delta_y`). -/
def TcTTcT_candidate (E : Env K) (S : HCpmpm_Reeds_Shepp_State_Space K)
    (c1 c2 : HC_CC_Circle K) (qa qb qc : Configuration K) : Decomposition K :=
  let middle1 := HC_CC_Circle.of_start E qb (!c1.left) c1.forward true S.hc_cc_circle_param_
  let middle2 := HC_CC_Circle.of_start E qb c1.left (!c1.forward) true S.hc_cc_circle_param_
  { Decomposition.init E with
    length := E.rs_turn_length c1 qa + E.hc_turn_length middle1 qa +
      E.hc_turn_length middle2 qc + E.rs_turn_length c2 qc,
    cstart := some c1, cend := some c2, qi1 := some qa, qi2 := some qc,
    ci1 := some middle1, ci2 := some middle2 }

/-- What `TTT_path` assembles for one candidate from its joins: the first candidate from
`*qa`, `*qb` (tangent circle at `+delta_y`), the second from `*qc`, `*qd` (`-delta_y`). -/
def TTT_candidate (E : Env K) (S : HCpmpm_Reeds_Shepp_State_Space K) (c1 c2 : HC_CC_Circle K)
    (qa qb : Configuration K) : Decomposition K :=
  let cstart := HC_CC_Circle.of_start E qa c1.left (!c1.forward) HC_REGULAR S.hc_cc_circle_param_
  let middle := HC_CC_Circle.of_start E qa (!c1.left) c1.forward CC_REGULAR
    S.hc_cc_circle_param_
  let cend := HC_CC_Circle.of_start E qb c2.left (!c2.forward) HC_REGULAR S.hc_cc_circle_param_
  let q1 := start_conf c1
  let q3 := start_conf c2
  { Decomposition.init E with
    length := E.hc_turn_length cstart q1 + E.cc_turn_length middle qb +
      E.hc_turn_length cend q3,
    qi1 := some q1, qi3 := some q3, cstart := some cstart, ci1 := some middle,
    cend := some cend, qi2 := some qb }

end HCpmpm_Reeds_Shepp

open HCpmpm_Reeds_Shepp in
/-- The first and the second candidate of each two-candidate family, assembled from the
joins that its `*_tangent_circles` routine returns; `none` for the other families. -/
def two_candidates (E : Env K) (S : HCpmpm_Reeds_Shepp_State_Space K) (c1 c2 : HC_CC_Circle K) :
    hc_cc_rs_path_type → Option (Decomposition K × Decomposition K)
  | .TcTcT =>
    let (qa, qb, qc, qd) := TcTcT_tangent_circles E S c1 c2
    some (TcTcT_candidate E S c1 c2 qa qb, TcTcT_candidate E S c1 c2 qc qd)
  | .TcTT =>
    let (qa, qb, qc, qd) := TcTT_tangent_circles E S c1 c2
    some (TcTT_candidate E S c1 c2 qa qb, TcTT_candidate E S c1 c2 qc qd)
  | .TTcT =>
    let (qa, qb, qc, qd) := TTcT_tangent_circles E S c1 c2
    some (TTcT_candidate E S c1 c2 qa qb, TTcT_candidate E S c1 c2 qc qd)
  | .TTcTT =>
    let (qa, qb, qc, qd, qe, qf) := TTcTT_tangent_circles E S c1 c2
    some (TTcTT_candidate E S c1 c2 qa qb qc, TTcTT_candidate E S c1 c2 qd qe qf)
  | .TcTTcT =>
    let (qa, qb, qc, qd, qe, qf) := TcTTcT_tangent_circles E S c1 c2
    some (TcTTcT_candidate E S c1 c2 qa qb qc, TcTTcT_candidate E S c1 c2 qd qe qf)
  | .TTT =>
    let (qa, qb, qc, qd) := TTT_tangent_circles E S c1 c2
    some (TTT_candidate E S c1 c2 qa qb, TTT_candidate E S c1 c2 qc qd)
  | _ => none

/-! ## A circle pair without a feasible family -/

/-- The test whether a length is infinite: a double is infinite exactly when its magnitude
exceeds `numeric_limits<double>::max()`, the largest finite double. -/
def Env.isinf (E : Env K) (x : K) : Bool := decide (E.dbl_max < |x|)

/-- The state space of `kappa = sigma = 1`, with the hc/cc constants rounded to three
decimals: rs radius 1, hc/cc radius 1.153, `mu` 0.444. -/
def unit_space : HCpmpm_Reeds_Shepp_State_Space ℚ :=
  { kappa_ := 1, sigma_ := 1, discretization_ := 1 / 10,
    hc_cc_circle_param_ :=
      { kappa := 1, sigma := 1, radius := 1153 / 1000, mu := 444 / 1000, sin_mu := 430 / 1000,
        cos_mu := 903 / 1000, delta_min := 1 / 2 },
    rs_circle_param_ :=
      { kappa := 1, sigma := (2 ^ 53 - 1) * 2 ^ 971, radius := 1, mu := 0, sin_mu := 0,
        cos_mu := 1, delta_min := 0 },
    radius_ := 1153 / 1000, mu_ := 444 / 1000, sin_mu_ := 430 / 1000, cos_mu_ := 903 / 1000,
    hcpmpm_reeds_shepp_ := { distance := 0, angle := 0 } }

/-- The state `(0, 2.5, 0, 0, 0)`. -/
def state_above : State ℚ := { x := 0, y := 5 / 2, theta := 0, kappa := 0, d := 0 }

/-- The left/forward start circle of `unit_space` at the origin: centre `(0, 1)`. -/
def circle_low : HC_CC_Circle ℚ :=
  endpoint_circle toy_env unit_space state_origin.configuration 0

/-- The right/backward end circle of `unit_space` at `(0, 2.5)`: centre `(0, 1.5)`, at
distance 0.5 from the centre of `circle_low`; its start is at distance 1.5 from that
centre. -/
def circle_high : HC_CC_Circle ℚ :=
  endpoint_circle toy_env unit_space state_above.configuration 3

/-! ## Construction -/

/-- The failure of a construction. -/
inductive Construction_Error where
  | misconfiguration
deriving DecidableEq, Repr

/-- What the derived constructor does after the base-class constructor has returned, in the
order of execution: the allocation of the helper, and the quotient `1 / kappa_`. -/
inductive Construction_Event (K : Type) where
  | helper_allocated
  | reciprocal (kappa : K)
deriving DecidableEq, Repr

/-- The members of the base class `HC_CC_State_Space`. -/
structure HC_CC_State_Space (K : Type) where
  kappa_ : K
  sigma_ : K
  discretization_ : K
  hc_cc_circle_param_ : HC_CC_Circle_Param K
deriving DecidableEq, Repr

/-- Modelled from the spec: `HC_CC_Circle_Param::set_param(kappa, sigma, radius, mu, sin_mu,
cos_mu, delta_min)` stores its seven arguments. -/
def HC_CC_Circle_Param.set_param (kappa sigma radius mu sin_mu cos_mu delta_min : K) :
    HC_CC_Circle_Param K :=
  { kappa := kappa, sigma := sigma, radius := radius, mu := mu, sin_mu := sin_mu,
    cos_mu := cos_mu, delta_min := delta_min }

/-- Modelled from the spec: the base-class constructor `HC_CC_State_Space(kappa, sigma,
discretization)`, which is not part of the translation unit.  With `kappa ≤ 0` or `sigma ≤ 0`
it fails with a misconfiguration error before anything is computed; otherwise it stores its
arguments and the hc/cc circle parameters `hc_param kappa sigma` derived from them. -/
def HC_CC_State_Space.construct (hc_param : K → K → HC_CC_Circle_Param K)
    (kappa sigma discretization : K) : Except Construction_Error (HC_CC_State_Space K) :=
  if kappa ≤ 0 ∨ sigma ≤ 0 then .error .misconfiguration
  else .ok { kappa_ := kappa, sigma_ := sigma, discretization_ := discretization,
             hc_cc_circle_param_ := hc_param kappa sigma }

/-- The member initialisers and the body of the constructor
`HCpmpm_Reeds_Shepp_State_Space(kappa, sigma, discretization)`, run on the base-class part
`b`: the helper is allocated (its members `distance` and `angle` hold the indeterminate
values `uninit`), the rs parameters are set with radius `1 / kappa_`, and `radius_`, `mu_`,
`sin_mu_`, `cos_mu_` are copied from the hc/cc parameters. -/
def HCpmpm_Reeds_Shepp_State_Space.of_base (E : Env K) (b : HC_CC_State_Space K)
    (uninit : HCpmpm_Reeds_Shepp K) : HCpmpm_Reeds_Shepp_State_Space K :=
  { kappa_ := b.kappa_, sigma_ := b.sigma_, discretization_ := b.discretization_,
    hc_cc_circle_param_ := b.hc_cc_circle_param_,
    hcpmpm_reeds_shepp_ := uninit,
    rs_circle_param_ := HC_CC_Circle_Param.set_param b.kappa_ E.dbl_max (1 / b.kappa_) 0 0 1 0,
    radius_ := b.hc_cc_circle_param_.radius,
    mu_ := b.hc_cc_circle_param_.mu,
    sin_mu_ := b.hc_cc_circle_param_.sin_mu,
    cos_mu_ := b.hc_cc_circle_param_.cos_mu }

/-- The constructor `HCpmpm_Reeds_Shepp_State_Space(kappa, sigma, discretization)`.  The
base-class constructor `base` runs first; only if it returns are the member initialisers and
the body run.  The second component lists what was done after the base-class constructor, in
the order of execution. -/
def HCpmpm_Reeds_Shepp_State_Space.construct (E : Env K)
    (base : K → K → K → Except Construction_Error (HC_CC_State_Space K))
    (uninit : HCpmpm_Reeds_Shepp K) (kappa sigma discretization : K) :
    Except Construction_Error (HCpmpm_Reeds_Shepp_State_Space K) ×
      List (Construction_Event K) :=
  match base kappa sigma discretization with
  | .error e => (.error e, [])
  | .ok b =>
    (.ok (HCpmpm_Reeds_Shepp_State_Space.of_base E b uninit),
      [.helper_allocated, .reciprocal b.kappa_])

/-! ## Square roots and auxiliary tangent circles -/

/-- The environment in which every `sqrt` call receives the absolute value of its argument;
the other collaborators are those of `E`. -/
def Env.abs_sqrt (E : Env K) : Env K :=
  { E with sqrt := fun x => E.sqrt |x| }

namespace HCpmpm_Reeds_Shepp

/-- The auxiliary circle `tgt1` that `TiSTcT_path` builds before it calls `TiST_path` and
`TcT_path` (lines 574-580 of the source). -/
def TiSTcT_tangent_circle (E : Env K) (S : HCpmpm_Reeds_Shepp_State_Space K)
    (c2 : HC_CC_Circle K) : HC_CC_Circle K :=
  let theta := S.hcpmpm_reeds_shepp_.angle
  let delta_y := (4 * S.radius_ * S.cos_mu_) / (fabs c2.kappa * S.hcpmpm_reeds_shepp_.distance)
  let delta_x := E.sqrt (pow2 (2 / c2.kappa) - pow2 delta_y)
  let p := E.global_frame_change c2.xc c2.yc theta (-delta_x) delta_y
  HC_CC_Circle.of_center E p.1 p.2 (!c2.left) c2.forward c2.regular S.hc_cc_circle_param_

/-- The auxiliary circle `tgt1` that `TcTiST_path` builds before it calls `TcT_path` and
`TiST_path` (lines 667-673 of the source). -/
def TcTiST_tangent_circle (E : Env K) (S : HCpmpm_Reeds_Shepp_State_Space K)
    (c1 c2 : HC_CC_Circle K) : HC_CC_Circle K :=
  let theta := S.hcpmpm_reeds_shepp_.angle
  let delta_y := (4 * c2.radius) / (fabs c2.kappa * S.hcpmpm_reeds_shepp_.distance)
  let delta_x := E.sqrt (pow2 (2 / c2.kappa) - pow2 delta_y)
  let p := E.global_frame_change c1.xc c1.yc theta delta_x delta_y
  HC_CC_Circle.of_center E p.1 p.2 (!c2.left) (!c2.forward) c2.regular S.hc_cc_circle_param_

end HCpmpm_Reeds_Shepp

/-- The square of the Euclidean distance between the centres of two circles. -/
def center_sq_distance (c1 c2 : HC_CC_Circle K) : K :=
  pow2 (c2.xc - c1.xc) + pow2 (c2.yc - c1.yc)

/-- The toy environment with `Rat.sqrt` as `sqrt`, which is exact on squares of rationals.
With `atan2 = 0` and a frame change without rotation it is exact for circles whose centres lie
on a common horizontal line, the second to the right of the first. -/
def exact_env : Env ℚ :=
  { toy_env with sqrt := Rat.sqrt }

/-- A state space with `kappa = 1`, `R = 17/12`, `sin μ = 8/17` and `cos μ = 15/17`, so that
`2 R sin μ = 4/3` and `2 R cos μ = 5/2`. -/
def skew_space : HCpmpm_Reeds_Shepp_State_Space ℚ :=
  { kappa_ := 1, sigma_ := 1, discretization_ := 1 / 10,
    hc_cc_circle_param_ :=
      { kappa := 1, sigma := 1, radius := 17 / 12, mu := 1 / 2, sin_mu := 8 / 17,
        cos_mu := 15 / 17, delta_min := 0 },
    rs_circle_param_ :=
      { kappa := 1, sigma := (2 ^ 53 - 1) * 2 ^ 971, radius := 1, mu := 0, sin_mu := 0,
        cos_mu := 1, delta_min := 0 },
    radius_ := 17 / 12, mu_ := 1 / 2, sin_mu_ := 8 / 17, cos_mu_ := 15 / 17,
    hcpmpm_reeds_shepp_ := { distance := 0, angle := 0 } }

/-- The state `(25/6, 0, 0, 0, 0)`. -/
def state_bound : State ℚ := { x := 25 / 6, y := 0, theta := 0, kappa := 0, d := 0 }

/-- The state `(17/4, 0, 0, 0, 0)`. -/
def state_past : State ℚ := { x := 17 / 4, y := 0, theta := 0, kappa := 0, d := 0 }

namespace HCpmpm_Reeds_Shepp

/-- The argument of `sqrt` in the bound of `TiSTcT_exists` and of `TcTiST_exists`. -/
def TiSTcT_bound_radicand (S : HCpmpm_Reeds_Shepp_State_Space K) (c1 : HC_CC_Circle K) : K :=
  pow2 (2 * S.radius_ * S.sin_mu_ + 2 / fabs c1.kappa) + pow2 (2 * S.radius_ * S.cos_mu_)

/-- The argument of `sqrt` in the `delta_x` of `TiSTcT_path`. -/
def TiSTcT_delta_radicand (S : HCpmpm_Reeds_Shepp_State_Space K) (c2 : HC_CC_Circle K) : K :=
  pow2 (2 / c2.kappa) -
    pow2 ((4 * S.radius_ * S.cos_mu_) / (fabs c2.kappa * S.hcpmpm_reeds_shepp_.distance))

end HCpmpm_Reeds_Shepp

/-- The left/forward endpoint circle at `state_origin` in `skew_space`: centre `(0, 1)`. -/
def skew_origin : HC_CC_Circle ℚ :=
  endpoint_circle exact_env skew_space state_origin.configuration 0

/-- The left/forward endpoint circle at `state_bound` in `skew_space`: centre `(25/6, 1)`. -/
def skew_bound : HC_CC_Circle ℚ :=
  endpoint_circle exact_env skew_space state_bound.configuration 0

/-- The left/forward endpoint circle at `state_past` in `skew_space`: centre `(17/4, 1)`. -/
def skew_past : HC_CC_Circle ℚ :=
  endpoint_circle exact_env skew_space state_past.configuration 0

/-! ## Curvature of the emitted controls -/

/-- Modelled from the spec: the curvature reached at the end of a control `(Δs, κ₀, σ)`, which
starts at `κ₀` and changes at the rate `σ` over the arc length `|Δs|`. -/
def Control.end_kappa (c : Control K) : K :=
  c.kappa + c.sigma * |c.delta_s|

/-- Every adjacent pair of controls agrees on curvature at the boundary:
`κ_end(control_i) = κ_start(control_{i+1})`. -/
def curvature_continuous : List (Control K) → Bool
  | a :: b :: rest => decide (a.end_kappa = b.kappa) && curvature_continuous (b :: rest)
  | _ => true

/-- The circle slot of a schedule entry (none for a straight). -/
def Segment.circle : Segment → Option Circle_Slot
  | .rs c _ _ => some c
  | .hc c _ _ => some c
  | .cc c _ _ => some c
  | .straight _ _ => none

/-- The join configuration slot of a turn entry of a schedule (none for a straight). -/
def Segment.join : Segment → Option Conf_Slot
  | .rs _ q _ => some q
  | .hc _ q _ => some q
  | .cc _ q _ => some q
  | .straight _ _ => none

/-- The circle of the first emitter call for a path, by the schedule of its family. -/
def HC_CC_RS_Path.first_circle (p : HC_CC_RS_Path K) : Option (HC_CC_Circle K) :=
  ((schedule p.type).head?.bind Segment.circle).bind p.circle

/-- The circle and the join configuration of the last emitter call for a path, by the
schedule of its family. -/
def HC_CC_RS_Path.last_turn (p : HC_CC_RS_Path K) :
    Option (HC_CC_Circle K × Configuration K) :=
  (schedule p.type).getLast?.bind fun seg =>
    (seg.circle.bind p.circle).bind fun c =>
      (seg.join.bind p.conf).map fun q => (c, q)

/-- The curvature `x` has the magnitude of the maximum curvature, as stored in the rs or in
the hc/cc circle parameters. -/
def HCpmpm_Reeds_Shepp_State_Space.max_curvature (S : HCpmpm_Reeds_Shepp_State_Space K)
    (x : K) : Prop :=
  |x| = |S.rs_circle_param_.kappa| ∨ |x| = |S.hc_cc_circle_param_.kappa|

/-- The state `(2, 2, 0, -1/2, 0)`. -/
def state_cusp : State ℚ := { x := 2, y := 2, theta := 0, kappa := -(1 / 2), d := 0 }

/-- The state `(-5, 0, 0, 0, 0)`. -/
def state_behind : State ℚ := { x := -5, y := 0, theta := 0, kappa := 0, d := 0 }

/-! ## Radicands of the unguarded square roots -/

namespace HCpmpm_Reeds_Shepp

/-- The argument of `sqrt` in the `delta_x` of `TcTiST_path`. -/
def TcTiST_delta_radicand (S : HCpmpm_Reeds_Shepp_State_Space K) (c2 : HC_CC_Circle K) : K :=
  pow2 (2 / c2.kappa) -
    pow2 ((4 * c2.radius) / (fabs c2.kappa * S.hcpmpm_reeds_shepp_.distance))

/-- The argument of `sqrt` in the `delta_x` of `TcTiSTcT_path`. -/
def TcTiSTcT_delta_radicand (S : HCpmpm_Reeds_Shepp_State_Space K) (c1 : HC_CC_Circle K) : K :=
  pow2 (2 / c1.kappa) -
    pow2 ((4 * S.radius_ * S.cos_mu_) / (S.hcpmpm_reeds_shepp_.distance * fabs c1.kappa))

/-- The argument of `sqrt` in the bound of `TcTiSTcT_exists`. -/
def TcTiSTcT_bound_radicand (S : HCpmpm_Reeds_Shepp_State_Space K) (c1 : HC_CC_Circle K) : K :=
  pow2 (2 * S.radius_) + 16 * S.radius_ * S.sin_mu_ / fabs c1.kappa + pow2 (4 / c1.kappa)

/-- The two auxiliary circles `(tgt1, tgt2)` that `TcTiSTcT_path` builds before it calls
`TcT_path` and `TiST_path` (lines 760-768 of the source). -/
def TcTiSTcT_tangent_circles (E : Env K) (S : HCpmpm_Reeds_Shepp_State_Space K)
    (c1 c2 : HC_CC_Circle K) : HC_CC_Circle K × HC_CC_Circle K :=
  let theta := S.hcpmpm_reeds_shepp_.angle
  let delta_y := (4 * S.radius_ * S.cos_mu_) / (S.hcpmpm_reeds_shepp_.distance * fabs c1.kappa)
  let delta_x := E.sqrt (pow2 (2 / c1.kappa) - pow2 delta_y)
  let p1 := E.global_frame_change c1.xc c1.yc theta delta_x delta_y
  let tgt1 := HC_CC_Circle.of_center E p1.1 p1.2 (!c1.left) (!c1.forward) c1.regular
    S.hc_cc_circle_param_
  let p2 := E.global_frame_change c2.xc c2.yc theta (-delta_x) (-delta_y)
  let tgt2 := HC_CC_Circle.of_center E p2.1 p2.2 (!c2.left) c2.forward c2.regular
    S.hc_cc_circle_param_
  (tgt1, tgt2)

end HCpmpm_Reeds_Shepp

/-! ## The tangent circles of the multi-solution families -/

namespace HCpmpm_Reeds_Shepp

/-- The circles `(tgt1, tgt2)` local to `TcTcT_tangent_circles`. -/
def TcTcT_tgt (E : Env K) (S : HCpmpm_Reeds_Shepp_State_Space K) (c1 : HC_CC_Circle K) :
    HC_CC_Circle K × HC_CC_Circle K :=
  let theta := S.hcpmpm_reeds_shepp_.angle
  let r := fabs (2 / c1.kappa)
  let delta_x := 1 / 2 * S.hcpmpm_reeds_shepp_.distance
  let delta_y := E.sqrt (fabs (pow2 r - pow2 delta_x))
  let p1 := E.global_frame_change c1.xc c1.yc theta delta_x delta_y
  let p2 := E.global_frame_change c1.xc c1.yc theta delta_x (-delta_y)
  (HC_CC_Circle.of_center E p1.1 p1.2 (!c1.left) (!c1.forward) c1.regular S.rs_circle_param_,
   HC_CC_Circle.of_center E p2.1 p2.2 (!c1.left) (!c1.forward) c1.regular S.rs_circle_param_)

/-- The expression under `fabs` in the `delta_y` of `TcTcT_tangent_circles`. -/
def TcTcT_radicand (S : HCpmpm_Reeds_Shepp_State_Space K) (c1 : HC_CC_Circle K) : K :=
  pow2 (fabs (2 / c1.kappa)) - pow2 (1 / 2 * S.hcpmpm_reeds_shepp_.distance)

/-- The circles `(tgt1, tgt2)` local to `TTT_tangent_circles`. -/
def TTT_tgt (E : Env K) (S : HCpmpm_Reeds_Shepp_State_Space K) (c1 : HC_CC_Circle K) :
    HC_CC_Circle K × HC_CC_Circle K :=
  let theta := S.hcpmpm_reeds_shepp_.angle
  let r := 2 * S.radius_
  let delta_x := 1 / 2 * S.hcpmpm_reeds_shepp_.distance
  let delta_y := E.sqrt (fabs (pow2 delta_x - pow2 r))
  let p1 := E.global_frame_change c1.xc c1.yc theta delta_x delta_y
  let p2 := E.global_frame_change c1.xc c1.yc theta delta_x (-delta_y)
  (HC_CC_Circle.of_center E p1.1 p1.2 (!c1.left) c1.forward c1.regular S.hc_cc_circle_param_,
   HC_CC_Circle.of_center E p2.1 p2.2 (!c1.left) c1.forward c1.regular S.hc_cc_circle_param_)

/-- The expression under `fabs` in the `delta_y` of `TTT_tangent_circles`. -/
def TTT_radicand (S : HCpmpm_Reeds_Shepp_State_Space K) : K :=
  pow2 (1 / 2 * S.hcpmpm_reeds_shepp_.distance) - pow2 (2 * S.radius_)

/-- The `delta_x` of `TcTT_tangent_circles`. -/
def TcTT_delta_x (S : HCpmpm_Reeds_Shepp_State_Space K) (c1 : HC_CC_Circle K) : K :=
  (pow2 (2 / fabs c1.kappa) + pow2 S.hcpmpm_reeds_shepp_.distance - pow2 (2 * S.radius_)) /
    (2 * S.hcpmpm_reeds_shepp_.distance)

/-- The expression under `fabs` in the `delta_y` of `TcTT_tangent_circles`. -/
def TcTT_radicand (S : HCpmpm_Reeds_Shepp_State_Space K) (c1 : HC_CC_Circle K) : K :=
  pow2 (2 / fabs c1.kappa) - pow2 (TcTT_delta_x S c1)

/-- The circles `(tgt1, tgt2)` local to `TcTT_tangent_circles`. -/
def TcTT_tgt (E : Env K) (S : HCpmpm_Reeds_Shepp_State_Space K) (c1 : HC_CC_Circle K) :
    HC_CC_Circle K × HC_CC_Circle K :=
  let theta := S.hcpmpm_reeds_shepp_.angle
  let r1 := 2 / fabs c1.kappa
  let r2 := 2 * S.radius_
  let delta_x := (pow2 r1 + pow2 S.hcpmpm_reeds_shepp_.distance - pow2 r2) /
    (2 * S.hcpmpm_reeds_shepp_.distance)
  let delta_y := E.sqrt (fabs (pow2 r1 - pow2 delta_x))
  let p1 := E.global_frame_change c1.xc c1.yc theta delta_x delta_y
  let p2 := E.global_frame_change c1.xc c1.yc theta delta_x (-delta_y)
  (HC_CC_Circle.of_center E p1.1 p1.2 (!c1.left) (!c1.forward) c1.regular S.hc_cc_circle_param_,
   HC_CC_Circle.of_center E p2.1 p2.2 (!c1.left) (!c1.forward) c1.regular S.hc_cc_circle_param_)

/-- The `delta_x` of `TTcT_tangent_circles`. -/
def TTcT_delta_x (S : HCpmpm_Reeds_Shepp_State_Space K) (c1 : HC_CC_Circle K) : K :=
  (pow2 (2 * S.radius_) + pow2 S.hcpmpm_reeds_shepp_.distance - pow2 (2 / fabs c1.kappa)) /
    (2 * S.hcpmpm_reeds_shepp_.distance)

/-- The expression under `fabs` in the `delta_y` of `TTcT_tangent_circles`. -/
def TTcT_radicand (S : HCpmpm_Reeds_Shepp_State_Space K) (c1 : HC_CC_Circle K) : K :=
  pow2 (2 * S.radius_) - pow2 (TTcT_delta_x S c1)

/-- The circles `(tgt1, tgt2)` local to `TTcT_tangent_circles`. -/
def TTcT_tgt (E : Env K) (S : HCpmpm_Reeds_Shepp_State_Space K) (c1 : HC_CC_Circle K) :
    HC_CC_Circle K × HC_CC_Circle K :=
  let theta := S.hcpmpm_reeds_shepp_.angle
  let r1 := 2 * S.radius_
  let r2 := 2 / fabs c1.kappa
  let delta_x := (pow2 r1 + pow2 S.hcpmpm_reeds_shepp_.distance - pow2 r2) /
    (2 * S.hcpmpm_reeds_shepp_.distance)
  let delta_y := E.sqrt (fabs (pow2 r1 - pow2 delta_x))
  let p1 := E.global_frame_change c1.xc c1.yc theta delta_x delta_y
  let p2 := E.global_frame_change c1.xc c1.yc theta delta_x (-delta_y)
  (HC_CC_Circle.of_center E p1.1 p1.2 (!c1.left) c1.forward c1.regular S.hc_cc_circle_param_,
   HC_CC_Circle.of_center E p2.1 p2.2 (!c1.left) c1.forward c1.regular S.hc_cc_circle_param_)

/-- The `delta_x` of `TcTTcT_tangent_circles`. -/
def TcTTcT_delta_x (S : HCpmpm_Reeds_Shepp_State_Space K) (c1 : HC_CC_Circle K) : K :=
  (pow2 (2 / fabs c1.kappa) + pow2 (S.hcpmpm_reeds_shepp_.distance / 2) - pow2 S.radius_) /
    S.hcpmpm_reeds_shepp_.distance

/-- The expression under `fabs` in the `delta_y` of `TcTTcT_tangent_circles`. -/
def TcTTcT_radicand (S : HCpmpm_Reeds_Shepp_State_Space K) (c1 : HC_CC_Circle K) : K :=
  pow2 (2 / fabs c1.kappa) - pow2 (TcTTcT_delta_x S c1)

/-- The circles `(tgt1, tgt2, tgt3, tgt4)` local to `TcTTcT_tangent_circles`. -/
def TcTTcT_tgt (E : Env K) (S : HCpmpm_Reeds_Shepp_State_Space K) (c1 c2 : HC_CC_Circle K) :
    HC_CC_Circle K × HC_CC_Circle K × HC_CC_Circle K × HC_CC_Circle K :=
  let theta := S.hcpmpm_reeds_shepp_.angle
  let distance := S.hcpmpm_reeds_shepp_.distance
  let r1 := 2 / fabs c1.kappa
  let r2 := S.radius_
  let delta_x := (pow2 r1 + pow2 (distance / 2) - pow2 r2) / distance
  let delta_y := E.sqrt (fabs (pow2 r1 - pow2 delta_x))
  let p1 := E.global_frame_change c1.xc c1.yc theta delta_x delta_y
  let p2 := E.global_frame_change c2.xc c2.yc theta (-delta_x) (-delta_y)
  let p3 := E.global_frame_change c1.xc c1.yc theta delta_x (-delta_y)
  let p4 := E.global_frame_change c2.xc c2.yc theta (-delta_x) delta_y
  (HC_CC_Circle.of_center E p1.1 p1.2 (!c1.left) (!c1.forward) c1.regular S.hc_cc_circle_param_,
   HC_CC_Circle.of_center E p2.1 p2.2 (!c2.left) c2.forward c2.regular S.hc_cc_circle_param_,
   HC_CC_Circle.of_center E p3.1 p3.2 (!c1.left) (!c1.forward) c1.regular S.hc_cc_circle_param_,
   HC_CC_Circle.of_center E p4.1 p4.2 (!c2.left) c2.forward c2.regular S.hc_cc_circle_param_)

/-- The `delta_x` of `TTcTT_tangent_circles`, by its two branches. -/
def TTcTT_delta_x (S : HCpmpm_Reeds_Shepp_State_Space K) (c1 : HC_CC_Circle K) : K :=
  if S.hcpmpm_reeds_shepp_.distance < 4 * S.radius_ - 2 / fabs c1.kappa then
    (S.hcpmpm_reeds_shepp_.distance + 2 / fabs c1.kappa) / 2
  else
    (S.hcpmpm_reeds_shepp_.distance - 2 / fabs c1.kappa) / 2

/-- The expression under `fabs` in the `delta_y` of `TTcTT_tangent_circles`. -/
def TTcTT_radicand (S : HCpmpm_Reeds_Shepp_State_Space K) (c1 : HC_CC_Circle K) : K :=
  pow2 (2 * S.radius_) - pow2 (TTcTT_delta_x S c1)

/-- The circles `(tgt1, tgt2, tgt3, tgt4)` local to `TTcTT_tangent_circles`. -/
def TTcTT_tgt (E : Env K) (S : HCpmpm_Reeds_Shepp_State_Space K) (c1 c2 : HC_CC_Circle K) :
    HC_CC_Circle K × HC_CC_Circle K × HC_CC_Circle K × HC_CC_Circle K :=
  let theta := S.hcpmpm_reeds_shepp_.angle
  let distance := S.hcpmpm_reeds_shepp_.distance
  let r1 := 2 / fabs c1.kappa
  let r2 := 2 * S.radius_
  let delta : K × K :=
    if distance < 4 * S.radius_ - 2 / fabs c1.kappa then
      ((distance + r1) / 2, E.sqrt (fabs (pow2 r2 - pow2 ((distance + r1) / 2))))
    else
      ((distance - r1) / 2, E.sqrt (fabs (pow2 r2 - pow2 ((distance - r1) / 2))))
  let delta_x := delta.1
  let delta_y := delta.2
  let p1 := E.global_frame_change c1.xc c1.yc theta delta_x delta_y
  let p2 := E.global_frame_change c2.xc c2.yc theta (-delta_x) delta_y
  let p3 := E.global_frame_change c1.xc c1.yc theta delta_x (-delta_y)
  let p4 := E.global_frame_change c2.xc c2.yc theta (-delta_x) (-delta_y)
  (HC_CC_Circle.of_center E p1.1 p1.2 (!c1.left) c1.forward c1.regular S.hc_cc_circle_param_,
   HC_CC_Circle.of_center E p2.1 p2.2 (!c2.left) (!c2.forward) c2.regular S.hc_cc_circle_param_,
   HC_CC_Circle.of_center E p3.1 p3.2 (!c1.left) c1.forward c1.regular S.hc_cc_circle_param_,
   HC_CC_Circle.of_center E p4.1 p4.2 (!c2.left) (!c2.forward) c2.regular S.hc_cc_circle_param_)

end HCpmpm_Reeds_Shepp

/-- The circle with its centre at the local coordinates `(a, b)` of the frame at the centre of
`c`, as the tangent-circle constructions build it: `global_frame_change(c.xc, c.yc, theta, a,
b, &x, &y)` followed by `HC_CC_Circle tgt(x, y, left, forward, regular, param)`. -/
def HC_CC_Circle.offset (E : Env K) (c : HC_CC_Circle K) (theta a b : K)
    (left forward regular : Bool) (param : HC_CC_Circle_Param K) : HC_CC_Circle K :=
  HC_CC_Circle.of_center E (E.global_frame_change c.xc c.yc theta a b).1
    (E.global_frame_change c.xc c.yc theta a b).2 left forward regular param

/-! ## Rational instances for the tangent-circle constructions -/

/-- A state space with `kappa = 1` (rs radius 1) and the given hc/cc radius, `sin μ` and
`cos μ`. -/
def rational_space (radius sin_mu cos_mu : ℚ) : HCpmpm_Reeds_Shepp_State_Space ℚ :=
  { kappa_ := 1, sigma_ := 1, discretization_ := 1 / 10,
    hc_cc_circle_param_ :=
      { kappa := 1, sigma := 1, radius := radius, mu := 1 / 2, sin_mu := sin_mu,
        cos_mu := cos_mu, delta_min := 0 },
    rs_circle_param_ :=
      { kappa := 1, sigma := (2 ^ 53 - 1) * 2 ^ 971, radius := 1, mu := 0, sin_mu := 0,
        cos_mu := 1, delta_min := 0 },
    radius_ := radius, mu_ := 1 / 2, sin_mu_ := sin_mu, cos_mu_ := cos_mu,
    hcpmpm_reeds_shepp_ := { distance := 0, angle := 0 } }

/-- The endpoint circle `i` of the driver at the configuration `(x, y, 0, 0)`, in `exact_env`:
its centre is `(x, y + 1)` for a left circle (`i = 0, 2`) and `(x, y - 1)` for a right circle
(`i = 1, 3`) when the rs radius is 1. -/
def circle_at (S : HCpmpm_Reeds_Shepp_State_Space ℚ) (x y : ℚ) (i : Nat) : HC_CC_Circle ℚ :=
  endpoint_circle exact_env S { x := x, y := y, theta := 0, kappa := 0 } i

/-- The left/forward circle at the origin for hc/cc radius `4/3`: centre `(0, 1)`. -/
def close_left_start : HC_CC_Circle ℚ :=
  circle_at (rational_space (4 / 3) (3 / 5) (4 / 5)) 0 0 0

/-- The left/backward circle at `(16/5, 0)` for hc/cc radius `4/3`: centre `(16/5, 1)`. -/
def close_left_end : HC_CC_Circle ℚ :=
  circle_at (rational_space (4 / 3) (3 / 5) (4 / 5)) (16 / 5) 0 2

/-- The selector's state space for `close_left_start` and `close_left_end`: `d = 16/5`. -/
def close_left_space : HCpmpm_Reeds_Shepp_State_Space ℚ :=
  precompute exact_env (rational_space (4 / 3) (3 / 5) (4 / 5)) close_left_start close_left_end

/-- The left/forward circle at the origin for hc/cc radius `17/10`: centre `(0, 1)`. -/
def chord_start : HC_CC_Circle ℚ :=
  circle_at (rational_space (17 / 10) (3 / 5) (4 / 5)) 0 0 0

/-- The left/forward circle at `(21/5, 0)` for hc/cc radius `17/10`: centre `(21/5, 1)`. -/
def chord_end : HC_CC_Circle ℚ :=
  circle_at (rational_space (17 / 10) (3 / 5) (4 / 5)) (21 / 5) 0 0

/-- The selector's state space for `chord_start` and `chord_end`: `d = 21/5`. -/
def chord_space : HCpmpm_Reeds_Shepp_State_Space ℚ :=
  precompute exact_env (rational_space (17 / 10) (3 / 5) (4 / 5)) chord_start chord_end

/-- The right/forward circle at `(4, 2)` for hc/cc radius `17/10`: centre `(4, 1)`. -/
def gap_near_end : HC_CC_Circle ℚ :=
  circle_at (rational_space (17 / 10) (3 / 5) (4 / 5)) 4 2 1

/-- The selector's state space for `chord_start` and `gap_near_end`: `d = 4 < 4R - 2/k`. -/
def gap_near_space : HCpmpm_Reeds_Shepp_State_Space ℚ :=
  precompute exact_env (rational_space (17 / 10) (3 / 5) (4 / 5)) chord_start gap_near_end

/-- The right/forward circle at `(8, 2)` for hc/cc radius `17/10`: centre `(8, 1)`. -/
def gap_far_end : HC_CC_Circle ℚ :=
  circle_at (rational_space (17 / 10) (3 / 5) (4 / 5)) 8 2 1

/-- The selector's state space for `chord_start` and `gap_far_end`: `d = 8 ≥ 4R - 2/k`. -/
def gap_far_space : HCpmpm_Reeds_Shepp_State_Space ℚ :=
  precompute exact_env (rational_space (17 / 10) (3 / 5) (4 / 5)) chord_start gap_far_end

/-- The left/forward circle at the origin for hc/cc radius `17/5`: centre `(0, 1)`. -/
def span_start : HC_CC_Circle ℚ :=
  circle_at (rational_space (17 / 5) (3 / 5) (4 / 5)) 0 0 0

/-- The right/backward circle at `(42/5, 2)` for hc/cc radius `17/5`: centre `(42/5, 1)`. -/
def span_end : HC_CC_Circle ℚ :=
  circle_at (rational_space (17 / 5) (3 / 5) (4 / 5)) (42 / 5) 2 3

/-- The selector's state space for `span_start` and `span_end`: `d = 42/5`. -/
def span_space : HCpmpm_Reeds_Shepp_State_Space ℚ :=
  precompute exact_env (rational_space (17 / 5) (3 / 5) (4 / 5)) span_start span_end

/-- The left/forward circle at the origin for hc/cc radius `35/8`: centre `(0, 1)`. -/
def wide_start : HC_CC_Circle ℚ :=
  circle_at (rational_space (35 / 8) (3 / 5) (4 / 5)) 0 0 0

/-- The right/backward circle at `(17/4, 2)` for hc/cc radius `35/8`: centre `(17/4, 1)`. -/
def wide_end : HC_CC_Circle ℚ :=
  circle_at (rational_space (35 / 8) (3 / 5) (4 / 5)) (17 / 4) 2 3

/-- The selector's state space for `wide_start` and `wide_end`: `d = 17/4 < 2R - 4/k`. -/
def wide_space : HCpmpm_Reeds_Shepp_State_Space ℚ :=
  precompute exact_env (rational_space (35 / 8) (3 / 5) (4 / 5)) wide_start wide_end

/-- The left/forward circle at the origin for hc/cc radius `35/26`, `sin μ = 5/13`,
`cos μ = 12/13`: centre `(0, 1)`. -/
def slim_start : HC_CC_Circle ℚ :=
  circle_at (rational_space (35 / 26) (5 / 13) (12 / 13)) 0 0 0

/-- The right/backward circle at `(73/13, 2)` for hc/cc radius `35/26`: centre
`(73/13, 1)`. -/
def slim_end : HC_CC_Circle ℚ :=
  circle_at (rational_space (35 / 26) (5 / 13) (12 / 13)) (73 / 13) 2 3

/-- The selector's state space for `slim_start` and `slim_end`: `d = 73/13`, the bound of
`TcTiSTcT_exists`. -/
def slim_space : HCpmpm_Reeds_Shepp_State_Space ℚ :=
  precompute exact_env (rational_space (35 / 26) (5 / 13) (12 / 13)) slim_start slim_end

/-- The left/forward circle at `(4, 0)` for hc/cc radius `35/26`: centre `(4, 1)`. -/
def slim_ahead : HC_CC_Circle ℚ :=
  circle_at (rational_space (35 / 26) (5 / 13) (12 / 13)) 4 0 0

/-- The selector's state space for `slim_start` and `slim_ahead`: `d = 4`, above the bound
`51/13` of `TiSTcT_exists`. -/
def slim_ahead_space : HCpmpm_Reeds_Shepp_State_Space ℚ :=
  precompute exact_env (rational_space (35 / 26) (5 / 13) (12 / 13)) slim_start slim_ahead

/-! ## Sign of the curvature at the joins -/

/-- The curvature of `q` has the sign of the turning direction of `c`: positive on a left
circle, negative on a right circle. -/
def sign_matches (c : HC_CC_Circle K) (q : Configuration K) : Bool :=
  if c.left then decide (0 < q.kappa) else decide (q.kappa < 0)

/-- The curvature of `q` has the sign opposite to the turning direction of `c`: negative on a
left circle, positive on a right circle. -/
def sign_opposes (c : HC_CC_Circle K) (q : Configuration K) : Bool :=
  if c.left then decide (q.kappa < 0) else decide (0 < q.kappa)

/-- The schedule entry is a cc turn. -/
def Segment.is_cc : Segment → Bool
  | .cc _ _ _ => true
  | _ => false

/-- The turn entries of a schedule in order, each with the flag that its join configuration
is also the join configuration of an earlier turn entry (one of `seen`). -/
def turn_entries : List Conf_Slot → List Segment → List (Segment × Bool)
  | _, [] => []
  | seen, seg :: rest =>
    match seg.join with
    | some j => (seg, seen.contains j) :: turn_entries (j :: seen) rest
    | none => turn_entries seen rest

/-- The circle and the join configuration that a turn entry of a schedule denotes in a path
(none for a straight and for null pointers). -/
def HC_CC_RS_Path.turn_pair (p : HC_CC_RS_Path K) (seg : Segment) :
    Option (HC_CC_Circle K × Configuration K) :=
  (seg.circle.bind p.circle).bind fun c => (seg.join.bind p.conf).map fun q => (c, q)

/-- The left/forward endpoint circle of the toy instance at `state_left`: centre `(0, 1)`. -/
def cusp_start : HC_CC_Circle ℚ :=
  endpoint_circle toy_env toy_space state_left.configuration 0

/-- The right/forward endpoint circle of the toy instance at `state_cusp`: centre `(2, 1)`. -/
def cusp_end : HC_CC_Circle ℚ :=
  endpoint_circle toy_env toy_space state_cusp.configuration 1

/-! ## The straight segment of `TiST_path` -/

namespace HCpmpm_Reeds_Shepp

end HCpmpm_Reeds_Shepp

section array_index_min

variable (array : Nat → K)

theorem array_index_min_succ (n : Nat) :
    array_index_min array (n + 1) =
      if array n < array (array_index_min array n) then n else array_index_min array n := by
  simp [array_index_min, List.range_succ, List.foldl_append]

theorem array_index_min_spec (n : Nat) :
    array_index_min array (n + 1) < n + 1 ∧
    (∀ i, i < n + 1 → array (array_index_min array (n + 1)) ≤ array i) ∧
    (∀ j, j < array_index_min array (n + 1) →
      array (array_index_min array (n + 1)) < array j) := by
  induction n with
  | zero =>
    have h0 : array_index_min array (0 + 1) = 0 := by
      simp [array_index_min, List.range_succ]
    rw [h0]
    refine ⟨by omega, ?_, ?_⟩
    · intro i hi
      have : i = 0 := by omega
      subst this
      exact le_refl _
    · intro j hj
      omega
  | succ n ih =>
    obtain ⟨hlt, hle, hfirst⟩ := ih
    rw [array_index_min_succ array (n + 1)]
    by_cases h : array (n + 1) < array (array_index_min array (n + 1))
    · rw [if_pos h]
      refine ⟨by omega, ?_, ?_⟩
      · intro i hi
        rcases Nat.lt_succ_iff_lt_or_eq.mp hi with hi | hi
        · exact le_trans (le_of_lt h) (hle i hi)
        · subst hi
          exact le_refl _
      · intro j hj
        exact lt_of_lt_of_le h (hle j hj)
    · rw [if_neg h]
      refine ⟨by omega, ?_, hfirst⟩
      intro i hi
      rcases Nat.lt_succ_iff_lt_or_eq.mp hi with hi | hi
      · exact hle i hi
      · subst hi
        exact not_lt.mp h

theorem array_index_min_lt {n : Nat} (hn : 0 < n) : array_index_min array n < n := by
  obtain ⟨m, rfl⟩ := Nat.exists_eq_succ_of_ne_zero (Nat.pos_iff_ne_zero.mp hn)
  exact (array_index_min_spec array m).1

theorem array_index_min_le {n i : Nat} (hi : i < n) :
    array (array_index_min array n) ≤ array i := by
  obtain ⟨m, rfl⟩ := Nat.exists_eq_succ_of_ne_zero (Nat.pos_iff_ne_zero.mp (by omega : 0 < n))
  exact (array_index_min_spec array m).2.1 i hi

theorem array_index_min_first {n j : Nat} (hj : j < array_index_min array n) :
    array (array_index_min array n) < array j := by
  rcases Nat.eq_zero_or_pos n with h0 | hn
  · subst h0
    simp [array_index_min] at hj
  · obtain ⟨m, rfl⟩ := Nat.exists_eq_succ_of_ne_zero (Nat.pos_iff_ne_zero.mp hn)
    exact (array_index_min_spec array m).2.2 j hj

end array_index_min

/-! ## Feasibility predicates against the family table -/

section predicates

open HCpmpm_Reeds_Shepp

variable (E : Env K) (S : HCpmpm_Reeds_Shepp_State_Space K) (c1 c2 : HC_CC_Circle K)

/-- C8: with `d` the cached centre distance, `R` the hc/cc radius and `eps = get_epsilon()`,
`TT_exists` holds iff the circles have opposite `left`, opposite `forward` and
`|d - 2R| < eps`; `TcT_exists` holds iff they have opposite `left`, equal `forward` and
`|d - |2/c1.kappa|| < eps`. -/
theorem TT_TcT_exists_iff :
    (TT_exists E S c1 c2 = true ↔
      c1.left ≠ c2.left ∧ c1.forward ≠ c2.forward ∧
        |S.hcpmpm_reeds_shepp_.distance - 2 * S.radius_| < E.get_epsilon) ∧
    (TcT_exists E S c1 c2 = true ↔
      c1.left ≠ c2.left ∧ c1.forward = c2.forward ∧
        |S.hcpmpm_reeds_shepp_.distance - abs (2 / c1.kappa)| < E.get_epsilon) := by
  constructor
  · unfold TT_exists fabs
    by_cases hl : c1.left = c2.left <;> by_cases hf : c1.forward = c2.forward <;> simp [hl, hf]
  · unfold TcT_exists fabs
    by_cases hl : c1.left = c2.left <;> by_cases hf : c1.forward = c2.forward <;> simp [hl, hf]

/-- C9: with `k = |c1.kappa|`, the turn-only predicates hold exactly as tabulated:
`TcTcT` iff same `left`, opposite `forward`, `d ≤ 4/k`; `TcTT` and `TTcT` iff same `left`, same
`forward`, `2R - 2/k ≤ d ≤ 2R + 2/k`; `TTT` iff same `left`, opposite `forward`, `d ≤ 4R`;
`TTcTT` iff opposite `left`, same `forward`, `d ≤ 4R + 2/k`; `TcTTcT` iff opposite `left`,
opposite `forward`, `4/k - 2R ≤ d ≤ 4/k + 2R`. -/
theorem turn_only_exists_iff :
    (TcTcT_exists S c1 c2 = true ↔
      c1.left = c2.left ∧ c1.forward ≠ c2.forward ∧
        S.hcpmpm_reeds_shepp_.distance ≤ 4 / |c1.kappa|) ∧
    (TcTT_exists S c1 c2 = true ↔
      c1.left = c2.left ∧ c1.forward = c2.forward ∧
        2 * S.radius_ - 2 / |c1.kappa| ≤ S.hcpmpm_reeds_shepp_.distance ∧
        S.hcpmpm_reeds_shepp_.distance ≤ 2 * S.radius_ + 2 / |c1.kappa|) ∧
    (TTcT_exists S c1 c2 = true ↔
      c1.left = c2.left ∧ c1.forward = c2.forward ∧
        2 * S.radius_ - 2 / |c1.kappa| ≤ S.hcpmpm_reeds_shepp_.distance ∧
        S.hcpmpm_reeds_shepp_.distance ≤ 2 * S.radius_ + 2 / |c1.kappa|) ∧
    (TTT_exists S c1 c2 = true ↔
      c1.left = c2.left ∧ c1.forward ≠ c2.forward ∧
        S.hcpmpm_reeds_shepp_.distance ≤ 4 * S.radius_) ∧
    (TTcTT_exists S c1 c2 = true ↔
      c1.left ≠ c2.left ∧ c1.forward = c2.forward ∧
        S.hcpmpm_reeds_shepp_.distance ≤ 4 * S.radius_ + 2 / |c1.kappa|) ∧
    (TcTTcT_exists S c1 c2 = true ↔
      c1.left ≠ c2.left ∧ c1.forward ≠ c2.forward ∧
        4 / |c1.kappa| - 2 * S.radius_ ≤ S.hcpmpm_reeds_shepp_.distance ∧
        S.hcpmpm_reeds_shepp_.distance ≤ 4 / |c1.kappa| + 2 * S.radius_) := by
  have h4 : |4 / c1.kappa| = 4 / |c1.kappa| := by
    rw [abs_div, abs_of_pos (by norm_num : (0 : K) < 4)]
  refine ⟨?_, ?_, ?_, ?_, ?_, ?_⟩
  · unfold TcTcT_exists fabs
    by_cases hl : c1.left = c2.left <;> by_cases hf : c1.forward = c2.forward <;>
      simp [hl, hf, h4]
  · unfold TcTT_exists fabs
    by_cases hl : c1.left = c2.left <;> by_cases hf : c1.forward = c2.forward <;>
      simp [hl, hf, and_comm]
  · unfold TTcT_exists fabs
    by_cases hl : c1.left = c2.left <;> by_cases hf : c1.forward = c2.forward <;>
      simp [hl, hf, and_comm]
  · unfold TTT_exists
    by_cases hl : c1.left = c2.left <;> by_cases hf : c1.forward = c2.forward <;> simp [hl, hf]
  · unfold TTcTT_exists fabs
    by_cases hl : c1.left = c2.left <;> by_cases hf : c1.forward = c2.forward <;> simp [hl, hf]
  · unfold TcTTcT_exists fabs
    by_cases hl : c1.left = c2.left <;> by_cases hf : c1.forward = c2.forward <;>
      simp [hl, hf, and_comm]

/-- C10: with `k = |c1.kappa|`, the predicates of the families whose straight lies between hc
turns hold exactly as tabulated: `TiST` iff opposite `left`, opposite `forward`, `d ≥ 2R`;
`TeST` iff same `left`, opposite `forward`, `d ≥ 2R sin μ`; `TiSTcT` and `TcTiST` iff same
`left`, same `forward`, `d ≥ sqrt((2R sin μ + 2/k)² + (2R cos μ)²)`; `TeSTcT` and `TcTeST` iff
opposite `left`, same `forward`, `d ≥ 2/k + 2R sin μ`; `TcTiSTcT` iff opposite `left`, opposite
`forward`, `d ≥ sqrt(4R² + 16R sin μ/k + 16/k²)`; `TcTeSTcT` iff same `left`, opposite
`forward`, `d ≥ 4/k + 2R sin μ`. -/
theorem straight_between_hc_exists_iff :
    (TiST_exists S c1 c2 = true ↔
      c1.left ≠ c2.left ∧ c1.forward ≠ c2.forward ∧
        S.hcpmpm_reeds_shepp_.distance ≥ 2 * S.radius_) ∧
    (TeST_exists S c1 c2 = true ↔
      c1.left = c2.left ∧ c1.forward ≠ c2.forward ∧
        S.hcpmpm_reeds_shepp_.distance ≥ 2 * S.radius_ * S.sin_mu_) ∧
    (TiSTcT_exists E S c1 c2 = true ↔
      c1.left = c2.left ∧ c1.forward = c2.forward ∧
        S.hcpmpm_reeds_shepp_.distance ≥
          E.sqrt ((2 * S.radius_ * S.sin_mu_ + 2 / |c1.kappa|) ^ 2 +
            (2 * S.radius_ * S.cos_mu_) ^ 2)) ∧
    (TcTiST_exists E S c1 c2 = true ↔
      c1.left = c2.left ∧ c1.forward = c2.forward ∧
        S.hcpmpm_reeds_shepp_.distance ≥
          E.sqrt ((2 * S.radius_ * S.sin_mu_ + 2 / |c1.kappa|) ^ 2 +
            (2 * S.radius_ * S.cos_mu_) ^ 2)) ∧
    (TeSTcT_exists S c1 c2 = true ↔
      c1.left ≠ c2.left ∧ c1.forward = c2.forward ∧
        S.hcpmpm_reeds_shepp_.distance ≥ 2 / |c1.kappa| + 2 * S.radius_ * S.sin_mu_) ∧
    (TcTeST_exists S c1 c2 = true ↔
      c1.left ≠ c2.left ∧ c1.forward = c2.forward ∧
        S.hcpmpm_reeds_shepp_.distance ≥ 2 / |c1.kappa| + 2 * S.radius_ * S.sin_mu_) ∧
    (TcTiSTcT_exists E S c1 c2 = true ↔
      c1.left ≠ c2.left ∧ c1.forward ≠ c2.forward ∧
        S.hcpmpm_reeds_shepp_.distance ≥
          E.sqrt (4 * S.radius_ ^ 2 + 16 * S.radius_ * S.sin_mu_ / |c1.kappa| +
            16 / |c1.kappa| ^ 2)) ∧
    (TcTeSTcT_exists S c1 c2 = true ↔
      c1.left = c2.left ∧ c1.forward ≠ c2.forward ∧
        S.hcpmpm_reeds_shepp_.distance ≥ 4 / |c1.kappa| + 2 * S.radius_ * S.sin_mu_) := by
  have hsum : 2 * (1 / |c1.kappa| + S.radius_ * S.sin_mu_) =
      2 / |c1.kappa| + 2 * S.radius_ * S.sin_mu_ := by ring
  have hrad : pow2 (2 * S.radius_) + 16 * S.radius_ * S.sin_mu_ / fabs c1.kappa +
      pow2 (4 / c1.kappa) =
      4 * S.radius_ ^ 2 + 16 * S.radius_ * S.sin_mu_ / |c1.kappa| + 16 / |c1.kappa| ^ 2 := by
    unfold pow2 fabs
    rw [sq_abs, div_pow]
    ring
  refine ⟨?_, ?_, ?_, ?_, ?_, ?_, ?_, ?_⟩
  · unfold TiST_exists
    by_cases hl : c1.left = c2.left <;> by_cases hf : c1.forward = c2.forward <;> simp [hl, hf]
  · unfold TeST_exists
    by_cases hl : c1.left = c2.left <;> by_cases hf : c1.forward = c2.forward <;> simp [hl, hf]
  · unfold TiSTcT_exists pow2 fabs
    by_cases hl : c1.left = c2.left <;> by_cases hf : c1.forward = c2.forward <;> simp [hl, hf]
  · unfold TcTiST_exists pow2 fabs
    by_cases hl : c1.left = c2.left <;> by_cases hf : c1.forward = c2.forward <;> simp [hl, hf]
  · unfold TeSTcT_exists fabs
    rw [hsum]
    by_cases hl : c1.left = c2.left <;> by_cases hf : c1.forward = c2.forward <;> simp [hl, hf]
  · unfold TcTeST_exists fabs
    rw [hsum]
    by_cases hl : c1.left = c2.left <;> by_cases hf : c1.forward = c2.forward <;> simp [hl, hf]
  · unfold TcTiSTcT_exists
    rw [hrad]
    by_cases hl : c1.left = c2.left <;> by_cases hf : c1.forward = c2.forward <;> simp [hl, hf]
  · unfold TcTeSTcT_exists fabs
    by_cases hl : c1.left = c2.left <;> by_cases hf : c1.forward = c2.forward <;> simp [hl, hf]

end predicates

/-! ## Control schedule -/

section schedule

variable (E : Env K) (S : HCpmpm_Reeds_Shepp_State_Space K) (c1 c2 : HC_CC_Circle K)

open HCpmpm_Reeds_Shepp

omit [LinearOrderedField K] in
/-- The `switch` of `get_controls` runs the schedule of the path's family. -/
theorem path_controls_run_schedule {σ : Type} (em : Emitters K σ) (p : HC_CC_RS_Path K)
    (v : σ) :
    path_controls em p v =
      run_schedule em p (schedule p.type)
        (if p.type = hc_cc_rs_path_type.EMPTY then em.empty_controls v else v) := by
  obtain ⟨start, end_, type, kappa, sigma, qi1, qi2, qi3, qi4, cstart, cend, ci1, ci2, length⟩ := p
  cases type <;> (try exact rfl) <;>
    (cases cstart <;> try exact rfl) <;> (cases qi1 <;> try exact rfl) <;>
    (cases ci1 <;> try exact rfl) <;> (cases qi2 <;> try exact rfl) <;>
    (cases qi3 <;> try exact rfl) <;> (cases ci2 <;> try exact rfl) <;>
    (cases qi4 <;> try exact rfl) <;> (cases cend <;> try exact rfl)

omit [LinearOrderedField K] in
/-- C6: for a path of each family tag, the `switch` of `get_controls` calls the segment
emitters exactly in the order of the schedule table, each on the listed circle and join
configuration (for `EMPTY` no segment emitter is called; the control vector is the one
`empty_controls` returns). -/
theorem path_controls_eq_schedule {σ : Type} (em : Emitters K σ) (p : HC_CC_RS_Path K) (v : σ) :
    path_controls em p v =
      run_schedule em p (schedule p.type)
        (if p.type = hc_cc_rs_path_type.EMPTY then em.empty_controls v else v) :=
  path_controls_run_schedule em p v

theorem hc_straight_hc_length (X : hc_cc_rs_path_type) (q2 q3 : Configuration K)
    (hX : schedule X = [.hc .cstart .qi1 false, .straight .qi2 .qi3, .hc .cend .qi4 true]) :
    schedule_length E (path_of_row S c1 c2 X (hc_straight_hc E S c1 c2 q2 q3)) (schedule X) =
      some (hc_straight_hc E S c1 c2 q2 q3).length := by
  rw [hX]
  simp [schedule_length, segment_length, path_of_row, HC_CC_RS_Path.circle, HC_CC_RS_Path.conf,
    hc_straight_hc, Decomposition.init, add_assoc]

theorem rs_straight_rs_length (q1 q2 : Configuration K) :
    schedule_length E (path_of_row S c1 c2 .TcScT (rs_straight_rs E c1 c2 q1 q2))
        (schedule .TcScT) =
      some (rs_straight_rs E c1 c2 q1 q2).length := by
  simp [schedule, schedule_length, segment_length, path_of_row, HC_CC_RS_Path.circle,
    HC_CC_RS_Path.conf, rs_straight_rs, Decomposition.init, add_assoc]

theorem routine_length_eq_schedule_length (r : Build_Routine) :
    schedule_length E (path_of_row S c1 c2 r.family (r.run E S c1 c2)) (schedule r.family) =
      some (r.run E S c1 c2).length := by
  cases r
  case TT =>
    simp [Build_Routine.run, Build_Routine.family, TT_path, schedule, schedule_length,
      segment_length, path_of_row, HC_CC_RS_Path.circle, HC_CC_RS_Path.conf, Decomposition.init]
  case TcT =>
    simp [Build_Routine.run, Build_Routine.family, TcT_path, schedule, schedule_length,
      segment_length, path_of_row, HC_CC_RS_Path.circle, HC_CC_RS_Path.conf, Decomposition.init]
  case TcTcT =>
    simp only [Build_Routine.run, Build_Routine.family, TcTcT_path]
    split_ifs <;>
      simp [schedule, schedule_length, segment_length, path_of_row,
        HC_CC_RS_Path.circle, HC_CC_RS_Path.conf, Decomposition.init, add_assoc]
  case TcTT =>
    simp only [Build_Routine.run, Build_Routine.family, TcTT_path]
    split_ifs <;>
      simp [schedule, schedule_length, segment_length, path_of_row,
        HC_CC_RS_Path.circle, HC_CC_RS_Path.conf, Decomposition.init, add_assoc]
  case TTcT =>
    simp only [Build_Routine.run, Build_Routine.family, TTcT_path]
    split_ifs <;>
      simp [schedule, schedule_length, segment_length, path_of_row,
        HC_CC_RS_Path.circle, HC_CC_RS_Path.conf, Decomposition.init, add_assoc]
  case TiST =>
    simp only [Build_Routine.run, Build_Routine.family, TiST_path, if_true]
    exact hc_straight_hc_length E S c1 c2 .TST _ _ rfl
  case TeST =>
    simp only [Build_Routine.run, Build_Routine.family, TeST_path, if_true]
    exact hc_straight_hc_length E S c1 c2 .TST _ _ rfl
  case TiSTcT =>
    simp [Build_Routine.run, Build_Routine.family, TiSTcT_path, schedule, schedule_length,
      segment_length, path_of_row, HC_CC_RS_Path.circle, HC_CC_RS_Path.conf,
      Decomposition.init, add_assoc]
  case TeSTcT =>
    simp [Build_Routine.run, Build_Routine.family, TeSTcT_path, schedule, schedule_length,
      segment_length, path_of_row, HC_CC_RS_Path.circle, HC_CC_RS_Path.conf,
      Decomposition.init, add_assoc]
  case TcTiST =>
    simp [Build_Routine.run, Build_Routine.family, TcTiST_path, schedule, schedule_length,
      segment_length, path_of_row, HC_CC_RS_Path.circle, HC_CC_RS_Path.conf,
      Decomposition.init, add_assoc]
  case TcTeST =>
    simp [Build_Routine.run, Build_Routine.family, TcTeST_path, schedule, schedule_length,
      segment_length, path_of_row, HC_CC_RS_Path.circle, HC_CC_RS_Path.conf,
      Decomposition.init, add_assoc]
  case TcTiSTcT =>
    simp [Build_Routine.run, Build_Routine.family, TcTiSTcT_path, schedule, schedule_length,
      segment_length, path_of_row, HC_CC_RS_Path.circle, HC_CC_RS_Path.conf,
      Decomposition.init, add_assoc]
  case TcTeSTcT =>
    simp [Build_Routine.run, Build_Routine.family, TcTeSTcT_path, schedule, schedule_length,
      segment_length, path_of_row, HC_CC_RS_Path.circle, HC_CC_RS_Path.conf,
      Decomposition.init, add_assoc]
  case TTcTT =>
    simp only [Build_Routine.run, Build_Routine.family, TTcTT_path]
    split_ifs <;>
      simp [schedule, schedule_length, segment_length, path_of_row,
        HC_CC_RS_Path.circle, HC_CC_RS_Path.conf, Decomposition.init, add_assoc]
  case TcTTcT =>
    simp only [Build_Routine.run, Build_Routine.family, TcTTcT_path]
    split_ifs <;>
      simp [schedule, schedule_length, segment_length, path_of_row,
        HC_CC_RS_Path.circle, HC_CC_RS_Path.conf, Decomposition.init, add_assoc]
  case TTT =>
    simp only [Build_Routine.run, Build_Routine.family, TTT_path]
    split_ifs <;>
      simp [schedule, schedule_length, segment_length, path_of_row,
        HC_CC_RS_Path.circle, HC_CC_RS_Path.conf, Decomposition.init, add_assoc]
  case TciST =>
    simp only [Build_Routine.run, Build_Routine.family, TciST_path]
    exact hc_straight_hc_length E S c1 c2 .TcST _ _ rfl
  case TceST =>
    simp only [Build_Routine.run, Build_Routine.family, TceST_path]
    exact hc_straight_hc_length E S c1 c2 .TcST _ _ rfl
  case TiScT =>
    simp only [Build_Routine.run, Build_Routine.family, TiScT_path]
    exact hc_straight_hc_length E S c1 c2 .TScT _ _ rfl
  case TeScT =>
    simp only [Build_Routine.run, Build_Routine.family, TeScT_path]
    exact hc_straight_hc_length E S c1 c2 .TScT _ _ rfl
  case TciScT =>
    simp only [Build_Routine.run, Build_Routine.family, TciScT_path]
    exact rs_straight_rs_length E S c1 c2 _ _
  case TceScT =>
    simp only [Build_Routine.run, Build_Routine.family, TceScT_path]
    exact rs_straight_rs_length E S c1 c2 _ _

theorem family_path_eq_routine (X : hc_cc_rs_path_type)
    (h : family_exists E S c1 c2 X = true) :
    ∃ r : Build_Routine, r.family = X ∧ family_path E S c1 c2 X = r.run E S c1 c2 := by
  cases X
  case EMPTY => simp [family_exists] at h
  case T => simp [family_exists] at h
  case TT => exact ⟨.TT, rfl, rfl⟩
  case TcT => exact ⟨.TcT, rfl, rfl⟩
  case TcTcT => exact ⟨.TcTcT, rfl, rfl⟩
  case TcTT => exact ⟨.TcTT, rfl, rfl⟩
  case TTcT => exact ⟨.TTcT, rfl, rfl⟩
  case TTcTT => exact ⟨.TTcTT, rfl, rfl⟩
  case TcTTcT => exact ⟨.TcTTcT, rfl, rfl⟩
  case TTT => exact ⟨.TTT, rfl, rfl⟩
  case TST =>
    simp only [family_exists, TST_exists, Bool.or_eq_true] at h
    by_cases hi : TiST_exists S c1 c2 = true
    · exact ⟨.TiST, rfl, by simp [family_path, TST_path, hi, Build_Routine.run]⟩
    · have he : TeST_exists S c1 c2 = true := by tauto
      exact ⟨.TeST, rfl, by simp [family_path, TST_path, hi, he, Build_Routine.run]⟩
  case TSTcT =>
    simp only [family_exists, TSTcT_exists, Bool.or_eq_true] at h
    by_cases hi : TiSTcT_exists E S c1 c2 = true
    · exact ⟨.TiSTcT, rfl, by simp [family_path, TSTcT_path, hi, Build_Routine.run]⟩
    · have he : TeSTcT_exists S c1 c2 = true := by tauto
      exact ⟨.TeSTcT, rfl, by simp [family_path, TSTcT_path, hi, he, Build_Routine.run]⟩
  case TcTST =>
    simp only [family_exists, TcTST_exists, Bool.or_eq_true] at h
    by_cases hi : TcTiST_exists E S c1 c2 = true
    · exact ⟨.TcTiST, rfl, by simp [family_path, TcTST_path, hi, Build_Routine.run]⟩
    · have he : TcTeST_exists S c1 c2 = true := by tauto
      exact ⟨.TcTeST, rfl, by simp [family_path, TcTST_path, hi, he, Build_Routine.run]⟩
  case TcTSTcT =>
    simp only [family_exists, TcTSTcT_exists, Bool.or_eq_true] at h
    by_cases hi : TcTiSTcT_exists E S c1 c2 = true
    · exact ⟨.TcTiSTcT, rfl, by simp [family_path, TcTSTcT_path, hi, Build_Routine.run]⟩
    · have he : TcTeSTcT_exists S c1 c2 = true := by tauto
      exact ⟨.TcTeSTcT, rfl, by simp [family_path, TcTSTcT_path, hi, he, Build_Routine.run]⟩
  case TcST =>
    simp only [family_exists, TcST_exists, Bool.or_eq_true] at h
    by_cases hi : TciST_exists S c1 c2 = true
    · exact ⟨.TciST, rfl, by simp [family_path, TcST_path, hi, Build_Routine.run]⟩
    · have he : TceST_exists E S c1 c2 = true := by tauto
      exact ⟨.TceST, rfl, by simp [family_path, TcST_path, hi, he, Build_Routine.run]⟩
  case TScT =>
    simp only [family_exists, TScT_exists, Bool.or_eq_true] at h
    by_cases hi : TiScT_exists S c1 c2 = true
    · exact ⟨.TiScT, rfl, by simp [family_path, TScT_path, hi, Build_Routine.run]⟩
    · have he : TeScT_exists E S c1 c2 = true := by tauto
      exact ⟨.TeScT, rfl, by simp [family_path, TScT_path, hi, he, Build_Routine.run]⟩
  case TcScT =>
    simp only [family_exists, TcScT_exists, Bool.or_eq_true] at h
    by_cases hi : TciScT_exists S c1 c2 = true
    · exact ⟨.TciScT, rfl, by simp [family_path, TcScT_path, hi, Build_Routine.run]⟩
    · have he : TceScT_exists E S c1 c2 = true := by tauto
      exact ⟨.TceScT, rfl, by simp [family_path, TcScT_path, hi, he, Build_Routine.run]⟩

/-- C7: for every build routine of the family catalog, the length it returns equals the sum,
over the segments of its family's control schedule, of the matching length query on the same
circle and join configuration of the decomposition the routine stored (`rs_turn_length`,
`hc_turn_length`, `cc_turn_length`), plus `configuration_distance` between the two
configurations of each straight segment; the same holds for the routine the selector calls
for a family whose predicate holds. -/
theorem build_length_eq_schedule_length :
    (∀ r : Build_Routine,
      schedule_length E (path_of_row S c1 c2 r.family (r.run E S c1 c2)) (schedule r.family) =
        some (r.run E S c1 c2).length) ∧
    (∀ X, family_exists E S c1 c2 X = true →
      schedule_length E (path_of_row S c1 c2 X (family_path E S c1 c2 X)) (schedule X) =
        some (family_path E S c1 c2 X).length) := by
  refine ⟨routine_length_eq_schedule_length E S c1 c2, ?_⟩
  intro X h
  obtain ⟨r, hr, hp⟩ := family_path_eq_routine E S c1 c2 X h
  rw [hp, ← hr]
  exact routine_length_eq_schedule_length E S c1 c2 r

end schedule

/-! ## Selector -/

section selector

variable (E : Env K) (S : HCpmpm_Reeds_Shepp_State_Space K) (c1 c2 : HC_CC_Circle K)

theorem index_of_index {i : Nat} (hi : i < nb_hc_cc_rs_paths) :
    (hc_cc_rs_path_type.of_index i).index = i := by
  unfold nb_hc_cc_rs_paths at hi
  interval_cases i <;> rfl

theorem of_index_index (X : hc_cc_rs_path_type) : hc_cc_rs_path_type.of_index X.index = X := by
  cases X <;> rfl

theorem index_lt (X : hc_cc_rs_path_type) : X.index < nb_hc_cc_rs_paths := by
  cases X <;> simp [hc_cc_rs_path_type.index, nb_hc_cc_rs_paths]

theorem index_injective {X Y : hc_cc_rs_path_type} (h : X.index = Y.index) : X = Y := by
  rw [← of_index_index X, ← of_index_index Y, h]

omit [LinearOrderedField K] in
theorem store_if_same (b : Bool) (X : hc_cc_rs_path_type) (row : Decomposition K)
    (table : Nat → Decomposition K) :
    store_if b X row table X.index = if b then row else table X.index := by
  unfold store_if
  cases b <;> simp

omit [LinearOrderedField K] in
theorem store_if_other (b : Bool) (X Y : hc_cc_rs_path_type) (row : Decomposition K)
    (table : Nat → Decomposition K) (h : Y ≠ X) :
    store_if b X row table Y.index = table Y.index := by
  unfold store_if
  have hne : Y.index ≠ X.index := fun hxy => h (index_injective hxy)
  cases b <;> simp [Function.update, hne]

theorem family_cases_at (table : Nat → Decomposition K) (X : hc_cc_rs_path_type) :
    family_cases E S c1 c2 table X.index =
      if family_exists E S c1 c2 X then family_path E S c1 c2 X else table X.index := by
  unfold family_cases
  cases X <;>
    simp [store_if_same, store_if_other, family_exists, family_path]

theorem hcpmpm_circles_rs_path_fst :
    (hcpmpm_circles_rs_path E S c1 c2).1 =
      path_of_row (precompute E S c1 c2) c1 c2
        (hc_cc_rs_path_type.of_index (array_index_min
          (fun i => (selector_table E (precompute E S c1 c2) c1 c2 i).length)
          nb_hc_cc_rs_paths))
        (selector_table E (precompute E S c1 c2) c1 c2
          (hc_cc_rs_path_type.of_index (array_index_min
            (fun i => (selector_table E (precompute E S c1 c2) c1 c2 i).length)
            nb_hc_cc_rs_paths)).index) := rfl

/-- The selector on identical start configurations: family `EMPTY`, length 0, no circle and no
join configuration. -/
theorem hcpmpm_circles_rs_path_EMPTY
    (heq : E.configuration_equal c1.start c2.start = true) :
    (hcpmpm_circles_rs_path E S c1 c2).1 =
      path_of_row S c1 c2 .EMPTY { Decomposition.init E with length := 0 } := by
  have htable : ∀ i, (selector_table E (precompute E S c1 c2) c1 c2 i).length =
      if i = 0 then 0 else E.dbl_max := by
    intro i
    by_cases hi : i = 0 <;>
      simp [selector_table, heq, hi, hc_cc_rs_path_type.index, Function.update,
        Decomposition.init]
  have hbest : array_index_min
      (fun i => (selector_table E (precompute E S c1 c2) c1 c2 i).length)
      nb_hc_cc_rs_paths = 0 := by
    by_contra hne
    have h := array_index_min_first
      (fun i => (selector_table E (precompute E S c1 c2) c1 c2 i).length)
      (Nat.pos_of_ne_zero hne)
    have h0 := htable 0
    have hb := htable (array_index_min
      (fun i => (selector_table E (precompute E S c1 c2) c1 c2 i).length) nb_hc_cc_rs_paths)
    rw [if_pos rfl] at h0
    rw [if_neg hne] at hb
    simp only [] at h
    rw [h0, hb] at h
    exact absurd E.dbl_max_pos (not_lt.mpr (le_of_lt h))
  rw [hcpmpm_circles_rs_path_fst, hbest]
  simp [selector_table, heq, hc_cc_rs_path_type.of_index, hc_cc_rs_path_type.index,
    path_of_row, precompute]

/-- C5: when `c1.start` differs from `c2.start` and `c2.start` lies on `c1`, the selector
returns family `T` with `cstart` the circle built from `c1.start` with `c1`'s `left` and
`forward` flags, `regular = false` and the rs parameters, no other circle or join
configuration, and length `cstart.rs_turn_length(c2.start)` (a length below the
`numeric_limits<double>::max()` sentinel); the result does not involve any family predicate
or build routine. -/
theorem hcpmpm_circles_rs_path_T
    (hne : E.configuration_equal c1.start c2.start = false)
    (hon : E.configuration_on_hc_cc_circle c1 c2.start = true)
    (hfin : E.rs_turn_length
      (HC_CC_Circle.of_start E c1.start c1.left c1.forward false S.rs_circle_param_) c2.start <
        E.dbl_max) :
    (hcpmpm_circles_rs_path E S c1 c2).1 =
      { start := c1.start, end_ := c2.start, type := hc_cc_rs_path_type.T,
        kappa := S.kappa_, sigma := S.sigma_,
        qi1 := none, qi2 := none, qi3 := none, qi4 := none,
        cstart := some
          (HC_CC_Circle.of_start E c1.start c1.left c1.forward false S.rs_circle_param_),
        cend := none, ci1 := none, ci2 := none,
        length := E.rs_turn_length
          (HC_CC_Circle.of_start E c1.start c1.left c1.forward false S.rs_circle_param_)
          c2.start } := by
  have htable : ∀ i, (selector_table E (precompute E S c1 c2) c1 c2 i).length =
      if i = 1 then E.rs_turn_length
        (HC_CC_Circle.of_start E c1.start c1.left c1.forward false S.rs_circle_param_) c2.start
      else E.dbl_max := by
    intro i
    by_cases hi : i = 1 <;>
      simp [selector_table, hne, hon, hi, hc_cc_rs_path_type.index, Function.update,
        Decomposition.init, precompute]
  have hbest : array_index_min
      (fun i => (selector_table E (precompute E S c1 c2) c1 c2 i).length)
      nb_hc_cc_rs_paths = 1 := by
    by_contra hb
    have hle := array_index_min_le
      (fun i => (selector_table E (precompute E S c1 c2) c1 c2 i).length)
      (show 1 < nb_hc_cc_rs_paths by decide)
    have h1 := htable 1
    have hbest := htable (array_index_min
      (fun i => (selector_table E (precompute E S c1 c2) c1 c2 i).length) nb_hc_cc_rs_paths)
    rw [if_pos rfl] at h1
    rw [if_neg hb] at hbest
    simp only [] at hle
    rw [h1, hbest] at hle
    exact absurd hfin (not_lt.mpr hle)
  rw [hcpmpm_circles_rs_path_fst, hbest]
  simp [selector_table, hne, hon, hc_cc_rs_path_type.of_index, hc_cc_rs_path_type.index,
    path_of_row, precompute, Decomposition.init]

/-- C1: when neither early return applies and some family whose predicate holds has a build
length below the `numeric_limits<double>::max()` sentinel, the selector returns a path whose
family tag is a family whose predicate holds, whose length is that family's build length and
is minimal among the build lengths of all families whose predicate holds, and whose circles
and join configurations are exactly the ones that family's build routine produced. -/
theorem hcpmpm_circles_rs_path_min
    (hne : E.configuration_equal c1.start c2.start = false)
    (hoff : E.configuration_on_hc_cc_circle c1 c2.start = false)
    (hfin : ∃ Y, family_exists E (precompute E S c1 c2) c1 c2 Y = true ∧
      (family_path E (precompute E S c1 c2) c1 c2 Y).length < E.dbl_max) :
    family_exists E (precompute E S c1 c2) c1 c2 (hcpmpm_circles_rs_path E S c1 c2).1.type = true ∧
    (hcpmpm_circles_rs_path E S c1 c2).1 =
      path_of_row (precompute E S c1 c2) c1 c2 (hcpmpm_circles_rs_path E S c1 c2).1.type
        (family_path E (precompute E S c1 c2) c1 c2 (hcpmpm_circles_rs_path E S c1 c2).1.type) ∧
    (∀ Y, family_exists E (precompute E S c1 c2) c1 c2 Y = true →
      (hcpmpm_circles_rs_path E S c1 c2).1.length ≤
        (family_path E (precompute E S c1 c2) c1 c2 Y).length) := by
  obtain ⟨Y0, hY0, hY0lt⟩ := hfin
  have htable : ∀ X : hc_cc_rs_path_type,
      selector_table E (precompute E S c1 c2) c1 c2 X.index =
        if family_exists E (precompute E S c1 c2) c1 c2 X
        then family_path E (precompute E S c1 c2) c1 c2 X else Decomposition.init E := by
    intro X
    simp only [selector_table, hne, hoff]
    exact family_cases_at E _ c1 c2 _ X
  set f : Nat → K := fun i => (selector_table E (precompute E S c1 c2) c1 c2 i).length with hf
  set b := array_index_min f nb_hc_cc_rs_paths with hb
  have hblt : b < nb_hc_cc_rs_paths := array_index_min_lt f (by decide)
  have hbidx : (hc_cc_rs_path_type.of_index b).index = b := index_of_index hblt
  have hfY : ∀ Y, family_exists E (precompute E S c1 c2) c1 c2 Y = true →
      f Y.index = (family_path E (precompute E S c1 c2) c1 c2 Y).length := by
    intro Y hY
    simp only [hf, htable Y, hY, if_true]
  have hmin : ∀ Y, family_exists E (precompute E S c1 c2) c1 c2 Y = true →
      f b ≤ (family_path E (precompute E S c1 c2) c1 c2 Y).length := by
    intro Y hY
    rw [← hfY Y hY]
    exact array_index_min_le f (index_lt Y)
  have hex : family_exists E (precompute E S c1 c2) c1 c2 (hc_cc_rs_path_type.of_index b) =
      true := by
    by_contra hnot
    have hrow := htable (hc_cc_rs_path_type.of_index b)
    rw [if_neg hnot, hbidx] at hrow
    have hfb : f b = E.dbl_max := by simp only [hf, hrow, Decomposition.init]
    have := hmin Y0 hY0
    rw [hfb] at this
    exact absurd hY0lt (not_lt.mpr this)
  have hrow : selector_table E (precompute E S c1 c2) c1 c2 b =
      family_path E (precompute E S c1 c2) c1 c2 (hc_cc_rs_path_type.of_index b) := by
    have := htable (hc_cc_rs_path_type.of_index b)
    rwa [if_pos hex, hbidx] at this
  have hpath : (hcpmpm_circles_rs_path E S c1 c2).1 =
      path_of_row (precompute E S c1 c2) c1 c2 (hc_cc_rs_path_type.of_index b)
        (family_path E (precompute E S c1 c2) c1 c2 (hc_cc_rs_path_type.of_index b)) := by
    rw [hcpmpm_circles_rs_path_fst, ← hrow, hbidx]
  have htype : (hcpmpm_circles_rs_path E S c1 c2).1.type = hc_cc_rs_path_type.of_index b := by
    rw [hpath]; rfl
  refine ⟨by rw [htype]; exact hex, by rw [htype]; exact hpath, ?_⟩
  intro Y hY
  have hlen : (hcpmpm_circles_rs_path E S c1 c2).1.length = f b := by
    rw [hpath, ← hrow]; rfl
  rw [hlen]
  exact hmin Y hY

end selector

/-! ## Driver -/

section driver

variable (E : Env K) (S : HCpmpm_Reeds_Shepp_State_Space K) (state1 state2 : State K)

theorem hcpmpm_circles_rs_path_helper (h : HCpmpm_Reeds_Shepp K) (c1 c2 : HC_CC_Circle K) :
    hcpmpm_circles_rs_path E { S with hcpmpm_reeds_shepp_ := h } c1 c2 =
      hcpmpm_circles_rs_path E S c1 c2 := rfl

theorem hcpmpm_circles_rs_path_snd (c1 c2 : HC_CC_Circle K) :
    (hcpmpm_circles_rs_path E S c1 c2).2 =
      { S with hcpmpm_reeds_shepp_ :=
          { distance := E.center_distance c1 c2,
            angle := E.atan2 (c2.yc - c1.yc) (c2.xc - c1.xc) } } := rfl

theorem driver_step_sound (i j : Nat) (hi : i < 4) (hj : j < 4)
    (hskip : skip_circle i state1.kappa = false) (tables : Driver_Tables K)
    (h : tables.sound E S state1 state2) :
    (driver_step E (endpoint_circle E S state1.configuration)
      (endpoint_circle E S state2.configuration) state2 i tables j).sound E S state1 state2 := by
  obtain ⟨⟨hh, hsp⟩, hent⟩ := h
  unfold driver_step
  by_cases hs : skip_circle j state2.kappa = true
  · rw [if_pos hs]
    exact ⟨⟨hh, hsp⟩, hent⟩
  · rw [if_neg hs]
    have hs' : skip_circle j state2.kappa = false := by simpa using hs
    rw [hsp, hcpmpm_circles_rs_path_helper]
    refine ⟨⟨_, hcpmpm_circles_rs_path_snd E S _ _⟩, ?_⟩
    intro k
    by_cases hk : k = 4 * i + j
    · subst hk
      right
      exact ⟨i, j, ⟨hi, hj, hskip, hs'⟩, rfl, by simp [pair_path], by simp [pair_path]⟩
    · simpa [Function.update, hk] using hent k

theorem inner_loop_sound (i : Nat) (hi : i < 4) (hskip : skip_circle i state1.kappa = false)
    (js : List Nat) (hjs : ∀ j ∈ js, j < 4) (tables : Driver_Tables K)
    (h : tables.sound E S state1 state2) :
    (js.foldl (driver_step E (endpoint_circle E S state1.configuration)
      (endpoint_circle E S state2.configuration) state2 i) tables).sound E S state1 state2 := by
  induction js generalizing tables with
  | nil => exact h
  | cons j js ih =>
    rw [List.foldl_cons]
    exact ih (fun j' hj' => hjs j' (List.mem_cons_of_mem _ hj')) _
      (driver_step_sound E S state1 state2 i j hi (hjs j (List.mem_cons_self _ _)) hskip tables h)

theorem driver_step_isSome (sc ec : Nat → HC_CC_Circle K) (i j k : Nat)
    (tables : Driver_Tables K) (h : (tables.path k).isSome = true) :
    ((driver_step E sc ec state2 i tables j).path k).isSome = true := by
  unfold driver_step
  split_ifs
  · exact h
  · by_cases hk : k = 4 * i + j <;> simp [Function.update, hk, h]

theorem inner_loop_isSome (sc ec : Nat → HC_CC_Circle K) (i k : Nat) (js : List Nat)
    (tables : Driver_Tables K) (h : (tables.path k).isSome = true) :
    ((js.foldl (driver_step E sc ec state2 i) tables).path k).isSome = true := by
  induction js generalizing tables with
  | nil => exact h
  | cons j js ih =>
    rw [List.foldl_cons]
    exact ih _ (driver_step_isSome E state2 sc ec i j k tables h)

theorem inner_loop_writes (sc ec : Nat → HC_CC_Circle K) (i j : Nat) (js : List Nat)
    (hj : j ∈ js) (hskip : skip_circle j state2.kappa = false) (tables : Driver_Tables K) :
    ((js.foldl (driver_step E sc ec state2 i) tables).path (4 * i + j)).isSome = true := by
  induction js generalizing tables with
  | nil => simp at hj
  | cons j' js ih =>
    rw [List.foldl_cons]
    rcases List.mem_cons.mp hj with hjj | hjj
    · subst hjj
      apply inner_loop_isSome
      simp [driver_step, hskip]
    · exact ih hjj _

theorem outer_loop_sound (is : List Nat) (his : ∀ i ∈ is, i < 4) (tables : Driver_Tables K)
    (h : tables.sound E S state1 state2) :
    (is.foldl
      (fun tables i =>
        if skip_circle i state1.kappa then tables
        else (List.range 4).foldl (driver_step E (endpoint_circle E S state1.configuration)
          (endpoint_circle E S state2.configuration) state2 i) tables)
      tables).sound E S state1 state2 := by
  induction is generalizing tables with
  | nil => exact h
  | cons i is ih =>
    rw [List.foldl_cons]
    apply ih (fun i' hi' => his i' (List.mem_cons_of_mem _ hi'))
    by_cases hs : skip_circle i state1.kappa = true
    · rw [if_pos hs]
      exact h
    · rw [if_neg hs]
      exact inner_loop_sound E S state1 state2 i (his i (List.mem_cons_self _ _))
        (by simpa using hs) _ (fun j hj => List.mem_range.mp hj) tables h

theorem outer_loop_isSome (sc ec : Nat → HC_CC_Circle K) (k : Nat) (is : List Nat)
    (tables : Driver_Tables K) (h : (tables.path k).isSome = true) :
    ((is.foldl
      (fun tables i =>
        if skip_circle i state1.kappa then tables
        else (List.range 4).foldl (driver_step E sc ec state2 i) tables)
      tables).path k).isSome = true := by
  induction is generalizing tables with
  | nil => exact h
  | cons i is ih =>
    rw [List.foldl_cons]
    apply ih
    split_ifs
    · exact h
    · exact inner_loop_isSome E state2 sc ec i k _ tables h

theorem outer_loop_writes (sc ec : Nat → HC_CC_Circle K) (i j : Nat) (is : List Nat)
    (hi : i ∈ is) (hj : j < 4) (hskip1 : skip_circle i state1.kappa = false)
    (hskip2 : skip_circle j state2.kappa = false) (tables : Driver_Tables K) :
    ((is.foldl
      (fun tables i =>
        if skip_circle i state1.kappa then tables
        else (List.range 4).foldl (driver_step E sc ec state2 i) tables)
      tables).path (4 * i + j)).isSome = true := by
  induction is generalizing tables with
  | nil => simp at hi
  | cons i' is ih =>
    rw [List.foldl_cons]
    rcases List.mem_cons.mp hi with hii | hii
    · subst hii
      apply outer_loop_isSome
      rw [if_neg (by simp [hskip1])]
      exact inner_loop_writes E state2 sc ec i j _ (List.mem_range.mpr hj) hskip2 tables
    · exact ih hii _

theorem driver_tables_sound : (driver_tables E S state1 state2).sound E S state1 state2 := by
  unfold driver_tables
  apply outer_loop_sound E S state1 state2 _ (fun i hi => List.mem_range.mp hi)
  exact ⟨⟨S.hcpmpm_reeds_shepp_, rfl⟩, fun k => Or.inl ⟨rfl, rfl⟩⟩

theorem driver_tables_surviving (i j : Nat) (h : survives state1 state2 i j) :
    (driver_tables E S state1 state2).path (4 * i + j) =
        some (pair_path E S state1 state2 i j) ∧
      (driver_tables E S state1 state2).lg (4 * i + j) =
        (pair_path E S state1 state2 i j).length := by
  obtain ⟨hi, hj, hs1, hs2⟩ := h
  have hsome : ((driver_tables E S state1 state2).path (4 * i + j)).isSome = true := by
    unfold driver_tables
    exact outer_loop_writes E state1 state2 _ _ i j _ (List.mem_range.mpr hi) hj hs1 hs2 _
  rcases (driver_tables_sound E S state1 state2).2 (4 * i + j) with
    ⟨hnone, _⟩ | ⟨i', j', hsv, hk, hp, hl⟩
  · rw [hnone] at hsome
    simp at hsome
  · obtain ⟨hi', hj', -, -⟩ := hsv
    have hii : i' = i := by omega
    have hjj : j' = j := by omega
    subst hii hjj
    exact ⟨hp, hl⟩

theorem driver_tables_other (k : Nat)
    (h : ∀ i j, survives state1 state2 i j → k ≠ 4 * i + j) :
    (driver_tables E S state1 state2).path k = none ∧
      (driver_tables E S state1 state2).lg k = E.dbl_max := by
  rcases (driver_tables_sound E S state1 state2).2 k with hnone | ⟨i', j', hsv, hk, -, -⟩
  · exact hnone
  · exact absurd hk (h i' j' hsv)

theorem skip_circle_zero (i : Nat) : skip_circle i (0 : K) = false := by
  simp [skip_circle]

theorem skip_circle_neg {kappa : K} (h : kappa < 0) (i : Nat) :
    skip_circle i kappa = decide (i = 0 ∨ i = 2) := by
  have h' : ¬ kappa > 0 := not_lt.mpr (le_of_lt h)
  by_cases h0 : i = 0 <;> by_cases h2 : i = 2 <;> simp [skip_circle, h, h', h0, h2]

theorem skip_circle_pos {kappa : K} (h : kappa > 0) (i : Nat) :
    skip_circle i kappa = decide (i = 1 ∨ i = 3) := by
  have h' : ¬ kappa < 0 := not_lt.mpr (le_of_lt h)
  by_cases h1 : i = 1 <;> by_cases h3 : i = 3 <;> simp [skip_circle, h, h', h1, h3]

theorem skip_circle_iff_left (q : Configuration K) (kappa : K) {i : Nat} (hi : i < 4) :
    skip_circle i kappa = false ↔
      ¬ ((endpoint_circle E S q i).left = true ∧ kappa < 0) ∧
      ¬ ((endpoint_circle E S q i).left = false ∧ kappa > 0) := by
  interval_cases i <;> simp [skip_circle, endpoint_circle, HC_CC_Circle.of_start]

theorem driver_tables_isSome_iff (i j : Nat) (hi : i < 4) (hj : j < 4) :
    ((driver_tables E S state1 state2).path (4 * i + j)).isSome = true ↔
      skip_circle i state1.kappa = false ∧ skip_circle j state2.kappa = false := by
  constructor
  · intro h
    by_contra hne
    have := (driver_tables_other E S state1 state2 (4 * i + j) (by
      intro i' j' hsv hk
      obtain ⟨hi', hj', hs1, hs2⟩ := hsv
      have hii : i' = i := by omega
      have hjj : j' = j := by omega
      subst hii hjj
      exact hne ⟨hs1, hs2⟩)).1
    rw [this] at h
    simp at h
  · rintro ⟨h1, h2⟩
    rw [(driver_tables_surviving E S state1 state2 i j ⟨hi, hj, h1, h2⟩).1]
    rfl

theorem driver_tables_isSome_eq {k : Nat} (hk : k < 16) :
    ((driver_tables E S state1 state2).path k).isSome =
      (!skip_circle (k / 4) state1.kappa && !skip_circle (k % 4) state2.kappa) := by
  have h := driver_tables_isSome_iff E S state1 state2 (k / 4) (k % 4)
    (by omega) (Nat.mod_lt _ (by norm_num))
  rw [Nat.div_add_mod] at h
  rw [Bool.eq_iff_iff, h]
  simp

/-- The number of entries of `path[16]` that the driver has written, that is, the number of
circle pairs on which it has invoked the selector. -/
theorem evaluated_count_eq :
    ((List.range 16).filter
        (fun k => ((driver_tables E S state1 state2).path k).isSome)).length =
      ((List.range 16).filter
        (fun k => !skip_circle (k / 4) state1.kappa && !skip_circle (k % 4) state2.kappa)).length := by
  congr 1
  apply List.filter_congr
  intro k hk
  exact driver_tables_isSome_eq E S state1 state2 (List.mem_range.mp hk)

/-- C3: the driver invokes the selector on start circle `i` and end circle `j`
(0 = left/forward, 1 = right/forward, 2 = left/backward, 3 = right/backward) iff start circle
`i` is not left-turning while `s1.kappa < 0` and not right-turning while `s1.kappa > 0`, and
likewise end circle `j` with `s2.kappa`; so exactly 16 pairs are evaluated when both
curvatures are 0, 8 when exactly one is non-zero and 4 when both are non-zero; with
`s1.kappa = 1/2` and `s2.kappa = -1/2` exactly the pairs with `i ∈ {0, 2}`, `j ∈ {1, 3}`. -/
theorem selector_invoked_iff :
    (∀ q : Configuration K,
      ((endpoint_circle E S q 0).left = true ∧ (endpoint_circle E S q 0).forward = true) ∧
      ((endpoint_circle E S q 1).left = false ∧ (endpoint_circle E S q 1).forward = true) ∧
      ((endpoint_circle E S q 2).left = true ∧ (endpoint_circle E S q 2).forward = false) ∧
      ((endpoint_circle E S q 3).left = false ∧ (endpoint_circle E S q 3).forward = false)) ∧
    (∀ i j, i < 4 → j < 4 →
      (((driver_tables E S state1 state2).path (4 * i + j)).isSome = true ↔
        (¬ ((endpoint_circle E S state1.configuration i).left = true ∧ state1.kappa < 0) ∧
          ¬ ((endpoint_circle E S state1.configuration i).left = false ∧ state1.kappa > 0)) ∧
        (¬ ((endpoint_circle E S state2.configuration j).left = true ∧ state2.kappa < 0) ∧
          ¬ ((endpoint_circle E S state2.configuration j).left = false ∧
            state2.kappa > 0)))) ∧
    (state1.kappa = 0 → state2.kappa = 0 →
      ((List.range 16).filter
        (fun k => ((driver_tables E S state1 state2).path k).isSome)).length = 16) ∧
    ((state1.kappa = 0 ∧ state2.kappa ≠ 0) ∨ (state1.kappa ≠ 0 ∧ state2.kappa = 0) →
      ((List.range 16).filter
        (fun k => ((driver_tables E S state1 state2).path k).isSome)).length = 8) ∧
    (state1.kappa ≠ 0 → state2.kappa ≠ 0 →
      ((List.range 16).filter
        (fun k => ((driver_tables E S state1 state2).path k).isSome)).length = 4) ∧
    (state1.kappa = 1 / 2 → state2.kappa = -(1 / 2) → ∀ i j, i < 4 → j < 4 →
      (((driver_tables E S state1 state2).path (4 * i + j)).isSome = true ↔
        (i = 0 ∨ i = 2) ∧ (j = 1 ∨ j = 3))) := by
  refine ⟨?_, ?_, ?_, ?_, ?_, ?_⟩
  · intro q
    simp [endpoint_circle, HC_CC_Circle.of_start]
  · intro i j hi hj
    rw [driver_tables_isSome_iff E S state1 state2 i j hi hj,
      skip_circle_iff_left E S state1.configuration state1.kappa hi,
      skip_circle_iff_left E S state2.configuration state2.kappa hj]
  · intro h1 h2
    rw [evaluated_count_eq, h1, h2]
    simp only [skip_circle_zero]
    decide
  · intro h
    rw [evaluated_count_eq]
    rcases h with ⟨h1, h2⟩ | ⟨h1, h2⟩
    · rw [h1]
      rcases lt_or_gt_of_ne h2 with h2 | h2
      · simp only [skip_circle_zero, skip_circle_neg h2]
        decide
      · simp only [skip_circle_zero, skip_circle_pos h2]
        decide
    · rw [h2]
      rcases lt_or_gt_of_ne h1 with h1 | h1
      · simp only [skip_circle_zero, skip_circle_neg h1]
        decide
      · simp only [skip_circle_zero, skip_circle_pos h1]
        decide
  · intro h1 h2
    rw [evaluated_count_eq]
    rcases lt_or_gt_of_ne h1 with h1 | h1 <;> rcases lt_or_gt_of_ne h2 with h2 | h2
    · simp only [skip_circle_neg h1, skip_circle_neg h2]
      decide
    · simp only [skip_circle_neg h1, skip_circle_pos h2]
      decide
    · simp only [skip_circle_pos h1, skip_circle_neg h2]
      decide
    · simp only [skip_circle_pos h1, skip_circle_pos h2]
      decide
  · intro h1 h2 i j hi hj
    have hp : state1.kappa > 0 := by rw [h1]; norm_num
    have hn : state2.kappa < 0 := by rw [h2]; norm_num
    rw [driver_tables_isSome_iff E S state1 state2 i j hi hj, skip_circle_pos hp,
      skip_circle_neg hn]
    interval_cases i <;> interval_cases j <;> simp

theorem driver_selects_min
    (hfin : ∃ i j, survives state1 state2 i j ∧
      (pair_path E S state1 state2 i j).length < E.dbl_max) :
    ∃ i j, survives state1 state2 i j ∧
      (hcpmpm_reeds_shepp E S state1 state2).1 = some (pair_path E S state1 state2 i j) ∧
      (∀ i' j', survives state1 state2 i' j' →
        (pair_path E S state1 state2 i j).length ≤ (pair_path E S state1 state2 i' j').length) ∧
      get_distance E S state1 state2 = some (pair_path E S state1 state2 i j).length := by
  obtain ⟨i0, j0, hsv0, hlt0⟩ := hfin
  set T := driver_tables E S state1 state2 with hT
  set b := array_index_min T.lg 16 with hb
  have hle : ∀ i j, survives state1 state2 i j →
      T.lg b ≤ (pair_path E S state1 state2 i j).length := by
    intro i j hsv
    rw [← (driver_tables_surviving E S state1 state2 i j hsv).2]
    exact array_index_min_le T.lg (by obtain ⟨hi, hj, -, -⟩ := hsv; omega)
  rcases (driver_tables_sound E S state1 state2).2 b with ⟨-, hmax⟩ | ⟨i, j, hsv, hk, hp, hl⟩
  · have hmax' : T.lg b = E.dbl_max := hmax
    have := hle i0 j0 hsv0
    rw [hmax'] at this
    exact absurd hlt0 (not_lt.mpr this)
  · have hres : (hcpmpm_reeds_shepp E S state1 state2).1 =
        some (pair_path E S state1 state2 i j) := hp
    refine ⟨i, j, hsv, hres, ?_, ?_⟩
    · intro i' j' hsv'
      rw [← hl]
      exact hle i' j' hsv'
    · simp [get_distance, hres]

/-- C2: provided some surviving pair has a selector length below the
`numeric_limits<double>::max()` sentinel, `hcpmpm_reeds_shepp` returns the selector's result
for a (start circle, end circle) pair that survived the curvature filter, its length is at
most the selector's length for every surviving pair, and `get_distance` returns exactly that
length. -/
theorem hcpmpm_reeds_shepp_min
    (hfin : ∃ i j, survives state1 state2 i j ∧
      (pair_path E S state1 state2 i j).length < E.dbl_max) :
    ∃ i j, survives state1 state2 i j ∧
      (hcpmpm_reeds_shepp E S state1 state2).1 = some (pair_path E S state1 state2 i j) ∧
      (∀ i' j', survives state1 state2 i' j' →
        (pair_path E S state1 state2 i j).length ≤ (pair_path E S state1 state2 i' j').length) ∧
      get_distance E S state1 state2 = some (pair_path E S state1 state2 i j).length :=
  driver_selects_min E S state1 state2 hfin

end driver

/-! ## Identical endpoints -/

section identity

variable (E : Env K) (S : HCpmpm_Reeds_Shepp_State_Space K)

theorem endpoint_circle_start (q : Configuration K) (i : Nat) :
    (endpoint_circle E S q i).start = q := by
  unfold endpoint_circle
  split <;> rfl

theorem survives_exists (state1 state2 : State K) : ∃ i j, survives state1 state2 i j := by
  have h : ∀ kappa : K, ∃ i, i < 4 ∧ skip_circle i kappa = false := by
    intro kappa
    rcases lt_trichotomy kappa 0 with h | h | h
    · exact ⟨1, by norm_num, by rw [skip_circle_neg h]; simp⟩
    · exact ⟨0, by norm_num, by rw [h, skip_circle_zero]⟩
    · exact ⟨0, by norm_num, by rw [skip_circle_pos h]; simp⟩
  obtain ⟨i, hi, hsi⟩ := h state1.kappa
  obtain ⟨j, hj, hsj⟩ := h state2.kappa
  exact ⟨i, j, hi, hj, hsi, hsj⟩

theorem pair_path_same (s : State K)
    (hrefl : E.configuration_equal s.configuration s.configuration = true) (i j : Nat) :
    pair_path E S s s i j =
      path_of_row S (endpoint_circle E S s.configuration i) (endpoint_circle E S s.configuration j)
        .EMPTY { Decomposition.init E with length := 0 } := by
  unfold pair_path
  apply hcpmpm_circles_rs_path_EMPTY
  rw [endpoint_circle_start, endpoint_circle_start]
  exact hrefl

theorem identity_aux {σ : Type} (em : Emitters K σ) (v : σ) (s : State K)
    (hrefl : E.configuration_equal s.configuration s.configuration = true) :
    get_distance E S s s = some 0 ∧
    (∃ p, (hcpmpm_reeds_shepp E S s s).1 = some p ∧ p.type = .EMPTY ∧ p.length = 0 ∧
      p.cstart = none ∧ p.cend = none ∧ p.ci1 = none ∧ p.ci2 = none ∧
      p.qi1 = none ∧ p.qi2 = none ∧ p.qi3 = none ∧ p.qi4 = none) ∧
    (hcpmpm_reeds_shepp E S s s).1.bind (fun p => path_controls em p v) =
      some (em.empty_controls v) := by
  obtain ⟨i0, j0, hsv0⟩ := survives_exists s s
  have hfin : ∃ i j, survives s s i j ∧ (pair_path E S s s i j).length < E.dbl_max :=
    ⟨i0, j0, hsv0, by
      rw [pair_path_same E S s hrefl]
      exact E.dbl_max_pos⟩
  obtain ⟨i, j, -, hres, -, hdist⟩ := driver_selects_min E S s s hfin
  rw [pair_path_same E S s hrefl] at hres hdist
  refine ⟨hdist, ⟨_, hres, rfl, rfl, rfl, rfl, rfl, rfl, rfl, rfl, rfl, rfl⟩, ?_⟩
  rw [hres]
  rfl

/-- C4 (amended): for every state `s` (any curvature sign) on which `configuration_equal` is
reflexive, `get_distance(s, s) = 0`, the driver returns a path of family `EMPTY` with length 0
and no circle or configuration, and `get_controls(s, s)` is the control vector that the single
call `empty_controls` leaves behind (no segment emitter is called). -/
theorem identity_query (em : Emitters K (List (Control K))) (s : State K)
    (hrefl : E.configuration_equal s.configuration s.configuration = true) :
    get_distance E S s s = some 0 ∧
    (∃ p, (hcpmpm_reeds_shepp E S s s).1 = some p ∧ p.type = .EMPTY ∧ p.length = 0 ∧
      p.cstart = none ∧ p.cend = none ∧ p.ci1 = none ∧ p.ci2 = none ∧
      p.qi1 = none ∧ p.qi2 = none ∧ p.qi3 = none ∧ p.qi4 = none) ∧
    get_controls E em S s s = some (em.empty_controls []) :=
  identity_aux E S em [] s hrefl

end identity

/-! ## Evaluation on the concrete instance -/

section concrete

theorem toy_configuration_equal_refl (q : Configuration ℚ) :
    toy_env.configuration_equal q q = true := by
  simp [toy_env]

/-- Witness for C4: the identity query at the origin of the toy instance. -/
theorem identity_query_witness :
    get_distance toy_env toy_space state_origin state_origin = some 0 ∧
    get_controls toy_env toy_emitters toy_space state_origin state_origin =
      some [{ delta_s := 0, kappa := 0, sigma := 0 }] :=
  ⟨(identity_query toy_env toy_space toy_emitters state_origin
      (toy_configuration_equal_refl _)).1,
   (identity_query toy_env toy_space toy_emitters state_origin
      (toy_configuration_equal_refl _)).2.2⟩

/-- Counterexample to C4 as stated: with emitters whose `empty_controls` appends the zero
control, `get_controls(s, s)` is a list of one control, not the empty list. -/
theorem identity_controls_nonempty :
    get_controls toy_env toy_emitters toy_space state_origin state_origin ≠ some [] := by
  have h := (identity_aux toy_env toy_space toy_emitters [] state_origin
    (toy_configuration_equal_refl _)).2.2
  unfold get_controls
  rw [h]
  simp [toy_emitters]

/-- Witness for C3: with `s1.kappa = 1/2` and `s2.kappa = -1/2` the pair (0, 1) is
evaluated, the pair (1, 1) is not, and four pairs are evaluated in all; with both curvatures
zero all sixteen pairs are evaluated. -/
theorem selector_invoked_iff_witness :
    ((driver_tables toy_env toy_space state_left state_right).path 1).isSome = true ∧
    ((driver_tables toy_env toy_space state_left state_right).path 5).isSome = false ∧
    ((List.range 16).filter
      (fun k => ((driver_tables toy_env toy_space state_left state_right).path k).isSome)).length
        = 4 ∧
    ((List.range 16).filter
      (fun k => ((driver_tables toy_env toy_space state_origin state_ahead).path k).isSome)).length
        = 16 := by
  have h := (selector_invoked_iff toy_env toy_space state_left state_right).2.2.2.2.2 rfl rfl
  refine ⟨?_, ?_, ?_, ?_⟩
  · exact (h 0 1 (by norm_num) (by norm_num)).mpr (by simp)
  · simpa using (h 1 1 (by norm_num) (by norm_num)).not.mpr (by simp)
  · exact (selector_invoked_iff toy_env toy_space state_left state_right).2.2.2.2.1
      (by norm_num [state_left]) (by norm_num [state_right])
  · exact (selector_invoked_iff toy_env toy_space state_origin state_ahead).2.2.1 rfl rfl

theorem toy_not_equal :
    toy_env.configuration_equal circle_origin.start circle_ahead.start = false := by
  simp [toy_env, circle_origin, circle_ahead, endpoint_circle, HC_CC_Circle.of_start,
    State.configuration, state_origin, state_ahead]

theorem toy_not_on_circle :
    toy_env.configuration_on_hc_cc_circle circle_origin circle_ahead.start = false := by
  simp [toy_env, toy_space, circle_origin, circle_ahead, endpoint_circle,
    HC_CC_Circle.of_start, State.configuration, state_origin, state_ahead]

theorem toy_TcTT_exists (S : HCpmpm_Reeds_Shepp_State_Space ℚ)
    (hS : S = precompute toy_env toy_space circle_origin circle_ahead) :
    family_exists toy_env S circle_origin circle_ahead .TcTT = true := by
  subst hS
  simp [family_exists, HCpmpm_Reeds_Shepp.TcTT_exists, precompute, toy_env, toy_space,
    circle_origin, circle_ahead, endpoint_circle, HC_CC_Circle.of_start, State.configuration,
    state_origin, state_ahead, fabs]
  norm_num

theorem toy_TcTT_length (S : HCpmpm_Reeds_Shepp_State_Space ℚ) :
    (family_path toy_env S circle_origin circle_ahead .TcTT).length = 5 := by
  simp [family_path, HCpmpm_Reeds_Shepp.TcTT_path, toy_env, Decomposition.init]
  norm_num

/-- Witness for C1: on the toy instance, from the left/forward circle at the origin to the
left/forward circle at `(5, 0)`, family `TcTT` is feasible with build length 5. -/
theorem hcpmpm_circles_rs_path_min_witness :
    family_exists toy_env (precompute toy_env toy_space circle_origin circle_ahead)
      circle_origin circle_ahead
      (hcpmpm_circles_rs_path toy_env toy_space circle_origin circle_ahead).1.type = true ∧
    (hcpmpm_circles_rs_path toy_env toy_space circle_origin circle_ahead).1.length ≤ 5 := by
  have h := hcpmpm_circles_rs_path_min toy_env toy_space circle_origin circle_ahead
    toy_not_equal toy_not_on_circle
    ⟨.TcTT, toy_TcTT_exists _ rfl, by rw [toy_TcTT_length]; norm_num [toy_env]⟩
  refine ⟨h.1, ?_⟩
  have h5 := h.2.2 .TcTT (toy_TcTT_exists _ rfl)
  rwa [toy_TcTT_length] at h5

/-- Witness for C5: on the toy instance the start of `circle_near` lies on `circle_origin`,
and the selector returns family `T` with length 1. -/
theorem hcpmpm_circles_rs_path_T_witness :
    (hcpmpm_circles_rs_path toy_env toy_space circle_origin circle_near).1.type =
        hc_cc_rs_path_type.T ∧
      (hcpmpm_circles_rs_path toy_env toy_space circle_origin circle_near).1.length = 1 := by
  have h := hcpmpm_circles_rs_path_T toy_env toy_space circle_origin circle_near
    (by simp [toy_env, circle_origin, circle_near, endpoint_circle, HC_CC_Circle.of_start,
      State.configuration, state_origin, state_near])
    (by simp [toy_env, toy_space, circle_origin, circle_near, endpoint_circle,
      HC_CC_Circle.of_start, State.configuration, state_origin, state_near])
    (by norm_num [toy_env])
  rw [h]
  exact ⟨rfl, rfl⟩

/-- Witness for C7: on the toy instance the `TcTT` build length is the sum over the `TcTT`
schedule. -/
theorem build_length_eq_schedule_length_witness :
    schedule_length toy_env
        (path_of_row (precompute toy_env toy_space circle_origin circle_ahead) circle_origin
          circle_ahead .TcTT
          (family_path toy_env (precompute toy_env toy_space circle_origin circle_ahead)
            circle_origin circle_ahead .TcTT))
        (schedule .TcTT) =
      some 5 := by
  have h := (build_length_eq_schedule_length toy_env
    (precompute toy_env toy_space circle_origin circle_ahead) circle_origin circle_ahead).2
    .TcTT (toy_TcTT_exists _ rfl)
  rwa [toy_TcTT_length] at h

end concrete

/-! ## Cusp-straight and compound families -/

section cusp_straight

open HCpmpm_Reeds_Shepp

variable (E : Env K) (S : HCpmpm_Reeds_Shepp_State_Space K) (c1 c2 : HC_CC_Circle K)

/-- C11: with `d` the cached centre distance, the cusp-straight predicates hold exactly as
tabulated: `TciST` and `TiScT` iff opposite `left`, same `forward`, `d ≥ 2R cos μ`; `TceST` and
`TeScT` iff same `left`, same `forward`, `d ≥ eps`; `TciScT` iff opposite `left`, opposite
`forward`, `d ≥ |2/c1.kappa|`; `TceScT` iff same `left`, opposite `forward`, `d ≥ eps`. -/
theorem cusp_straight_exists_iff :
    (TciST_exists S c1 c2 = true ↔
      c1.left ≠ c2.left ∧ c1.forward = c2.forward ∧
        S.hcpmpm_reeds_shepp_.distance ≥ 2 * S.radius_ * S.cos_mu_) ∧
    (TiScT_exists S c1 c2 = true ↔
      c1.left ≠ c2.left ∧ c1.forward = c2.forward ∧
        S.hcpmpm_reeds_shepp_.distance ≥ 2 * S.radius_ * S.cos_mu_) ∧
    (TceST_exists E S c1 c2 = true ↔
      c1.left = c2.left ∧ c1.forward = c2.forward ∧
        S.hcpmpm_reeds_shepp_.distance ≥ E.get_epsilon) ∧
    (TeScT_exists E S c1 c2 = true ↔
      c1.left = c2.left ∧ c1.forward = c2.forward ∧
        S.hcpmpm_reeds_shepp_.distance ≥ E.get_epsilon) ∧
    (TciScT_exists S c1 c2 = true ↔
      c1.left ≠ c2.left ∧ c1.forward ≠ c2.forward ∧
        S.hcpmpm_reeds_shepp_.distance ≥ |2 / c1.kappa|) ∧
    (TceScT_exists E S c1 c2 = true ↔
      c1.left = c2.left ∧ c1.forward ≠ c2.forward ∧
        S.hcpmpm_reeds_shepp_.distance ≥ E.get_epsilon) := by
  refine ⟨?_, ?_, ?_, ?_, ?_, ?_⟩
  · unfold TciST_exists
    by_cases hl : c1.left = c2.left <;> by_cases hf : c1.forward = c2.forward <;> simp [hl, hf]
  · unfold TiScT_exists
    by_cases hl : c1.left = c2.left <;> by_cases hf : c1.forward = c2.forward <;> simp [hl, hf]
  · unfold TceST_exists
    by_cases hl : c1.left = c2.left <;> by_cases hf : c1.forward = c2.forward <;> simp [hl, hf]
  · unfold TeScT_exists
    by_cases hl : c1.left = c2.left <;> by_cases hf : c1.forward = c2.forward <;> simp [hl, hf]
  · unfold TciScT_exists fabs
    by_cases hl : c1.left = c2.left <;> by_cases hf : c1.forward = c2.forward <;> simp [hl, hf]
  · unfold TceScT_exists
    by_cases hl : c1.left = c2.left <;> by_cases hf : c1.forward = c2.forward <;> simp [hl, hf]

/-- The internal and external build routines of the compound families store both endpoint
circles. -/
theorem compound_routine_stores (X : hc_cc_rs_path_type) (ri re : Build_Routine)
    (hX : (X, ri, re) ∈ compound_families) :
    ((ri.run E S c1 c2).cstart.isSome = true ∧ (ri.run E S c1 c2).cend.isSome = true) ∧
    ((re.run E S c1 c2).cstart.isSome = true ∧ (re.run E S c1 c2).cend.isSome = true) := by
  simp only [compound_families, List.mem_cons, Prod.mk.injEq, List.mem_singleton,
    List.not_mem_nil, or_false] at hX
  rcases hX with ⟨_, rfl, rfl⟩ | ⟨_, rfl, rfl⟩ | ⟨_, rfl, rfl⟩ | ⟨_, rfl, rfl⟩ |
    ⟨_, rfl, rfl⟩ | ⟨_, rfl, rfl⟩ | ⟨_, rfl, rfl⟩ <;> exact ⟨⟨rfl, rfl⟩, ⟨rfl, rfl⟩⟩

/-- C12: for each compound family `X` with internal routine `ri` and external routine `re`,
`X_exists` is the disjunction of the two sub-predicates; `X_path` returns the result of `ri`
whenever the internal sub-predicate holds, and otherwise the result of `re` when the external
one holds; so whenever `X_exists` is true, `X_path` returns one of the two constructions (with
both endpoint circles stored) and not the fallthrough. -/
theorem compound_family_prefers_internal (X : hc_cc_rs_path_type) (ri re : Build_Routine)
    (hX : (X, ri, re) ∈ compound_families) :
    family_exists E S c1 c2 X = (ri.feasible E S c1 c2 || re.feasible E S c1 c2) ∧
    (ri.feasible E S c1 c2 = true → family_path E S c1 c2 X = ri.run E S c1 c2) ∧
    (ri.feasible E S c1 c2 = false → re.feasible E S c1 c2 = true →
      family_path E S c1 c2 X = re.run E S c1 c2) ∧
    (family_exists E S c1 c2 X = true →
      (family_path E S c1 c2 X = ri.run E S c1 c2 ∨
        family_path E S c1 c2 X = re.run E S c1 c2) ∧
      (family_path E S c1 c2 X).cstart.isSome = true ∧
      (family_path E S c1 c2 X).cend.isSome = true) := by
  have hst := compound_routine_stores E S c1 c2 X ri re hX
  have key : family_exists E S c1 c2 X = (ri.feasible E S c1 c2 || re.feasible E S c1 c2) ∧
      (ri.feasible E S c1 c2 = true → family_path E S c1 c2 X = ri.run E S c1 c2) ∧
      (ri.feasible E S c1 c2 = false → re.feasible E S c1 c2 = true →
        family_path E S c1 c2 X = re.run E S c1 c2) := by
    simp only [compound_families, List.mem_cons, Prod.mk.injEq, List.mem_singleton,
      List.not_mem_nil, or_false] at hX
    rcases hX with h | h | h | h | h | h | h <;> obtain ⟨hX, hri, hre⟩ := h <;>
      subst hX hri hre
    · refine ⟨rfl, fun hi => ?_, fun hi he => ?_⟩ <;>
        simp_all [family_path, TST_path, Build_Routine.feasible, Build_Routine.run]
    · refine ⟨rfl, fun hi => ?_, fun hi he => ?_⟩ <;>
        simp_all [family_path, TSTcT_path, Build_Routine.feasible, Build_Routine.run]
    · refine ⟨rfl, fun hi => ?_, fun hi he => ?_⟩ <;>
        simp_all [family_path, TcTST_path, Build_Routine.feasible, Build_Routine.run]
    · refine ⟨rfl, fun hi => ?_, fun hi he => ?_⟩ <;>
        simp_all [family_path, TcTSTcT_path, Build_Routine.feasible, Build_Routine.run]
    · refine ⟨rfl, fun hi => ?_, fun hi he => ?_⟩ <;>
        simp_all [family_path, TcST_path, Build_Routine.feasible, Build_Routine.run]
    · refine ⟨rfl, fun hi => ?_, fun hi he => ?_⟩ <;>
        simp_all [family_path, TScT_path, Build_Routine.feasible, Build_Routine.run]
    · refine ⟨rfl, fun hi => ?_, fun hi he => ?_⟩ <;>
        simp_all [family_path, TcScT_path, Build_Routine.feasible, Build_Routine.run]
  obtain ⟨hor, hint, hext⟩ := key
  refine ⟨hor, hint, hext, fun hex => ?_⟩
  rw [hor, Bool.or_eq_true] at hex
  by_cases hi : ri.feasible E S c1 c2 = true
  · rw [hint hi]
    exact ⟨Or.inl rfl, hst.1⟩
  · have hif : ri.feasible E S c1 c2 = false := by simpa using hi
    have he : re.feasible E S c1 c2 = true := by tauto
    rw [hext hif he]
    exact ⟨Or.inr rfl, hst.2⟩

end cusp_straight

section cusp_straight_concrete

/-- Witness for C12: on the toy instance the two circles have equal `left` and `forward`, so
of family `TcST` only the external sub-predicate holds, and `TcST_path` returns the result of
`TceST_path`. -/
theorem compound_family_prefers_internal_witness :
    Build_Routine.feasible toy_env (precompute toy_env toy_space circle_origin circle_ahead)
      circle_origin circle_ahead .TciST = false ∧
    Build_Routine.feasible toy_env (precompute toy_env toy_space circle_origin circle_ahead)
      circle_origin circle_ahead .TceST = true ∧
    family_path toy_env (precompute toy_env toy_space circle_origin circle_ahead)
      circle_origin circle_ahead .TcST =
      Build_Routine.run toy_env (precompute toy_env toy_space circle_origin circle_ahead)
        circle_origin circle_ahead .TceST := by
  have h1 : Build_Routine.feasible toy_env
      (precompute toy_env toy_space circle_origin circle_ahead)
      circle_origin circle_ahead .TciST = false := by
    simp [Build_Routine.feasible, HCpmpm_Reeds_Shepp.TciST_exists, circle_origin, circle_ahead,
      endpoint_circle, HC_CC_Circle.of_start]
  have h2 : Build_Routine.feasible toy_env
      (precompute toy_env toy_space circle_origin circle_ahead)
      circle_origin circle_ahead .TceST = true := by
    simp [Build_Routine.feasible, HCpmpm_Reeds_Shepp.TceST_exists, precompute, toy_env,
      toy_space, circle_origin, circle_ahead, endpoint_circle, HC_CC_Circle.of_start,
      State.configuration, state_origin, state_ahead]
    norm_num
  exact ⟨h1, h2, (compound_family_prefers_internal toy_env _ circle_origin circle_ahead
    .TcST .TciST .TceST (by simp [compound_families])).2.2.1 h1 h2⟩

end cusp_straight_concrete

/-! ## Two-candidate families -/

section two_candidates

open HCpmpm_Reeds_Shepp

variable (E : Env K) (S : HCpmpm_Reeds_Shepp_State_Space K) (c1 c2 : HC_CC_Circle K)

/-- A two-candidate build routine returns its first candidate when that one is strictly
shorter and its second candidate otherwise. -/
theorem family_path_eq_candidate (X : hc_cc_rs_path_type) (a b : Decomposition K)
    (h : two_candidates E S c1 c2 X = some (a, b)) :
    family_path E S c1 c2 X = if a.length < b.length then a else b := by
  cases X <;> simp only [two_candidates, reduceCtorEq, Option.some.injEq, Prod.mk.injEq] at h
  all_goals
    obtain ⟨rfl, rfl⟩ := h
    rfl

/-- C13: the two-candidate families are `TcTcT`, `TcTT`, `TTcT`, `TTcTT`, `TcTTcT` and `TTT`;
with `a` the candidate assembled from the first (`+delta_y`) joins and `b` the one from the
second (`-delta_y`) joins, the build routine returns `a` (its length, circles and joins) when
`a.length < b.length` and `b` otherwise, equal lengths included; the returned length is
`min a.length b.length`. -/
theorem two_candidate_path_min :
    (∀ X, (two_candidates E S c1 c2 X).isSome = true ↔
      X ∈ [hc_cc_rs_path_type.TcTcT, .TcTT, .TTcT, .TTcTT, .TcTTcT, .TTT]) ∧
    ∀ X a b, two_candidates E S c1 c2 X = some (a, b) →
      (a.length < b.length → family_path E S c1 c2 X = a) ∧
      (¬ a.length < b.length → family_path E S c1 c2 X = b) ∧
      (family_path E S c1 c2 X).length = min a.length b.length := by
  refine ⟨fun X => ?_, fun X a b h => ?_⟩
  · cases X <;> simp [two_candidates]
  · have hp := family_path_eq_candidate E S c1 c2 X a b h
    refine ⟨fun hlt => by rw [hp, if_pos hlt], fun hge => by rw [hp, if_neg hge], ?_⟩
    rw [hp]
    by_cases hlt : a.length < b.length
    · rw [if_pos hlt, min_eq_left hlt.le]
    · rw [if_neg hlt, min_eq_right (not_lt.mp hlt)]

end two_candidates

section two_candidates_concrete

/-- Witness for C13: on the toy instance both `TcTT` candidates have length 5, and `TcTT_path`
returns the second. -/
theorem two_candidate_path_min_witness :
    ∃ a b, two_candidates toy_env toy_space circle_origin circle_ahead .TcTT = some (a, b) ∧
      a.length = 5 ∧ b.length = 5 ∧
      family_path toy_env toy_space circle_origin circle_ahead .TcTT = b := by
  refine ⟨_, _, rfl, ?_, ?_,
    ((two_candidate_path_min toy_env toy_space circle_origin circle_ahead).2 .TcTT _ _ rfl).2.1
      ?_⟩
  · simp [HCpmpm_Reeds_Shepp.TcTT_candidate, toy_env, Decomposition.init]
    norm_num
  · simp [HCpmpm_Reeds_Shepp.TcTT_candidate, toy_env, Decomposition.init]
    norm_num
  · simp [HCpmpm_Reeds_Shepp.TcTT_candidate, toy_env, Decomposition.init]

end two_candidates_concrete

/-! ## Ties between families -/

section ties

variable (E : Env K) (S : HCpmpm_Reeds_Shepp_State_Space K) (c1 c2 : HC_CC_Circle K)

/-- When neither early return applies, row `X` of the selector's table holds the result of
the build routine of `X` if the predicate of `X` holds, and is untouched otherwise. -/
theorem selector_table_at
    (hne : E.configuration_equal c1.start c2.start = false)
    (hoff : E.configuration_on_hc_cc_circle c1 c2.start = false) (X : hc_cc_rs_path_type) :
    selector_table E (precompute E S c1 c2) c1 c2 X.index =
      if family_exists E (precompute E S c1 c2) c1 c2 X
      then family_path E (precompute E S c1 c2) c1 c2 X else Decomposition.init E := by
  simp only [selector_table, hne, hoff]
  exact family_cases_at E _ c1 c2 _ X

/-- The selected family is feasible, its length is minimal among the feasible families, and
every feasible family with a smaller index is strictly longer. -/
theorem selector_first_min
    (hne : E.configuration_equal c1.start c2.start = false)
    (hoff : E.configuration_on_hc_cc_circle c1 c2.start = false)
    (hfin : ∃ Y, family_exists E (precompute E S c1 c2) c1 c2 Y = true ∧
      (family_path E (precompute E S c1 c2) c1 c2 Y).length < E.dbl_max) :
    family_exists E (precompute E S c1 c2) c1 c2 (hcpmpm_circles_rs_path E S c1 c2).1.type = true ∧
    (hcpmpm_circles_rs_path E S c1 c2).1.length =
      (family_path E (precompute E S c1 c2) c1 c2
        (hcpmpm_circles_rs_path E S c1 c2).1.type).length ∧
    (∀ Y, family_exists E (precompute E S c1 c2) c1 c2 Y = true →
      (hcpmpm_circles_rs_path E S c1 c2).1.length ≤
        (family_path E (precompute E S c1 c2) c1 c2 Y).length) ∧
    (∀ Y, family_exists E (precompute E S c1 c2) c1 c2 Y = true →
      Y.index < (hcpmpm_circles_rs_path E S c1 c2).1.type.index →
      (hcpmpm_circles_rs_path E S c1 c2).1.length <
        (family_path E (precompute E S c1 c2) c1 c2 Y).length) := by
  obtain ⟨Y0, hY0, hY0lt⟩ := hfin
  have htable := selector_table_at E S c1 c2 hne hoff
  set f : Nat → K := fun i => (selector_table E (precompute E S c1 c2) c1 c2 i).length with hf
  set b := array_index_min f nb_hc_cc_rs_paths with hb
  have hblt : b < nb_hc_cc_rs_paths := array_index_min_lt f (by decide)
  have hbidx : (hc_cc_rs_path_type.of_index b).index = b := index_of_index hblt
  have hfY : ∀ Y, family_exists E (precompute E S c1 c2) c1 c2 Y = true →
      f Y.index = (family_path E (precompute E S c1 c2) c1 c2 Y).length := by
    intro Y hY
    simp only [hf, htable Y, hY, if_true]
  have hmin : ∀ Y, family_exists E (precompute E S c1 c2) c1 c2 Y = true →
      f b ≤ (family_path E (precompute E S c1 c2) c1 c2 Y).length := by
    intro Y hY
    rw [← hfY Y hY]
    exact array_index_min_le f (index_lt Y)
  have hex : family_exists E (precompute E S c1 c2) c1 c2 (hc_cc_rs_path_type.of_index b) =
      true := by
    by_contra hnot
    have hrow := htable (hc_cc_rs_path_type.of_index b)
    rw [if_neg hnot, hbidx] at hrow
    have hfb : f b = E.dbl_max := by simp only [hf, hrow, Decomposition.init]
    have := hmin Y0 hY0
    rw [hfb] at this
    exact absurd hY0lt (not_lt.mpr this)
  have htype : (hcpmpm_circles_rs_path E S c1 c2).1.type = hc_cc_rs_path_type.of_index b := by
    rw [hcpmpm_circles_rs_path_fst]; rfl
  have hlen : (hcpmpm_circles_rs_path E S c1 c2).1.length = f b := by
    rw [hcpmpm_circles_rs_path_fst, hbidx]; rfl
  refine ⟨by rw [htype]; exact hex, ?_, ?_, ?_⟩
  · rw [hlen, htype, ← hfY _ hex, hbidx]
  · intro Y hY
    rw [hlen]
    exact hmin Y hY
  · intro Y hY hlt
    rw [htype, hbidx] at hlt
    rw [hlen, ← hfY Y hY]
    exact array_index_min_first f hlt

/-- C14: when neither early return applies and some feasible family has a build length below
the sentinel, the selector returns a feasible family of minimal build length, and among the
feasible families attaining that minimal length it returns the one with the smallest index
in the order of the enum. -/
theorem hcpmpm_circles_rs_path_ties
    (hne : E.configuration_equal c1.start c2.start = false)
    (hoff : E.configuration_on_hc_cc_circle c1 c2.start = false)
    (hfin : ∃ Y, family_exists E (precompute E S c1 c2) c1 c2 Y = true ∧
      (family_path E (precompute E S c1 c2) c1 c2 Y).length < E.dbl_max) :
    family_exists E (precompute E S c1 c2) c1 c2 (hcpmpm_circles_rs_path E S c1 c2).1.type = true ∧
    (hcpmpm_circles_rs_path E S c1 c2).1.length =
      (family_path E (precompute E S c1 c2) c1 c2
        (hcpmpm_circles_rs_path E S c1 c2).1.type).length ∧
    (∀ Y, family_exists E (precompute E S c1 c2) c1 c2 Y = true →
      (hcpmpm_circles_rs_path E S c1 c2).1.length ≤
        (family_path E (precompute E S c1 c2) c1 c2 Y).length) ∧
    (∀ Y, family_exists E (precompute E S c1 c2) c1 c2 Y = true →
      (family_path E (precompute E S c1 c2) c1 c2 Y).length =
        (hcpmpm_circles_rs_path E S c1 c2).1.length →
      (hcpmpm_circles_rs_path E S c1 c2).1.type.index ≤ Y.index) := by
  obtain ⟨h1, h2, h3, h4⟩ := selector_first_min E S c1 c2 hne hoff hfin
  refine ⟨h1, h2, h3, fun Y hY hlen => ?_⟩
  by_contra hlt
  have := h4 Y hY (not_le.mp hlt)
  rw [hlen] at this
  exact lt_irrefl _ this

end ties

section ties_concrete

open HCpmpm_Reeds_Shepp in
/-- On the toy instance only `TcTT`, `TTcT`, `TcST` and `TScT` are feasible between the two
left/forward circles at distance 5. -/
theorem toy_feasible (X : hc_cc_rs_path_type)
    (h : family_exists toy_env (precompute toy_env toy_space circle_origin circle_ahead)
      circle_origin circle_ahead X = true) :
    X = .TcTT ∨ X = .TTcT ∨ X = .TcST ∨ X = .TScT := by
  cases X
  case TcTT => simp
  case TTcT => simp
  case TcST => simp
  case TScT => simp
  all_goals
    exfalso
    revert h
    simp [family_exists, TT_exists, TcT_exists, TcTcT_exists, TST_exists, TiST_exists,
      TeST_exists, TSTcT_exists, TiSTcT_exists, TeSTcT_exists, TcTST_exists, TcTiST_exists,
      TcTeST_exists, TcTSTcT_exists, TcTiSTcT_exists, TcTeSTcT_exists, TTcTT_exists,
      TcTTcT_exists, TTT_exists, TcScT_exists, TciScT_exists, TceScT_exists, precompute,
      toy_env, toy_space, circle_origin, circle_ahead, endpoint_circle, HC_CC_Circle.of_start,
      State.configuration, state_origin, state_ahead, fabs, pow2]
    try norm_num

theorem toy_TTcT_length (S : HCpmpm_Reeds_Shepp_State_Space ℚ) :
    (family_path toy_env S circle_origin circle_ahead .TTcT).length = 5 := by
  simp [family_path, HCpmpm_Reeds_Shepp.TTcT_path, toy_env, Decomposition.init]
  norm_num

theorem toy_TTcT_exists :
    family_exists toy_env (precompute toy_env toy_space circle_origin circle_ahead)
      circle_origin circle_ahead .TTcT = true := by
  simp [family_exists, HCpmpm_Reeds_Shepp.TTcT_exists, precompute, toy_env, toy_space,
    circle_origin, circle_ahead, endpoint_circle, HC_CC_Circle.of_start, State.configuration,
    state_origin, state_ahead, fabs]
  norm_num

open HCpmpm_Reeds_Shepp in
theorem toy_TcST_length :
    (family_path toy_env (precompute toy_env toy_space circle_origin circle_ahead)
      circle_origin circle_ahead .TcST).length = 9 := by
  simp [family_path, TcST_path, TciST_exists, TceST_exists, TceST_path, hc_straight_hc,
    precompute, toy_env, toy_space, circle_origin, circle_ahead, endpoint_circle,
    HC_CC_Circle.of_start, State.configuration, state_origin, state_ahead, fabs, conf_at,
    Decomposition.init]
  norm_num

open HCpmpm_Reeds_Shepp in
theorem toy_TScT_length :
    (family_path toy_env (precompute toy_env toy_space circle_origin circle_ahead)
      circle_origin circle_ahead .TScT).length = 9 := by
  simp [family_path, TScT_path, TiScT_exists, TeScT_exists, TeScT_path, hc_straight_hc,
    precompute, toy_env, toy_space, circle_origin, circle_ahead, endpoint_circle,
    HC_CC_Circle.of_start, State.configuration, state_origin, state_ahead, fabs, conf_at,
    Decomposition.init]
  norm_num

/-- Witness for C14: on the toy instance `TcTT` (index 5) and `TTcT` (index 6) both attain the
minimal build length 5, and the selector returns `TcTT`. -/
theorem hcpmpm_circles_rs_path_ties_witness :
    (family_path toy_env (precompute toy_env toy_space circle_origin circle_ahead)
      circle_origin circle_ahead .TTcT).length = 5 ∧
    (hcpmpm_circles_rs_path toy_env toy_space circle_origin circle_ahead).1.length = 5 ∧
    (hcpmpm_circles_rs_path toy_env toy_space circle_origin circle_ahead).1.type = .TcTT := by
  obtain ⟨h1, h2, h3, h4⟩ := hcpmpm_circles_rs_path_ties toy_env toy_space circle_origin
    circle_ahead toy_not_equal toy_not_on_circle
    ⟨.TcTT, toy_TcTT_exists _ rfl, by rw [toy_TcTT_length]; norm_num [toy_env]⟩
  have h5 := h3 .TcTT (toy_TcTT_exists _ rfl)
  have h6 := h4 .TcTT (toy_TcTT_exists _ rfl)
  rw [toy_TcTT_length] at h5 h6
  have hT := toy_feasible _ h1
  rcases hT with hT | hT | hT | hT
  · rw [hT, toy_TcTT_length] at h2
    exact ⟨toy_TTcT_length _, h2, hT⟩
  · rw [hT, toy_TTcT_length] at h2
    have := h6 h2.symm
    rw [hT] at this
    exact absurd this (by decide)
  · rw [hT, toy_TcST_length] at h2
    rw [h2] at h5
    exact absurd h5 (by norm_num)
  · rw [hT, toy_TScT_length] at h2
    rw [h2] at h5
    exact absurd h5 (by norm_num)

end ties_concrete

/-! ## No feasible family -/

section no_family

variable (E : Env K) (S : HCpmpm_Reeds_Shepp_State_Space K) (c1 c2 : HC_CC_Circle K)

/-- The sentinel is not an infinite length. -/
theorem isinf_dbl_max : E.isinf E.dbl_max = false := by
  simp [Env.isinf, abs_of_pos E.dbl_max_pos]

/-- With no early return and no feasible family the selector's table is untouched, the
minimum search stays at index 0, and the returned path is the row of `EMPTY`. -/
theorem selector_no_family
    (hne : E.configuration_equal c1.start c2.start = false)
    (hoff : E.configuration_on_hc_cc_circle c1 c2.start = false)
    (hnone : ∀ Y, family_exists E (precompute E S c1 c2) c1 c2 Y = false) :
    (hcpmpm_circles_rs_path E S c1 c2).1 =
      path_of_row (precompute E S c1 c2) c1 c2 .EMPTY (Decomposition.init E) := by
  have htable : ∀ i, i < nb_hc_cc_rs_paths →
      selector_table E (precompute E S c1 c2) c1 c2 i = Decomposition.init E := by
    intro i hi
    have h := selector_table_at E S c1 c2 hne hoff (hc_cc_rs_path_type.of_index i)
    rw [index_of_index hi, hnone] at h
    simpa using h
  have hbest : array_index_min
      (fun i => (selector_table E (precompute E S c1 c2) c1 c2 i).length)
      nb_hc_cc_rs_paths = 0 := by
    by_contra hne0
    have h := array_index_min_first
      (fun i => (selector_table E (precompute E S c1 c2) c1 c2 i).length)
      (Nat.pos_of_ne_zero hne0)
    have hb := htable _ (array_index_min_lt
      (fun i => (selector_table E (precompute E S c1 c2) c1 c2 i).length)
      (by decide : 0 < nb_hc_cc_rs_paths))
    simp only [] at h
    rw [hb, htable 0 (by decide)] at h
    exact lt_irrefl _ h
  rw [hcpmpm_circles_rs_path_fst, hbest]
  have h0 : (hc_cc_rs_path_type.of_index 0) = hc_cc_rs_path_type.EMPTY := rfl
  rw [h0]
  have h00 : hc_cc_rs_path_type.EMPTY.index = 0 := rfl
  rw [h00, htable 0 (by decide)]

/-- C15 (amended): when no early return applies and every family predicate is false, the
selector returns a path with tag `EMPTY`, without circles or join configurations, whose
length is the sentinel `numeric_limits<double>::max()`: the largest finite double, not an
infinite value. -/
theorem hcpmpm_circles_rs_path_no_family
    (hne : E.configuration_equal c1.start c2.start = false)
    (hoff : E.configuration_on_hc_cc_circle c1 c2.start = false)
    (hnone : ∀ Y, family_exists E (precompute E S c1 c2) c1 c2 Y = false) :
    (hcpmpm_circles_rs_path E S c1 c2).1 =
      path_of_row (precompute E S c1 c2) c1 c2 .EMPTY (Decomposition.init E) ∧
    (hcpmpm_circles_rs_path E S c1 c2).1.type = .EMPTY ∧
    (hcpmpm_circles_rs_path E S c1 c2).1.length = E.dbl_max ∧
    E.isinf (hcpmpm_circles_rs_path E S c1 c2).1.length = false := by
  have h := selector_no_family E S c1 c2 hne hoff hnone
  rw [h]
  exact ⟨rfl, rfl, rfl, isinf_dbl_max E⟩

end no_family

section no_family_concrete

theorem toy_low_high_not_equal :
    toy_env.configuration_equal circle_low.start circle_high.start = false := by
  simp [toy_env, circle_low, circle_high, endpoint_circle, HC_CC_Circle.of_start,
    State.configuration, state_origin, state_above]
  norm_num

theorem toy_low_high_off :
    toy_env.configuration_on_hc_cc_circle circle_low circle_high.start = false := by
  simp [toy_env, unit_space, circle_low, circle_high, endpoint_circle,
    HC_CC_Circle.of_start, State.configuration, state_origin, state_above]
  norm_num [abs_div]

theorem toy_low_high_distance :
    (precompute toy_env unit_space circle_low circle_high).hcpmpm_reeds_shepp_.distance =
      1 / 2 := by
  simp [precompute, toy_env, unit_space, circle_low, circle_high, endpoint_circle,
    HC_CC_Circle.of_start, State.configuration, state_origin, state_above]
  norm_num [abs_div]

open HCpmpm_Reeds_Shepp in
/-- Between `circle_low` and `circle_high` (opposite `left`, opposite `forward`, centre
distance 0.5) no family predicate holds. -/
theorem toy_low_high_none (Y : hc_cc_rs_path_type) :
    family_exists toy_env (precompute toy_env unit_space circle_low circle_high)
      circle_low circle_high Y = false := by
  cases Y
  all_goals
    simp [family_exists, TT_exists, TcT_exists, TcTcT_exists, TcTT_exists, TTcT_exists,
      TST_exists, TiST_exists, TeST_exists, TSTcT_exists, TiSTcT_exists, TeSTcT_exists,
      TcTST_exists, TcTiST_exists, TcTeST_exists, TcTSTcT_exists, TcTiSTcT_exists,
      TcTeSTcT_exists, TTcTT_exists, TcTTcT_exists, TTT_exists, TcST_exists, TciST_exists,
      TceST_exists, TScT_exists, TiScT_exists, TeScT_exists, TcScT_exists, TciScT_exists,
      TceScT_exists, precompute, toy_env, unit_space, circle_low, circle_high,
      endpoint_circle, HC_CC_Circle.of_start, State.configuration, state_origin, state_above,
      fabs, pow2]
    try norm_num [abs_div]

/-- Counterexample to C15 as stated: for `circle_low` and `circle_high` no early return
applies and every family predicate is false, and the returned path carries the tag `EMPTY`
and the finite length `numeric_limits<double>::max()`, not an infinite one. -/
theorem no_family_length_finite :
    toy_env.configuration_equal circle_low.start circle_high.start = false ∧
    toy_env.configuration_on_hc_cc_circle circle_low circle_high.start = false ∧
    (∀ Y, family_exists toy_env (precompute toy_env unit_space circle_low circle_high)
      circle_low circle_high Y = false) ∧
    (hcpmpm_circles_rs_path toy_env unit_space circle_low circle_high).1.type = .EMPTY ∧
    toy_env.isinf (hcpmpm_circles_rs_path toy_env unit_space circle_low circle_high).1.length =
      false := by
  refine ⟨toy_low_high_not_equal, toy_low_high_off, toy_low_high_none, ?_, ?_⟩
  · rw [selector_no_family toy_env unit_space circle_low circle_high toy_low_high_not_equal
      toy_low_high_off toy_low_high_none]
    rfl
  · rw [selector_no_family toy_env unit_space circle_low circle_high toy_low_high_not_equal
      toy_low_high_off toy_low_high_none]
    exact isinf_dbl_max toy_env

/-- Witness for C15 (amended): for `circle_low` and `circle_high` the selector returns the
sentinel length `(2^53 - 1) * 2^971`. -/
theorem hcpmpm_circles_rs_path_no_family_witness :
    (hcpmpm_circles_rs_path toy_env unit_space circle_low circle_high).1.length =
      (2 ^ 53 - 1) * 2 ^ 971 :=
  (hcpmpm_circles_rs_path_no_family toy_env unit_space circle_low circle_high
    toy_low_high_not_equal toy_low_high_off toy_low_high_none).2.2.1

end no_family_concrete

/-! ## Coverage of the sign patterns -/

section coverage

open HCpmpm_Reeds_Shepp

variable (E : Env K) (S : HCpmpm_Reeds_Shepp_State_Space K) (c1 c2 : HC_CC_Circle K)

/-- Some family predicate holds exactly when the predicate of some build routine holds. -/
theorem exists_family_iff_routine :
    (∃ Y, family_exists E S c1 c2 Y = true) ↔
      ∃ r : Build_Routine, r.feasible E S c1 c2 = true := by
  constructor
  · rintro ⟨Y, hY⟩
    cases Y <;>
      simp only [family_exists, TST_exists, TSTcT_exists, TcTST_exists, TcTSTcT_exists,
        TcST_exists, TScT_exists, TcScT_exists, Bool.or_eq_true, reduceCtorEq] at hY
    case TT => exact ⟨.TT, hY⟩
    case TcT => exact ⟨.TcT, hY⟩
    case TcTcT => exact ⟨.TcTcT, hY⟩
    case TcTT => exact ⟨.TcTT, hY⟩
    case TTcT => exact ⟨.TTcT, hY⟩
    case TTcTT => exact ⟨.TTcTT, hY⟩
    case TcTTcT => exact ⟨.TcTTcT, hY⟩
    case TTT => exact ⟨.TTT, hY⟩
    case TST => rcases hY with h | h; exacts [⟨.TiST, h⟩, ⟨.TeST, h⟩]
    case TSTcT => rcases hY with h | h; exacts [⟨.TiSTcT, h⟩, ⟨.TeSTcT, h⟩]
    case TcTST => rcases hY with h | h; exacts [⟨.TcTiST, h⟩, ⟨.TcTeST, h⟩]
    case TcTSTcT => rcases hY with h | h; exacts [⟨.TcTiSTcT, h⟩, ⟨.TcTeSTcT, h⟩]
    case TcST => rcases hY with h | h; exacts [⟨.TciST, h⟩, ⟨.TceST, h⟩]
    case TScT => rcases hY with h | h; exacts [⟨.TiScT, h⟩, ⟨.TeScT, h⟩]
    case TcScT => rcases hY with h | h; exacts [⟨.TciScT, h⟩, ⟨.TceScT, h⟩]
  · rintro ⟨r, hr⟩
    refine ⟨r.family, ?_⟩
    cases r <;>
      simp only [Build_Routine.family, family_exists, TST_exists, TSTcT_exists, TcTST_exists,
        TcTSTcT_exists, TcST_exists, TScT_exists, TcScT_exists, Bool.or_eq_true] <;>
      simp only [Build_Routine.feasible] at hr <;> simp [hr]

/-- Which build routines are feasible between circles of equal `left` and equal `forward`. -/
theorem routine_feasible_same_same (hl : c1.left = c2.left) (hf : c1.forward = c2.forward) :
    (∃ r : Build_Routine, r.feasible E S c1 c2 = true) ↔
      (2 * S.radius_ - 2 / fabs c1.kappa ≤ S.hcpmpm_reeds_shepp_.distance ∧
        S.hcpmpm_reeds_shepp_.distance ≤ 2 * S.radius_ + 2 / fabs c1.kappa) ∨
      E.sqrt (pow2 (2 * S.radius_ * S.sin_mu_ + 2 / fabs c1.kappa) +
        pow2 (2 * S.radius_ * S.cos_mu_)) ≤ S.hcpmpm_reeds_shepp_.distance ∨
      E.get_epsilon ≤ S.hcpmpm_reeds_shepp_.distance := by
  constructor
  · rintro ⟨r, hr⟩
    cases r <;>
      simp [Build_Routine.feasible, TT_exists, TcT_exists, TcTcT_exists, TcTT_exists,
        TTcT_exists, TiST_exists, TeST_exists, TiSTcT_exists, TeSTcT_exists, TcTiST_exists,
        TcTeST_exists, TcTiSTcT_exists, TcTeSTcT_exists, TTcTT_exists, TcTTcT_exists,
        TTT_exists, TciST_exists, TceST_exists, TiScT_exists, TeScT_exists, TciScT_exists,
        TceScT_exists, hl, hf] at hr <;>
      first | tauto | exact Or.inl ⟨by linarith [hr.2], hr.1⟩
  · rintro (h | h | h)
    · exact ⟨.TcTT, by simp [Build_Routine.feasible, TcTT_exists, hl, hf, h.1, h.2]⟩
    · exact ⟨.TiSTcT, by simp [Build_Routine.feasible, TiSTcT_exists, hl, hf, h]⟩
    · exact ⟨.TceST, by simp [Build_Routine.feasible, TceST_exists, hl, hf, h]⟩

/-- Which build routines are feasible between circles of opposite `left` and opposite
`forward`. -/
theorem routine_feasible_opp_opp (hl : c1.left ≠ c2.left) (hf : c1.forward ≠ c2.forward) :
    (∃ r : Build_Routine, r.feasible E S c1 c2 = true) ↔
      fabs (S.hcpmpm_reeds_shepp_.distance - 2 * S.radius_) < E.get_epsilon ∨
      2 * S.radius_ ≤ S.hcpmpm_reeds_shepp_.distance ∨
      E.sqrt (pow2 (2 * S.radius_) + 16 * S.radius_ * S.sin_mu_ / fabs c1.kappa +
        pow2 (4 / c1.kappa)) ≤ S.hcpmpm_reeds_shepp_.distance ∨
      (4 / fabs c1.kappa - 2 * S.radius_ ≤ S.hcpmpm_reeds_shepp_.distance ∧
        S.hcpmpm_reeds_shepp_.distance ≤ 4 / fabs c1.kappa + 2 * S.radius_) ∨
      fabs (2 / c1.kappa) ≤ S.hcpmpm_reeds_shepp_.distance := by
  constructor
  · rintro ⟨r, hr⟩
    cases r <;>
      simp [Build_Routine.feasible, TT_exists, TcT_exists, TcTcT_exists, TcTT_exists,
        TTcT_exists, TiST_exists, TeST_exists, TiSTcT_exists, TeSTcT_exists, TcTiST_exists,
        TcTeST_exists, TcTiSTcT_exists, TcTeSTcT_exists, TTcTT_exists, TcTTcT_exists,
        TTT_exists, TciST_exists, TceST_exists, TiScT_exists, TeScT_exists, TciScT_exists,
        TceScT_exists, hl, hf] at hr <;>
      first | tauto | exact Or.inr (Or.inr (Or.inr (Or.inl ⟨by linarith [hr.2], hr.1⟩)))
  · rintro (h | h | h | h | h)
    · exact ⟨.TT, by simp [Build_Routine.feasible, TT_exists, hl, hf, h]⟩
    · exact ⟨.TiST, by simp [Build_Routine.feasible, TiST_exists, hl, hf, h]⟩
    · exact ⟨.TcTiSTcT, by simp [Build_Routine.feasible, TcTiSTcT_exists, hl, hf, h]⟩
    · exact ⟨.TcTTcT, by simp [Build_Routine.feasible, TcTTcT_exists, hl, hf, h.1, h.2]⟩
    · exact ⟨.TciScT, by simp [Build_Routine.feasible, TciScT_exists, hl, hf, h]⟩

/-- C16 (amended): with `R ≥ 0`, `sin μ ≤ 1` and `cos μ ≤ 1`, some family is feasible for every
pair with equal `left` and opposite `forward` (`TTT` or `TST`) and for every pair with opposite
`left` and equal `forward` (`TTcTT` or `TcST`), whatever the centre distance `d`; for equal
`left` and equal `forward` some family predicate holds exactly when
`2R - 2/k ≤ d ≤ 2R + 2/k`, or `d ≥ sqrt((2R sin μ + 2/k)² + (2R cos μ)²)`, or `d ≥ eps`; for
opposite `left` and opposite `forward` exactly when `|d - 2R| < eps`, or `d ≥ 2R`, or
`d ≥ sqrt(4R² + 16R sin μ/k + 16/k²)`, or `4/k - 2R ≤ d ≤ 4/k + 2R`, or `d ≥ |2/c1.kappa|`
(`k = |c1.kappa|`). -/
theorem family_coverage (hR : 0 ≤ S.radius_) (hsin : S.sin_mu_ ≤ 1) (hcos : S.cos_mu_ ≤ 1) :
    (c1.left = c2.left → c1.forward ≠ c2.forward →
      family_exists E S c1 c2 .TTT = true ∨ family_exists E S c1 c2 .TST = true) ∧
    (c1.left ≠ c2.left → c1.forward = c2.forward →
      family_exists E S c1 c2 .TTcTT = true ∨ family_exists E S c1 c2 .TcST = true) ∧
    (c1.left = c2.left → c1.forward = c2.forward →
      ((∃ Y, family_exists E S c1 c2 Y = true) ↔
        (2 * S.radius_ - 2 / fabs c1.kappa ≤ S.hcpmpm_reeds_shepp_.distance ∧
          S.hcpmpm_reeds_shepp_.distance ≤ 2 * S.radius_ + 2 / fabs c1.kappa) ∨
        E.sqrt (pow2 (2 * S.radius_ * S.sin_mu_ + 2 / fabs c1.kappa) +
          pow2 (2 * S.radius_ * S.cos_mu_)) ≤ S.hcpmpm_reeds_shepp_.distance ∨
        E.get_epsilon ≤ S.hcpmpm_reeds_shepp_.distance)) ∧
    (c1.left ≠ c2.left → c1.forward ≠ c2.forward →
      ((∃ Y, family_exists E S c1 c2 Y = true) ↔
        fabs (S.hcpmpm_reeds_shepp_.distance - 2 * S.radius_) < E.get_epsilon ∨
        2 * S.radius_ ≤ S.hcpmpm_reeds_shepp_.distance ∨
        E.sqrt (pow2 (2 * S.radius_) + 16 * S.radius_ * S.sin_mu_ / fabs c1.kappa +
          pow2 (4 / c1.kappa)) ≤ S.hcpmpm_reeds_shepp_.distance ∨
        (4 / fabs c1.kappa - 2 * S.radius_ ≤ S.hcpmpm_reeds_shepp_.distance ∧
          S.hcpmpm_reeds_shepp_.distance ≤ 4 / fabs c1.kappa + 2 * S.radius_) ∨
        fabs (2 / c1.kappa) ≤ S.hcpmpm_reeds_shepp_.distance)) := by
  have hk : 0 ≤ 2 / fabs c1.kappa := div_nonneg (by norm_num) (abs_nonneg _)
  refine ⟨fun hl hf => ?_, fun hl hf => ?_, fun hl hf => ?_, fun hl hf => ?_⟩
  · by_cases hd : S.hcpmpm_reeds_shepp_.distance ≤ 4 * S.radius_
    · left
      simp [family_exists, TTT_exists, hl, hf, hd]
    · right
      have h1 : 2 * S.radius_ * S.sin_mu_ ≤ 2 * S.radius_ * 1 :=
        mul_le_mul_of_nonneg_left hsin (by linarith)
      have h2 : 2 * S.radius_ * S.sin_mu_ ≤ S.hcpmpm_reeds_shepp_.distance := by linarith
      simp [family_exists, TST_exists, TiST_exists, TeST_exists, hl, hf, h2]
  · by_cases hd : S.hcpmpm_reeds_shepp_.distance ≤ 4 * S.radius_ + 2 / fabs c1.kappa
    · left
      simp [family_exists, TTcTT_exists, hl, hf, hd]
    · right
      have h1 : 2 * S.radius_ * S.cos_mu_ ≤ 2 * S.radius_ * 1 :=
        mul_le_mul_of_nonneg_left hcos (by linarith)
      have h2 : 2 * S.radius_ * S.cos_mu_ ≤ S.hcpmpm_reeds_shepp_.distance := by linarith
      simp [family_exists, TcST_exists, TciST_exists, TceST_exists, hl, hf, h2]
  · rw [exists_family_iff_routine]
    exact routine_feasible_same_same E S c1 c2 hl hf
  · rw [exists_family_iff_routine]
    exact routine_feasible_opp_opp E S c1 c2 hl hf

end coverage

section coverage_concrete

/-- Counterexample to C16 as stated: `circle_low` and `circle_high` have the same curvature
magnitude, opposite `left`, opposite `forward` and centre distance `0.5 ≥ 0`; their starts
differ, the start of `circle_high` does not lie on `circle_low`, and none of the 15 family
predicates holds. -/
theorem coverage_fails :
    fabs circle_low.kappa = fabs circle_high.kappa ∧
    circle_low.left ≠ circle_high.left ∧ circle_low.forward ≠ circle_high.forward ∧
    toy_env.center_distance circle_low circle_high = 1 / 2 ∧
    ¬ (toy_env.configuration_equal circle_low.start circle_high.start = true ∨
      toy_env.configuration_on_hc_cc_circle circle_low circle_high.start = true ∨
      ∃ Y, family_exists toy_env (precompute toy_env unit_space circle_low circle_high)
        circle_low circle_high Y = true) := by
  refine ⟨?_, ?_, ?_, toy_low_high_distance, ?_⟩
  · simp [fabs, circle_low, circle_high, endpoint_circle, HC_CC_Circle.of_start]
  · simp [circle_low, circle_high, endpoint_circle, HC_CC_Circle.of_start]
  · simp [circle_low, circle_high, endpoint_circle, HC_CC_Circle.of_start]
  · rintro (h | h | ⟨Y, h⟩)
    · rw [toy_low_high_not_equal] at h
      exact Bool.noConfusion h
    · rw [toy_low_high_off] at h
      exact Bool.noConfusion h
    · rw [toy_low_high_none] at h
      exact Bool.noConfusion h

/-- Witness for C16 (amended): on the toy instance, from the left/forward circle at the origin
some family is feasible to the left/backward circle at `(5, 0)` (`TTT` or `TST`) and to the
right/backward circle at `(5, 0)` (centre distance 7, inside the `TcTTcT` band). -/
theorem family_coverage_witness :
    (family_exists toy_env
        (precompute toy_env toy_space circle_origin
          (endpoint_circle toy_env toy_space state_ahead.configuration 2))
        circle_origin (endpoint_circle toy_env toy_space state_ahead.configuration 2) .TTT =
          true ∨
      family_exists toy_env
        (precompute toy_env toy_space circle_origin
          (endpoint_circle toy_env toy_space state_ahead.configuration 2))
        circle_origin (endpoint_circle toy_env toy_space state_ahead.configuration 2) .TST =
          true) ∧
    ∃ Y, family_exists toy_env
      (precompute toy_env toy_space circle_origin
        (endpoint_circle toy_env toy_space state_ahead.configuration 3))
      circle_origin (endpoint_circle toy_env toy_space state_ahead.configuration 3) Y =
        true := by
  constructor
  · exact (family_coverage toy_env _ circle_origin _ (by norm_num [precompute, toy_space])
      (by norm_num [precompute, toy_space]) (by norm_num [precompute, toy_space])).1
      (by simp [circle_origin, endpoint_circle, HC_CC_Circle.of_start])
      (by simp [circle_origin, endpoint_circle, HC_CC_Circle.of_start])
  · refine ((family_coverage toy_env _ circle_origin _ (by norm_num [precompute, toy_space])
      (by norm_num [precompute, toy_space]) (by norm_num [precompute, toy_space])).2.2.2
      (by simp [circle_origin, endpoint_circle, HC_CC_Circle.of_start])
      (by simp [circle_origin, endpoint_circle, HC_CC_Circle.of_start])).mpr ?_
    right; right; right; left
    simp [precompute, toy_env, toy_space, circle_origin, endpoint_circle,
      HC_CC_Circle.of_start, State.configuration, state_origin, state_ahead, fabs]
    norm_num [abs_div]

end coverage_concrete

/-! ## Construction -/

section construction

variable (E : Env K)

/-- C17: with the base-class constructor as the spec describes it, constructing the state
space with `kappa ≤ 0` or `sigma ≤ 0` fails with a misconfiguration error, and neither the
helper is allocated nor `1 / kappa_` evaluated.  The derived constructor has no check of its
own: for every base-class constructor it fails exactly with the error of the base-class
constructor, and once that one returns it allocates the helper and evaluates `1 / kappa_`. -/
theorem construct_invalid (hc_param : K → K → HC_CC_Circle_Param K)
    (uninit : HCpmpm_Reeds_Shepp K) (kappa sigma discretization : K)
    (h : kappa ≤ 0 ∨ sigma ≤ 0) :
    HCpmpm_Reeds_Shepp_State_Space.construct E (HC_CC_State_Space.construct hc_param) uninit
        kappa sigma discretization = (.error .misconfiguration, []) ∧
    ∀ base : K → K → K → Except Construction_Error (HC_CC_State_Space K),
      (∀ e, base kappa sigma discretization = .error e →
        HCpmpm_Reeds_Shepp_State_Space.construct E base uninit kappa sigma discretization =
          (.error e, [])) ∧
      (∀ b, base kappa sigma discretization = .ok b →
        HCpmpm_Reeds_Shepp_State_Space.construct E base uninit kappa sigma discretization =
          (.ok (HCpmpm_Reeds_Shepp_State_Space.of_base E b uninit),
            [.helper_allocated, .reciprocal b.kappa_])) := by
  refine ⟨?_, fun base => ⟨fun e he => ?_, fun b hb => ?_⟩⟩
  · simp [HCpmpm_Reeds_Shepp_State_Space.construct, HC_CC_State_Space.construct, h]
  · simp [HCpmpm_Reeds_Shepp_State_Space.construct, he]
  · simp [HCpmpm_Reeds_Shepp_State_Space.construct, hb]

end construction

section construction_concrete

/-- Witness for C17: with `kappa = -1`, `sigma = 1` the construction fails with a
misconfiguration error and nothing is allocated or computed. -/
theorem construct_invalid_witness :
    HCpmpm_Reeds_Shepp_State_Space.construct toy_env
        (HC_CC_State_Space.construct fun _ _ => toy_space.hc_cc_circle_param_)
        toy_space.hcpmpm_reeds_shepp_ (-1) 1 (1 / 10) = (.error .misconfiguration, []) :=
  (construct_invalid toy_env (fun _ _ => toy_space.hc_cc_circle_param_)
    toy_space.hcpmpm_reeds_shepp_ (-1) 1 (1 / 10) (Or.inl (by norm_num))).1

end construction_concrete

/-! ## Endpoint circles, determinism and frame -/

section endpoint_circles

variable (E : Env K) (S : HCpmpm_Reeds_Shepp_State_Space K) (state1 state2 : State K)

/-- C18: the driver's four start circles are, in this order, the (left, forward), (right,
forward), (left, backward) and (right, backward) circles built from the configuration
`(state1.x, state1.y, state1.theta, state1.kappa)` with the rs parameters and
`regular = true`; likewise the four end circles from `state2`; and every path the driver
stores is the selector's result on start circle `i` and end circle `j` for some `i, j < 4`. -/
theorem endpoint_circles_spec :
    (List.range 4).map (endpoint_circle E S state1.configuration) =
      [HC_CC_Circle.of_start E
          { x := state1.x, y := state1.y, theta := state1.theta, kappa := state1.kappa }
          true true true S.rs_circle_param_,
        HC_CC_Circle.of_start E
          { x := state1.x, y := state1.y, theta := state1.theta, kappa := state1.kappa }
          false true true S.rs_circle_param_,
        HC_CC_Circle.of_start E
          { x := state1.x, y := state1.y, theta := state1.theta, kappa := state1.kappa }
          true false true S.rs_circle_param_,
        HC_CC_Circle.of_start E
          { x := state1.x, y := state1.y, theta := state1.theta, kappa := state1.kappa }
          false false true S.rs_circle_param_] ∧
    (List.range 4).map (endpoint_circle E S state2.configuration) =
      [HC_CC_Circle.of_start E
          { x := state2.x, y := state2.y, theta := state2.theta, kappa := state2.kappa }
          true true true S.rs_circle_param_,
        HC_CC_Circle.of_start E
          { x := state2.x, y := state2.y, theta := state2.theta, kappa := state2.kappa }
          false true true S.rs_circle_param_,
        HC_CC_Circle.of_start E
          { x := state2.x, y := state2.y, theta := state2.theta, kappa := state2.kappa }
          true false true S.rs_circle_param_,
        HC_CC_Circle.of_start E
          { x := state2.x, y := state2.y, theta := state2.theta, kappa := state2.kappa }
          false false true S.rs_circle_param_] ∧
    (∀ (s : State K) i, (endpoint_circle E S s.configuration i).start =
        { x := s.x, y := s.y, theta := s.theta, kappa := s.kappa } ∧
      (endpoint_circle E S s.configuration i).regular = true ∧
      (endpoint_circle E S s.configuration i).radius = S.rs_circle_param_.radius ∧
      (endpoint_circle E S s.configuration i).mu = S.rs_circle_param_.mu) ∧
    (∀ k, (driver_tables E S state1 state2).path k = none ∨
      ∃ i j, i < 4 ∧ j < 4 ∧ k = 4 * i + j ∧
        (driver_tables E S state1 state2).path k =
          some (hcpmpm_circles_rs_path E S (endpoint_circle E S state1.configuration i)
            (endpoint_circle E S state2.configuration j)).1) := by
  refine ⟨rfl, rfl, fun s i => ?_, fun k => ?_⟩
  · rcases i with _ | _ | _ | _ | i <;> exact ⟨rfl, rfl, rfl, rfl⟩
  · rcases (driver_tables_sound E S state1 state2).2 k with h | ⟨i, j, hs, hk, hp, -⟩
    · exact Or.inl h.1
    · exact Or.inr ⟨i, j, hs.1, hs.2.1, hk, hp⟩

end endpoint_circles

section determinism

variable (E : Env K) (S : HCpmpm_Reeds_Shepp_State_Space K) (state1 state2 : State K)

/-- The arrays the driver fills do not depend on what the helper's members held before. -/
theorem driver_tables_helper (h : HCpmpm_Reeds_Shepp K) :
    (driver_tables E { S with hcpmpm_reeds_shepp_ := h } state1 state2).path =
        (driver_tables E S state1 state2).path ∧
      (driver_tables E { S with hcpmpm_reeds_shepp_ := h } state1 state2).lg =
        (driver_tables E S state1 state2).lg := by
  have key : ∀ k,
      (driver_tables E { S with hcpmpm_reeds_shepp_ := h } state1 state2).path k =
          (driver_tables E S state1 state2).path k ∧
        (driver_tables E { S with hcpmpm_reeds_shepp_ := h } state1 state2).lg k =
          (driver_tables E S state1 state2).lg k := by
    intro k
    by_cases hk : ∃ i j, survives state1 state2 i j ∧ k = 4 * i + j
    · obtain ⟨i, j, hs, rfl⟩ := hk
      have h1 := driver_tables_surviving E { S with hcpmpm_reeds_shepp_ := h } state1 state2
        i j hs
      have h2 := driver_tables_surviving E S state1 state2 i j hs
      rw [h1.1, h1.2, h2.1, h2.2]
      exact ⟨rfl, rfl⟩
    · have hk' : ∀ i j, survives state1 state2 i j → k ≠ 4 * i + j :=
        fun i j hs he => hk ⟨i, j, hs, he⟩
      have h1 := driver_tables_other E { S with hcpmpm_reeds_shepp_ := h } state1 state2 k hk'
      have h2 := driver_tables_other E S state1 state2 k hk'
      rw [h1.1, h1.2, h2.1, h2.2]
      exact ⟨rfl, rfl⟩
  exact ⟨funext fun k => (key k).1, funext fun k => (key k).2⟩

/-- The path the driver returns does not depend on what the helper's members held before. -/
theorem hcpmpm_reeds_shepp_helper (h : HCpmpm_Reeds_Shepp K) :
    (hcpmpm_reeds_shepp E { S with hcpmpm_reeds_shepp_ := h } state1 state2).1 =
      (hcpmpm_reeds_shepp E S state1 state2).1 := by
  obtain ⟨hp, hl⟩ := driver_tables_helper E S state1 state2 h
  simp only [hcpmpm_reeds_shepp, hp, hl]

/-- C19: the selector's result (path and state space left behind) is the same whatever the
helper's members `distance` and `angle` held before the call, also when they were left by a
previous call on other circles `c3`, `c4`; hence the results of `hcpmpm_reeds_shepp`,
`get_distance` and `get_controls` do not depend on them either. -/
theorem selector_deterministic (em : Emitters K (List (Control K)))
    (h h' : HCpmpm_Reeds_Shepp K) (c1 c2 c3 c4 : HC_CC_Circle K) :
    hcpmpm_circles_rs_path E { S with hcpmpm_reeds_shepp_ := h } c1 c2 =
      hcpmpm_circles_rs_path E { S with hcpmpm_reeds_shepp_ := h' } c1 c2 ∧
    hcpmpm_circles_rs_path E (hcpmpm_circles_rs_path E S c3 c4).2 c1 c2 =
      hcpmpm_circles_rs_path E S c1 c2 ∧
    (hcpmpm_reeds_shepp E { S with hcpmpm_reeds_shepp_ := h } state1 state2).1 =
      (hcpmpm_reeds_shepp E { S with hcpmpm_reeds_shepp_ := h' } state1 state2).1 ∧
    get_distance E { S with hcpmpm_reeds_shepp_ := h } state1 state2 =
      get_distance E { S with hcpmpm_reeds_shepp_ := h' } state1 state2 ∧
    get_controls E em { S with hcpmpm_reeds_shepp_ := h } state1 state2 =
      get_controls E em { S with hcpmpm_reeds_shepp_ := h' } state1 state2 := by
  have hd : (hcpmpm_reeds_shepp E { S with hcpmpm_reeds_shepp_ := h } state1 state2).1 =
      (hcpmpm_reeds_shepp E { S with hcpmpm_reeds_shepp_ := h' } state1 state2).1 := by
    rw [hcpmpm_reeds_shepp_helper E S state1 state2 h,
      hcpmpm_reeds_shepp_helper E S state1 state2 h']
  refine ⟨rfl, rfl, hd, ?_, ?_⟩
  · simp only [get_distance, hd]
  · simp only [get_controls, hd]

end determinism

section frame

variable (E : Env K) (S : HCpmpm_Reeds_Shepp_State_Space K) (state1 state2 : State K)

/-- The driver leaves the state space as it was, up to the helper's members. -/
theorem hcpmpm_reeds_shepp_snd :
    ∃ h, (hcpmpm_reeds_shepp E S state1 state2).2 = { S with hcpmpm_reeds_shepp_ := h } :=
  (driver_tables_sound E S state1 state2).1

/-- C20 (amended): a call of the selector leaves `kappa_`, `sigma_`, `discretization_`, both
circle parameter sets, `radius_`, `mu_`, `sin_mu_` and `cos_mu_` unchanged, and overwrites the
helper's members: `distance` with `center_distance(c1, c2)` and `angle` with
`atan2(c2.yc - c1.yc, c2.xc - c1.xc)`; a call of the driver leaves the state space unchanged
up to the helper's members. -/
theorem hcpmpm_circles_rs_path_frame (c1 c2 : HC_CC_Circle K) :
    (hcpmpm_circles_rs_path E S c1 c2).2 =
      { S with hcpmpm_reeds_shepp_ :=
          { distance := E.center_distance c1 c2,
            angle := E.atan2 (c2.yc - c1.yc) (c2.xc - c1.xc) } } ∧
    ((hcpmpm_circles_rs_path E S c1 c2).2.kappa_ = S.kappa_ ∧
      (hcpmpm_circles_rs_path E S c1 c2).2.sigma_ = S.sigma_ ∧
      (hcpmpm_circles_rs_path E S c1 c2).2.discretization_ = S.discretization_ ∧
      (hcpmpm_circles_rs_path E S c1 c2).2.hc_cc_circle_param_ = S.hc_cc_circle_param_ ∧
      (hcpmpm_circles_rs_path E S c1 c2).2.rs_circle_param_ = S.rs_circle_param_ ∧
      (hcpmpm_circles_rs_path E S c1 c2).2.radius_ = S.radius_ ∧
      (hcpmpm_circles_rs_path E S c1 c2).2.mu_ = S.mu_ ∧
      (hcpmpm_circles_rs_path E S c1 c2).2.sin_mu_ = S.sin_mu_ ∧
      (hcpmpm_circles_rs_path E S c1 c2).2.cos_mu_ = S.cos_mu_) ∧
    ∃ h, (hcpmpm_reeds_shepp E S state1 state2).2 = { S with hcpmpm_reeds_shepp_ := h } :=
  ⟨rfl, ⟨rfl, rfl, rfl, rfl, rfl, rfl, rfl, rfl, rfl⟩, hcpmpm_reeds_shepp_snd E S state1 state2⟩

end frame

section frame_concrete

/-- Counterexample to C20 as stated: on the toy instance the helper's `distance` is 0 before
the selector runs on the circles at the origin and at `(5, 0)`, and 5 after. -/
theorem helper_overwritten :
    toy_space.hcpmpm_reeds_shepp_.distance = 0 ∧
    (hcpmpm_circles_rs_path toy_env toy_space circle_origin
      circle_ahead).2.hcpmpm_reeds_shepp_.distance = 5 ∧
    (hcpmpm_circles_rs_path toy_env toy_space circle_origin circle_ahead).2 ≠ toy_space := by
  have h5 : (hcpmpm_circles_rs_path toy_env toy_space circle_origin
      circle_ahead).2.hcpmpm_reeds_shepp_.distance = 5 := by
    simp [hcpmpm_circles_rs_path, precompute, toy_env, toy_space, circle_origin, circle_ahead,
      endpoint_circle, HC_CC_Circle.of_start, State.configuration, state_origin, state_ahead]
  refine ⟨rfl, h5, fun heq => ?_⟩
  rw [heq] at h5
  revert h5
  simp [toy_space]

end frame_concrete

/-! ## Coverage by the surviving pairs -/

section surviving_coverage

open HCpmpm_Reeds_Shepp

variable (E : Env K) (S : HCpmpm_Reeds_Shepp_State_Space K) (state1 state2 : State K)

/-- For every endpoint curvature one turning direction survives the filter, in its forward
variant `a` and in its backward variant `a + 2`. -/
theorem surviving_variants (kappa : K) :
    ∃ a, a < 2 ∧ skip_circle a kappa = false ∧ skip_circle (a + 2) kappa = false := by
  rcases lt_trichotomy kappa 0 with h | h | h
  · exact ⟨1, by norm_num, by rw [skip_circle_neg h]; simp, by rw [skip_circle_neg h]; simp⟩
  · exact ⟨0, by norm_num, by rw [h, skip_circle_zero], by rw [h, skip_circle_zero]⟩
  · exact ⟨0, by norm_num, by rw [skip_circle_pos h]; simp, by rw [skip_circle_pos h]; simp⟩

/-- The surviving pairs contain a pair with equal `left` and opposite `forward`, or a pair
with opposite `left` and equal `forward`. -/
theorem surviving_mixed_pair :
    ∃ i j, survives state1 state2 i j ∧
      (((endpoint_circle E S state1.configuration i).left =
            (endpoint_circle E S state2.configuration j).left ∧
          (endpoint_circle E S state1.configuration i).forward ≠
            (endpoint_circle E S state2.configuration j).forward) ∨
        ((endpoint_circle E S state1.configuration i).left ≠
            (endpoint_circle E S state2.configuration j).left ∧
          (endpoint_circle E S state1.configuration i).forward =
            (endpoint_circle E S state2.configuration j).forward)) := by
  obtain ⟨a, ha, ha1, -⟩ := surviving_variants state1.kappa
  obtain ⟨b, hb, hb1, hb2⟩ := surviving_variants state2.kappa
  by_cases hab : a = b
  · refine ⟨a, b + 2, ⟨by omega, by omega, ha1, hb2⟩, Or.inl ?_⟩
    subst hab
    interval_cases a <;> simp [endpoint_circle, HC_CC_Circle.of_start]
  · refine ⟨a, b, ⟨by omega, by omega, ha1, hb1⟩, Or.inr ?_⟩
    interval_cases a <;> interval_cases b <;>
      simp [endpoint_circle, HC_CC_Circle.of_start] at hab ⊢

/-- Between circles of equal `left` and opposite `forward`, `TTT` or `TeST` is feasible. -/
theorem same_left_covered (c1 c2 : HC_CC_Circle K) (hR : 0 ≤ S.radius_)
    (hsin : S.sin_mu_ ≤ 1) (hl : c1.left = c2.left) (hf : c1.forward ≠ c2.forward) :
    TTT_exists S c1 c2 = true ∨ TeST_exists S c1 c2 = true := by
  by_cases hd : S.hcpmpm_reeds_shepp_.distance ≤ 4 * S.radius_
  · left
    simp [TTT_exists, hl, hf, hd]
  · right
    have h1 : 2 * S.radius_ * S.sin_mu_ ≤ 2 * S.radius_ * 1 :=
      mul_le_mul_of_nonneg_left hsin (by linarith)
    have h2 : 2 * S.radius_ * S.sin_mu_ ≤ S.hcpmpm_reeds_shepp_.distance := by linarith
    simp [TeST_exists, hl, hf, h2]

/-- Between circles of opposite `left` and equal `forward`, `TTcTT` or `TeSTcT` is
feasible. -/
theorem opposite_left_covered (c1 c2 : HC_CC_Circle K) (hR : 0 ≤ S.radius_)
    (hsin : S.sin_mu_ ≤ 1) (hl : c1.left ≠ c2.left) (hf : c1.forward = c2.forward) :
    TTcTT_exists S c1 c2 = true ∨ TeSTcT_exists S c1 c2 = true := by
  by_cases hd : S.hcpmpm_reeds_shepp_.distance ≤ 4 * S.radius_ + 2 / fabs c1.kappa
  · left
    simp [TTcTT_exists, hl, hf, hd]
  · right
    have h1 : 2 * S.radius_ * S.sin_mu_ ≤ 2 * S.radius_ * 1 :=
      mul_le_mul_of_nonneg_left hsin (by linarith)
    have h2 : 2 * (1 / fabs c1.kappa + S.radius_ * S.sin_mu_) ≤
        S.hcpmpm_reeds_shepp_.distance := by
      have : 2 * (1 / fabs c1.kappa + S.radius_ * S.sin_mu_) =
          2 / fabs c1.kappa + 2 * S.radius_ * S.sin_mu_ := by ring
      rw [this]
      linarith
    simp only [TeSTcT_exists, if_neg hl, hf, ne_eq, not_true_eq_false, if_false]
    exact decide_eq_true h2

/-- Some surviving pair has a feasible family among `TTT`, `TST`, `TTcTT`, `TSTcT`. -/
theorem surviving_pair_family (hR : 0 ≤ S.radius_) (hsin : S.sin_mu_ ≤ 1) :
    ∃ i j, survives state1 state2 i j ∧
      ∃ Y, family_exists E
        (precompute E S (endpoint_circle E S state1.configuration i)
          (endpoint_circle E S state2.configuration j))
        (endpoint_circle E S state1.configuration i)
        (endpoint_circle E S state2.configuration j) Y = true := by
  obtain ⟨i, j, hsv, h | h⟩ := surviving_mixed_pair E S state1 state2
  · refine ⟨i, j, hsv, ?_⟩
    rcases same_left_covered (precompute E S _ _) _ _ hR hsin h.1 h.2 with h1 | h1
    · exact ⟨.TTT, h1⟩
    · exact ⟨.TST, by simp [family_exists, TST_exists, h1]⟩
  · refine ⟨i, j, hsv, ?_⟩
    rcases opposite_left_covered (precompute E S _ _) _ _ hR hsin h.1 h.2 with h1 | h1
    · exact ⟨.TTcTT, h1⟩
    · exact ⟨.TSTcT, by simp [family_exists, TSTcT_exists, h1]⟩

/-- C28: whatever the endpoint curvatures and positions, the pairs that survive the driver's
curvature filter contain a pair with equal `left` and opposite `forward` or a pair with
opposite `left` and equal `forward`; with `R ≥ 0` and `sin μ ≤ 1`, for every cached distance,
`TTT_exists` or `TeST_exists` holds on a pair of the first kind and `TTcTT_exists` or
`TeSTcT_exists` on a pair of the second kind; hence some surviving pair has a family whose
predicate holds. -/
theorem surviving_pair_covered (hR : 0 ≤ S.radius_) (hsin : S.sin_mu_ ≤ 1) :
    (∃ i j, survives state1 state2 i j ∧
      (((endpoint_circle E S state1.configuration i).left =
            (endpoint_circle E S state2.configuration j).left ∧
          (endpoint_circle E S state1.configuration i).forward ≠
            (endpoint_circle E S state2.configuration j).forward) ∨
        ((endpoint_circle E S state1.configuration i).left ≠
            (endpoint_circle E S state2.configuration j).left ∧
          (endpoint_circle E S state1.configuration i).forward =
            (endpoint_circle E S state2.configuration j).forward))) ∧
    (∀ (h : HCpmpm_Reeds_Shepp K) (c1 c2 : HC_CC_Circle K),
      c1.left = c2.left → c1.forward ≠ c2.forward →
        TTT_exists { S with hcpmpm_reeds_shepp_ := h } c1 c2 = true ∨
          TeST_exists { S with hcpmpm_reeds_shepp_ := h } c1 c2 = true) ∧
    (∀ (h : HCpmpm_Reeds_Shepp K) (c1 c2 : HC_CC_Circle K),
      c1.left ≠ c2.left → c1.forward = c2.forward →
        TTcTT_exists { S with hcpmpm_reeds_shepp_ := h } c1 c2 = true ∨
          TeSTcT_exists { S with hcpmpm_reeds_shepp_ := h } c1 c2 = true) ∧
    ∃ i j, survives state1 state2 i j ∧
      ∃ Y, family_exists E
        (precompute E S (endpoint_circle E S state1.configuration i)
          (endpoint_circle E S state2.configuration j))
        (endpoint_circle E S state1.configuration i)
        (endpoint_circle E S state2.configuration j) Y = true :=
  ⟨surviving_mixed_pair E S state1 state2,
    fun h c1 c2 hl hf => same_left_covered { S with hcpmpm_reeds_shepp_ := h } c1 c2 hR hsin hl hf,
    fun h c1 c2 hl hf =>
      opposite_left_covered { S with hcpmpm_reeds_shepp_ := h } c1 c2 hR hsin hl hf,
    surviving_pair_family E S state1 state2 hR hsin⟩

end surviving_coverage

section surviving_coverage_concrete

/-- Witness for C28: with `s1.kappa = 1/2` and `s2.kappa = -1/2` on the toy instance some
surviving pair has a family whose predicate holds. -/
theorem surviving_pair_covered_witness :
    ∃ i j, survives state_left state_right i j ∧
      ∃ Y, family_exists toy_env
        (precompute toy_env toy_space (endpoint_circle toy_env toy_space state_left.configuration i)
          (endpoint_circle toy_env toy_space state_right.configuration j))
        (endpoint_circle toy_env toy_space state_left.configuration i)
        (endpoint_circle toy_env toy_space state_right.configuration j) Y = true :=
  (surviving_pair_covered toy_env toy_space state_left state_right (by norm_num [toy_space])
    (by norm_num [toy_space])).2.2.2

end surviving_coverage_concrete


/-! ## The chosen index -/

section chosen_index

variable (E : Env K) (S : HCpmpm_Reeds_Shepp_State_Space K) (state1 state2 : State K)

/-- When the selector's result for some surviving pair is below the sentinel, the index the
driver chooses is the index of a surviving pair, whose entry holds the selector's result. -/
theorem chosen_index_survives
    (hfin : ∃ i j, survives state1 state2 i j ∧
      (pair_path E S state1 state2 i j).length < E.dbl_max) :
    ∃ i j, survives state1 state2 i j ∧
      array_index_min (driver_tables E S state1 state2).lg 16 = 4 * i + j ∧
      (hcpmpm_reeds_shepp E S state1 state2).1 = some (pair_path E S state1 state2 i j) := by
  obtain ⟨i0, j0, hsv0, hlt0⟩ := hfin
  have hle : (driver_tables E S state1 state2).lg
      (array_index_min (driver_tables E S state1 state2).lg 16) ≤
      (pair_path E S state1 state2 i0 j0).length := by
    rw [← (driver_tables_surviving E S state1 state2 i0 j0 hsv0).2]
    exact array_index_min_le _ (by obtain ⟨hi, hj, -, -⟩ := hsv0; omega)
  rcases (driver_tables_sound E S state1 state2).2
      (array_index_min (driver_tables E S state1 state2).lg 16) with
    ⟨-, hmax⟩ | ⟨i, j, hsv, hk, hp, -⟩
  · rw [hmax] at hle
    exact absurd hlt0 (not_lt.mpr hle)
  · exact ⟨i, j, hsv, hk, hp⟩

/-- The selector's length is at most the length in any row of its table. -/
theorem selector_length_le_row (c1 c2 : HC_CC_Circle K) {i : Nat} (hi : i < nb_hc_cc_rs_paths) :
    (hcpmpm_circles_rs_path E S c1 c2).1.length ≤
      (selector_table E (precompute E S c1 c2) c1 c2 i).length := by
  rw [hcpmpm_circles_rs_path_fst,
    index_of_index (array_index_min_lt _ (by decide : 0 < nb_hc_cc_rs_paths))]
  exact array_index_min_le
    (fun i => (selector_table E (precompute E S c1 c2) c1 c2 i).length) hi

/-- The build routine that a feasible family runs is itself feasible. -/
theorem family_path_feasible_routine (h : HCpmpm_Reeds_Shepp_State_Space K)
    (c1 c2 : HC_CC_Circle K) (X : hc_cc_rs_path_type)
    (hX : family_exists E h c1 c2 X = true) :
    ∃ r : Build_Routine, r.family = X ∧ r.feasible E h c1 c2 = true ∧
      family_path E h c1 c2 X = r.run E h c1 c2 := by
  cases X
  case EMPTY => simp [family_exists] at hX
  case T => simp [family_exists] at hX
  case TT => exact ⟨.TT, rfl, hX, rfl⟩
  case TcT => exact ⟨.TcT, rfl, hX, rfl⟩
  case TcTcT => exact ⟨.TcTcT, rfl, hX, rfl⟩
  case TcTT => exact ⟨.TcTT, rfl, hX, rfl⟩
  case TTcT => exact ⟨.TTcT, rfl, hX, rfl⟩
  case TTcTT => exact ⟨.TTcTT, rfl, hX, rfl⟩
  case TcTTcT => exact ⟨.TcTTcT, rfl, hX, rfl⟩
  case TTT => exact ⟨.TTT, rfl, hX, rfl⟩
  case TST =>
    by_cases hi : HCpmpm_Reeds_Shepp.TiST_exists h c1 c2 = true
    · exact ⟨.TiST, rfl, hi,
        by simp [family_path, HCpmpm_Reeds_Shepp.TST_path, hi, Build_Routine.run]⟩
    · have he : HCpmpm_Reeds_Shepp.TeST_exists h c1 c2 = true := by
        simpa [family_exists, HCpmpm_Reeds_Shepp.TST_exists, hi] using hX
      exact ⟨.TeST, rfl, he,
        by simp [family_path, HCpmpm_Reeds_Shepp.TST_path, hi, he, Build_Routine.run]⟩
  case TSTcT =>
    by_cases hi : HCpmpm_Reeds_Shepp.TiSTcT_exists E h c1 c2 = true
    · exact ⟨.TiSTcT, rfl, hi,
        by simp [family_path, HCpmpm_Reeds_Shepp.TSTcT_path, hi, Build_Routine.run]⟩
    · have he : HCpmpm_Reeds_Shepp.TeSTcT_exists h c1 c2 = true := by
        simpa [family_exists, HCpmpm_Reeds_Shepp.TSTcT_exists, hi] using hX
      exact ⟨.TeSTcT, rfl, he,
        by simp [family_path, HCpmpm_Reeds_Shepp.TSTcT_path, hi, he, Build_Routine.run]⟩
  case TcTST =>
    by_cases hi : HCpmpm_Reeds_Shepp.TcTiST_exists E h c1 c2 = true
    · exact ⟨.TcTiST, rfl, hi,
        by simp [family_path, HCpmpm_Reeds_Shepp.TcTST_path, hi, Build_Routine.run]⟩
    · have he : HCpmpm_Reeds_Shepp.TcTeST_exists h c1 c2 = true := by
        simpa [family_exists, HCpmpm_Reeds_Shepp.TcTST_exists, hi] using hX
      exact ⟨.TcTeST, rfl, he,
        by simp [family_path, HCpmpm_Reeds_Shepp.TcTST_path, hi, he, Build_Routine.run]⟩
  case TcTSTcT =>
    by_cases hi : HCpmpm_Reeds_Shepp.TcTiSTcT_exists E h c1 c2 = true
    · exact ⟨.TcTiSTcT, rfl, hi,
        by simp [family_path, HCpmpm_Reeds_Shepp.TcTSTcT_path, hi, Build_Routine.run]⟩
    · have he : HCpmpm_Reeds_Shepp.TcTeSTcT_exists h c1 c2 = true := by
        simpa [family_exists, HCpmpm_Reeds_Shepp.TcTSTcT_exists, hi] using hX
      exact ⟨.TcTeSTcT, rfl, he,
        by simp [family_path, HCpmpm_Reeds_Shepp.TcTSTcT_path, hi, he, Build_Routine.run]⟩
  case TcST =>
    by_cases hi : HCpmpm_Reeds_Shepp.TciST_exists h c1 c2 = true
    · exact ⟨.TciST, rfl, hi,
        by simp [family_path, HCpmpm_Reeds_Shepp.TcST_path, hi, Build_Routine.run]⟩
    · have he : HCpmpm_Reeds_Shepp.TceST_exists E h c1 c2 = true := by
        simpa [family_exists, HCpmpm_Reeds_Shepp.TcST_exists, hi] using hX
      exact ⟨.TceST, rfl, he,
        by simp [family_path, HCpmpm_Reeds_Shepp.TcST_path, hi, he, Build_Routine.run]⟩
  case TScT =>
    by_cases hi : HCpmpm_Reeds_Shepp.TiScT_exists h c1 c2 = true
    · exact ⟨.TiScT, rfl, hi,
        by simp [family_path, HCpmpm_Reeds_Shepp.TScT_path, hi, Build_Routine.run]⟩
    · have he : HCpmpm_Reeds_Shepp.TeScT_exists E h c1 c2 = true := by
        simpa [family_exists, HCpmpm_Reeds_Shepp.TScT_exists, hi] using hX
      exact ⟨.TeScT, rfl, he,
        by simp [family_path, HCpmpm_Reeds_Shepp.TScT_path, hi, he, Build_Routine.run]⟩
  case TcScT =>
    by_cases hi : HCpmpm_Reeds_Shepp.TciScT_exists h c1 c2 = true
    · exact ⟨.TciScT, rfl, hi,
        by simp [family_path, HCpmpm_Reeds_Shepp.TcScT_path, hi, Build_Routine.run]⟩
    · have he : HCpmpm_Reeds_Shepp.TceScT_exists E h c1 c2 = true := by
        simpa [family_exists, HCpmpm_Reeds_Shepp.TcScT_exists, hi] using hX
      exact ⟨.TceScT, rfl, he,
        by simp [family_path, HCpmpm_Reeds_Shepp.TcScT_path, hi, he, Build_Routine.run]⟩

/-- The selector's result on a pair with a feasible family is below the sentinel as soon as
the feasible build routines and the `T` turn return lengths below it. -/
theorem pair_path_lt_dbl_max (c1 c2 : HC_CC_Circle K)
    (hY : ∃ Y, family_exists E (precompute E S c1 c2) c1 c2 Y = true)
    (hbuild : ∀ r : Build_Routine, r.feasible E (precompute E S c1 c2) c1 c2 = true →
      (r.run E (precompute E S c1 c2) c1 c2).length < E.dbl_max)
    (hturn : E.rs_turn_length
      (HC_CC_Circle.of_start E c1.start c1.left c1.forward false S.rs_circle_param_) c2.start <
        E.dbl_max) :
    (hcpmpm_circles_rs_path E S c1 c2).1.length < E.dbl_max := by
  by_cases heq : E.configuration_equal c1.start c2.start = true
  · refine lt_of_le_of_lt (selector_length_le_row E S c1 c2 (by decide : 0 < _)) ?_
    simp [selector_table, heq, hc_cc_rs_path_type.index, E.dbl_max_pos]
  · have hne : E.configuration_equal c1.start c2.start = false := by simpa using heq
    by_cases hon : E.configuration_on_hc_cc_circle c1 c2.start = true
    · refine lt_of_le_of_lt (selector_length_le_row E S c1 c2 (by decide : 1 < _)) ?_
      simpa [selector_table, hne, hon, hc_cc_rs_path_type.index, precompute] using hturn
    · have hoff : E.configuration_on_hc_cc_circle c1 c2.start = false := by simpa using hon
      obtain ⟨Y, hYex⟩ := hY
      obtain ⟨r, -, hrf, hr⟩ :=
        family_path_feasible_routine E (precompute E S c1 c2) c1 c2 Y hYex
      refine lt_of_le_of_lt (selector_length_le_row E S c1 c2 (index_lt Y)) ?_
      rw [selector_table_at E S c1 c2 hne hoff Y, hYex, if_pos rfl, hr]
      exact hbuild r hrf

/-- C27: with `R ≥ 0` and `sin μ ≤ 1`, and with every feasible build routine and the `T`
turn returning a length below the sentinel on the surviving pairs, the index that
`hcpmpm_reeds_shepp` chooses is the index `4 i + j` of a pair that survived the filter and was
evaluated; the returned path is the selector's result for that pair, not a null entry, and
`get_distance` and `get_controls` read that path.  When `s1.kappa < 0` or `s2.kappa < 0`,
entry 0 is not evaluated (null path, sentinel length) and the chosen index is not 0. -/
theorem chosen_index_evaluated (em : Emitters K (List (Control K)))
    (hR : 0 ≤ S.radius_) (hsin : S.sin_mu_ ≤ 1)
    (hbuild : ∀ i j, survives state1 state2 i j → ∀ r : Build_Routine,
      r.feasible E
        (precompute E S (endpoint_circle E S state1.configuration i)
          (endpoint_circle E S state2.configuration j))
        (endpoint_circle E S state1.configuration i)
        (endpoint_circle E S state2.configuration j) = true →
      (r.run E
        (precompute E S (endpoint_circle E S state1.configuration i)
          (endpoint_circle E S state2.configuration j))
        (endpoint_circle E S state1.configuration i)
        (endpoint_circle E S state2.configuration j)).length < E.dbl_max)
    (hturn : ∀ i j, survives state1 state2 i j →
      E.rs_turn_length
        (HC_CC_Circle.of_start E (endpoint_circle E S state1.configuration i).start
          (endpoint_circle E S state1.configuration i).left
          (endpoint_circle E S state1.configuration i).forward false S.rs_circle_param_)
        (endpoint_circle E S state2.configuration j).start < E.dbl_max) :
    (∃ i j, survives state1 state2 i j ∧
      array_index_min (driver_tables E S state1 state2).lg 16 = 4 * i + j ∧
      (hcpmpm_reeds_shepp E S state1 state2).1 = some (pair_path E S state1 state2 i j) ∧
      get_distance E S state1 state2 = some (pair_path E S state1 state2 i j).length ∧
      get_controls E em S state1 state2 =
        path_controls em (pair_path E S state1 state2 i j) []) ∧
    (state1.kappa < 0 ∨ state2.kappa < 0 →
      (driver_tables E S state1 state2).path 0 = none ∧
      (driver_tables E S state1 state2).lg 0 = E.dbl_max ∧
      array_index_min (driver_tables E S state1 state2).lg 16 ≠ 0) := by
  obtain ⟨i0, j0, hsv0, hY⟩ := surviving_pair_family E S state1 state2 hR hsin
  have hfin : ∃ i j, survives state1 state2 i j ∧
      (pair_path E S state1 state2 i j).length < E.dbl_max :=
    ⟨i0, j0, hsv0, pair_path_lt_dbl_max E S _ _ hY (hbuild i0 j0 hsv0) (hturn i0 j0 hsv0)⟩
  obtain ⟨i, j, hsv, hidx, hres⟩ := chosen_index_survives E S state1 state2 hfin
  have hzero : state1.kappa < 0 ∨ state2.kappa < 0 →
      ∀ i' j', survives state1 state2 i' j' → (0 : Nat) ≠ 4 * i' + j' := by
    intro hneg i' j' hsv' h0
    obtain ⟨-, -, hs1, hs2⟩ := hsv'
    have hi0 : i' = 0 := by omega
    have hj0 : j' = 0 := by omega
    subst hi0 hj0
    rcases hneg with h | h
    · rw [skip_circle_neg h] at hs1
      simp at hs1
    · rw [skip_circle_neg h] at hs2
      simp at hs2
  refine ⟨⟨i, j, hsv, hidx, hres, by simp [get_distance, hres], by simp [get_controls, hres]⟩,
    fun hneg => ?_⟩
  obtain ⟨hp0, hl0⟩ := driver_tables_other E S state1 state2 0 (hzero hneg)
  refine ⟨hp0, hl0, fun hb => ?_⟩
  rw [hidx] at hb
  exact hzero hneg i j hsv hb.symm

end chosen_index

section chosen_index_concrete

theorem toy_left_right_survives {i j : Nat} (h : survives state_left state_right i j) :
    (i = 0 ∨ i = 2) ∧ (j = 1 ∨ j = 3) := by
  obtain ⟨hi, hj, h1, h2⟩ := h
  rw [skip_circle_pos (by norm_num [state_left])] at h1
  rw [skip_circle_neg (by norm_num [state_right])] at h2
  simp at h1 h2
  omega

open HCpmpm_Reeds_Shepp in
/-- On the toy instance with `s1.kappa = 1/2` and `s2.kappa = -1/2`, every feasible build
routine of a surviving pair returns a length of at most 20. -/
theorem toy_left_right_build {i j : Nat} (hsv : survives state_left state_right i j)
    (r : Build_Routine)
    (h : r.feasible toy_env
      (precompute toy_env toy_space (endpoint_circle toy_env toy_space state_left.configuration i)
        (endpoint_circle toy_env toy_space state_right.configuration j))
      (endpoint_circle toy_env toy_space state_left.configuration i)
      (endpoint_circle toy_env toy_space state_right.configuration j) = true) :
    (r.run toy_env
      (precompute toy_env toy_space (endpoint_circle toy_env toy_space state_left.configuration i)
        (endpoint_circle toy_env toy_space state_right.configuration j))
      (endpoint_circle toy_env toy_space state_left.configuration i)
      (endpoint_circle toy_env toy_space state_right.configuration j)).length ≤ 20 := by
  obtain ⟨hi, hj⟩ := toy_left_right_survives hsv
  clear hsv
  revert h
  rcases hi with rfl | rfl <;> rcases hj with rfl | rfl <;> cases r
  all_goals
    first
    | (intro h
       exfalso
       revert h
       simp [Build_Routine.feasible, TT_exists, TcT_exists, TcTcT_exists, TcTT_exists,
        TTcT_exists, TiST_exists, TeST_exists, TiSTcT_exists, TeSTcT_exists, TcTiST_exists,
        TcTeST_exists, TcTiSTcT_exists, TcTeSTcT_exists, TTcTT_exists, TcTTcT_exists,
        TTT_exists, TciST_exists, TceST_exists, TiScT_exists, TeScT_exists, TciScT_exists,
        TceScT_exists, precompute, toy_env, toy_space, endpoint_circle, HC_CC_Circle.of_start,
        State.configuration, state_left, state_right, fabs, pow2]
       try norm_num
       done)
    | (intro _
       simp [Build_Routine.run, TT_path, TcT_path, TcTcT_path, TcTT_path, TTcT_path,
        TiST_path, TeST_path, hc_straight_hc, TiSTcT_path, TeSTcT_path,
        TcTiST_path, TcTeST_path, TcTiSTcT_path, TcTeSTcT_path, TTcTT_path, TcTTcT_path,
        TTT_path, TciST_path, TceST_path, TiScT_path, TeScT_path, TciScT_path, TceScT_path,
        rs_straight_rs, TiST_path_q2q3, TeST_path_q2q3, TcT_path_q, TT_path_q2, conf_at,
        start_conf, HC_CC_Circle.of_center, HC_REGULAR,
        precompute, toy_env, toy_space, endpoint_circle, HC_CC_Circle.of_start,
        State.configuration, state_left, state_right, fabs, pow2, Decomposition.init]
       try norm_num [abs_div])

/-- Witness for C27: with `s1.kappa = 1/2` and `s2.kappa = -1/2` on the toy instance the
chosen index belongs to a surviving pair, entry 0 is a null path and is not chosen. -/
theorem chosen_index_evaluated_witness :
    (∃ i j, survives state_left state_right i j ∧
      array_index_min (driver_tables toy_env toy_space state_left state_right).lg 16 =
        4 * i + j ∧
      (hcpmpm_reeds_shepp toy_env toy_space state_left state_right).1 =
        some (pair_path toy_env toy_space state_left state_right i j)) ∧
    (driver_tables toy_env toy_space state_left state_right).path 0 = none ∧
    array_index_min (driver_tables toy_env toy_space state_left state_right).lg 16 ≠ 0 :=
  have h := chosen_index_evaluated toy_env toy_space state_left state_right toy_emitters
    (by norm_num [toy_space]) (by norm_num [toy_space])
    (fun _ _ hsv r hr => lt_of_le_of_lt (toy_left_right_build hsv r hr)
      (by norm_num [toy_env]))
    (fun _ _ _ => by norm_num [toy_env])
  have h0 := h.2 (Or.inr (by norm_num [state_right]))
  ⟨by
    obtain ⟨i, j, hsv, hidx, hres, -, -⟩ := h.1
    exact ⟨i, j, hsv, hidx, hres⟩, h0.1, h0.2.2⟩

end chosen_index_concrete

/-! ## The `regular` flag of intermediate circles -/

section intermediate_regular

open HCpmpm_Reeds_Shepp

variable (E : Env K) (S : HCpmpm_Reeds_Shepp_State_Space K) (c1 c2 : HC_CC_Circle K)

/-- The intermediate circles that a build routine returns carry `regular = true`, except the
one of `TTT_path`, which carries `CC_REGULAR`. -/
theorem intermediate_regular_aux (r : Build_Routine) (c : HC_CC_Circle K)
    (h : (r.run E S c1 c2).ci1 = some c ∨ (r.run E S c1 c2).ci2 = some c) :
    c.regular = if r = .TTT then CC_REGULAR else true := by
  cases r <;> simp only [Build_Routine.run, TT_path, TcT_path, TcTcT_path, TcTT_path, TTcT_path,
    TiST_path, TeST_path, hc_straight_hc, TiSTcT_path, TeSTcT_path, TcTiST_path, TcTeST_path,
    TcTiSTcT_path, TcTeSTcT_path, TTcTT_path, TcTTcT_path, TTT_path, TciST_path, TceST_path,
    TiScT_path, TeScT_path, TciScT_path, TceScT_path, rs_straight_rs, Decomposition.init] at h
  all_goals first
    | (simp at h; done)
    | (split_ifs at h <;> simp at h <;> subst h <;> rfl)
    | (simp at h; rcases h with h | h <;> subst h <;> rfl)
    | (split_ifs at h <;> simp at h <;> rcases h with h | h <;> subst h <;> rfl)
    | (simp at h; subst h; rfl)

end intermediate_regular

section intermediate_regular_flag

open HCpmpm_Reeds_Shepp

variable (E : Env K) (S : HCpmpm_Reeds_Shepp_State_Space K) (c1 c2 : HC_CC_Circle K)

/-- C29 (amended): every intermediate circle (`ci1`, `ci2`) that a build routine other than
`TTT_path` places in the returned decomposition is constructed with `regular = true`; the
intermediate circle of `TTT_path` is constructed with `regular = CC_REGULAR`, which is
`false`. -/
theorem intermediate_circle_regular (r : Build_Routine) (c : HC_CC_Circle K)
    (h : (r.run E S c1 c2).ci1 = some c ∨ (r.run E S c1 c2).ci2 = some c) :
    (r ≠ .TTT → c.regular = true) ∧ (r = .TTT → c.regular = false) := by
  have hc := intermediate_regular_aux E S c1 c2 r c h
  constructor
  · intro hr
    rw [hc, if_neg hr]
  · intro hr
    rw [hc, if_pos hr]
    rfl

end intermediate_regular_flag

section intermediate_regular_concrete

/-- Witness for C29 (amended): on the toy instance the intermediate circle of the `TcTT`
decomposition has `regular = true`. -/
theorem intermediate_circle_regular_witness :
    ∃ c, (Build_Routine.run toy_env toy_space circle_origin circle_ahead .TcTT).ci1 = some c ∧
      c.regular = true := by
  have hex : ∃ c, (Build_Routine.run toy_env toy_space circle_origin circle_ahead .TcTT).ci1 =
      some c := by
    simp [Build_Routine.run, HCpmpm_Reeds_Shepp.TcTT_path, toy_env]
  obtain ⟨c, hc⟩ := hex
  exact ⟨c, hc, (intermediate_circle_regular toy_env toy_space circle_origin circle_ahead
    .TcTT c (Or.inl hc)).1 (by decide)⟩

/-- Counterexample to C29 as stated: on the toy instance, between the left/forward circle at
the origin and the left/backward circle at `(5, 0)`, `TTT_exists` holds and the intermediate
circle of the `TTT` decomposition has `regular = false`. -/
theorem TTT_middle_not_regular :
    family_exists toy_env
      (precompute toy_env toy_space circle_origin
        (endpoint_circle toy_env toy_space state_ahead.configuration 2))
      circle_origin (endpoint_circle toy_env toy_space state_ahead.configuration 2) .TTT = true ∧
    ∃ c, (family_path toy_env
      (precompute toy_env toy_space circle_origin
        (endpoint_circle toy_env toy_space state_ahead.configuration 2))
      circle_origin (endpoint_circle toy_env toy_space state_ahead.configuration 2) .TTT).ci1 =
        some c ∧ c.regular = false := by
  constructor
  · simp [family_exists, HCpmpm_Reeds_Shepp.TTT_exists, precompute, toy_env, toy_space,
      circle_origin, endpoint_circle, HC_CC_Circle.of_start, State.configuration, state_origin,
      state_ahead]
    norm_num
  · have hex : ∃ c, (family_path toy_env
        (precompute toy_env toy_space circle_origin
          (endpoint_circle toy_env toy_space state_ahead.configuration 2))
        circle_origin (endpoint_circle toy_env toy_space state_ahead.configuration 2) .TTT).ci1 =
          some c := by
      simp [family_path, HCpmpm_Reeds_Shepp.TTT_path, toy_env]
    obtain ⟨c, hc⟩ := hex
    exact ⟨c, hc, by
      have := intermediate_regular_aux toy_env _ circle_origin _ .TTT c (Or.inl hc)
      simpa [CC_REGULAR] using this⟩

end intermediate_regular_concrete

/-! ## Square roots in the tangent-circle constructions -/

section square_roots

variable (E : Env K) (S : HCpmpm_Reeds_Shepp_State_Space K) (c1 c2 : HC_CC_Circle K)

open HCpmpm_Reeds_Shepp

/-- The auxiliary circle of `TiSTcT_path` is the circle `TiSTcT_tangent_circle`. -/
theorem TiSTcT_path_tangent_circle :
    (TiSTcT_path E S c1 c2).qi2 =
      some (TiST_path_q2q3 E S c1 (TiSTcT_tangent_circle E S c2)).1 ∧
    (TiSTcT_path E S c1 c2).qi3 =
      some (TiST_path_q2q3 E S c1 (TiSTcT_tangent_circle E S c2)).2 ∧
    (TiSTcT_path E S c1 c2).qi4 = some (TcT_path_q E (TiSTcT_tangent_circle E S c2) c2) :=
  ⟨rfl, rfl, rfl⟩

/-- The auxiliary circle of `TcTiST_path` is the circle `TcTiST_tangent_circle`. -/
theorem TcTiST_path_tangent_circle :
    (TcTiST_path E S c1 c2).qi1 = some (TcT_path_q E c1 (TcTiST_tangent_circle E S c1 c2)) ∧
    (TcTiST_path E S c1 c2).qi2 =
      some (TiST_path_q2q3 E S (TcTiST_tangent_circle E S c1 c2) c2).1 ∧
    (TcTiST_path E S c1 c2).qi3 =
      some (TiST_path_q2q3 E S (TcTiST_tangent_circle E S c1 c2) c2).2 :=
  ⟨rfl, rfl, rfl⟩

end square_roots

section square_roots_concrete

open HCpmpm_Reeds_Shepp

/-- The missing `fabs` of `TiSTcT_path` on a negative radicand, in a direct call outside the
predicate: between the toy circles at distance 2 (where `TiSTcT_exists` is false, so the
selector does not call the routine) the radicand is `4 - (16/5)² < 0`; the root is taken of
the radicand itself, and taking it of the absolute value gives another auxiliary circle and
another configuration `q4`. -/
theorem TiSTcT_sqrt_without_abs :
    TiSTcT_exists toy_env (precompute toy_env toy_space circle_origin circle_near)
      circle_origin circle_near = false ∧
    TiSTcT_tangent_circle toy_env.abs_sqrt
        (precompute toy_env toy_space circle_origin circle_near) circle_near ≠
      TiSTcT_tangent_circle toy_env
        (precompute toy_env toy_space circle_origin circle_near) circle_near ∧
    (TiSTcT_path toy_env.abs_sqrt (precompute toy_env toy_space circle_origin circle_near)
        circle_origin circle_near).qi4 ≠
      (TiSTcT_path toy_env (precompute toy_env toy_space circle_origin circle_near)
        circle_origin circle_near).qi4 := by
  refine ⟨?_, ?_, ?_⟩
  · simp [TiSTcT_exists, precompute, toy_env, toy_space, circle_origin, circle_near,
      endpoint_circle, HC_CC_Circle.of_start, State.configuration, state_origin, state_near,
      fabs, pow2]
    norm_num
  · intro h
    have hx := congrArg HC_CC_Circle.xc h
    revert hx
    simp [TiSTcT_tangent_circle, Env.abs_sqrt, precompute, toy_env, toy_space, circle_origin,
      circle_near, endpoint_circle, HC_CC_Circle.of_start, HC_CC_Circle.of_center,
      State.configuration, state_origin, state_near, fabs, pow2]
    norm_num [abs_div]
  · intro h
    revert h
    simp [TiSTcT_path, TcT_path_q, Env.abs_sqrt, precompute, toy_env, toy_space, circle_origin,
      circle_near, endpoint_circle, HC_CC_Circle.of_start, HC_CC_Circle.of_center,
      State.configuration, state_origin, state_near, fabs, pow2, conf_at]
    norm_num [abs_div]

end square_roots_concrete

/-! ## The auxiliary circle of `TiSTcT_path` -/

section TiSTcT_geometry

variable (E : Env K) (S : HCpmpm_Reeds_Shepp_State_Space K) (c1 c2 : HC_CC_Circle K)

open HCpmpm_Reeds_Shepp

/-- The algebra behind the auxiliary circle: with `w = d² - a² ≥ (b + m)²`, `u ≥ 0` and
`u² = m² w`, the squared distance `d² - 2u + m²` is at least `a² + b²`, with equality exactly
when `w = (b + m)²`. -/
theorem tangent_offset_bound (a b m d u : K) (hb : 0 ≤ b) (hm : 0 < m) (hu : 0 ≤ u)
    (hw : (b + m) ^ 2 ≤ d ^ 2 - a ^ 2) (hu2 : u ^ 2 = m ^ 2 * (d ^ 2 - a ^ 2)) :
    a ^ 2 + b ^ 2 ≤ d ^ 2 - 2 * u + m ^ 2 ∧
    (d ^ 2 - 2 * u + m ^ 2 = a ^ 2 + b ^ 2 ↔ d ^ 2 - a ^ 2 = (b + m) ^ 2) := by
  set w := d ^ 2 - a ^ 2 with hwdef
  have hbm0 : 0 ≤ b * m := mul_nonneg hb hm.le
  have hdiff : (b + m) ^ 2 - (m - b) ^ 2 = 4 * (b * m) := by ring
  have hX : 0 ≤ w + m ^ 2 - b ^ 2 := by
    have e : (b + m) ^ 2 + m ^ 2 - b ^ 2 = 2 * m ^ 2 + 2 * (b * m) := by ring
    have := sq_nonneg m
    linarith
  have hprod : (w + m ^ 2 - b ^ 2) ^ 2 - (2 * u) ^ 2 =
      (w - (b + m) ^ 2) * (w - (m - b) ^ 2) := by
    have : (2 * u) ^ 2 = 4 * (m ^ 2 * w) := by rw [← hu2]; ring
    rw [this]
    ring
  have h1 : 0 ≤ w - (b + m) ^ 2 := sub_nonneg.mpr hw
  have h2 : 0 ≤ w - (m - b) ^ 2 := by linarith
  have hle : 2 * u ≤ w + m ^ 2 - b ^ 2 := by
    have hsq : (2 * u) ^ 2 ≤ (w + m ^ 2 - b ^ 2) ^ 2 := by
      have := mul_nonneg h1 h2
      linarith
    by_contra hlt
    have := mul_self_lt_mul_self hX (not_le.mp hlt)
    rw [← sq, ← sq] at this
    exact absurd hsq (not_le.mpr this)
  refine ⟨by linarith, ⟨fun heq => ?_, fun heq => ?_⟩⟩
  · have h2u : 2 * u = w + m ^ 2 - b ^ 2 := by linarith
    have hz : (w - (b + m) ^ 2) * (w - (m - b) ^ 2) = 0 := by
      rw [← hprod, h2u]
      ring
    rcases mul_eq_zero.mp hz with h | h
    · linarith
    · have hbm : b * m = 0 := by linarith
      have hb0 : b = 0 := by
        rcases mul_eq_zero.mp hbm with h' | h'
        · exact h'
        · exact absurd h' (ne_of_gt hm)
      subst hb0
      have : w = (m - 0) ^ 2 := by linarith
      simpa using this
  · have hz : (w + m ^ 2 - b ^ 2) ^ 2 - (2 * u) ^ 2 = 0 := by
      rw [hprod, heq]
      ring
    have hfac : (w + m ^ 2 - b ^ 2 - 2 * u) * (w + m ^ 2 - b ^ 2 + 2 * u) = 0 := by
      rw [← hz]
      ring
    rcases mul_eq_zero.mp hfac with h | h <;> linarith

/-- The radicand of `delta_x`, scaled by `d²`. -/
theorem delta_radicand_scaled (k d x y : K) (hk : 0 < k) (hd : 0 < d) :
    ((2 / k) ^ 2 - ((4 * x * y) / (k * d)) ^ 2) * d ^ 2 =
      (2 / k) ^ 2 * (d ^ 2 - (2 * x * y) ^ 2) := by
  field_simp
  ring

/-- The bound of `TiSTcT_exists`, read off a true predicate. -/
theorem TiSTcT_exists_bound (h : TiSTcT_exists E S c1 c2 = true) :
    E.sqrt (TiSTcT_bound_radicand S c1) ≤ S.hcpmpm_reeds_shepp_.distance := by
  unfold TiSTcT_exists at h
  split_ifs at h
  exact of_decide_eq_true h

/-- C26: let the frame change at the precomputed angle be the rotation by `(cs, sn)` followed
by a translation, let the centre of `c2` lie at distance `d` from the centre of `c1` in that
direction, let `sin² μ + cos² μ = 1`, `R ≥ 0`, `sin μ ≥ 0`, `|c1.kappa| = |c2.kappa| ≠ 0`, and
let `sqrt` be exact at the radicand of the predicate's bound and at the radicand of `delta_x`.
The configurations `q2`, `q3` that `TiSTcT_path` returns are those of `TiST_path` between `c1`
and its auxiliary circle `tgt1`, and `q4` is the join of `TcT_path` between `tgt1` and `c2`.
When `TiSTcT_exists` holds, the centre of `tgt1` is at squared distance `(2/|κ|)²` from the
centre of `c2` and at squared distance at least `(2R)²` from the centre of `c1`, with equality
exactly when `d` equals the predicate's bound. -/
theorem TiSTcT_tangent_circle_feasible (cs sn : K)
    (hrot : cs ^ 2 + sn ^ 2 = 1)
    (hframe : ∀ x y lx ly : K, E.global_frame_change x y S.hcpmpm_reeds_shepp_.angle lx ly =
      (x + lx * cs - ly * sn, y + lx * sn + ly * cs))
    (hxc : c2.xc - c1.xc = S.hcpmpm_reeds_shepp_.distance * cs)
    (hyc : c2.yc - c1.yc = S.hcpmpm_reeds_shepp_.distance * sn)
    (hmu : S.sin_mu_ ^ 2 + S.cos_mu_ ^ 2 = 1) (hR : 0 ≤ S.radius_) (hsin : 0 ≤ S.sin_mu_)
    (hk : fabs c1.kappa = fabs c2.kappa) (hk0 : c2.kappa ≠ 0)
    (hs1 : 0 ≤ E.sqrt (TiSTcT_bound_radicand S c1) ∧
      E.sqrt (TiSTcT_bound_radicand S c1) ^ 2 = TiSTcT_bound_radicand S c1)
    (hs2 : 0 ≤ TiSTcT_delta_radicand S c2 →
      0 ≤ E.sqrt (TiSTcT_delta_radicand S c2) ∧
        E.sqrt (TiSTcT_delta_radicand S c2) ^ 2 = TiSTcT_delta_radicand S c2)
    (hex : TiSTcT_exists E S c1 c2 = true) :
    ((TiSTcT_path E S c1 c2).qi2 =
        some (TiST_path_q2q3 E S c1 (TiSTcT_tangent_circle E S c2)).1 ∧
      (TiSTcT_path E S c1 c2).qi3 =
        some (TiST_path_q2q3 E S c1 (TiSTcT_tangent_circle E S c2)).2 ∧
      (TiSTcT_path E S c1 c2).qi4 =
        some (TcT_path_q E (TiSTcT_tangent_circle E S c2) c2)) ∧
    center_sq_distance (TiSTcT_tangent_circle E S c2) c2 = pow2 (2 / fabs c2.kappa) ∧
    pow2 (2 * S.radius_) ≤ center_sq_distance c1 (TiSTcT_tangent_circle E S c2) ∧
    (center_sq_distance c1 (TiSTcT_tangent_circle E S c2) = pow2 (2 * S.radius_) ↔
      S.hcpmpm_reeds_shepp_.distance = E.sqrt (TiSTcT_bound_radicand S c1)) := by
  refine ⟨TiSTcT_path_tangent_circle E S c1 c2, ?_⟩
  have hpred := TiSTcT_exists_bound E S c1 c2 hex
  obtain ⟨hs1a, hs1b⟩ := hs1
  have hkpos : 0 < |c2.kappa| := abs_pos.mpr hk0
  have hm : 0 < 2 / |c2.kappa| := div_pos two_pos hkpos
  have hb : 0 ≤ 2 * S.radius_ * S.sin_mu_ := mul_nonneg (mul_nonneg zero_le_two hR) hsin
  have hA : TiSTcT_bound_radicand S c1 =
      (2 * S.radius_ * S.sin_mu_ + 2 / |c2.kappa|) ^ 2 + (2 * S.radius_ * S.cos_mu_) ^ 2 := by
    have hk1 : |c1.kappa| = |c2.kappa| := hk
    simp only [TiSTcT_bound_radicand, pow2, fabs, hk1]
  have hApos : 0 < TiSTcT_bound_radicand S c1 := by
    rw [hA]
    have : 0 < 2 * S.radius_ * S.sin_mu_ + 2 / |c2.kappa| := by linarith
    positivity
  have hspos : 0 < E.sqrt (TiSTcT_bound_radicand S c1) := by
    rcases hs1a.lt_or_eq with h | h
    · exact h
    · rw [← h] at hs1b
      rw [← hs1b] at hApos
      simp at hApos
  have hd : 0 < S.hcpmpm_reeds_shepp_.distance := lt_of_lt_of_le hspos hpred
  have hd2 : TiSTcT_bound_radicand S c1 ≤ S.hcpmpm_reeds_shepp_.distance ^ 2 := by
    rw [← hs1b]
    exact pow_le_pow_left₀ hs1a hpred 2
  have hw : (2 * S.radius_ * S.sin_mu_ + 2 / |c2.kappa|) ^ 2 ≤
      S.hcpmpm_reeds_shepp_.distance ^ 2 - (2 * S.radius_ * S.cos_mu_) ^ 2 := by
    rw [hA] at hd2
    linarith
  have hBd : TiSTcT_delta_radicand S c2 * S.hcpmpm_reeds_shepp_.distance ^ 2 =
      (2 / |c2.kappa|) ^ 2 *
        (S.hcpmpm_reeds_shepp_.distance ^ 2 - (2 * S.radius_ * S.cos_mu_) ^ 2) := by
    simp only [TiSTcT_delta_radicand, pow2, fabs]
    have h1 : (2 / c2.kappa) ^ 2 = (2 / |c2.kappa|) ^ 2 := by
      rw [div_pow, div_pow, sq_abs]
    rw [h1]
    exact delta_radicand_scaled _ _ _ _ hkpos hd
  have hB : 0 ≤ TiSTcT_delta_radicand S c2 := by
    have hpos : 0 < S.hcpmpm_reeds_shepp_.distance ^ 2 := by positivity
    refine nonneg_of_mul_nonneg_left ?_ hpos
    rw [hBd]
    exact mul_nonneg (sq_nonneg _) (le_trans (sq_nonneg _) hw)
  obtain ⟨hx0, hx2⟩ := hs2 hB
  have hu : 0 ≤ S.hcpmpm_reeds_shepp_.distance * E.sqrt (TiSTcT_delta_radicand S c2) :=
    mul_nonneg hd.le hx0
  have hu2 : (S.hcpmpm_reeds_shepp_.distance * E.sqrt (TiSTcT_delta_radicand S c2)) ^ 2 =
      (2 / |c2.kappa|) ^ 2 *
        (S.hcpmpm_reeds_shepp_.distance ^ 2 - (2 * S.radius_ * S.cos_mu_) ^ 2) := by
    rw [mul_pow, hx2, mul_comm, hBd]
  obtain ⟨hge, heq⟩ := tangent_offset_bound _ _ _ _ _ hb hm hu hw hu2
  have hdy : ((4 * S.radius_ * S.cos_mu_) /
      (|c2.kappa| * S.hcpmpm_reeds_shepp_.distance)) ^ 2 =
      (2 / |c2.kappa|) ^ 2 - E.sqrt (TiSTcT_delta_radicand S c2) ^ 2 := by
    rw [hx2]
    simp only [TiSTcT_delta_radicand, pow2, fabs]
    rw [div_pow 2 c2.kappa, div_pow 2 |c2.kappa|, sq_abs]
    ring
  have hxt : (TiSTcT_tangent_circle E S c2).xc =
      c2.xc - E.sqrt (TiSTcT_delta_radicand S c2) * cs -
        (4 * S.radius_ * S.cos_mu_) / (|c2.kappa| * S.hcpmpm_reeds_shepp_.distance) * sn := by
    simp only [TiSTcT_tangent_circle, HC_CC_Circle.of_center, hframe, TiSTcT_delta_radicand,
      fabs]
    ring
  have hyt : (TiSTcT_tangent_circle E S c2).yc =
      c2.yc - E.sqrt (TiSTcT_delta_radicand S c2) * sn +
        (4 * S.radius_ * S.cos_mu_) / (|c2.kappa| * S.hcpmpm_reeds_shepp_.distance) * cs := by
    simp only [TiSTcT_tangent_circle, HC_CC_Circle.of_center, hframe, TiSTcT_delta_radicand,
      fabs]
    ring
  have hR2 : pow2 (2 * S.radius_) =
      (2 * S.radius_ * S.cos_mu_) ^ 2 + (2 * S.radius_ * S.sin_mu_) ^ 2 := by
    simp only [pow2]
    have : (2 * S.radius_ * S.cos_mu_) ^ 2 + (2 * S.radius_ * S.sin_mu_) ^ 2 =
        (2 * S.radius_) ^ 2 * (S.sin_mu_ ^ 2 + S.cos_mu_ ^ 2) := by ring
    rw [this, hmu, mul_one]
  have hc2 : center_sq_distance (TiSTcT_tangent_circle E S c2) c2 =
      pow2 (2 / fabs c2.kappa) := by
    simp only [center_sq_distance, pow2, fabs, hxt, hyt]
    have : (c2.xc - (c2.xc - E.sqrt (TiSTcT_delta_radicand S c2) * cs -
        (4 * S.radius_ * S.cos_mu_) / (|c2.kappa| * S.hcpmpm_reeds_shepp_.distance) * sn)) ^ 2 +
        (c2.yc - (c2.yc - E.sqrt (TiSTcT_delta_radicand S c2) * sn +
        (4 * S.radius_ * S.cos_mu_) / (|c2.kappa| * S.hcpmpm_reeds_shepp_.distance) * cs)) ^ 2 =
        (E.sqrt (TiSTcT_delta_radicand S c2) ^ 2 +
          ((4 * S.radius_ * S.cos_mu_) /
            (|c2.kappa| * S.hcpmpm_reeds_shepp_.distance)) ^ 2) * (cs ^ 2 + sn ^ 2) := by
      ring
    rw [this, hrot, hdy]
    ring
  have hc1 : center_sq_distance c1 (TiSTcT_tangent_circle E S c2) =
      S.hcpmpm_reeds_shepp_.distance ^ 2 -
        2 * (S.hcpmpm_reeds_shepp_.distance * E.sqrt (TiSTcT_delta_radicand S c2)) +
        (2 / |c2.kappa|) ^ 2 := by
    have hx1 : c2.xc = c1.xc + S.hcpmpm_reeds_shepp_.distance * cs := by linarith
    have hy1 : c2.yc = c1.yc + S.hcpmpm_reeds_shepp_.distance * sn := by linarith
    simp only [center_sq_distance, pow2, hxt, hyt, hx1, hy1]
    have : (c1.xc + S.hcpmpm_reeds_shepp_.distance * cs -
        E.sqrt (TiSTcT_delta_radicand S c2) * cs -
        (4 * S.radius_ * S.cos_mu_) / (|c2.kappa| * S.hcpmpm_reeds_shepp_.distance) * sn -
          c1.xc) ^ 2 +
        (c1.yc + S.hcpmpm_reeds_shepp_.distance * sn -
        E.sqrt (TiSTcT_delta_radicand S c2) * sn +
        (4 * S.radius_ * S.cos_mu_) / (|c2.kappa| * S.hcpmpm_reeds_shepp_.distance) * cs -
          c1.yc) ^ 2 =
        ((S.hcpmpm_reeds_shepp_.distance - E.sqrt (TiSTcT_delta_radicand S c2)) ^ 2 +
          ((4 * S.radius_ * S.cos_mu_) /
            (|c2.kappa| * S.hcpmpm_reeds_shepp_.distance)) ^ 2) * (cs ^ 2 + sn ^ 2) := by
      ring
    rw [this, hrot, hdy]
    ring
  refine ⟨hc2, ?_, ?_⟩
  · rw [hc1, hR2]
    exact hge
  · rw [hc1, hR2, heq]
    constructor
    · intro h
      have hsq : S.hcpmpm_reeds_shepp_.distance ^ 2 =
          E.sqrt (TiSTcT_bound_radicand S c1) ^ 2 := by
        rw [hs1b, hA]
        linarith
      have hfac : (S.hcpmpm_reeds_shepp_.distance - E.sqrt (TiSTcT_bound_radicand S c1)) *
          (S.hcpmpm_reeds_shepp_.distance + E.sqrt (TiSTcT_bound_radicand S c1)) = 0 := by
        have : (S.hcpmpm_reeds_shepp_.distance - E.sqrt (TiSTcT_bound_radicand S c1)) *
          (S.hcpmpm_reeds_shepp_.distance + E.sqrt (TiSTcT_bound_radicand S c1)) =
          S.hcpmpm_reeds_shepp_.distance ^ 2 - E.sqrt (TiSTcT_bound_radicand S c1) ^ 2 := by
          ring
        rw [this, hsq, sub_self]
      rcases mul_eq_zero.mp hfac with h' | h' <;> linarith
    · intro h
      have hsq : S.hcpmpm_reeds_shepp_.distance ^ 2 = TiSTcT_bound_radicand S c1 := by
        rw [h, hs1b]
      rw [hA] at hsq
      linarith

end TiSTcT_geometry

section tangent_circle_concrete

open HCpmpm_Reeds_Shepp

theorem exact_sqrt_sq (q : ℚ) (h : 0 ≤ q) : exact_env.sqrt (q * q) = q := by
  show Rat.sqrt (q * q) = q
  rw [Rat.sqrt_eq, abs_of_nonneg h]

theorem skew_bound_radicand (c : HC_CC_Circle ℚ) :
    TiSTcT_bound_radicand (precompute exact_env skew_space skew_origin c) skew_origin =
      25 / 6 * (25 / 6) := by
  simp [TiSTcT_bound_radicand, precompute, skew_space, skew_origin, endpoint_circle,
    HC_CC_Circle.of_start, fabs, pow2]
  norm_num

theorem skew_bound_distance :
    (precompute exact_env skew_space skew_origin skew_bound).hcpmpm_reeds_shepp_.distance =
      25 / 6 := by
  simp [precompute, exact_env, toy_env, skew_space, skew_origin, skew_bound, endpoint_circle,
    HC_CC_Circle.of_start, State.configuration, state_origin, state_bound]
  norm_num [abs_div]

theorem skew_bound_delta_radicand :
    TiSTcT_delta_radicand (precompute exact_env skew_space skew_origin skew_bound) skew_bound =
      8 / 5 * (8 / 5) := by
  rw [TiSTcT_delta_radicand, skew_bound_distance]
  simp [precompute, skew_space, skew_bound, endpoint_circle, HC_CC_Circle.of_start, fabs, pow2]
  norm_num

theorem skew_bound_exists :
    TiSTcT_exists exact_env (precompute exact_env skew_space skew_origin skew_bound)
      skew_origin skew_bound = true := by
  have h := skew_bound_radicand skew_bound
  unfold TiSTcT_bound_radicand at h
  have hl : skew_origin.left = skew_bound.left := rfl
  have hf : skew_origin.forward = skew_bound.forward := rfl
  simp only [TiSTcT_exists, hl, hf, ne_eq, not_true_eq_false, if_false, h,
    exact_sqrt_sq (25 / 6) (by norm_num), skew_bound_distance]
  norm_num

/-- Witness for C26: in `skew_space` with the centres at the predicate's bound `d = 25/6`, the
configuration `q4` returned by `TiSTcT_path` is the join of `TcT_path` between its auxiliary
circle and `c2`, and the auxiliary circle has its centre at squared distance `(2/|κ|)²` from
the centre of `c2` and `(2R)²` from the centre of `c1`. -/
theorem TiSTcT_tangent_circle_feasible_witness :
    (TiSTcT_path exact_env (precompute exact_env skew_space skew_origin skew_bound) skew_origin
        skew_bound).qi4 =
      some (TcT_path_q exact_env
        (TiSTcT_tangent_circle exact_env (precompute exact_env skew_space skew_origin skew_bound)
          skew_bound) skew_bound) ∧
    center_sq_distance
        (TiSTcT_tangent_circle exact_env (precompute exact_env skew_space skew_origin skew_bound)
          skew_bound) skew_bound = pow2 (2 / fabs skew_bound.kappa) ∧
    center_sq_distance skew_origin
        (TiSTcT_tangent_circle exact_env (precompute exact_env skew_space skew_origin skew_bound)
          skew_bound) =
      pow2 (2 * (precompute exact_env skew_space skew_origin skew_bound).radius_) :=
  have h := TiSTcT_tangent_circle_feasible exact_env
    (precompute exact_env skew_space skew_origin skew_bound) skew_origin skew_bound 1 0
    (by norm_num)
    (fun x y lx ly => by simp [exact_env, toy_env])
    (by
      rw [skew_bound_distance]
      simp [exact_env, toy_env, skew_space, skew_origin, skew_bound, endpoint_circle,
        HC_CC_Circle.of_start, State.configuration, state_origin, state_bound])
    (by
      simp [exact_env, toy_env, skew_space, skew_origin, skew_bound, endpoint_circle,
        HC_CC_Circle.of_start, State.configuration, state_origin, state_bound])
    (by norm_num [precompute, skew_space])
    (by norm_num [precompute, skew_space])
    (by norm_num [precompute, skew_space])
    rfl
    (by norm_num [skew_bound, skew_space, endpoint_circle, HC_CC_Circle.of_start])
    (by
      rw [skew_bound_radicand, exact_sqrt_sq (25 / 6) (by norm_num)]
      norm_num)
    (fun _ => by
      rw [skew_bound_delta_radicand, exact_sqrt_sq (8 / 5) (by norm_num)]
      norm_num)
    skew_bound_exists
  ⟨h.1.2.2, h.2.1, h.2.2.2.mpr (by
    rw [skew_bound_distance, skew_bound_radicand, exact_sqrt_sq (25 / 6) (by norm_num)])⟩

theorem skew_past_distance :
    (precompute exact_env skew_space skew_origin skew_past).hcpmpm_reeds_shepp_.distance =
      17 / 4 := by
  simp [precompute, exact_env, toy_env, skew_space, skew_origin, skew_past, endpoint_circle,
    HC_CC_Circle.of_start, State.configuration, state_origin, state_past]
  norm_num [abs_div]

theorem skew_past_exists :
    TcTiST_exists exact_env (precompute exact_env skew_space skew_origin skew_past)
      skew_origin skew_past = true := by
  have h := skew_bound_radicand skew_past
  unfold TiSTcT_bound_radicand at h
  have hl : skew_origin.left = skew_past.left := rfl
  have hf : skew_origin.forward = skew_past.forward := rfl
  simp only [TcTiST_exists, hl, hf, ne_eq, not_true_eq_false, if_false, h,
    exact_sqrt_sq (25 / 6) (by norm_num), skew_past_distance]
  norm_num

theorem skew_past_tangent_circle :
    (TcTiST_tangent_circle exact_env (precompute exact_env skew_space skew_origin skew_past)
        skew_origin skew_past).xc = 30 / 17 ∧
    (TcTiST_tangent_circle exact_env (precompute exact_env skew_space skew_origin skew_past)
        skew_origin skew_past).yc = 33 / 17 := by
  have hsq : Rat.sqrt (pow2 2 - pow2 (16 / 17)) = 30 / 17 := by
    have h : pow2 (2 : ℚ) - pow2 (16 / 17) = 30 / 17 * (30 / 17) := by norm_num [pow2]
    rw [h, Rat.sqrt_eq]
    norm_num [abs_div]
  refine ⟨?_, ?_⟩
  · simp only [TcTiST_tangent_circle, HC_CC_Circle.of_center, skew_past_distance]
    simp [exact_env, toy_env, skew_space, skew_origin, skew_past, endpoint_circle,
      HC_CC_Circle.of_start, State.configuration, state_origin, state_past, fabs]
    norm_num
    exact hsq
  · simp only [TcTiST_tangent_circle, HC_CC_Circle.of_center, skew_past_distance]
    simp [exact_env, toy_env, skew_space, skew_origin, skew_past, endpoint_circle,
      HC_CC_Circle.of_start, State.configuration, state_origin, state_past, fabs]
    norm_num

/-- C25 (failing instance): in `skew_space` (`kappa = 1`, `R = 17/12`, `sin μ = 8/17`,
`cos μ = 15/17`) the left/forward endpoint circles at `(0, 0, 0)` and `(17/4, 0, 0)` have
`c2.radius = 1/|c2.kappa|` and equal curvature magnitudes and satisfy `TcTiST_exists`
(`d = 17/4 ≥ 25/6`), yet the auxiliary circle of `TcTiST_path`, with centre `(30/17, 33/17)`,
has its centre at squared distance `113/16` from the centre of `c2`, which is less than
`(2R)² = 289/36`; the straight segment of the nested `TiST` construction would have negative
length, since `113/16 - (2R cos μ)² < (2R sin μ)²`. -/
theorem TcTiST_tangent_circle_too_close :
    TcTiST_exists exact_env (precompute exact_env skew_space skew_origin skew_past)
      skew_origin skew_past = true ∧
    skew_past.radius = 1 / fabs skew_past.kappa ∧
    fabs skew_origin.kappa = fabs skew_past.kappa ∧
    center_sq_distance
        (TcTiST_tangent_circle exact_env (precompute exact_env skew_space skew_origin skew_past)
          skew_origin skew_past) skew_past = 113 / 16 ∧
    center_sq_distance
        (TcTiST_tangent_circle exact_env (precompute exact_env skew_space skew_origin skew_past)
          skew_origin skew_past) skew_past <
      pow2 (2 * (precompute exact_env skew_space skew_origin skew_past).radius_) ∧
    center_sq_distance
        (TcTiST_tangent_circle exact_env (precompute exact_env skew_space skew_origin skew_past)
          skew_origin skew_past) skew_past -
        pow2 (2 * (precompute exact_env skew_space skew_origin skew_past).radius_ *
          (precompute exact_env skew_space skew_origin skew_past).cos_mu_) <
      pow2 (2 * (precompute exact_env skew_space skew_origin skew_past).radius_ *
        (precompute exact_env skew_space skew_origin skew_past).sin_mu_) := by
  have hd : center_sq_distance
      (TcTiST_tangent_circle exact_env (precompute exact_env skew_space skew_origin skew_past)
        skew_origin skew_past) skew_past = 113 / 16 := by
    rw [center_sq_distance, skew_past_tangent_circle.1, skew_past_tangent_circle.2]
    simp [exact_env, toy_env, skew_space, skew_past, endpoint_circle, HC_CC_Circle.of_start,
      State.configuration, state_past, pow2]
    norm_num
  refine ⟨skew_past_exists, ?_, rfl, hd, ?_, ?_⟩
  · norm_num [skew_past, skew_space, endpoint_circle, HC_CC_Circle.of_start, fabs]
  · rw [hd]
    norm_num [precompute, skew_space, pow2]
  · rw [hd]
    norm_num [precompute, skew_space, pow2]

end tangent_circle_concrete

/-! ## The shapes of the selector's result -/

section selector_cases

variable (E : Env K) (S : HCpmpm_Reeds_Shepp_State_Space K) (c1 c2 : HC_CC_Circle K)

/-- The result of the selector has one of four shapes: family `EMPTY` with length 0 (equal
start configurations), family `EMPTY` with the sentinel length and no circle (nothing below
the sentinel was stored), family `T` (second early return), or the decomposition of a feasible
build routine under its family tag. -/
theorem selector_result_cases :
    (E.configuration_equal c1.start c2.start = true ∧
      (hcpmpm_circles_rs_path E S c1 c2).1 =
        path_of_row S c1 c2 .EMPTY { Decomposition.init E with length := 0 }) ∨
    (E.configuration_equal c1.start c2.start = false ∧
      (hcpmpm_circles_rs_path E S c1 c2).1 =
        path_of_row (precompute E S c1 c2) c1 c2 .EMPTY (Decomposition.init E)) ∨
    (E.configuration_equal c1.start c2.start = false ∧
      E.configuration_on_hc_cc_circle c1 c2.start = true ∧
      (hcpmpm_circles_rs_path E S c1 c2).1 =
        path_of_row (precompute E S c1 c2) c1 c2 .T
          { Decomposition.init E with
            cstart := some
              (HC_CC_Circle.of_start E c1.start c1.left c1.forward false S.rs_circle_param_),
            length := E.rs_turn_length
              (HC_CC_Circle.of_start E c1.start c1.left c1.forward false S.rs_circle_param_)
              c2.start }) ∨
    (E.configuration_equal c1.start c2.start = false ∧
      E.configuration_on_hc_cc_circle c1 c2.start = false ∧
      ∃ r : Build_Routine, r.feasible E (precompute E S c1 c2) c1 c2 = true ∧
        (hcpmpm_circles_rs_path E S c1 c2).1 =
          path_of_row (precompute E S c1 c2) c1 c2 r.family
            (r.run E (precompute E S c1 c2) c1 c2)) := by
  by_cases heq : E.configuration_equal c1.start c2.start = true
  · exact Or.inl ⟨heq, hcpmpm_circles_rs_path_EMPTY E S c1 c2 heq⟩
  have hne : E.configuration_equal c1.start c2.start = false := by simpa using heq
  have hb := array_index_min_lt
    (fun i => (selector_table E (precompute E S c1 c2) c1 c2 i).length)
    (by decide : 0 < nb_hc_cc_rs_paths)
  have hfirst := @array_index_min_first K _
    (fun i => (selector_table E (precompute E S c1 c2) c1 c2 i).length) nb_hc_cc_rs_paths 0
  have hres := hcpmpm_circles_rs_path_fst E S c1 c2
  rw [index_of_index hb] at hres
  by_cases hon : E.configuration_on_hc_cc_circle c1 c2.start = true
  · have htable : ∀ i, i ≠ 1 →
        selector_table E (precompute E S c1 c2) c1 c2 i = Decomposition.init E := by
      intro i hi
      simp [selector_table, hne, hon, hi, hc_cc_rs_path_type.index, Function.update]
    by_cases h1 : array_index_min
        (fun i => (selector_table E (precompute E S c1 c2) c1 c2 i).length)
        nb_hc_cc_rs_paths = 1
    · refine Or.inr (Or.inr (Or.inl ⟨hne, hon, ?_⟩))
      rw [hres, h1]
      simp [selector_table, hne, hon, hc_cc_rs_path_type.of_index, hc_cc_rs_path_type.index,
        path_of_row, precompute, Decomposition.init]
    · refine Or.inr (Or.inl ⟨hne, ?_⟩)
      by_cases h0 : array_index_min
          (fun i => (selector_table E (precompute E S c1 c2) c1 c2 i).length)
          nb_hc_cc_rs_paths = 0
      · rw [hres, h0, htable 0 (by decide)]
        rfl
      · have hlt := hfirst (Nat.pos_of_ne_zero h0)
        simp only [htable _ h1, htable 0 (by decide)] at hlt
        exact absurd hlt (lt_irrefl _)
  · have hoff : E.configuration_on_hc_cc_circle c1 c2.start = false := by simpa using hon
    have hrow := selector_table_at E S c1 c2 hne hoff
      (hc_cc_rs_path_type.of_index (array_index_min
        (fun i => (selector_table E (precompute E S c1 c2) c1 c2 i).length)
        nb_hc_cc_rs_paths))
    rw [index_of_index hb] at hrow
    have hrow0 := selector_table_at E S c1 c2 hne hoff .EMPTY
    simp only [family_exists, Bool.false_eq_true, if_false] at hrow0
    by_cases hX : family_exists E (precompute E S c1 c2) c1 c2
        (hc_cc_rs_path_type.of_index (array_index_min
          (fun i => (selector_table E (precompute E S c1 c2) c1 c2 i).length)
          nb_hc_cc_rs_paths)) = true
    · rw [if_pos hX] at hrow
      obtain ⟨r, hfam, hfeas, hrun⟩ :=
        family_path_feasible_routine E (precompute E S c1 c2) c1 c2 _ hX
      refine Or.inr (Or.inr (Or.inr ⟨hne, hoff, r, hfeas, ?_⟩))
      rw [hres, hrow, hrun, hfam]
    · rw [if_neg hX] at hrow
      refine Or.inr (Or.inl ⟨hne, ?_⟩)
      by_cases h0 : array_index_min
          (fun i => (selector_table E (precompute E S c1 c2) c1 c2 i).length)
          nb_hc_cc_rs_paths = 0
      · rw [hres, hrow, h0]
        rfl
      · have hlt := hfirst (Nat.pos_of_ne_zero h0)
        have hrow0' : selector_table E (precompute E S c1 c2) c1 c2 0 = Decomposition.init E :=
          hrow0
        simp only [hrow, hrow0'] at hlt
        exact absurd hlt (lt_irrefl _)

end selector_cases

/-! ## First and last emitter call -/

section turns

variable (E : Env K) (S : HCpmpm_Reeds_Shepp_State_Space K) (c1 c2 : HC_CC_Circle K)

open HCpmpm_Reeds_Shepp

theorem of_start_abs_kappa (q : Configuration K) (l f r : Bool) (param : HC_CC_Circle_Param K) :
    |(HC_CC_Circle.of_start E q l f r param).kappa| = |param.kappa| := by
  cases l <;> simp [HC_CC_Circle.of_start]

theorem of_center_abs_kappa (x y : K) (l f r : Bool) (param : HC_CC_Circle_Param K) :
    |(HC_CC_Circle.of_center E x y l f r param).kappa| = |param.kappa| := by
  cases l <;> simp [HC_CC_Circle.of_center]

theorem TcT_path_q_kappa : (TcT_path_q E c1 c2).kappa = c1.kappa := by
  unfold TcT_path_q
  split_ifs <;> rfl

/-- The first emitter call for the decomposition of a build routine is on `cstart`, the last
on `cend`; both circles and the last join configuration have a curvature of the magnitude of
the maximum curvature, as soon as the two endpoint circles have. -/
theorem routine_turns (r : Build_Routine)
    (h1 : |c1.kappa| = |S.rs_circle_param_.kappa|)
    (h2 : |c2.kappa| = |S.rs_circle_param_.kappa|) :
    (∃ c, (path_of_row S c1 c2 r.family (r.run E S c1 c2)).first_circle = some c ∧
      S.max_curvature c.kappa) ∧
    (∃ c q, (path_of_row S c1 c2 r.family (r.run E S c1 c2)).last_turn = some (c, q) ∧
      S.max_curvature c.kappa ∧ S.max_curvature q.kappa) := by
  cases r <;>
    simp only [Build_Routine.run, Build_Routine.family, TT_path, TcT_path, TcTcT_path,
      TcTT_path, TTcT_path, TiST_path, TeST_path, hc_straight_hc, TiSTcT_path, TeSTcT_path,
      TcTiST_path, TcTeST_path, TcTiSTcT_path, TcTeSTcT_path, TTcTT_path, TcTTcT_path,
      TTT_path, TciST_path, TceST_path, TiScT_path, TeScT_path, TciScT_path, TceScT_path,
      rs_straight_rs, Decomposition.init, path_of_row, HC_CC_RS_Path.first_circle,
      HC_CC_RS_Path.last_turn, schedule, List.head?, List.getLast?, List.getLast,
      Segment.circle, Segment.join, Option.bind, Option.map,
      HC_CC_RS_Path.circle, HC_CC_RS_Path.conf, if_true]
  all_goals try split_ifs
  all_goals
    refine ⟨⟨_, rfl, ?_⟩, ⟨_, _, rfl, ?_, ?_⟩⟩ <;>
    simp only [HCpmpm_Reeds_Shepp_State_Space.max_curvature, of_start_abs_kappa,
      of_center_abs_kappa, TcT_path_q_kappa, start_conf, conf_at, h1, h2, true_or, or_true,
      TcTcT_tangent_circles, TcTT_tangent_circles, TTcT_tangent_circles,
      TTcTT_tangent_circles, TcTTcT_tangent_circles, TTT_tangent_circles]

end turns

/-! ## The turns at the two ends of a returned path -/

section end_turns

variable (E : Env K) (S : HCpmpm_Reeds_Shepp_State_Space K) (state1 state2 : State K)

theorem endpoint_circle_abs_kappa (q : Configuration K) (i : Nat) :
    |(endpoint_circle E S q i).kappa| = |S.rs_circle_param_.kappa| := by
  unfold endpoint_circle
  split <;> exact of_start_abs_kappa E _ _ _ _ _

/-- A path the driver returns is the selector's result for a surviving pair. -/
theorem driver_result_pair {p : HC_CC_RS_Path K}
    (hres : (hcpmpm_reeds_shepp E S state1 state2).1 = some p) :
    ∃ i j, survives state1 state2 i j ∧ p = pair_path E S state1 state2 i j := by
  rcases (driver_tables_sound E S state1 state2).2
      (array_index_min (driver_tables E S state1 state2).lg 16) with
    ⟨hnone, -⟩ | ⟨i, j, hsv, -, hp, -⟩
  · have h : (driver_tables E S state1 state2).path
        (array_index_min (driver_tables E S state1 state2).lg 16) = some p := hres
    rw [hnone] at h
    exact absurd h (by simp)
  · have h : (driver_tables E S state1 state2).path
        (array_index_min (driver_tables E S state1 state2).lg 16) = some p := hres
    rw [hp] at h
    exact ⟨i, j, hsv, (Option.some.inj h).symm⟩

omit [LinearOrderedField K] in
theorem routine_family_ne (r : Build_Routine) : r.family ≠ .EMPTY ∧ r.family ≠ .T := by
  cases r <;> exact ⟨by simp [Build_Routine.family], by simp [Build_Routine.family]⟩

omit [LinearOrderedField K] in
theorem schedule_first (X : hc_cc_rs_path_type) (hX : X ≠ .EMPTY) :
    (∃ q o, (schedule X).head? = some (.rs .cstart q o) ∨
      (schedule X).head? = some (.hc .cstart q o)) ∧
    (X ≠ .T → 2 ≤ (schedule X).length) := by
  cases X
  case EMPTY => exact absurd rfl hX
  all_goals
    refine ⟨?_, fun _ => ?_⟩
    · first
      | exact ⟨_, _, Or.inl rfl⟩
      | exact ⟨_, _, Or.inr rfl⟩
    · first
      | contradiction
      | simp [schedule]

/-- A returned path of a family other than `EMPTY`: the first emitter call is on `cstart`,
which has a curvature of the magnitude of the maximum curvature, and so has the circle of the
last emitter call; the join configuration of the last call is `state2`'s configuration for
family `T` and has a curvature of that magnitude otherwise. -/
theorem driver_turns {p : HC_CC_RS_Path K}
    (hres : (hcpmpm_reeds_shepp E S state1 state2).1 = some p)
    (hty : p.type ≠ .EMPTY) :
    (∃ c, p.first_circle = some c ∧ p.cstart = some c ∧ S.max_curvature c.kappa) ∧
    (∃ c q, p.last_turn = some (c, q) ∧ S.max_curvature c.kappa ∧
      ((p.type = .T ∧ q = state2.configuration) ∨
        (p.type ≠ .T ∧ S.max_curvature q.kappa))) := by
  obtain ⟨i, j, -, rfl⟩ := driver_result_pair E S state1 state2 hres
  unfold pair_path at hty ⊢
  rcases selector_result_cases E S (endpoint_circle E S state1.configuration i)
      (endpoint_circle E S state2.configuration j) with
    ⟨-, h⟩ | ⟨-, h⟩ | ⟨-, -, h⟩ | ⟨-, -, r, -, h⟩
  · rw [h] at hty
    exact absurd rfl hty
  · rw [h] at hty
    exact absurd rfl hty
  · rw [h]
    refine ⟨⟨_, rfl, rfl, Or.inl (of_start_abs_kappa E _ _ _ _ _)⟩,
      ⟨_, _, rfl, Or.inl (of_start_abs_kappa E _ _ _ _ _), Or.inl ⟨rfl, ?_⟩⟩⟩
    exact endpoint_circle_start E S _ _
  · rw [h]
    obtain ⟨⟨c, hc, hcmax⟩, ⟨c', q, hl, hcmax', hqmax⟩⟩ :=
      routine_turns E (precompute E S (endpoint_circle E S state1.configuration i)
          (endpoint_circle E S state2.configuration j))
        (endpoint_circle E S state1.configuration i)
        (endpoint_circle E S state2.configuration j) r
        (endpoint_circle_abs_kappa E S _ _) (endpoint_circle_abs_kappa E S _ _)
    refine ⟨⟨c, hc, ?_, hcmax⟩, ⟨c', q, hl, hcmax', Or.inr ⟨(routine_family_ne r).2, hqmax⟩⟩⟩
    obtain ⟨⟨q', o, hh⟩, -⟩ := schedule_first r.family (routine_family_ne r).1
    rcases hh with hh | hh <;>
      simpa [HC_CC_RS_Path.first_circle, path_of_row, hh, HC_CC_RS_Path.circle,
        Segment.circle] using hc

/-- C22 (amended): for a returned path of a family other than `EMPTY`, the last segment
emitter is called on a circle whose curvature has the magnitude of the maximum curvature
(`kappa` of the rs or of the hc/cc circle parameters), whatever `state2.kappa` is; the join
configuration handed to it is `state2`'s own configuration only for family `T`, and otherwise
carries a curvature of that magnitude as well. -/
theorem last_emitter_curvature {p : HC_CC_RS_Path K}
    (hres : (hcpmpm_reeds_shepp E S state1 state2).1 = some p)
    (hty : p.type ≠ .EMPTY) :
    ∃ c q, p.last_turn = some (c, q) ∧ S.max_curvature c.kappa ∧
      ((p.type = .T ∧ q = state2.configuration) ∨
        (p.type ≠ .T ∧ S.max_curvature q.kappa)) :=
  (driver_turns E S state1 state2 hres hty).2

/-- C23 (amended): a returned path of a family other than `EMPTY` never describes a
straight-only solution: the first entry of its schedule is an rs or hc turn on `cstart`, a
circle whose curvature has the magnitude of the maximum curvature, and every schedule other
than that of `T` has at least two entries. -/
theorem first_emitter_turn {p : HC_CC_RS_Path K}
    (hres : (hcpmpm_reeds_shepp E S state1 state2).1 = some p)
    (hty : p.type ≠ .EMPTY) :
    (∃ c, p.first_circle = some c ∧ p.cstart = some c ∧ S.max_curvature c.kappa) ∧
    (∃ q o, (schedule p.type).head? = some (.rs .cstart q o) ∨
      (schedule p.type).head? = some (.hc .cstart q o)) ∧
    (p.type ≠ .T → 2 ≤ (schedule p.type).length) :=
  ⟨(driver_turns E S state1 state2 hres hty).1, schedule_first p.type hty⟩

end end_turns

/-! ## Control lists of the toy emitters -/

section toy_controls

theorem toy_run_segment (p : HC_CC_RS_Path ℚ) (seg : Segment) (v v' : List (Control ℚ))
    (h : run_segment toy_emitters p seg v = some v') :
    ∃ x : Control ℚ, v' = v ++ [x] ∧ x.sigma = 0 ∧
      ∀ c cc, seg.circle = some c → p.circle c = some cc → x.kappa = cc.kappa := by
  cases seg <;>
    simp only [run_segment, toy_emitters, bind, pure, Option.bind_eq_some,
      Option.some.injEq] at h
  all_goals
    obtain ⟨a, ha, b, hb, rfl⟩ := h
    refine ⟨_, rfl, rfl, fun c cc hc hcc => ?_⟩
    simp only [Segment.circle, Option.some.injEq, reduceCtorEq] at hc
  all_goals
    subst hc
    rw [ha] at hcc
    exact congrArg HC_CC_Circle.kappa (Option.some.inj hcc)

theorem toy_run_schedule (p : HC_CC_RS_Path ℚ) :
    ∀ (segs : List Segment) (v v' : List (Control ℚ)),
      run_schedule toy_emitters p segs v = some v' →
      ∃ w : List (Control ℚ), v' = v ++ w ∧
        (∀ seg c cc, segs.head? = some seg → seg.circle = some c → p.circle c = some cc →
          ∃ x, w.head? = some x ∧ x.kappa = cc.kappa ∧ x.sigma = 0) ∧
        (∀ seg c cc, segs.getLast? = some seg → seg.circle = some c → p.circle c = some cc →
          ∃ x, w.getLast? = some x ∧ x.kappa = cc.kappa ∧ x.sigma = 0) := by
  intro segs
  induction segs with
  | nil =>
    intro v v' h
    refine ⟨[], ?_, ?_, ?_⟩
    · simp only [run_schedule, Option.some.injEq] at h
      simp [h]
    · intro seg c cc hs
      simp at hs
    · intro seg c cc hs
      simp at hs
  | cons s rest ih =>
    intro v v' h
    simp only [run_schedule, Option.bind_eq_some] at h
    obtain ⟨v1, h1, h2⟩ := h
    obtain ⟨x, rfl, hx0, hxk⟩ := toy_run_segment p s v v1 h1
    obtain ⟨w, rfl, hw1, hw2⟩ := ih _ _ h2
    refine ⟨x :: w, by simp, ?_, ?_⟩
    · intro seg c cc hs hc hcc
      simp only [List.head?_cons, Option.some.injEq] at hs
      subst hs
      exact ⟨x, rfl, hxk c cc hc hcc, hx0⟩
    · intro seg c cc hs hc hcc
      cases rest with
      | nil =>
        simp only [List.getLast?_singleton, Option.some.injEq] at hs
        subst hs
        simp only [run_schedule, Option.some.injEq] at h2
        have hw : w = [] := by simpa using h2
        subst hw
        exact ⟨x, rfl, hxk c cc hc hcc, hx0⟩
      | cons s' t =>
        rw [List.getLast?_cons_cons] at hs
        obtain ⟨y, hy, hyk, hy0⟩ := hw2 seg c cc hs hc hcc
        cases w with
        | nil => simp at hy
        | cons a b =>
          refine ⟨y, ?_, hyk, hy0⟩
          rw [List.getLast?_cons_cons]
          exact hy

/-- With the toy emitters, the first control of a path's control list has the curvature of the
circle of the first emitter call, the last control that of the circle of the last emitter
call, and both have sharpness 0. -/
theorem toy_controls_ends (p : HC_CC_RS_Path ℚ) (v : List (Control ℚ))
    (h : path_controls toy_emitters p [] = some v) (hty : p.type ≠ .EMPTY) :
    (∀ c, p.first_circle = some c →
      ∃ x, v.head? = some x ∧ x.kappa = c.kappa ∧ x.sigma = 0) ∧
    (∀ c q, p.last_turn = some (c, q) →
      ∃ x, v.getLast? = some x ∧ x.kappa = c.kappa ∧ x.sigma = 0) := by
  rw [path_controls_run_schedule, if_neg hty] at h
  obtain ⟨w, hv, hw1, hw2⟩ := toy_run_schedule p _ _ _ h
  rw [List.nil_append] at hv
  subst hv
  constructor
  · intro c hc
    simp only [HC_CC_RS_Path.first_circle, Option.bind_eq_some] at hc
    obtain ⟨slot, ⟨seg, hseg, hslot⟩, hcc⟩ := hc
    exact hw1 seg slot c hseg hslot hcc
  · intro c q hcq
    simp only [HC_CC_RS_Path.last_turn, Option.bind_eq_some, Option.map_eq_some',
      Prod.mk.injEq] at hcq
    obtain ⟨seg, hseg, cc, ⟨slot, hslot, hcc⟩, q', -, hcc', -⟩ := hcq
    subst hcc'
    exact hw2 seg slot cc hseg hslot hcc

end toy_controls

/-! ## A query answered by a `TcT` path -/

section cusp_concrete

open HCpmpm_Reeds_Shepp

theorem toy_rs_turn_length (c : HC_CC_Circle ℚ) (q : Configuration ℚ) :
    toy_env.rs_turn_length c q = 1 := rfl

theorem toy_hc_turn_length (c : HC_CC_Circle ℚ) (q : Configuration ℚ) :
    toy_env.hc_turn_length c q = 2 := rfl

theorem toy_cc_turn_length (c : HC_CC_Circle ℚ) (q : Configuration ℚ) :
    toy_env.cc_turn_length c q = 3 := rfl

theorem toy_configuration_distance_nonneg (a b : Configuration ℚ) :
    0 ≤ toy_env.configuration_distance a b := by
  show 0 ≤ |b.x - a.x| + |b.y - a.y|
  positivity

/-- On the toy instance every build routine returns a length of at least 2, and of at least 3
unless it is `TcT_path`, `TciScT_path` or `TceScT_path`. -/
theorem toy_run_ge (S : HCpmpm_Reeds_Shepp_State_Space ℚ) (c1 c2 : HC_CC_Circle ℚ)
    (r : Build_Routine) :
    2 ≤ (r.run toy_env S c1 c2).length ∧
      (r ≠ .TcT → r ≠ .TciScT → r ≠ .TceScT → 3 ≤ (r.run toy_env S c1 c2).length) := by
  cases r <;>
    simp only [Build_Routine.run, TT_path, TcT_path, TcTcT_path, TcTT_path, TTcT_path,
      TiST_path, TeST_path, hc_straight_hc, TiSTcT_path, TeSTcT_path, TcTiST_path,
      TcTeST_path, TcTiSTcT_path, TcTeSTcT_path, TTcTT_path, TcTTcT_path, TTT_path,
      TciST_path, TceST_path, TiScT_path, TeScT_path, TciScT_path, TceScT_path,
      rs_straight_rs, Decomposition.init, if_true, toy_rs_turn_length, toy_hc_turn_length,
      toy_cc_turn_length, ne_eq, reduceCtorEq, not_false_eq_true, not_true_eq_false,
      true_implies, false_implies, and_true]
  all_goals try split_ifs
  all_goals
    first
    | (norm_num; done)
    | (generalize hD : toy_env.configuration_distance _ _ = D
       have hD0 : 0 ≤ D := hD ▸ toy_configuration_distance_nonneg _ _
       constructor <;> linarith)
    | (generalize hD : toy_env.configuration_distance _ _ = D
       have hD0 : 0 ≤ D := hD ▸ toy_configuration_distance_nonneg _ _
       linarith)

theorem toy_cusp_survives {i j : Nat} (h : survives state_left state_cusp i j) :
    (i = 0 ∨ i = 2) ∧ (j = 1 ∨ j = 3) := by
  obtain ⟨hi, hj, h1, h2⟩ := h
  rw [skip_circle_pos (by norm_num [state_left])] at h1
  rw [skip_circle_neg (by norm_num [state_cusp])] at h2
  simp at h1 h2
  omega

theorem toy_cusp_survives_first : survives state_left state_cusp 0 1 := by
  refine ⟨by norm_num, by norm_num, ?_, ?_⟩
  · rw [skip_circle_pos (by norm_num [state_left])]
    simp
  · rw [skip_circle_neg (by norm_num [state_cusp])]
    simp

theorem toy_cusp_ne (i j : Nat) :
    toy_env.configuration_equal
      (endpoint_circle toy_env toy_space state_left.configuration i).start
      (endpoint_circle toy_env toy_space state_cusp.configuration j).start = false := by
  rw [endpoint_circle_start, endpoint_circle_start]
  simp [toy_env, State.configuration, state_left, state_cusp]

theorem toy_cusp_off {i : Nat} (hi : i = 0 ∨ i = 2) (j : Nat) :
    toy_env.configuration_on_hc_cc_circle
      (endpoint_circle toy_env toy_space state_left.configuration i)
      (endpoint_circle toy_env toy_space state_cusp.configuration j).start = false := by
  rw [endpoint_circle_start]
  rcases hi with rfl | rfl <;>
    simp [toy_env, toy_space, endpoint_circle, HC_CC_Circle.of_start, State.configuration,
      state_left, state_cusp] <;> norm_num

/-- Every surviving pair of the query `state_left → state_cusp` has a selector result of
length at least 2. -/
theorem toy_cusp_pair_ge {i j : Nat} (h : survives state_left state_cusp i j) :
    2 ≤ (pair_path toy_env toy_space state_left state_cusp i j).length := by
  obtain ⟨hi, -⟩ := toy_cusp_survives h
  unfold pair_path
  rcases selector_result_cases toy_env toy_space
      (endpoint_circle toy_env toy_space state_left.configuration i)
      (endpoint_circle toy_env toy_space state_cusp.configuration j) with
    ⟨heq, -⟩ | ⟨-, hr⟩ | ⟨-, hon, -⟩ | ⟨-, -, r, -, hr⟩
  · rw [toy_cusp_ne] at heq
    exact absurd heq (by simp)
  · rw [hr]
    show (2 : ℚ) ≤ toy_env.dbl_max
    norm_num [toy_env]
  · rw [toy_cusp_off hi] at hon
    exact absurd hon (by simp)
  · rw [hr]
    exact (toy_run_ge _ _ _ r).1

/-- The selector's result for the left/forward start circle and the right/forward end circle
of the query `state_left → state_cusp` is the `TcT` decomposition. -/
theorem toy_cusp_selector :
    pair_path toy_env toy_space state_left state_cusp 0 1 =
      path_of_row
        (precompute toy_env toy_space
          (endpoint_circle toy_env toy_space state_left.configuration 0)
          (endpoint_circle toy_env toy_space state_cusp.configuration 1))
        (endpoint_circle toy_env toy_space state_left.configuration 0)
        (endpoint_circle toy_env toy_space state_cusp.configuration 1) .TcT
        (TcT_path toy_env (endpoint_circle toy_env toy_space state_left.configuration 0)
          (endpoint_circle toy_env toy_space state_cusp.configuration 1) true) := by
  have hne := toy_cusp_ne 0 1
  have hoff := toy_cusp_off (Or.inl rfl : (0 : Nat) = 0 ∨ (0 : Nat) = 2) 1
  have hex : family_exists toy_env
      (precompute toy_env toy_space
        (endpoint_circle toy_env toy_space state_left.configuration 0)
        (endpoint_circle toy_env toy_space state_cusp.configuration 1))
      (endpoint_circle toy_env toy_space state_left.configuration 0)
      (endpoint_circle toy_env toy_space state_cusp.configuration 1) .TcT = true := by
    simp [family_exists, TcT_exists, precompute, toy_env, toy_space, endpoint_circle,
      HC_CC_Circle.of_start, State.configuration, state_left, state_cusp, fabs]
    norm_num
  have hle := selector_length_le_row toy_env toy_space
    (endpoint_circle toy_env toy_space state_left.configuration 0)
    (endpoint_circle toy_env toy_space state_cusp.configuration 1)
    (index_lt hc_cc_rs_path_type.TcT)
  have h2 : (family_path toy_env
      (precompute toy_env toy_space
        (endpoint_circle toy_env toy_space state_left.configuration 0)
        (endpoint_circle toy_env toy_space state_cusp.configuration 1))
      (endpoint_circle toy_env toy_space state_left.configuration 0)
      (endpoint_circle toy_env toy_space state_cusp.configuration 1) .TcT).length = 2 := by
    simp only [family_path, TcT_path, if_true, toy_rs_turn_length]
    norm_num
  rw [selector_table_at toy_env toy_space _ _ hne hoff .TcT, hex, if_pos rfl, h2] at hle
  unfold pair_path
  rcases selector_result_cases toy_env toy_space
      (endpoint_circle toy_env toy_space state_left.configuration 0)
      (endpoint_circle toy_env toy_space state_cusp.configuration 1) with
    ⟨heq, -⟩ | ⟨-, hr⟩ | ⟨-, hon, -⟩ | ⟨-, -, r, hfeas, hr⟩
  · rw [hne] at heq
    exact absurd heq (by simp)
  · rw [hr] at hle
    exfalso
    have h : toy_env.dbl_max ≤ 2 := hle
    norm_num [toy_env] at h
  · rw [hoff] at hon
    exact absurd hon (by simp)
  · rw [hr] at hle ⊢
    have hle2 : (r.run toy_env
        (precompute toy_env toy_space
          (endpoint_circle toy_env toy_space state_left.configuration 0)
          (endpoint_circle toy_env toy_space state_cusp.configuration 1))
        (endpoint_circle toy_env toy_space state_left.configuration 0)
        (endpoint_circle toy_env toy_space state_cusp.configuration 1)).length ≤ 2 := hle
    have h3 := (toy_run_ge (precompute toy_env toy_space
        (endpoint_circle toy_env toy_space state_left.configuration 0)
        (endpoint_circle toy_env toy_space state_cusp.configuration 1))
      (endpoint_circle toy_env toy_space state_left.configuration 0)
      (endpoint_circle toy_env toy_space state_cusp.configuration 1) r).2
    by_cases h1 : r = .TcT
    · subst h1
      rfl
    · exfalso
      by_cases h2 : r = .TciScT
      · subst h2
        simp [Build_Routine.feasible, TciScT_exists, endpoint_circle, HC_CC_Circle.of_start]
          at hfeas
      · by_cases h4 : r = .TceScT
        · subst h4
          simp [Build_Routine.feasible, TceScT_exists, endpoint_circle, HC_CC_Circle.of_start]
            at hfeas
        · have := h3 h1 h2 h4
          linarith

theorem toy_cusp_pair_length :
    (pair_path toy_env toy_space state_left state_cusp 0 1).length = 2 := by
  rw [toy_cusp_selector]
  simp only [path_of_row, TcT_path, if_true, toy_rs_turn_length]
  norm_num

/-- The driver answers the query `state_left → state_cusp` with the selector's result for the
left/forward start circle and the right/forward end circle. -/
theorem toy_cusp_result :
    (hcpmpm_reeds_shepp toy_env toy_space state_left state_cusp).1 =
      some (pair_path toy_env toy_space state_left state_cusp 0 1) := by
  have h1 := driver_tables_surviving toy_env toy_space state_left state_cusp 0 1
    toy_cusp_survives_first
  have hge : ∀ k, 2 ≤ (driver_tables toy_env toy_space state_left state_cusp).lg k := by
    intro k
    rcases (driver_tables_sound toy_env toy_space state_left state_cusp).2 k with
      ⟨-, hmax⟩ | ⟨i, j, hsv, -, -, hl⟩
    · rw [hmax]
      norm_num [toy_env]
    · rw [hl]
      exact toy_cusp_pair_ge hsv
  have hb : array_index_min (driver_tables toy_env toy_space state_left state_cusp).lg 16 = 1 := by
    by_contra hb
    rcases Nat.lt_or_gt_of_ne hb with hlt | hgt
    · have h0 : array_index_min
          (driver_tables toy_env toy_space state_left state_cusp).lg 16 = 0 := by omega
      have hother := driver_tables_other toy_env toy_space state_left state_cusp 0
        (fun i j hsv h => by
          obtain ⟨-, hj⟩ := toy_cusp_survives hsv
          omega)
      have hle := array_index_min_le
        (driver_tables toy_env toy_space state_left state_cusp).lg (by norm_num : 1 < 16)
      rw [h0, hother.2, h1.2, toy_cusp_pair_length] at hle
      norm_num [toy_env] at hle
    · have hfirst := array_index_min_first
        (driver_tables toy_env toy_space state_left state_cusp).lg hgt
      rw [h1.2, toy_cusp_pair_length] at hfirst
      exact absurd (hge _) (not_le.mpr hfirst)
  show (driver_tables toy_env toy_space state_left state_cusp).path
    (array_index_min (driver_tables toy_env toy_space state_left state_cusp).lg 16) = _
  rw [hb]
  exact h1.1

end cusp_concrete

/-! ## Curvature at the join of a `TcT` path -/

section cusp_join

variable (E : Env K) (S : HCpmpm_Reeds_Shepp_State_Space K) (state1 state2 : State K)

open HCpmpm_Reeds_Shepp

theorem endpoint_circle_kappa (q : Configuration K) (i : Nat) :
    (endpoint_circle E S q i).kappa =
      if (endpoint_circle E S q i).left then S.rs_circle_param_.kappa
      else -S.rs_circle_param_.kappa := by
  unfold endpoint_circle
  split <;> rfl

omit [LinearOrderedField K] in
theorem routine_family_TcT {r : Build_Routine} (h : r.family = .TcT) : r = .TcT := by
  cases r <;> simp [Build_Routine.family] at h ⊢

/-- A returned path of family `TcT` is the `TcT` decomposition of a surviving pair of endpoint
circles of opposite turning direction. -/
theorem driver_TcT {p : HC_CC_RS_Path K}
    (hres : (hcpmpm_reeds_shepp E S state1 state2).1 = some p) (hty : p.type = .TcT) :
    ∃ i j, survives state1 state2 i j ∧
      (endpoint_circle E S state2.configuration j).kappa =
        -(endpoint_circle E S state1.configuration i).kappa ∧
      p = path_of_row
        (precompute E S (endpoint_circle E S state1.configuration i)
          (endpoint_circle E S state2.configuration j))
        (endpoint_circle E S state1.configuration i)
        (endpoint_circle E S state2.configuration j) .TcT
        (TcT_path E (endpoint_circle E S state1.configuration i)
          (endpoint_circle E S state2.configuration j) true) := by
  obtain ⟨i, j, hsv, rfl⟩ := driver_result_pair E S state1 state2 hres
  refine ⟨i, j, hsv, ?_⟩
  unfold pair_path at hty ⊢
  rcases selector_result_cases E S (endpoint_circle E S state1.configuration i)
      (endpoint_circle E S state2.configuration j) with
    ⟨-, h⟩ | ⟨-, h⟩ | ⟨-, -, h⟩ | ⟨-, -, r, hfeas, h⟩
  · rw [h] at hty
    simp [path_of_row] at hty
  · rw [h] at hty
    simp [path_of_row] at hty
  · rw [h] at hty
    simp [path_of_row] at hty
  · rw [h] at hty ⊢
    have hr : r = .TcT := routine_family_TcT hty
    subst hr
    refine ⟨?_, rfl⟩
    have hl : (endpoint_circle E S state1.configuration i).left ≠
        (endpoint_circle E S state2.configuration j).left := by
      intro hl
      simp [Build_Routine.feasible, TcT_exists, hl] at hfeas
    rw [endpoint_circle_kappa E S state1.configuration i,
      endpoint_circle_kappa E S state2.configuration j]
    cases h1 : (endpoint_circle E S state1.configuration i).left <;>
      cases h2 : (endpoint_circle E S state2.configuration j).left <;>
      simp [h1, h2] at hl ⊢

/-- C21 (amended): when the driver returns a `TcT` path, `cstart` and `cend` are endpoint
circles `c1`, `c2` of a surviving pair with `c2.kappa = -c1.kappa`, the join `q1` carries
`c1.kappa`, and `get_controls` is `rs_turn_controls(cend, q1, false)` after
`rs_turn_controls(cstart, q1, true)`.  With an rs emitter that appends one control of the
circle's curvature and sharpness 0, the two controls have the curvatures `c1.kappa` and
`-c1.kappa`: they agree at the join exactly when that curvature is 0. -/
theorem TcT_join_curvature (em : Emitters K (List (Control K)))
    (ds : HC_CC_Circle K → Configuration K → Bool → K)
    (hrs : ∀ c q o v, em.rs_turn_controls c q o v =
      v ++ [{ delta_s := ds c q o, kappa := c.kappa, sigma := 0 }])
    {p : HC_CC_RS_Path K}
    (hres : (hcpmpm_reeds_shepp E S state1 state2).1 = some p) (hty : p.type = .TcT) :
    ∃ i j, survives state1 state2 i j ∧
      p.cstart = some (endpoint_circle E S state1.configuration i) ∧
      p.cend = some (endpoint_circle E S state2.configuration j) ∧
      p.qi1 = some (TcT_path_q E (endpoint_circle E S state1.configuration i)
        (endpoint_circle E S state2.configuration j)) ∧
      (TcT_path_q E (endpoint_circle E S state1.configuration i)
        (endpoint_circle E S state2.configuration j)).kappa =
        (endpoint_circle E S state1.configuration i).kappa ∧
      (endpoint_circle E S state2.configuration j).kappa =
        -(endpoint_circle E S state1.configuration i).kappa ∧
      get_controls E em S state1 state2 = some
        [{ delta_s := ds (endpoint_circle E S state1.configuration i)
              (TcT_path_q E (endpoint_circle E S state1.configuration i)
                (endpoint_circle E S state2.configuration j)) true,
           kappa := (endpoint_circle E S state1.configuration i).kappa, sigma := 0 },
         { delta_s := ds (endpoint_circle E S state2.configuration j)
              (TcT_path_q E (endpoint_circle E S state1.configuration i)
                (endpoint_circle E S state2.configuration j)) false,
           kappa := -(endpoint_circle E S state1.configuration i).kappa, sigma := 0 }] ∧
      (curvature_continuous
        [{ delta_s := ds (endpoint_circle E S state1.configuration i)
              (TcT_path_q E (endpoint_circle E S state1.configuration i)
                (endpoint_circle E S state2.configuration j)) true,
           kappa := (endpoint_circle E S state1.configuration i).kappa, sigma := 0 },
         { delta_s := ds (endpoint_circle E S state2.configuration j)
              (TcT_path_q E (endpoint_circle E S state1.configuration i)
                (endpoint_circle E S state2.configuration j)) false,
           kappa := -(endpoint_circle E S state1.configuration i).kappa, sigma := 0 }] = true ↔
        (endpoint_circle E S state1.configuration i).kappa = 0) := by
  obtain ⟨i, j, hsv, hk, hp⟩ := driver_TcT E S state1 state2 hres hty
  refine ⟨i, j, hsv, ?_, ?_, ?_, TcT_path_q_kappa E _ _, hk, ?_, ?_⟩
  · rw [hp]
    rfl
  · rw [hp]
    rfl
  · rw [hp]
    rfl
  · unfold get_controls
    rw [hres, hp]
    simp [path_controls, path_of_row, TcT_path, hrs, hk]
  · simp only [curvature_continuous, Control.end_kappa, zero_mul, add_zero, Bool.and_true,
      decide_eq_true_eq]
    constructor
    · intro h
      linarith
    · intro h
      rw [h, neg_zero]

end cusp_join

/-! ## Control lists on the concrete instance -/

section curvature_concrete

open HCpmpm_Reeds_Shepp

variable (E : Env K) (S : HCpmpm_Reeds_Shepp_State_Space K) (state1 state2 : State K)

/-- When the two configurations differ and some surviving pair has a result below the
sentinel, the driver returns a path of a family other than `EMPTY`. -/
theorem driver_result_nonempty
    (hne : E.configuration_equal state1.configuration state2.configuration = false)
    (hfin : ∃ i j, survives state1 state2 i j ∧
      (pair_path E S state1 state2 i j).length < E.dbl_max) :
    ∃ p, (hcpmpm_reeds_shepp E S state1 state2).1 = some p ∧ p.type ≠ .EMPTY := by
  obtain ⟨i0, j0, hsv0, hlt0⟩ := hfin
  obtain ⟨i, j, hsv, hres, hmin, -⟩ :=
    driver_selects_min E S state1 state2 ⟨i0, j0, hsv0, hlt0⟩
  refine ⟨_, hres, ?_⟩
  have hlt : (pair_path E S state1 state2 i j).length < E.dbl_max :=
    lt_of_le_of_lt (hmin i0 j0 hsv0) hlt0
  unfold pair_path at hlt ⊢
  rcases selector_result_cases E S (endpoint_circle E S state1.configuration i)
      (endpoint_circle E S state2.configuration j) with
    ⟨heq, -⟩ | ⟨-, h⟩ | ⟨-, -, h⟩ | ⟨-, -, r, -, h⟩
  · rw [endpoint_circle_start, endpoint_circle_start, hne] at heq
    exact absurd heq (by simp)
  · rw [h] at hlt
    exact absurd hlt (lt_irrefl _)
  · rw [h]
    simp [path_of_row]
  · rw [h]
    exact (routine_family_ne r).1

/-- The `switch` of `get_controls` dereferences no null member of the decomposition that a
build routine returns. -/
theorem routine_controls_some {σ : Type} (em : Emitters K σ) (v : σ) (c1 c2 : HC_CC_Circle K)
    (r : Build_Routine) :
    ∃ w, path_controls em (path_of_row S c1 c2 r.family (r.run E S c1 c2)) v = some w := by
  cases r <;>
    simp only [Build_Routine.run, Build_Routine.family, TT_path, TcT_path, TcTcT_path,
      TcTT_path, TTcT_path, TiST_path, TeST_path, hc_straight_hc, TiSTcT_path, TeSTcT_path,
      TcTiST_path, TcTeST_path, TcTiSTcT_path, TcTeSTcT_path, TTcTT_path, TcTTcT_path,
      TTT_path, TciST_path, TceST_path, TiScT_path, TeScT_path, TciScT_path, TceScT_path,
      rs_straight_rs, Decomposition.init, path_of_row, if_true]
  all_goals try split_ifs
  all_goals exact ⟨_, rfl⟩

/-- The `switch` of `get_controls` dereferences no null member of a returned path. -/
theorem driver_controls_some (em : Emitters K (List (Control K))) {p : HC_CC_RS_Path K}
    (hres : (hcpmpm_reeds_shepp E S state1 state2).1 = some p) :
    ∃ v, path_controls em p [] = some v := by
  obtain ⟨i, j, -, rfl⟩ := driver_result_pair E S state1 state2 hres
  unfold pair_path
  rcases selector_result_cases E S (endpoint_circle E S state1.configuration i)
      (endpoint_circle E S state2.configuration j) with
    ⟨-, h⟩ | ⟨-, h⟩ | ⟨-, -, h⟩ | ⟨-, -, r, -, h⟩
  · rw [h]
    exact ⟨_, rfl⟩
  · rw [h]
    exact ⟨_, rfl⟩
  · rw [h]
    exact ⟨_, rfl⟩
  · rw [h]
    exact routine_controls_some E _ em [] _ _ r

theorem toy_max_curvature {x : ℚ} (h : toy_space.max_curvature x) : |x| = 1 := by
  rcases h with h | h <;> simpa [toy_space] using h

/-- On the toy instance `get_distance` of the query `state_left → state_right` is below the
sentinel for some surviving pair. -/
theorem toy_left_right_finite :
    ∃ i j, survives state_left state_right i j ∧
      (pair_path toy_env toy_space state_left state_right i j).length < toy_env.dbl_max := by
  obtain ⟨i, j, hsv, hY⟩ := surviving_pair_family toy_env toy_space state_left state_right
    (by norm_num [toy_space]) (by norm_num [toy_space])
  exact ⟨i, j, hsv, pair_path_lt_dbl_max toy_env toy_space _ _ hY
    (fun r hr => lt_of_le_of_lt (toy_left_right_build hsv r hr) (by norm_num [toy_env]))
    (by norm_num [toy_env])⟩

theorem toy_left_right_result :
    ∃ p, (hcpmpm_reeds_shepp toy_env toy_space state_left state_right).1 = some p ∧
      p.type ≠ .EMPTY :=
  driver_result_nonempty toy_env toy_space state_left state_right
    (by simp [toy_env, State.configuration, state_left, state_right]) toy_left_right_finite

theorem toy_origin_ahead_result :
    ∃ p, (hcpmpm_reeds_shepp toy_env toy_space state_origin state_ahead).1 = some p ∧
      p.type ≠ .EMPTY := by
  refine driver_result_nonempty toy_env toy_space state_origin state_ahead
    (by simp [toy_env, State.configuration, state_origin, state_ahead])
    ⟨0, 0, ⟨by norm_num, by norm_num, skip_circle_zero 0, skip_circle_zero 0⟩, ?_⟩
  have hle := selector_length_le_row toy_env toy_space circle_origin circle_ahead
    (index_lt hc_cc_rs_path_type.TcTT)
  rw [selector_table_at toy_env toy_space _ _ toy_not_equal toy_not_on_circle .TcTT,
    toy_TcTT_exists _ rfl, if_pos rfl, toy_TcTT_length] at hle
  refine lt_of_le_of_lt hle ?_
  norm_num [toy_env]

/-- Witness for C21: the query `state_left → state_cusp` on the toy instance is answered by a
`TcT` path; its two controls have the curvatures 1 and -1. -/
theorem TcT_join_curvature_witness :
    ∃ i j, survives state_left state_cusp i j ∧
      (endpoint_circle toy_env toy_space state_cusp.configuration j).kappa =
        -(endpoint_circle toy_env toy_space state_left.configuration i).kappa ∧
      get_controls toy_env toy_emitters toy_space state_left state_cusp = some
        [{ delta_s := 1,
           kappa := (endpoint_circle toy_env toy_space state_left.configuration i).kappa,
           sigma := 0 },
         { delta_s := 1,
           kappa := -(endpoint_circle toy_env toy_space state_left.configuration i).kappa,
           sigma := 0 }] := by
  obtain ⟨i, j, hsv, -, -, -, -, hk, hc, -⟩ :=
    TcT_join_curvature toy_env toy_space state_left state_cusp toy_emitters (fun _ _ _ => 1)
      (fun _ _ _ _ => rfl) toy_cusp_result (by rw [toy_cusp_selector]; rfl)
  exact ⟨i, j, hsv, hk, hc⟩

/-- Counterexample to C21 as stated: the control list of the query `state_left → state_cusp`
on the toy instance is `[(1, 1, 0), (1, -1, 0)]`; the first control ends at curvature 1 and
the second starts at curvature -1. -/
theorem curvature_jump_at_cusp :
    get_controls toy_env toy_emitters toy_space state_left state_cusp =
      some [{ delta_s := 1, kappa := 1, sigma := 0 }, { delta_s := 1, kappa := -1, sigma := 0 }] ∧
    curvature_continuous
      [({ delta_s := 1, kappa := 1, sigma := 0 } : Control ℚ),
        { delta_s := 1, kappa := -1, sigma := 0 }] = false := by
  constructor
  · unfold get_controls
    rw [toy_cusp_result, toy_cusp_selector]
    simp [path_controls, path_of_row, TcT_path, toy_emitters, endpoint_circle,
      HC_CC_Circle.of_start, toy_space]
  · simp [curvature_continuous, Control.end_kappa]
    norm_num

/-- Witness for C22: the query `state_left → state_right` on the toy instance returns a path
whose last emitter call is on a circle of curvature magnitude 1. -/
theorem last_emitter_curvature_witness :
    ∃ p c q, (hcpmpm_reeds_shepp toy_env toy_space state_left state_right).1 = some p ∧
      p.last_turn = some (c, q) ∧ |c.kappa| = 1 := by
  obtain ⟨p, hres, hty⟩ := toy_left_right_result
  obtain ⟨c, q, hl, hc, -⟩ :=
    last_emitter_curvature toy_env toy_space state_left state_right hres hty
  exact ⟨p, c, q, hres, hl, toy_max_curvature hc⟩

/-- Counterexample to C22 as stated: for `s1 = (0, 0, 0, 1/2, 0)` and `s2 = (4, 0, 0, -1/2, 0)`
on the toy instance a path exists, and the last control of `get_controls` has sharpness 0 and
a curvature of magnitude 1, so the path ends at a curvature of magnitude 1, not at
`s2.kappa = -1/2`. -/
theorem end_curvature_not_goal :
    ∃ v x, get_controls toy_env toy_emitters toy_space state_left state_right = some v ∧
      v.getLast? = some x ∧ |x.end_kappa| = 1 ∧ x.end_kappa ≠ state_right.kappa := by
  obtain ⟨p, hres, hty⟩ := toy_left_right_result
  obtain ⟨v, hv⟩ := driver_controls_some toy_env toy_space state_left state_right
    toy_emitters hres
  obtain ⟨-, c, q, hl, hc, -⟩ := driver_turns toy_env toy_space state_left state_right hres hty
  obtain ⟨x, hx, hxk, hx0⟩ := (toy_controls_ends p v hv hty).2 c q hl
  have hend : x.end_kappa = c.kappa := by
    simp [Control.end_kappa, hx0, hxk]
  have habs : |x.end_kappa| = 1 := by
    rw [hend]
    exact toy_max_curvature hc
  refine ⟨v, x, ?_, hx, habs, ?_⟩
  · unfold get_controls
    rw [hres]
    exact hv
  · intro h
    rw [h] at habs
    norm_num [state_right, abs_div] at habs

/-- Witness for C23: the query `(0,0,0,0,0) → (5,0,0,0,0)` on the toy instance returns a path
whose first emitter call is a turn on `cstart`, a circle of curvature magnitude 1. -/
theorem first_emitter_turn_witness :
    ∃ p c, (hcpmpm_reeds_shepp toy_env toy_space state_origin state_ahead).1 = some p ∧
      p.cstart = some c ∧ |c.kappa| = 1 := by
  obtain ⟨p, hres, hty⟩ := toy_origin_ahead_result
  obtain ⟨⟨c, -, hc, hmax⟩, -⟩ :=
    first_emitter_turn toy_env toy_space state_origin state_ahead hres hty
  exact ⟨p, c, hres, hc, toy_max_curvature hmax⟩

/-- The control list that `get_controls` returns on the toy instance is never a single
control of curvature 0 and non-zero length. -/
theorem toy_not_single_straight (s1 s2 : State ℚ) (ds : ℚ) (hds : ds ≠ 0) :
    get_controls toy_env toy_emitters toy_space s1 s2 ≠
      some [{ delta_s := ds, kappa := 0, sigma := 0 }] := by
  intro h
  unfold get_controls at h
  cases hres : (hcpmpm_reeds_shepp toy_env toy_space s1 s2).1 with
  | none =>
    rw [hres] at h
    simp at h
  | some p =>
    rw [hres] at h
    have hv : path_controls toy_emitters p [] =
        some [{ delta_s := ds, kappa := 0, sigma := 0 }] := h
    by_cases hty : p.type = .EMPTY
    · rw [path_controls_run_schedule, if_pos hty, hty] at hv
      simp [schedule, run_schedule, toy_emitters] at hv
      exact hds hv.symm
    · obtain ⟨⟨c, hfirst, -, hmax⟩, -⟩ := driver_turns toy_env toy_space s1 s2 hres hty
      obtain ⟨x, hx, hxk, -⟩ := (toy_controls_ends p _ hv hty).1 c hfirst
      simp only [List.head?_cons, Option.some.injEq] at hx
      subst hx
      have h1 := toy_max_curvature hmax
      rw [← hxk] at h1
      norm_num at h1

/-- Counterexample to C23 as stated: on the toy instance neither the query
`(0,0,0,0,0) → (5,0,0,0,0)` nor the query `(0,0,0,0,0) → (-5,0,0,0,0)` returns a single
control `(Δs, 0, 0)` with `Δs ≠ 0`: the former returns a path whose control list starts with
a control of curvature magnitude 1. -/
theorem straight_query_not_single_control :
    get_controls toy_env toy_emitters toy_space state_origin state_ahead ≠
      some [{ delta_s := 5, kappa := 0, sigma := 0 }] ∧
    (∀ ds : ℚ, ds < 0 →
      get_controls toy_env toy_emitters toy_space state_origin state_behind ≠
        some [{ delta_s := ds, kappa := 0, sigma := 0 }]) ∧
    ∃ v x, get_controls toy_env toy_emitters toy_space state_origin state_ahead = some v ∧
      v.head? = some x ∧ |x.kappa| = 1 := by
  refine ⟨toy_not_single_straight _ _ 5 (by norm_num),
    fun ds hds => toy_not_single_straight _ _ ds (ne_of_lt hds), ?_⟩
  obtain ⟨p, hres, hty⟩ := toy_origin_ahead_result
  obtain ⟨v, hv⟩ := driver_controls_some toy_env toy_space state_origin state_ahead
    toy_emitters hres
  obtain ⟨⟨c, hfirst, -, hmax⟩, -⟩ :=
    driver_turns toy_env toy_space state_origin state_ahead hres hty
  obtain ⟨x, hx, hxk, -⟩ := (toy_controls_ends p v hv hty).1 c hfirst
  refine ⟨v, x, ?_, hx, ?_⟩
  · unfold get_controls
    rw [hres]
    exact hv
  · rw [hxk]
    exact toy_max_curvature hmax

end curvature_concrete

/-! ## Internal and external variants of the compound families -/

section internal_external

variable (E : Env K) (S : HCpmpm_Reeds_Shepp_State_Space K) (c1 c2 : HC_CC_Circle K)

open HCpmpm_Reeds_Shepp

/-- The internal variant of a compound family is infeasible when its test of the turning
directions fails: `TiST`, `TciST`, `TiScT`, `TcTiSTcT`, `TciScT` ask for different directions,
`TiSTcT` and `TcTiST` for equal ones. -/
theorem internal_left_relation :
    (TiST_exists S c1 c2 = true → c1.left ≠ c2.left) ∧
    (TiSTcT_exists E S c1 c2 = true → c1.left = c2.left) ∧
    (TcTiST_exists E S c1 c2 = true → c1.left = c2.left) ∧
    (TcTiSTcT_exists E S c1 c2 = true → c1.left ≠ c2.left) ∧
    (TciST_exists S c1 c2 = true → c1.left ≠ c2.left) ∧
    (TiScT_exists S c1 c2 = true → c1.left ≠ c2.left) ∧
    (TciScT_exists S c1 c2 = true → c1.left ≠ c2.left) := by
  refine ⟨?_, ?_, ?_, ?_, ?_, ?_, ?_⟩ <;> intro h <;>
    simp only [TiST_exists, TiSTcT_exists, TcTiST_exists, TcTiSTcT_exists, TciST_exists,
      TiScT_exists, TciScT_exists] at h <;>
    by_contra hl <;> simp [hl] at h

/-- The external variant of a compound family asks for the opposite relation between the
turning directions. -/
theorem external_left_relation :
    (TeST_exists S c1 c2 = true → c1.left = c2.left) ∧
    (TeSTcT_exists S c1 c2 = true → c1.left ≠ c2.left) ∧
    (TcTeST_exists S c1 c2 = true → c1.left ≠ c2.left) ∧
    (TcTeSTcT_exists S c1 c2 = true → c1.left = c2.left) ∧
    (TceST_exists E S c1 c2 = true → c1.left = c2.left) ∧
    (TeScT_exists E S c1 c2 = true → c1.left = c2.left) ∧
    (TceScT_exists E S c1 c2 = true → c1.left = c2.left) := by
  refine ⟨?_, ?_, ?_, ?_, ?_, ?_, ?_⟩ <;> intro h <;>
    simp only [TeST_exists, TeSTcT_exists, TcTeST_exists, TcTeSTcT_exists, TceST_exists,
      TeScT_exists, TceScT_exists] at h <;>
    by_contra hl <;> simp [hl] at h

/-- Two guards that are never both true can be tested in either order. -/
theorem guard_order {α : Type} (a b : Bool) (x y z : α) (h : ¬ (a = true ∧ b = true)) :
    (if a then x else if b then y else z) = (if b then y else if a then x else z) := by
  cases a <;> cases b <;> simp at h ⊢

/-- C33: for every `c1`, `c2` the internal and the external sub-predicate of a compound
family (`TiST`/`TeST`, `TiSTcT`/`TeSTcT`, `TcTiST`/`TcTeST`, `TcTiSTcT`/`TcTeSTcT`,
`TciST`/`TceST`, `TiScT`/`TeScT`, `TciScT`/`TceScT`) are never both true, and each compound
build routine returns the same decomposition when the external variant is tested first. -/
theorem internal_external_exclusive :
    (¬ (TiST_exists S c1 c2 = true ∧ TeST_exists S c1 c2 = true) ∧
      ¬ (TiSTcT_exists E S c1 c2 = true ∧ TeSTcT_exists S c1 c2 = true) ∧
      ¬ (TcTiST_exists E S c1 c2 = true ∧ TcTeST_exists S c1 c2 = true) ∧
      ¬ (TcTiSTcT_exists E S c1 c2 = true ∧ TcTeSTcT_exists S c1 c2 = true) ∧
      ¬ (TciST_exists S c1 c2 = true ∧ TceST_exists E S c1 c2 = true) ∧
      ¬ (TiScT_exists S c1 c2 = true ∧ TeScT_exists E S c1 c2 = true) ∧
      ¬ (TciScT_exists S c1 c2 = true ∧ TceScT_exists E S c1 c2 = true)) ∧
    (TST_path E S c1 c2 =
        (if TeST_exists S c1 c2 then TeST_path E S c1 c2 true
          else if TiST_exists S c1 c2 then TiST_path E S c1 c2 true else Decomposition.init E) ∧
      TSTcT_path E S c1 c2 =
        (if TeSTcT_exists S c1 c2 then TeSTcT_path E S c1 c2
          else if TiSTcT_exists E S c1 c2 then TiSTcT_path E S c1 c2 else Decomposition.init E) ∧
      TcTST_path E S c1 c2 =
        (if TcTeST_exists S c1 c2 then TcTeST_path E S c1 c2
          else if TcTiST_exists E S c1 c2 then TcTiST_path E S c1 c2 else Decomposition.init E) ∧
      TcTSTcT_path E S c1 c2 =
        (if TcTeSTcT_exists S c1 c2 then TcTeSTcT_path E S c1 c2
          else if TcTiSTcT_exists E S c1 c2 then TcTiSTcT_path E S c1 c2
          else Decomposition.init E) ∧
      TcST_path E S c1 c2 =
        (if TceST_exists E S c1 c2 then TceST_path E S c1 c2
          else if TciST_exists S c1 c2 then TciST_path E S c1 c2 else Decomposition.init E) ∧
      TScT_path E S c1 c2 =
        (if TeScT_exists E S c1 c2 then TeScT_path E S c1 c2
          else if TiScT_exists S c1 c2 then TiScT_path E S c1 c2 else Decomposition.init E) ∧
      TcScT_path E S c1 c2 =
        (if TceScT_exists E S c1 c2 then TceScT_path E S c1 c2
          else if TciScT_exists S c1 c2 then TciScT_path E S c1 c2
          else Decomposition.init E)) := by
  obtain ⟨i1, i2, i3, i4, i5, i6, i7⟩ := internal_left_relation E S c1 c2
  obtain ⟨e1, e2, e3, e4, e5, e6, e7⟩ := external_left_relation E S c1 c2
  have x1 : ¬ (TiST_exists S c1 c2 = true ∧ TeST_exists S c1 c2 = true) :=
    fun h => i1 h.1 (e1 h.2)
  have x2 : ¬ (TiSTcT_exists E S c1 c2 = true ∧ TeSTcT_exists S c1 c2 = true) :=
    fun h => e2 h.2 (i2 h.1)
  have x3 : ¬ (TcTiST_exists E S c1 c2 = true ∧ TcTeST_exists S c1 c2 = true) :=
    fun h => e3 h.2 (i3 h.1)
  have x4 : ¬ (TcTiSTcT_exists E S c1 c2 = true ∧ TcTeSTcT_exists S c1 c2 = true) :=
    fun h => i4 h.1 (e4 h.2)
  have x5 : ¬ (TciST_exists S c1 c2 = true ∧ TceST_exists E S c1 c2 = true) :=
    fun h => i5 h.1 (e5 h.2)
  have x6 : ¬ (TiScT_exists S c1 c2 = true ∧ TeScT_exists E S c1 c2 = true) :=
    fun h => i6 h.1 (e6 h.2)
  have x7 : ¬ (TciScT_exists S c1 c2 = true ∧ TceScT_exists E S c1 c2 = true) :=
    fun h => i7 h.1 (e7 h.2)
  exact ⟨⟨x1, x2, x3, x4, x5, x6, x7⟩, guard_order _ _ _ _ _ x1, guard_order _ _ _ _ _ x2,
    guard_order _ _ _ _ _ x3, guard_order _ _ _ _ _ x4, guard_order _ _ _ _ _ x5,
    guard_order _ _ _ _ _ x6, guard_order _ _ _ _ _ x7⟩

end internal_external
/-! ## The unguarded square roots under their predicates -/

section unguarded_roots

variable (E : Env K) (S : HCpmpm_Reeds_Shepp_State_Space K) (c1 c2 : HC_CC_Circle K)

open HCpmpm_Reeds_Shepp

/-- The three routines take the root of the radicands named here. -/
theorem delta_radicand_used :
    TiSTcT_tangent_circle E S c2 =
      HC_CC_Circle.of_center E
        (E.global_frame_change c2.xc c2.yc S.hcpmpm_reeds_shepp_.angle
          (-E.sqrt (TiSTcT_delta_radicand S c2))
          ((4 * S.radius_ * S.cos_mu_) / (fabs c2.kappa * S.hcpmpm_reeds_shepp_.distance))).1
        (E.global_frame_change c2.xc c2.yc S.hcpmpm_reeds_shepp_.angle
          (-E.sqrt (TiSTcT_delta_radicand S c2))
          ((4 * S.radius_ * S.cos_mu_) / (fabs c2.kappa * S.hcpmpm_reeds_shepp_.distance))).2
        (!c2.left) c2.forward c2.regular S.hc_cc_circle_param_ ∧
    TcTiST_tangent_circle E S c1 c2 =
      HC_CC_Circle.of_center E
        (E.global_frame_change c1.xc c1.yc S.hcpmpm_reeds_shepp_.angle
          (E.sqrt (TcTiST_delta_radicand S c2))
          ((4 * c2.radius) / (fabs c2.kappa * S.hcpmpm_reeds_shepp_.distance))).1
        (E.global_frame_change c1.xc c1.yc S.hcpmpm_reeds_shepp_.angle
          (E.sqrt (TcTiST_delta_radicand S c2))
          ((4 * c2.radius) / (fabs c2.kappa * S.hcpmpm_reeds_shepp_.distance))).2
        (!c2.left) (!c2.forward) c2.regular S.hc_cc_circle_param_ ∧
    (TcTiSTcT_tangent_circles E S c1 c2).1 =
      HC_CC_Circle.of_center E
        (E.global_frame_change c1.xc c1.yc S.hcpmpm_reeds_shepp_.angle
          (E.sqrt (TcTiSTcT_delta_radicand S c1))
          ((4 * S.radius_ * S.cos_mu_) / (S.hcpmpm_reeds_shepp_.distance * fabs c1.kappa))).1
        (E.global_frame_change c1.xc c1.yc S.hcpmpm_reeds_shepp_.angle
          (E.sqrt (TcTiSTcT_delta_radicand S c1))
          ((4 * S.radius_ * S.cos_mu_) / (S.hcpmpm_reeds_shepp_.distance * fabs c1.kappa))).2
        (!c1.left) (!c1.forward) c1.regular S.hc_cc_circle_param_ :=
  ⟨rfl, rfl, rfl⟩

/-- The auxiliary circles of `TcTiSTcT_path` are the circles `TcTiSTcT_tangent_circles`. -/
theorem TcTiSTcT_path_tangent_circles :
    (TcTiSTcT_path E S c1 c2).qi1 =
      some (TcT_path_q E c1 (TcTiSTcT_tangent_circles E S c1 c2).1) ∧
    (TcTiSTcT_path E S c1 c2).qi2 =
      some (TiST_path_q2q3 E S (TcTiSTcT_tangent_circles E S c1 c2).1
        (TcTiSTcT_tangent_circles E S c1 c2).2).1 ∧
    (TcTiSTcT_path E S c1 c2).qi3 =
      some (TiST_path_q2q3 E S (TcTiSTcT_tangent_circles E S c1 c2).1
        (TcTiSTcT_tangent_circles E S c1 c2).2).2 ∧
    (TcTiSTcT_path E S c1 c2).qi4 =
      some (TcT_path_q E (TcTiSTcT_tangent_circles E S c1 c2).2 c2) :=
  ⟨rfl, rfl, rfl, rfl⟩

/-- The radicand `(2/k)² - (n/(k d))²` is non-negative as soon as `n² ≤ (2d)²`. -/
theorem delta_radicand_nonneg_aux (k d n : K) (hk : 0 < k) (hd : 0 < d)
    (h : n ^ 2 ≤ (2 * d) ^ 2) : 0 ≤ (2 / k) ^ 2 - (n / (k * d)) ^ 2 := by
  have hkd : 0 < k * d := mul_pos hk hd
  have hk2 : 0 < k ^ 2 := by positivity
  have hkd2 : 0 < (k * d) ^ 2 := by positivity
  rw [sub_nonneg, div_pow, div_pow, div_le_div_iff₀ hkd2 hk2]
  calc n ^ 2 * k ^ 2 ≤ (2 * d) ^ 2 * k ^ 2 := mul_le_mul_of_nonneg_right h hk2.le
    _ = 2 ^ 2 * (k * d) ^ 2 := by ring

/-- From `d ≥ sqrt x` with an exact root of a positive `x`: `d` is positive and `d² ≥ x`. -/
theorem of_sqrt_le (x d : K) (hx : 0 < x) (hs : 0 ≤ E.sqrt x ∧ E.sqrt x ^ 2 = x)
    (h : E.sqrt x ≤ d) : 0 < d ∧ x ≤ d ^ 2 := by
  obtain ⟨h0, h2⟩ := hs
  have hpos : 0 < E.sqrt x := by
    rcases h0.lt_or_eq with h' | h'
    · exact h'
    · rw [← h'] at h2
      rw [← h2] at hx
      simp at hx
  refine ⟨lt_of_lt_of_le hpos h, ?_⟩
  calc x = E.sqrt x ^ 2 := h2.symm
    _ ≤ d ^ 2 := pow_le_pow_left₀ h0 h 2

/-- The bound of `TcTiST_exists`, read off a true predicate. -/
theorem TcTiST_exists_bound (h : TcTiST_exists E S c1 c2 = true) :
    E.sqrt (TiSTcT_bound_radicand S c1) ≤ S.hcpmpm_reeds_shepp_.distance := by
  unfold TcTiST_exists at h
  split_ifs at h
  exact of_decide_eq_true h

/-- The bound of `TcTiSTcT_exists`, read off a true predicate. -/
theorem TcTiSTcT_exists_bound (h : TcTiSTcT_exists E S c1 c2 = true) :
    E.sqrt (TcTiSTcT_bound_radicand S c1) ≤ S.hcpmpm_reeds_shepp_.distance := by
  unfold TcTiSTcT_exists at h
  split_ifs at h
  exact of_decide_eq_true h

/-- With `R`, `sin μ` non-negative and `c1.kappa ≠ 0` the radicand of the bound of
`TiSTcT_exists` is positive and at least `(2/|κ₁|)²` and `(2 R cos μ)²`. -/
theorem TiSTcT_bound_radicand_ge (hR : 0 ≤ S.radius_) (hsin : 0 ≤ S.sin_mu_)
    (hk0 : c1.kappa ≠ 0) :
    0 < TiSTcT_bound_radicand S c1 ∧ (2 / |c1.kappa|) ^ 2 ≤ TiSTcT_bound_radicand S c1 ∧
      (2 * S.radius_ * S.cos_mu_) ^ 2 ≤ TiSTcT_bound_radicand S c1 := by
  have hkpos : 0 < |c1.kappa| := abs_pos.mpr hk0
  have hm : 0 < 2 / |c1.kappa| := div_pos two_pos hkpos
  have hb : 0 ≤ 2 * S.radius_ * S.sin_mu_ := mul_nonneg (mul_nonneg zero_le_two hR) hsin
  have h1 : (2 / |c1.kappa|) ^ 2 ≤ (2 * S.radius_ * S.sin_mu_ + 2 / |c1.kappa|) ^ 2 :=
    pow_le_pow_left₀ hm.le (by linarith) 2
  have h2 : 0 < (2 / |c1.kappa|) ^ 2 := by positivity
  have h3 := sq_nonneg (2 * S.radius_ * S.cos_mu_)
  have h4 := sq_nonneg (2 * S.radius_ * S.sin_mu_ + 2 / |c1.kappa|)
  simp only [TiSTcT_bound_radicand, pow2, fabs]
  refine ⟨by linarith, by linarith, by linarith⟩

/-- With `R`, `sin μ` non-negative, `sin² μ + cos² μ = 1` and `c1.kappa ≠ 0` the radicand of
the bound of `TcTiSTcT_exists` is positive and at least `(2 R cos μ)²`. -/
theorem TcTiSTcT_bound_radicand_ge (hmu : S.sin_mu_ ^ 2 + S.cos_mu_ ^ 2 = 1)
    (hR : 0 ≤ S.radius_) (hsin : 0 ≤ S.sin_mu_) (hk0 : c1.kappa ≠ 0) :
    0 < TcTiSTcT_bound_radicand S c1 ∧
      (2 * S.radius_ * S.cos_mu_) ^ 2 ≤ TcTiSTcT_bound_radicand S c1 := by
  have hkpos : 0 < |c1.kappa| := abs_pos.mpr hk0
  have h1 : 0 ≤ 16 * S.radius_ * S.sin_mu_ / |c1.kappa| :=
    div_nonneg (mul_nonneg (mul_nonneg (by norm_num) hR) hsin) hkpos.le
  have h2 : 0 < (4 / c1.kappa) ^ 2 := by positivity
  have h3 : (2 * S.radius_ * S.cos_mu_) ^ 2 ≤ (2 * S.radius_) ^ 2 := by
    have e : (2 * S.radius_) ^ 2 - (2 * S.radius_ * S.cos_mu_) ^ 2 =
        (2 * S.radius_ * S.sin_mu_) ^ 2 := by
      have : (2 * S.radius_) ^ 2 = (2 * S.radius_) ^ 2 * (S.sin_mu_ ^ 2 + S.cos_mu_ ^ 2) := by
        rw [hmu, mul_one]
      rw [this]
      ring
    have := sq_nonneg (2 * S.radius_ * S.sin_mu_)
    linarith
  have h4 := sq_nonneg (2 * S.radius_ * S.cos_mu_)
  simp only [TcTiSTcT_bound_radicand, pow2, fabs]
  refine ⟨by linarith, by linarith⟩

/-- C39: let `sin² μ + cos² μ = 1`, `R > 0`, `sin μ > 0`, `cos μ > 0` (that is `0 < μ < π/2`),
`|c1.kappa| = |c2.kappa| ≠ 0`, and let `sqrt` be exact at the radicands of the predicates'
bounds.  Whenever `TiSTcT_exists`, `TcTiST_exists` (with `c2.radius = 1/|κ|`) or
`TcTiSTcT_exists` holds, the radicand `(2/κ)² - δy²` of the `delta_x` of the corresponding
build routine is non-negative and the divisor `d` is positive. -/
theorem delta_radicand_nonneg
    (hmu : S.sin_mu_ ^ 2 + S.cos_mu_ ^ 2 = 1) (hR : 0 < S.radius_) (hsin : 0 < S.sin_mu_)
    (hcos : 0 < S.cos_mu_) (hk : fabs c1.kappa = fabs c2.kappa) (hk0 : c2.kappa ≠ 0)
    (hs1 : 0 ≤ E.sqrt (TiSTcT_bound_radicand S c1) ∧
      E.sqrt (TiSTcT_bound_radicand S c1) ^ 2 = TiSTcT_bound_radicand S c1)
    (hs2 : 0 ≤ E.sqrt (TcTiSTcT_bound_radicand S c1) ∧
      E.sqrt (TcTiSTcT_bound_radicand S c1) ^ 2 = TcTiSTcT_bound_radicand S c1) :
    (TiSTcT_exists E S c1 c2 = true →
      0 ≤ TiSTcT_delta_radicand S c2 ∧ 0 < S.hcpmpm_reeds_shepp_.distance) ∧
    (TcTiST_exists E S c1 c2 = true → c2.radius = 1 / fabs c2.kappa →
      0 ≤ TcTiST_delta_radicand S c2 ∧ 0 < S.hcpmpm_reeds_shepp_.distance) ∧
    (TcTiSTcT_exists E S c1 c2 = true →
      0 ≤ TcTiSTcT_delta_radicand S c1 ∧ 0 < S.hcpmpm_reeds_shepp_.distance) := by
  have hk1 : |c1.kappa| = |c2.kappa| := hk
  have hkpos : 0 < |c2.kappa| := abs_pos.mpr hk0
  have hk10 : c1.kappa ≠ 0 := by
    intro h0
    rw [h0, abs_zero] at hk1
    exact absurd hk1.symm (ne_of_gt hkpos)
  have hcosR : 0 ≤ 2 * S.radius_ * S.cos_mu_ := by positivity
  have e2 : (2 / c2.kappa) ^ 2 = (2 / |c2.kappa|) ^ 2 := by
    rw [div_pow, div_pow, sq_abs]
  have e1 : (2 / c1.kappa) ^ 2 = (2 / |c2.kappa|) ^ 2 := by
    rw [div_pow, div_pow, ← hk1, sq_abs]
  obtain ⟨b1, b2, b3⟩ := TiSTcT_bound_radicand_ge S c1 hR.le hsin.le hk10
  obtain ⟨b4, b5⟩ := TcTiSTcT_bound_radicand_ge S c1 hmu hR.le hsin.le hk10
  refine ⟨fun h => ?_, fun h hr => ?_, fun h => ?_⟩
  · obtain ⟨hd, hd2⟩ := of_sqrt_le E _ _ b1 hs1 (TiSTcT_exists_bound E S c1 c2 h)
    refine ⟨?_, hd⟩
    simp only [TiSTcT_delta_radicand, pow2, fabs]
    rw [e2]
    refine delta_radicand_nonneg_aux _ _ _ hkpos hd ?_
    have : (4 * S.radius_ * S.cos_mu_) ^ 2 = 4 * (2 * S.radius_ * S.cos_mu_) ^ 2 := by ring
    rw [this, mul_pow]
    linarith
  · obtain ⟨hd, hd2⟩ := of_sqrt_le E _ _ b1 hs1 (TcTiST_exists_bound E S c1 c2 h)
    refine ⟨?_, hd⟩
    simp only [TcTiST_delta_radicand, pow2, fabs]
    rw [e2]
    refine delta_radicand_nonneg_aux _ _ _ hkpos hd ?_
    have hr1 : c2.radius = 1 / |c2.kappa| := hr
    have : (4 * c2.radius) ^ 2 = 4 * (2 / |c2.kappa|) ^ 2 := by
      rw [hr1]
      ring
    rw [this, mul_pow, ← hk1]
    linarith
  · obtain ⟨hd, hd2⟩ := of_sqrt_le E _ _ b4 hs2 (TcTiSTcT_exists_bound E S c1 c2 h)
    refine ⟨?_, hd⟩
    simp only [TcTiSTcT_delta_radicand, pow2, fabs]
    rw [e1, hk1, mul_comm S.hcpmpm_reeds_shepp_.distance]
    refine delta_radicand_nonneg_aux _ _ _ hkpos hd ?_
    have : (4 * S.radius_ * S.cos_mu_) ^ 2 = 4 * (2 * S.radius_ * S.cos_mu_) ^ 2 := by ring
    rw [this, mul_pow]
    linarith

end unguarded_roots
/-! ## The circle parameters after construction -/

section construction_params

variable (E : Env K)

/-- What the member initialisers and the body of the constructor leave behind, on any
base-class part `b`. -/
theorem of_base_params (b : HC_CC_State_Space K) (uninit : HCpmpm_Reeds_Shepp K) :
    (HCpmpm_Reeds_Shepp_State_Space.of_base E b uninit).rs_circle_param_ =
      { kappa := b.kappa_, sigma := E.dbl_max, radius := 1 / b.kappa_, mu := 0, sin_mu := 0,
        cos_mu := 1, delta_min := 0 } ∧
    (HCpmpm_Reeds_Shepp_State_Space.of_base E b uninit).hc_cc_circle_param_ =
      b.hc_cc_circle_param_ ∧
    (HCpmpm_Reeds_Shepp_State_Space.of_base E b uninit).radius_ = b.hc_cc_circle_param_.radius ∧
    (HCpmpm_Reeds_Shepp_State_Space.of_base E b uninit).mu_ = b.hc_cc_circle_param_.mu ∧
    (HCpmpm_Reeds_Shepp_State_Space.of_base E b uninit).sin_mu_ = b.hc_cc_circle_param_.sin_mu ∧
    (HCpmpm_Reeds_Shepp_State_Space.of_base E b uninit).cos_mu_ = b.hc_cc_circle_param_.cos_mu :=
  ⟨rfl, rfl, rfl, rfl, rfl, rfl⟩

/-- C40: after the construction with `kappa > 0` and `sigma > 0` (the base-class constructor
returns and has stored `kappa` in `kappa_`), the rs circle parameters have `mu = 0`,
`sin_mu = 0`, `cos_mu = 1` and `radius = 1 / kappa > 0`, and the members `radius_`, `mu_`,
`sin_mu_`, `cos_mu_` of the state space equal the corresponding fields of the hc/cc circle
parameters.  This holds with the base-class constructor as the spec describes it, and with
every base-class constructor that returns a base part with `kappa_ = kappa`. -/
theorem construct_circle_params (hc_param : K → K → HC_CC_Circle_Param K)
    (uninit : HCpmpm_Reeds_Shepp K) (kappa sigma discretization : K)
    (hk : 0 < kappa) (hs : 0 < sigma) :
    (∃ S, (HCpmpm_Reeds_Shepp_State_Space.construct E (HC_CC_State_Space.construct hc_param)
          uninit kappa sigma discretization).1 = .ok S ∧
        S.rs_circle_param_.mu = 0 ∧ S.rs_circle_param_.sin_mu = 0 ∧
        S.rs_circle_param_.cos_mu = 1 ∧ S.rs_circle_param_.radius = 1 / kappa ∧
        0 < S.rs_circle_param_.radius ∧
        S.radius_ = S.hc_cc_circle_param_.radius ∧ S.mu_ = S.hc_cc_circle_param_.mu ∧
        S.sin_mu_ = S.hc_cc_circle_param_.sin_mu ∧ S.cos_mu_ = S.hc_cc_circle_param_.cos_mu) ∧
    ∀ (base : K → K → K → Except Construction_Error (HC_CC_State_Space K))
      (b : HC_CC_State_Space K),
      base kappa sigma discretization = .ok b → b.kappa_ = kappa →
      ∃ S, (HCpmpm_Reeds_Shepp_State_Space.construct E base uninit kappa sigma
          discretization).1 = .ok S ∧
        S.rs_circle_param_.mu = 0 ∧ S.rs_circle_param_.sin_mu = 0 ∧
        S.rs_circle_param_.cos_mu = 1 ∧ S.rs_circle_param_.radius = 1 / kappa ∧
        0 < S.rs_circle_param_.radius ∧
        S.radius_ = S.hc_cc_circle_param_.radius ∧ S.mu_ = S.hc_cc_circle_param_.mu ∧
        S.sin_mu_ = S.hc_cc_circle_param_.sin_mu ∧ S.cos_mu_ = S.hc_cc_circle_param_.cos_mu := by
  have hpos : 0 < 1 / kappa := one_div_pos.mpr hk
  have hgen : ∀ (base : K → K → K → Except Construction_Error (HC_CC_State_Space K))
      (b : HC_CC_State_Space K),
      base kappa sigma discretization = .ok b → b.kappa_ = kappa →
      ∃ S, (HCpmpm_Reeds_Shepp_State_Space.construct E base uninit kappa sigma
          discretization).1 = .ok S ∧
        S.rs_circle_param_.mu = 0 ∧ S.rs_circle_param_.sin_mu = 0 ∧
        S.rs_circle_param_.cos_mu = 1 ∧ S.rs_circle_param_.radius = 1 / kappa ∧
        0 < S.rs_circle_param_.radius ∧
        S.radius_ = S.hc_cc_circle_param_.radius ∧ S.mu_ = S.hc_cc_circle_param_.mu ∧
        S.sin_mu_ = S.hc_cc_circle_param_.sin_mu ∧
        S.cos_mu_ = S.hc_cc_circle_param_.cos_mu := by
    intro base b hb hkb
    refine ⟨HCpmpm_Reeds_Shepp_State_Space.of_base E b uninit, ?_, rfl, rfl, rfl, ?_, ?_,
      rfl, rfl, rfl, rfl⟩
    · simp [HCpmpm_Reeds_Shepp_State_Space.construct, hb]
    · show 1 / b.kappa_ = 1 / kappa
      rw [hkb]
    · show 0 < 1 / b.kappa_
      rw [hkb]
      exact hpos
  refine ⟨?_, hgen⟩
  have hno : ¬ (kappa ≤ 0 ∨ sigma ≤ 0) := by
    intro h
    rcases h with h | h
    · exact absurd hk (not_lt.mpr h)
    · exact absurd hs (not_lt.mpr h)
  exact hgen (HC_CC_State_Space.construct hc_param)
    { kappa_ := kappa, sigma_ := sigma, discretization_ := discretization,
      hc_cc_circle_param_ := hc_param kappa sigma }
    (by simp only [HC_CC_State_Space.construct, if_neg hno]) rfl

end construction_params

section construction_params_concrete

/-- Witness for C40: with `kappa = 1`, `sigma = 1` and the hc/cc parameters of `toy_space`
(radius 2, `sin μ = 3/5`, `cos μ = 4/5`), the constructed state space has rs radius 1 and
`cos_mu = 1` in the rs parameters, while `radius_ = 2` and `cos_mu_ = 4/5` are those of the
hc/cc parameters. -/
theorem construct_circle_params_witness :
    ∃ S, (HCpmpm_Reeds_Shepp_State_Space.construct toy_env
          (HC_CC_State_Space.construct fun _ _ => toy_space.hc_cc_circle_param_)
          toy_space.hcpmpm_reeds_shepp_ 1 1 (1 / 10)).1 = .ok S ∧
        S.rs_circle_param_.mu = 0 ∧ S.rs_circle_param_.sin_mu = 0 ∧
        S.rs_circle_param_.cos_mu = 1 ∧ S.rs_circle_param_.radius = 1 / 1 ∧
        0 < S.rs_circle_param_.radius ∧
        S.radius_ = S.hc_cc_circle_param_.radius ∧ S.mu_ = S.hc_cc_circle_param_.mu ∧
        S.sin_mu_ = S.hc_cc_circle_param_.sin_mu ∧ S.cos_mu_ = S.hc_cc_circle_param_.cos_mu :=
  (construct_circle_params toy_env (fun _ _ => toy_space.hc_cc_circle_param_)
    toy_space.hcpmpm_reeds_shepp_ 1 1 (1 / 10) (by norm_num) (by norm_num)).1

end construction_params_concrete
/-! ## Tangent circles: the families' routines and the frame -/

section tangent_links

variable (E : Env K) (S : HCpmpm_Reeds_Shepp_State_Space K) (c1 c2 : HC_CC_Circle K)

open HCpmpm_Reeds_Shepp

/-- The configurations of `TcTcT_tangent_circles` are computed on the circles `TcTcT_tgt`. -/
theorem TcTcT_tangent_circles_tgt :
    TcTcT_tangent_circles E S c1 c2 =
      (TcT_path_q E c1 (TcTcT_tgt E S c1).1, TcT_path_q E (TcTcT_tgt E S c1).1 c2,
       TcT_path_q E c1 (TcTcT_tgt E S c1).2, TcT_path_q E (TcTcT_tgt E S c1).2 c2) :=
  rfl

/-- The configurations of `TTT_tangent_circles` are computed on the circles `TTT_tgt`. -/
theorem TTT_tangent_circles_tgt :
    TTT_tangent_circles E S c1 c2 =
      (TT_path_q2 E S c1 (TTT_tgt E S c1).1, TT_path_q2 E S (TTT_tgt E S c1).1 c2,
       TT_path_q2 E S c1 (TTT_tgt E S c1).2, TT_path_q2 E S (TTT_tgt E S c1).2 c2) :=
  rfl

/-- The configurations of `TcTT_tangent_circles` are computed on the circles `TcTT_tgt`. -/
theorem TcTT_tangent_circles_tgt :
    TcTT_tangent_circles E S c1 c2 =
      (TcT_path_q E c1 (TcTT_tgt E S c1).1, TT_path_q2 E S (TcTT_tgt E S c1).1 c2,
       TcT_path_q E c1 (TcTT_tgt E S c1).2, TT_path_q2 E S (TcTT_tgt E S c1).2 c2) :=
  rfl

/-- The configurations of `TTcT_tangent_circles` are computed on the circles `TTcT_tgt`. -/
theorem TTcT_tangent_circles_tgt :
    TTcT_tangent_circles E S c1 c2 =
      (TT_path_q2 E S c1 (TTcT_tgt E S c1).1, TcT_path_q E (TTcT_tgt E S c1).1 c2,
       TT_path_q2 E S c1 (TTcT_tgt E S c1).2, TcT_path_q E (TTcT_tgt E S c1).2 c2) :=
  rfl

/-- The configurations of `TcTTcT_tangent_circles` are computed on the circles
`TcTTcT_tgt`. -/
theorem TcTTcT_tangent_circles_tgt :
    TcTTcT_tangent_circles E S c1 c2 =
      (TcT_path_q E c1 (TcTTcT_tgt E S c1 c2).1,
       TT_path_q2 E S (TcTTcT_tgt E S c1 c2).1 (TcTTcT_tgt E S c1 c2).2.1,
       TcT_path_q E (TcTTcT_tgt E S c1 c2).2.1 c2,
       TcT_path_q E c1 (TcTTcT_tgt E S c1 c2).2.2.1,
       TT_path_q2 E S (TcTTcT_tgt E S c1 c2).2.2.1 (TcTTcT_tgt E S c1 c2).2.2.2,
       TcT_path_q E (TcTTcT_tgt E S c1 c2).2.2.2 c2) :=
  rfl

/-- The configurations of `TTcTT_tangent_circles` are computed on the circles `TTcTT_tgt`. -/
theorem TTcTT_tangent_circles_tgt :
    TTcTT_tangent_circles E S c1 c2 =
      (TT_path_q2 E S c1 (TTcTT_tgt E S c1 c2).1,
       TcT_path_q E (TTcTT_tgt E S c1 c2).1 (TTcTT_tgt E S c1 c2).2.1,
       TT_path_q2 E S (TTcTT_tgt E S c1 c2).2.1 c2,
       TT_path_q2 E S c1 (TTcTT_tgt E S c1 c2).2.2.1,
       TcT_path_q E (TTcTT_tgt E S c1 c2).2.2.1 (TTcTT_tgt E S c1 c2).2.2.2,
       TT_path_q2 E S (TTcTT_tgt E S c1 c2).2.2.2 c2) :=
  rfl

/-- The circles `TcTcT_tgt` in local coordinates of the frame at the centre of `c1`. -/
theorem TcTcT_tgt_offset :
    TcTcT_tgt E S c1 =
      (c1.offset E S.hcpmpm_reeds_shepp_.angle (1 / 2 * S.hcpmpm_reeds_shepp_.distance)
         (E.sqrt (fabs (TcTcT_radicand S c1))) (!c1.left) (!c1.forward) c1.regular
         S.rs_circle_param_,
       c1.offset E S.hcpmpm_reeds_shepp_.angle (1 / 2 * S.hcpmpm_reeds_shepp_.distance)
         (-E.sqrt (fabs (TcTcT_radicand S c1))) (!c1.left) (!c1.forward) c1.regular
         S.rs_circle_param_) :=
  rfl

/-- The circles `TTT_tgt` in local coordinates of the frame at the centre of `c1`. -/
theorem TTT_tgt_offset :
    TTT_tgt E S c1 =
      (c1.offset E S.hcpmpm_reeds_shepp_.angle (1 / 2 * S.hcpmpm_reeds_shepp_.distance)
         (E.sqrt (fabs (TTT_radicand S))) (!c1.left) c1.forward c1.regular
         S.hc_cc_circle_param_,
       c1.offset E S.hcpmpm_reeds_shepp_.angle (1 / 2 * S.hcpmpm_reeds_shepp_.distance)
         (-E.sqrt (fabs (TTT_radicand S))) (!c1.left) c1.forward c1.regular
         S.hc_cc_circle_param_) :=
  rfl

/-- The circles `TcTT_tgt` in local coordinates of the frame at the centre of `c1`. -/
theorem TcTT_tgt_offset :
    TcTT_tgt E S c1 =
      (c1.offset E S.hcpmpm_reeds_shepp_.angle (TcTT_delta_x S c1)
         (E.sqrt (fabs (TcTT_radicand S c1))) (!c1.left) (!c1.forward) c1.regular
         S.hc_cc_circle_param_,
       c1.offset E S.hcpmpm_reeds_shepp_.angle (TcTT_delta_x S c1)
         (-E.sqrt (fabs (TcTT_radicand S c1))) (!c1.left) (!c1.forward) c1.regular
         S.hc_cc_circle_param_) :=
  rfl

/-- The circles `TTcT_tgt` in local coordinates of the frame at the centre of `c1`. -/
theorem TTcT_tgt_offset :
    TTcT_tgt E S c1 =
      (c1.offset E S.hcpmpm_reeds_shepp_.angle (TTcT_delta_x S c1)
         (E.sqrt (fabs (TTcT_radicand S c1))) (!c1.left) c1.forward c1.regular
         S.hc_cc_circle_param_,
       c1.offset E S.hcpmpm_reeds_shepp_.angle (TTcT_delta_x S c1)
         (-E.sqrt (fabs (TTcT_radicand S c1))) (!c1.left) c1.forward c1.regular
         S.hc_cc_circle_param_) :=
  rfl

/-- The circles `TcTTcT_tgt` in local coordinates of the frames at the centres of `c1` and
`c2`. -/
theorem TcTTcT_tgt_offset :
    TcTTcT_tgt E S c1 c2 =
      (c1.offset E S.hcpmpm_reeds_shepp_.angle (TcTTcT_delta_x S c1)
         (E.sqrt (fabs (TcTTcT_radicand S c1))) (!c1.left) (!c1.forward) c1.regular
         S.hc_cc_circle_param_,
       c2.offset E S.hcpmpm_reeds_shepp_.angle (-TcTTcT_delta_x S c1)
         (-E.sqrt (fabs (TcTTcT_radicand S c1))) (!c2.left) c2.forward c2.regular
         S.hc_cc_circle_param_,
       c1.offset E S.hcpmpm_reeds_shepp_.angle (TcTTcT_delta_x S c1)
         (-E.sqrt (fabs (TcTTcT_radicand S c1))) (!c1.left) (!c1.forward) c1.regular
         S.hc_cc_circle_param_,
       c2.offset E S.hcpmpm_reeds_shepp_.angle (-TcTTcT_delta_x S c1)
         (E.sqrt (fabs (TcTTcT_radicand S c1))) (!c2.left) c2.forward c2.regular
         S.hc_cc_circle_param_) :=
  rfl

/-- The circles `TTcTT_tgt` in local coordinates of the frames at the centres of `c1` and
`c2`. -/
theorem TTcTT_tgt_offset :
    TTcTT_tgt E S c1 c2 =
      (c1.offset E S.hcpmpm_reeds_shepp_.angle (TTcTT_delta_x S c1)
         (E.sqrt (fabs (TTcTT_radicand S c1))) (!c1.left) c1.forward c1.regular
         S.hc_cc_circle_param_,
       c2.offset E S.hcpmpm_reeds_shepp_.angle (-TTcTT_delta_x S c1)
         (E.sqrt (fabs (TTcTT_radicand S c1))) (!c2.left) (!c2.forward) c2.regular
         S.hc_cc_circle_param_,
       c1.offset E S.hcpmpm_reeds_shepp_.angle (TTcTT_delta_x S c1)
         (-E.sqrt (fabs (TTcTT_radicand S c1))) (!c1.left) c1.forward c1.regular
         S.hc_cc_circle_param_,
       c2.offset E S.hcpmpm_reeds_shepp_.angle (-TTcTT_delta_x S c1)
         (-E.sqrt (fabs (TTcTT_radicand S c1))) (!c2.left) (!c2.forward) c2.regular
         S.hc_cc_circle_param_) := by
  by_cases h : S.hcpmpm_reeds_shepp_.distance < 4 * S.radius_ - 2 / fabs c1.kappa
  · simp only [TTcTT_tgt, TTcTT_radicand, TTcTT_delta_x, HC_CC_Circle.offset, if_pos h]
  · simp only [TTcTT_tgt, TTcTT_radicand, TTcTT_delta_x, HC_CC_Circle.offset, if_neg h]

/-- The auxiliary circles of `TcTiSTcT_path` in local coordinates of the frames at the centres
of `c1` and `c2`. -/
theorem TcTiSTcT_tangent_circles_offset :
    TcTiSTcT_tangent_circles E S c1 c2 =
      (c1.offset E S.hcpmpm_reeds_shepp_.angle (E.sqrt (TcTiSTcT_delta_radicand S c1))
         ((4 * S.radius_ * S.cos_mu_) / (S.hcpmpm_reeds_shepp_.distance * fabs c1.kappa))
         (!c1.left) (!c1.forward) c1.regular S.hc_cc_circle_param_,
       c2.offset E S.hcpmpm_reeds_shepp_.angle (-E.sqrt (TcTiSTcT_delta_radicand S c1))
         (-((4 * S.radius_ * S.cos_mu_) / (S.hcpmpm_reeds_shepp_.distance * fabs c1.kappa)))
         (!c2.left) c2.forward c2.regular S.hc_cc_circle_param_) :=
  rfl

end tangent_links

/-! ## Distances between offset circles -/

section offset_distances

variable (E : Env K) (c1 c2 : HC_CC_Circle K) (theta d cs sn : K)

/-- In a frame that is a rotation by `(cs, sn)` followed by a translation, with the centre of
`c2` at distance `d` from the centre of `c1` along the first axis: the squared distances
between the centres of `c1`, `c2` and of circles at local coordinates `(a, b)` and `(a', b')`
of the frames at these centres. -/
theorem offset_sq_distance (hrot : cs ^ 2 + sn ^ 2 = 1)
    (hframe : ∀ x y lx ly : K, E.global_frame_change x y theta lx ly =
      (x + lx * cs - ly * sn, y + lx * sn + ly * cs))
    (hxc : c2.xc - c1.xc = d * cs) (hyc : c2.yc - c1.yc = d * sn)
    (a b a' b' : K) (l f r l' f' r' : Bool) (p p' : HC_CC_Circle_Param K) :
    center_sq_distance c1 (c1.offset E theta a b l f r p) = a ^ 2 + b ^ 2 ∧
    center_sq_distance (c1.offset E theta a b l f r p) c2 = (d - a) ^ 2 + b ^ 2 ∧
    center_sq_distance c1 (c2.offset E theta a' b' l' f' r' p') = (d + a') ^ 2 + b' ^ 2 ∧
    center_sq_distance (c2.offset E theta a' b' l' f' r' p') c2 = a' ^ 2 + b' ^ 2 ∧
    center_sq_distance (c1.offset E theta a b l f r p) (c2.offset E theta a' b' l' f' r' p') =
      (d + a' - a) ^ 2 + (b' - b) ^ 2 := by
  have hx : c2.xc = c1.xc + d * cs := by linarith
  have hy : c2.yc = c1.yc + d * sn := by linarith
  simp only [center_sq_distance, HC_CC_Circle.offset, HC_CC_Circle.of_center, hframe, pow2, hx,
    hy]
  refine ⟨?_, ?_, ?_, ?_, ?_⟩
  · linear_combination (a ^ 2 + b ^ 2) * hrot
  · linear_combination ((d - a) ^ 2 + b ^ 2) * hrot
  · linear_combination ((d + a') ^ 2 + b' ^ 2) * hrot
  · linear_combination (a' ^ 2 + b' ^ 2) * hrot
  · linear_combination ((d + a' - a) ^ 2 + (b' - b) ^ 2) * hrot

/-- The centre of an offset circle in such a frame. -/
theorem offset_center
    (hframe : ∀ x y lx ly : K, E.global_frame_change x y theta lx ly =
      (x + lx * cs - ly * sn, y + lx * sn + ly * cs))
    (a b : K) (l f r : Bool) (p : HC_CC_Circle_Param K) :
    (c1.offset E theta a b l f r p).xc = c1.xc + a * cs - b * sn ∧
    (c1.offset E theta a b l f r p).yc = c1.yc + a * sn + b * cs := by
  simp only [HC_CC_Circle.offset, HC_CC_Circle.of_center, hframe, and_self]

/-- Two circles of radii `r1`, `r2` with centres `d > 0` apart, `|r1 - r2| ≤ d ≤ r1 + r2`:
the foot `(r1² + d² - r2²) / (2 d)` of their common chord is at most `r1` from the first
centre, and a point of the first circle above it is on the second circle. -/
theorem chord_offset (r1 r2 d : K) (hd : 0 < d) (h1 : d ≤ r1 + r2) (h2 : r2 - r1 ≤ d)
    (h3 : r1 - r2 ≤ d) :
    0 ≤ r1 ^ 2 - ((r1 ^ 2 + d ^ 2 - r2 ^ 2) / (2 * d)) ^ 2 ∧
    d ^ 2 - 2 * d * ((r1 ^ 2 + d ^ 2 - r2 ^ 2) / (2 * d)) + r1 ^ 2 = r2 ^ 2 := by
  have hd0 : d ≠ 0 := ne_of_gt hd
  have key : r1 ^ 2 - ((r1 ^ 2 + d ^ 2 - r2 ^ 2) / (2 * d)) ^ 2 =
      ((r1 + r2 - d) * (r1 + r2 + d)) * ((d - (r1 - r2)) * (d + (r1 - r2))) / (2 * d) ^ 2 := by
    field_simp
    ring
  refine ⟨?_, ?_⟩
  · rw [key]
    refine div_nonneg (mul_nonneg (mul_nonneg ?_ ?_) (mul_nonneg ?_ ?_)) (sq_nonneg _) <;>
      linarith
  · field_simp
    ring

end offset_distances
/-! ## The symmetric three-turn families -/

section symmetric_families

variable (E : Env K) (S : HCpmpm_Reeds_Shepp_State_Space K) (c1 c2 : HC_CC_Circle K)

open HCpmpm_Reeds_Shepp

/-- The bound of `TcTcT_exists`, read off a true predicate. -/
theorem TcTcT_exists_bound (h : TcTcT_exists S c1 c2 = true) :
    S.hcpmpm_reeds_shepp_.distance ≤ 2 * (2 / |c1.kappa|) := by
  unfold TcTcT_exists at h
  split_ifs at h
  have h' : S.hcpmpm_reeds_shepp_.distance ≤ |4 / c1.kappa| := of_decide_eq_true h
  have e : |4 / c1.kappa| = 2 * (2 / |c1.kappa|) := by
    rw [abs_div, mul_div_assoc']
    norm_num
  rwa [e] at h'

/-- The bound of `TTT_exists`, read off a true predicate. -/
theorem TTT_exists_bound (h : TTT_exists S c1 c2 = true) :
    S.hcpmpm_reeds_shepp_.distance ≤ 4 * S.radius_ := by
  unfold TTT_exists at h
  split_ifs at h
  exact of_decide_eq_true h

/-- C31: let the frame change at the precomputed angle be the rotation by `(cs, sn)` followed
by a translation, let the centre of `c2` lie at distance `d ≥ 0` from the centre of `c1` in
that direction, and let `sqrt` be exact at the radicands used.  `TcTcT_tangent_circles`
returns the joins of `TcT_path` between `c1`, its two candidate tangent circles and `c2`, and
`TTT_tangent_circles` the joins of `TT_path`.  In `TcTcT_tangent_circles` and
`TTT_tangent_circles` the two candidate tangent circles have their centres at the offset `d/2`
along the centre line and `+delta_y`, `-delta_y` across it; whenever `TcTcT_exists` holds
(`d ≤ 4/|c1.kappa|`) both are at squared distance `(2/|c1.kappa|)²` from the centres of `c1`
and of `c2`, and whenever `TTT_exists` holds (`d ≤ 4R`) both are at squared distance `(2R)²`
from the centres of `c1` and of `c2`. -/
theorem symmetric_tangent_circles (cs sn : K)
    (hrot : cs ^ 2 + sn ^ 2 = 1)
    (hframe : ∀ x y lx ly : K, E.global_frame_change x y S.hcpmpm_reeds_shepp_.angle lx ly =
      (x + lx * cs - ly * sn, y + lx * sn + ly * cs))
    (hxc : c2.xc - c1.xc = S.hcpmpm_reeds_shepp_.distance * cs)
    (hyc : c2.yc - c1.yc = S.hcpmpm_reeds_shepp_.distance * sn)
    (hd : 0 ≤ S.hcpmpm_reeds_shepp_.distance)
    (hs1 : E.sqrt (fabs (TcTcT_radicand S c1)) ^ 2 = fabs (TcTcT_radicand S c1))
    (hs2 : E.sqrt (fabs (TTT_radicand S)) ^ 2 = fabs (TTT_radicand S)) :
    (TcTcT_tangent_circles E S c1 c2 =
        (TcT_path_q E c1 (TcTcT_tgt E S c1).1, TcT_path_q E (TcTcT_tgt E S c1).1 c2,
          TcT_path_q E c1 (TcTcT_tgt E S c1).2, TcT_path_q E (TcTcT_tgt E S c1).2 c2) ∧
      TTT_tangent_circles E S c1 c2 =
        (TT_path_q2 E S c1 (TTT_tgt E S c1).1, TT_path_q2 E S (TTT_tgt E S c1).1 c2,
          TT_path_q2 E S c1 (TTT_tgt E S c1).2, TT_path_q2 E S (TTT_tgt E S c1).2 c2)) ∧
    (((TcTcT_tgt E S c1).1.xc = c1.xc + 1 / 2 * S.hcpmpm_reeds_shepp_.distance * cs -
          E.sqrt (fabs (TcTcT_radicand S c1)) * sn ∧
        (TcTcT_tgt E S c1).1.yc = c1.yc + 1 / 2 * S.hcpmpm_reeds_shepp_.distance * sn +
          E.sqrt (fabs (TcTcT_radicand S c1)) * cs ∧
        (TcTcT_tgt E S c1).2.xc = c1.xc + 1 / 2 * S.hcpmpm_reeds_shepp_.distance * cs -
          -E.sqrt (fabs (TcTcT_radicand S c1)) * sn ∧
        (TcTcT_tgt E S c1).2.yc = c1.yc + 1 / 2 * S.hcpmpm_reeds_shepp_.distance * sn +
          -E.sqrt (fabs (TcTcT_radicand S c1)) * cs) ∧
      (TcTcT_exists S c1 c2 = true →
        center_sq_distance c1 (TcTcT_tgt E S c1).1 = pow2 (2 / fabs c1.kappa) ∧
        center_sq_distance (TcTcT_tgt E S c1).1 c2 = pow2 (2 / fabs c1.kappa) ∧
        center_sq_distance c1 (TcTcT_tgt E S c1).2 = pow2 (2 / fabs c1.kappa) ∧
        center_sq_distance (TcTcT_tgt E S c1).2 c2 = pow2 (2 / fabs c1.kappa))) ∧
    (((TTT_tgt E S c1).1.xc = c1.xc + 1 / 2 * S.hcpmpm_reeds_shepp_.distance * cs -
          E.sqrt (fabs (TTT_radicand S)) * sn ∧
        (TTT_tgt E S c1).1.yc = c1.yc + 1 / 2 * S.hcpmpm_reeds_shepp_.distance * sn +
          E.sqrt (fabs (TTT_radicand S)) * cs ∧
        (TTT_tgt E S c1).2.xc = c1.xc + 1 / 2 * S.hcpmpm_reeds_shepp_.distance * cs -
          -E.sqrt (fabs (TTT_radicand S)) * sn ∧
        (TTT_tgt E S c1).2.yc = c1.yc + 1 / 2 * S.hcpmpm_reeds_shepp_.distance * sn +
          -E.sqrt (fabs (TTT_radicand S)) * cs) ∧
      (TTT_exists S c1 c2 = true →
        center_sq_distance c1 (TTT_tgt E S c1).1 = pow2 (2 * S.radius_) ∧
        center_sq_distance (TTT_tgt E S c1).1 c2 = pow2 (2 * S.radius_) ∧
        center_sq_distance c1 (TTT_tgt E S c1).2 = pow2 (2 * S.radius_) ∧
        center_sq_distance (TTT_tgt E S c1).2 c2 = pow2 (2 * S.radius_))) := by
  refine ⟨⟨rfl, rfl⟩, ⟨?_, fun h => ?_⟩, ⟨?_, fun h => ?_⟩⟩
  · rw [TcTcT_tgt_offset]
    exact ⟨(offset_center E c1 _ cs sn hframe _ _ _ _ _ _).1,
      (offset_center E c1 _ cs sn hframe _ _ _ _ _ _).2,
      (offset_center E c1 _ cs sn hframe _ _ _ _ _ _).1,
      (offset_center E c1 _ cs sn hframe _ _ _ _ _ _).2⟩
  · have hb := TcTcT_exists_bound S c1 c2 h
    have hr0 : 0 ≤ 2 / |c1.kappa| := div_nonneg zero_le_two (abs_nonneg _)
    have hle : (1 / 2 * S.hcpmpm_reeds_shepp_.distance) ^ 2 ≤ (2 / |c1.kappa|) ^ 2 :=
      pow_le_pow_left₀ (by linarith) (by linarith) 2
    have hrad : TcTcT_radicand S c1 =
        (2 / |c1.kappa|) ^ 2 - (1 / 2 * S.hcpmpm_reeds_shepp_.distance) ^ 2 := by
      simp only [TcTcT_radicand, pow2, fabs]
      rw [abs_div, abs_two]
    have hy : E.sqrt (fabs (TcTcT_radicand S c1)) ^ 2 =
        (2 / |c1.kappa|) ^ 2 - (1 / 2 * S.hcpmpm_reeds_shepp_.distance) ^ 2 := by
      have h0 : 0 ≤ TcTcT_radicand S c1 := by rw [hrad]; linarith
      have hf : fabs (TcTcT_radicand S c1) = TcTcT_radicand S c1 := abs_of_nonneg h0
      rw [hs1, hf, hrad]
    rw [TcTcT_tgt_offset]
    obtain ⟨p1, p2, -, -, -⟩ := offset_sq_distance E c1 c2 _ _ cs sn hrot hframe hxc hyc
      (1 / 2 * S.hcpmpm_reeds_shepp_.distance) (E.sqrt (fabs (TcTcT_radicand S c1))) 0 0
      (!c1.left) (!c1.forward) c1.regular true true true S.rs_circle_param_ S.rs_circle_param_
    obtain ⟨n1, n2, -, -, -⟩ := offset_sq_distance E c1 c2 _ _ cs sn hrot hframe hxc hyc
      (1 / 2 * S.hcpmpm_reeds_shepp_.distance) (-E.sqrt (fabs (TcTcT_radicand S c1))) 0 0
      (!c1.left) (!c1.forward) c1.regular true true true S.rs_circle_param_ S.rs_circle_param_
    have e : pow2 (2 / fabs c1.kappa) = (2 / |c1.kappa|) ^ 2 := rfl
    rw [e]
    refine ⟨?_, ?_, ?_, ?_⟩
    · rw [p1]; linear_combination hy
    · rw [p2]; linear_combination hy
    · rw [n1]; linear_combination hy
    · rw [n2]; linear_combination hy
  · rw [TTT_tgt_offset]
    exact ⟨(offset_center E c1 _ cs sn hframe _ _ _ _ _ _).1,
      (offset_center E c1 _ cs sn hframe _ _ _ _ _ _).2,
      (offset_center E c1 _ cs sn hframe _ _ _ _ _ _).1,
      (offset_center E c1 _ cs sn hframe _ _ _ _ _ _).2⟩
  · have hb := TTT_exists_bound S c1 c2 h
    have hle : (1 / 2 * S.hcpmpm_reeds_shepp_.distance) ^ 2 ≤ (2 * S.radius_) ^ 2 :=
      pow_le_pow_left₀ (by linarith) (by linarith) 2
    have hy : E.sqrt (fabs (TTT_radicand S)) ^ 2 =
        (2 * S.radius_) ^ 2 - (1 / 2 * S.hcpmpm_reeds_shepp_.distance) ^ 2 := by
      have h0 : TTT_radicand S ≤ 0 := by
        simp only [TTT_radicand, pow2]
        linarith
      have hf : fabs (TTT_radicand S) = -TTT_radicand S := abs_of_nonpos h0
      rw [hs2, hf]
      simp only [TTT_radicand, pow2]
      ring
    rw [TTT_tgt_offset]
    obtain ⟨p1, p2, -, -, -⟩ := offset_sq_distance E c1 c2 _ _ cs sn hrot hframe hxc hyc
      (1 / 2 * S.hcpmpm_reeds_shepp_.distance) (E.sqrt (fabs (TTT_radicand S))) 0 0
      (!c1.left) c1.forward c1.regular true true true S.hc_cc_circle_param_
      S.hc_cc_circle_param_
    obtain ⟨n1, n2, -, -, -⟩ := offset_sq_distance E c1 c2 _ _ cs sn hrot hframe hxc hyc
      (1 / 2 * S.hcpmpm_reeds_shepp_.distance) (-E.sqrt (fabs (TTT_radicand S))) 0 0
      (!c1.left) c1.forward c1.regular true true true S.hc_cc_circle_param_
      S.hc_cc_circle_param_
    have e : pow2 (2 * S.radius_) = (2 * S.radius_) ^ 2 := rfl
    rw [e]
    refine ⟨?_, ?_, ?_, ?_⟩
    · rw [p1]; linear_combination hy
    · rw [p2]; linear_combination hy
    · rw [n1]; linear_combination hy
    · rw [n2]; linear_combination hy

end symmetric_families
section symmetric_families_concrete

open HCpmpm_Reeds_Shepp

/-- The selector's state space for the left/forward circle at the origin and an end circle
with its centre on the same horizontal line, at distance `x`. -/
theorem circle_at_precompute (S : HCpmpm_Reeds_Shepp_State_Space ℚ)
    (hr : S.rs_circle_param_.radius = 1) (x : ℚ) (hx : 0 ≤ x) :
    (precompute exact_env S (circle_at S 0 0 0) (circle_at S x 0 0)).hcpmpm_reeds_shepp_ =
      { distance := x, angle := 0 } ∧
    (precompute exact_env S (circle_at S 0 0 0) (circle_at S x 0 2)).hcpmpm_reeds_shepp_ =
      { distance := x, angle := 0 } ∧
    (precompute exact_env S (circle_at S 0 0 0) (circle_at S x 2 1)).hcpmpm_reeds_shepp_ =
      { distance := x, angle := 0 } ∧
    (precompute exact_env S (circle_at S 0 0 0) (circle_at S x 2 3)).hcpmpm_reeds_shepp_ =
      { distance := x, angle := 0 } := by
  refine ⟨?_, ?_, ?_, ?_⟩ <;>
    simp [precompute, exact_env, toy_env, circle_at, endpoint_circle, HC_CC_Circle.of_start, hr,
      abs_of_nonneg hx] <;> norm_num

end symmetric_families_concrete
section symmetric_families_witness

open HCpmpm_Reeds_Shepp

theorem close_left_helper :
    close_left_space.hcpmpm_reeds_shepp_ = { distance := 16 / 5, angle := 0 } :=
  (circle_at_precompute (rational_space (4 / 3) (3 / 5) (4 / 5)) rfl (16 / 5) (by norm_num)).2.1

/-- `Rat.sqrt` at a radicand with the rational root `q`. -/
theorem exact_sqrt_of_sq (x q : ℚ) (hq : 0 ≤ q) (h : x = q * q) :
    exact_env.sqrt x ^ 2 = x ∧ exact_env.sqrt x = q := by
  subst h
  rw [exact_sqrt_sq q hq]
  exact ⟨sq q, rfl⟩

/-- Witness for C31: for the two left circles of opposite driving direction with centres
`(0, 1)` and `(16/5, 1)`, rs radius 1 and `R = 4/3`, both `TcTcT_exists` and `TTT_exists`
hold, the two routines return the joins on their candidate circles, and the first candidate
circles have their centres `(8/5, 1 + 6/5)` and `(8/5, 1 + 32/15)` at squared distance `2²`
respectively `(8/3)²` from both endpoint centres. -/
theorem symmetric_tangent_circles_witness :
    (TcTcT_tangent_circles exact_env close_left_space close_left_start close_left_end =
        (TcT_path_q exact_env close_left_start
            (TcTcT_tgt exact_env close_left_space close_left_start).1,
          TcT_path_q exact_env (TcTcT_tgt exact_env close_left_space close_left_start).1
            close_left_end,
          TcT_path_q exact_env close_left_start
            (TcTcT_tgt exact_env close_left_space close_left_start).2,
          TcT_path_q exact_env (TcTcT_tgt exact_env close_left_space close_left_start).2
            close_left_end) ∧
      TTT_tangent_circles exact_env close_left_space close_left_start close_left_end =
        (TT_path_q2 exact_env close_left_space close_left_start
            (TTT_tgt exact_env close_left_space close_left_start).1,
          TT_path_q2 exact_env close_left_space
            (TTT_tgt exact_env close_left_space close_left_start).1 close_left_end,
          TT_path_q2 exact_env close_left_space close_left_start
            (TTT_tgt exact_env close_left_space close_left_start).2,
          TT_path_q2 exact_env close_left_space
            (TTT_tgt exact_env close_left_space close_left_start).2 close_left_end)) ∧
    (center_sq_distance close_left_start (TcTcT_tgt exact_env close_left_space close_left_start).1 =
        pow2 (2 / fabs close_left_start.kappa) ∧
      center_sq_distance (TcTcT_tgt exact_env close_left_space close_left_start).1 close_left_end =
        pow2 (2 / fabs close_left_start.kappa)) ∧
    (center_sq_distance close_left_start (TTT_tgt exact_env close_left_space close_left_start).1 =
        pow2 (2 * close_left_space.radius_) ∧
      center_sq_distance (TTT_tgt exact_env close_left_space close_left_start).1 close_left_end =
        pow2 (2 * close_left_space.radius_)) :=
  have h := symmetric_tangent_circles exact_env close_left_space close_left_start close_left_end
    1 0 (by norm_num)
    (fun x y lx ly => by simp [exact_env, toy_env])
    (by
      rw [close_left_helper]
      simp [close_left_start, close_left_end, circle_at, exact_env, toy_env, endpoint_circle,
        HC_CC_Circle.of_start])
    (by
      rw [close_left_helper]
      simp [close_left_start, close_left_end, circle_at, exact_env, toy_env, endpoint_circle,
        HC_CC_Circle.of_start, rational_space])
    (by rw [close_left_helper]; norm_num)
    (exact_sqrt_of_sq _ (6 / 5) (by norm_num) (by
      rw [TcTcT_radicand, close_left_helper]
      simp [close_left_start, circle_at, endpoint_circle, HC_CC_Circle.of_start, rational_space,
        fabs, pow2]
      norm_num [abs_div])).1
    (exact_sqrt_of_sq _ (32 / 15) (by norm_num) (by
      rw [TTT_radicand, close_left_helper]
      simp [close_left_space, precompute, rational_space, fabs, pow2]
      norm_num [abs_div])).1
  ⟨h.1, ⟨(h.2.1.2 (by
      simp [TcTcT_exists, close_left_helper, close_left_start, close_left_end, circle_at,
        endpoint_circle, HC_CC_Circle.of_start, rational_space, fabs]
      norm_num [abs_div])).1,
    (h.2.1.2 (by
      simp [TcTcT_exists, close_left_helper, close_left_start, close_left_end, circle_at,
        endpoint_circle, HC_CC_Circle.of_start, rational_space, fabs]
      norm_num [abs_div])).2.1⟩,
   ⟨(h.2.2.2 (by
      simp [TTT_exists, close_left_helper, close_left_start, close_left_end, circle_at,
        endpoint_circle, HC_CC_Circle.of_start, rational_space]
      norm_num [close_left_space, precompute, rational_space])).1,
    (h.2.2.2 (by
      simp [TTT_exists, close_left_helper, close_left_start, close_left_end, circle_at,
        endpoint_circle, HC_CC_Circle.of_start, rational_space]
      norm_num [close_left_space, precompute, rational_space])).2.1⟩⟩

end symmetric_families_witness
/-! ## The families `TcTT` and `TTcT` -/

section TcTT_TTcT

variable (E : Env K) (S : HCpmpm_Reeds_Shepp_State_Space K) (c1 c2 : HC_CC_Circle K)

open HCpmpm_Reeds_Shepp

/-- The two bounds of `TcTT_exists`, read off a true predicate. -/
theorem TcTT_exists_bounds (h : TcTT_exists S c1 c2 = true) :
    S.hcpmpm_reeds_shepp_.distance ≤ 2 * S.radius_ + 2 / |c1.kappa| ∧
    2 * S.radius_ - 2 / |c1.kappa| ≤ S.hcpmpm_reeds_shepp_.distance := by
  unfold TcTT_exists at h
  split_ifs at h
  rw [Bool.and_eq_true] at h
  exact ⟨of_decide_eq_true h.1, of_decide_eq_true h.2⟩

/-- A point at the local coordinates `(x, ±y)` with `y² = |r1² - x²|`, where `x` is the foot
of the common chord of the circles of radii `r1`, `r2`: it is on both circles. -/
theorem chord_point (r1 r2 d y : K) (hd : 0 < d) (h1 : d ≤ r1 + r2) (h2 : r2 - r1 ≤ d)
    (h3 : r1 - r2 ≤ d)
    (hy : y ^ 2 = |r1 ^ 2 - ((r1 ^ 2 + d ^ 2 - r2 ^ 2) / (2 * d)) ^ 2|) :
    ((r1 ^ 2 + d ^ 2 - r2 ^ 2) / (2 * d)) ^ 2 + y ^ 2 = r1 ^ 2 ∧
    (d - (r1 ^ 2 + d ^ 2 - r2 ^ 2) / (2 * d)) ^ 2 + y ^ 2 = r2 ^ 2 := by
  obtain ⟨h0, hc⟩ := chord_offset r1 r2 d hd h1 h2 h3
  rw [abs_of_nonneg h0] at hy
  refine ⟨by linear_combination hy, by linear_combination hy + hc⟩

/-- C36: let the frame change at the precomputed angle be the rotation by `(cs, sn)` followed
by a translation, let the centre of `c2` lie at distance `d` from the centre of `c1` in that
direction, let `R > 1/k` with `k = |c1.kappa|`, and let `sqrt` be exact at the radicands used.
`TcTT_tangent_circles` and `TTcT_tangent_circles` return the joins of `TcT_path` and `TT_path`
between `c1`, their two candidate tangent circles and `c2`.
`TcTT_exists` and `TTcT_exists` are the same predicate; whenever it holds, `d` is positive,
both candidate circles of `TcTT_tangent_circles` have their centres at squared distance
`(2/k)²` from the centre of `c1` and `(2R)²` from the centre of `c2`, and both candidate
circles of `TTcT_tangent_circles` at squared distance `(2R)²` from the centre of `c1` and
`(2/k)²` from the centre of `c2`. -/
theorem TcTT_TTcT_tangent_circles (cs sn : K)
    (hrot : cs ^ 2 + sn ^ 2 = 1)
    (hframe : ∀ x y lx ly : K, E.global_frame_change x y S.hcpmpm_reeds_shepp_.angle lx ly =
      (x + lx * cs - ly * sn, y + lx * sn + ly * cs))
    (hxc : c2.xc - c1.xc = S.hcpmpm_reeds_shepp_.distance * cs)
    (hyc : c2.yc - c1.yc = S.hcpmpm_reeds_shepp_.distance * sn)
    (hRk : 1 / fabs c1.kappa < S.radius_)
    (hs1 : E.sqrt (fabs (TcTT_radicand S c1)) ^ 2 = fabs (TcTT_radicand S c1))
    (hs2 : E.sqrt (fabs (TTcT_radicand S c1)) ^ 2 = fabs (TTcT_radicand S c1)) :
    (TcTT_tangent_circles E S c1 c2 =
        (TcT_path_q E c1 (TcTT_tgt E S c1).1, TT_path_q2 E S (TcTT_tgt E S c1).1 c2,
          TcT_path_q E c1 (TcTT_tgt E S c1).2, TT_path_q2 E S (TcTT_tgt E S c1).2 c2) ∧
      TTcT_tangent_circles E S c1 c2 =
        (TT_path_q2 E S c1 (TTcT_tgt E S c1).1, TcT_path_q E (TTcT_tgt E S c1).1 c2,
          TT_path_q2 E S c1 (TTcT_tgt E S c1).2, TcT_path_q E (TTcT_tgt E S c1).2 c2)) ∧
    TcTT_exists S c1 c2 = TTcT_exists S c1 c2 ∧
    (TcTT_exists S c1 c2 = true →
      0 < S.hcpmpm_reeds_shepp_.distance ∧
      (center_sq_distance c1 (TcTT_tgt E S c1).1 = pow2 (2 / fabs c1.kappa) ∧
        center_sq_distance (TcTT_tgt E S c1).1 c2 = pow2 (2 * S.radius_) ∧
        center_sq_distance c1 (TcTT_tgt E S c1).2 = pow2 (2 / fabs c1.kappa) ∧
        center_sq_distance (TcTT_tgt E S c1).2 c2 = pow2 (2 * S.radius_)) ∧
      (center_sq_distance c1 (TTcT_tgt E S c1).1 = pow2 (2 * S.radius_) ∧
        center_sq_distance (TTcT_tgt E S c1).1 c2 = pow2 (2 / fabs c1.kappa) ∧
        center_sq_distance c1 (TTcT_tgt E S c1).2 = pow2 (2 * S.radius_) ∧
        center_sq_distance (TTcT_tgt E S c1).2 c2 = pow2 (2 / fabs c1.kappa))) := by
  refine ⟨⟨rfl, rfl⟩, rfl, fun h => ?_⟩
  obtain ⟨hb1, hb2⟩ := TcTT_exists_bounds S c1 c2 h
  have hRk' : 1 / |c1.kappa| < S.radius_ := hRk
  have hr : 2 / |c1.kappa| < 2 * S.radius_ := by
    have : 2 / |c1.kappa| = 2 * (1 / |c1.kappa|) := by ring
    rw [this]
    linarith
  have hr0 : 0 ≤ 2 / |c1.kappa| := div_nonneg zero_le_two (abs_nonneg _)
  have hd : 0 < S.hcpmpm_reeds_shepp_.distance := by linarith
  have e1 : pow2 (2 / fabs c1.kappa) = (2 / |c1.kappa|) ^ 2 := rfl
  have e2 : pow2 (2 * S.radius_) = (2 * S.radius_) ^ 2 := rfl
  have hy1 : E.sqrt (fabs (TcTT_radicand S c1)) ^ 2 =
      |(2 / |c1.kappa|) ^ 2 - (((2 / |c1.kappa|) ^ 2 + S.hcpmpm_reeds_shepp_.distance ^ 2 -
        (2 * S.radius_) ^ 2) / (2 * S.hcpmpm_reeds_shepp_.distance)) ^ 2| := hs1
  have hy2 : E.sqrt (fabs (TTcT_radicand S c1)) ^ 2 =
      |(2 * S.radius_) ^ 2 - (((2 * S.radius_) ^ 2 + S.hcpmpm_reeds_shepp_.distance ^ 2 -
        (2 / |c1.kappa|) ^ 2) / (2 * S.hcpmpm_reeds_shepp_.distance)) ^ 2| := hs2
  have hx1 : TcTT_delta_x S c1 = ((2 / |c1.kappa|) ^ 2 + S.hcpmpm_reeds_shepp_.distance ^ 2 -
      (2 * S.radius_) ^ 2) / (2 * S.hcpmpm_reeds_shepp_.distance) := rfl
  have hx2 : TTcT_delta_x S c1 = ((2 * S.radius_) ^ 2 + S.hcpmpm_reeds_shepp_.distance ^ 2 -
      (2 / |c1.kappa|) ^ 2) / (2 * S.hcpmpm_reeds_shepp_.distance) := rfl
  obtain ⟨a1, a2⟩ := chord_point _ _ _ _ hd (by linarith) (by linarith) (by linarith) hy1
  obtain ⟨b1, b2⟩ := chord_point _ _ _ _ hd (by linarith) (by linarith) (by linarith) hy2
  have n1 : (-E.sqrt (fabs (TcTT_radicand S c1))) ^ 2 = E.sqrt (fabs (TcTT_radicand S c1)) ^ 2 :=
    neg_sq _
  have n2 : (-E.sqrt (fabs (TTcT_radicand S c1))) ^ 2 = E.sqrt (fabs (TTcT_radicand S c1)) ^ 2 :=
    neg_sq _
  refine ⟨hd, ?_, ?_⟩
  · rw [TcTT_tgt_offset, e1, e2]
    obtain ⟨p1, p2, -, -, -⟩ := offset_sq_distance E c1 c2 _ _ cs sn hrot hframe hxc hyc
      (TcTT_delta_x S c1) (E.sqrt (fabs (TcTT_radicand S c1))) 0 0
      (!c1.left) (!c1.forward) c1.regular true true true S.hc_cc_circle_param_
      S.hc_cc_circle_param_
    obtain ⟨q1, q2, -, -, -⟩ := offset_sq_distance E c1 c2 _ _ cs sn hrot hframe hxc hyc
      (TcTT_delta_x S c1) (-E.sqrt (fabs (TcTT_radicand S c1))) 0 0
      (!c1.left) (!c1.forward) c1.regular true true true S.hc_cc_circle_param_
      S.hc_cc_circle_param_
    rw [n1] at q1 q2
    rw [hx1] at p1 p2 q1 q2
    exact ⟨p1.trans a1, p2.trans a2, q1.trans a1, q2.trans a2⟩
  · rw [TTcT_tgt_offset, e1, e2]
    obtain ⟨p1, p2, -, -, -⟩ := offset_sq_distance E c1 c2 _ _ cs sn hrot hframe hxc hyc
      (TTcT_delta_x S c1) (E.sqrt (fabs (TTcT_radicand S c1))) 0 0
      (!c1.left) c1.forward c1.regular true true true S.hc_cc_circle_param_
      S.hc_cc_circle_param_
    obtain ⟨q1, q2, -, -, -⟩ := offset_sq_distance E c1 c2 _ _ cs sn hrot hframe hxc hyc
      (TTcT_delta_x S c1) (-E.sqrt (fabs (TTcT_radicand S c1))) 0 0
      (!c1.left) c1.forward c1.regular true true true S.hc_cc_circle_param_
      S.hc_cc_circle_param_
    rw [n2] at q1 q2
    rw [hx2] at p1 p2 q1 q2
    exact ⟨p1.trans b1, p2.trans b2, q1.trans b1, q2.trans b2⟩

end TcTT_TTcT
section TcTT_TTcT_concrete

open HCpmpm_Reeds_Shepp

theorem chord_helper :
    chord_space.hcpmpm_reeds_shepp_ = { distance := 21 / 5, angle := 0 } :=
  (circle_at_precompute (rational_space (17 / 10) (3 / 5) (4 / 5)) rfl (21 / 5)
    (by norm_num)).1

/-- Witness for C36: for the two left/forward circles with centres `(0, 1)` and `(21/5, 1)`,
rs radius 1 and `R = 17/10`, the predicate holds (`7/5 ≤ 21/5 ≤ 27/5`); the two routines return
the joins on their candidate circles; the first candidate
circle of `TcTT_tangent_circles`, with centre `(6/5, 1 + 8/5)`, is at squared distance `2²`
from the centre of `c1` and `(17/5)²` from the centre of `c2`, and the first candidate circle
of `TTcT_tangent_circles`, with centre `(3, 1 + 8/5)`, at squared distance `(17/5)²` from the
centre of `c1` and `2²` from the centre of `c2`. -/
theorem TcTT_TTcT_tangent_circles_witness :
    (TcTT_tangent_circles exact_env chord_space chord_start chord_end =
        (TcT_path_q exact_env chord_start (TcTT_tgt exact_env chord_space chord_start).1,
          TT_path_q2 exact_env chord_space (TcTT_tgt exact_env chord_space chord_start).1
            chord_end,
          TcT_path_q exact_env chord_start (TcTT_tgt exact_env chord_space chord_start).2,
          TT_path_q2 exact_env chord_space (TcTT_tgt exact_env chord_space chord_start).2
            chord_end) ∧
      TTcT_tangent_circles exact_env chord_space chord_start chord_end =
        (TT_path_q2 exact_env chord_space chord_start
            (TTcT_tgt exact_env chord_space chord_start).1,
          TcT_path_q exact_env (TTcT_tgt exact_env chord_space chord_start).1 chord_end,
          TT_path_q2 exact_env chord_space chord_start
            (TTcT_tgt exact_env chord_space chord_start).2,
          TcT_path_q exact_env (TTcT_tgt exact_env chord_space chord_start).2 chord_end)) ∧
    0 < chord_space.hcpmpm_reeds_shepp_.distance ∧
    (center_sq_distance chord_start (TcTT_tgt exact_env chord_space chord_start).1 =
        pow2 (2 / fabs chord_start.kappa) ∧
      center_sq_distance (TcTT_tgt exact_env chord_space chord_start).1 chord_end =
        pow2 (2 * chord_space.radius_)) ∧
    (center_sq_distance chord_start (TTcT_tgt exact_env chord_space chord_start).1 =
        pow2 (2 * chord_space.radius_) ∧
      center_sq_distance (TTcT_tgt exact_env chord_space chord_start).1 chord_end =
        pow2 (2 / fabs chord_start.kappa)) :=
  have h0 := TcTT_TTcT_tangent_circles exact_env chord_space chord_start chord_end
    1 0 (by norm_num)
    (fun x y lx ly => by simp [exact_env, toy_env])
    (by
      rw [chord_helper]
      simp [chord_start, chord_end, circle_at, exact_env, toy_env, endpoint_circle,
        HC_CC_Circle.of_start])
    (by
      rw [chord_helper]
      simp [chord_start, chord_end, circle_at, exact_env, toy_env, endpoint_circle,
        HC_CC_Circle.of_start, rational_space])
    (by
      simp [chord_start, chord_space, precompute, circle_at, endpoint_circle,
        HC_CC_Circle.of_start, rational_space, fabs]
      norm_num)
    (exact_sqrt_of_sq _ (8 / 5) (by norm_num) (by
      rw [TcTT_radicand, TcTT_delta_x, chord_helper]
      simp [chord_start, chord_space, precompute, circle_at, endpoint_circle,
        HC_CC_Circle.of_start, rational_space, fabs, pow2]
      norm_num [abs_div])).1
    (exact_sqrt_of_sq _ (8 / 5) (by norm_num) (by
      rw [TTcT_radicand, TTcT_delta_x, chord_helper]
      simp [chord_start, chord_space, precompute, circle_at, endpoint_circle,
        HC_CC_Circle.of_start, rational_space, fabs, pow2]
      norm_num [abs_div])).1
  have h := h0.2.2
    (by
      simp [TcTT_exists, chord_helper, chord_start, chord_end, circle_at,
        endpoint_circle, HC_CC_Circle.of_start, rational_space, fabs]
      norm_num [chord_space, precompute, rational_space])
  ⟨h0.1, h.1, ⟨h.2.1.1, h.2.1.2.1⟩, ⟨h.2.2.1, h.2.2.2.1⟩⟩

end TcTT_TTcT_concrete
/-! ## The family `TTcTT` -/

section TTcTT_geometry

variable (E : Env K) (S : HCpmpm_Reeds_Shepp_State_Space K) (c1 c2 : HC_CC_Circle K)

open HCpmpm_Reeds_Shepp

/-- The bound of `TTcTT_exists`, read off a true predicate. -/
theorem TTcTT_exists_bound (h : TTcTT_exists S c1 c2 = true) :
    S.hcpmpm_reeds_shepp_.distance ≤ 4 * S.radius_ + 2 / |c1.kappa| := by
  unfold TTcTT_exists at h
  split_ifs at h
  exact of_decide_eq_true h

/-- In either branch of `TTcTT_tangent_circles` the offset `delta_x` is at most `2R` in
magnitude and the two offsets leave the gap `2/k` between them. -/
theorem TTcTT_delta_x_bound (hd : 0 ≤ S.hcpmpm_reeds_shepp_.distance)
    (hRk : 1 / |c1.kappa| ≤ S.radius_)
    (hb : S.hcpmpm_reeds_shepp_.distance ≤ 4 * S.radius_ + 2 / |c1.kappa|) :
    TTcTT_delta_x S c1 ^ 2 ≤ (2 * S.radius_) ^ 2 ∧
    (S.hcpmpm_reeds_shepp_.distance - 2 * TTcTT_delta_x S c1) ^ 2 = (2 / |c1.kappa|) ^ 2 := by
  have hr0 : 0 ≤ 1 / |c1.kappa| := div_nonneg zero_le_one (abs_nonneg _)
  have hr : 2 / |c1.kappa| = 2 * (1 / |c1.kappa|) := by ring
  by_cases hbr : S.hcpmpm_reeds_shepp_.distance < 4 * S.radius_ - 2 / fabs c1.kappa
  · have hbr' : S.hcpmpm_reeds_shepp_.distance < 4 * S.radius_ - 2 / |c1.kappa| := hbr
    have hx : TTcTT_delta_x S c1 = (S.hcpmpm_reeds_shepp_.distance + 2 / |c1.kappa|) / 2 := by
      simp only [TTcTT_delta_x, fabs, if_pos hbr']
    rw [hx]
    refine ⟨sq_le_sq' (by linarith) (by linarith), by ring⟩
  · have hbr' : ¬ S.hcpmpm_reeds_shepp_.distance < 4 * S.radius_ - 2 / |c1.kappa| := hbr
    have hx : TTcTT_delta_x S c1 = (S.hcpmpm_reeds_shepp_.distance - 2 / |c1.kappa|) / 2 := by
      simp only [TTcTT_delta_x, fabs, if_neg hbr']
    rw [hx]
    refine ⟨sq_le_sq' (by linarith) (by linarith), by ring⟩

/-- C38: let the frame change at the precomputed angle be the rotation by `(cs, sn)` followed
by a translation, let the centre of `c2` lie at distance `d ≥ 0` from the centre of `c1` in
that direction, let `R ≥ 1/k` with `k = |c1.kappa|`, and let `sqrt` be exact at the radicand
used.  `TTcTT_tangent_circles` returns the joins of `TT_path` and `TcT_path` between `c1`, its
candidate tangent circles and `c2`.
Whenever `TTcTT_exists` holds, in either branch of `TTcTT_tangent_circles` and for both
candidate pairs `(tgt1, tgt2)` and `(tgt3, tgt4)`, the centre of the first circle is at squared
distance `(2R)²` from the centre of `c1`, the centre of the second at squared distance `(2R)²`
from the centre of `c2`, and the two centres are at squared distance `(2/k)²` from each
other. -/
theorem TTcTT_tangent_circles_tangent (cs sn : K)
    (hrot : cs ^ 2 + sn ^ 2 = 1)
    (hframe : ∀ x y lx ly : K, E.global_frame_change x y S.hcpmpm_reeds_shepp_.angle lx ly =
      (x + lx * cs - ly * sn, y + lx * sn + ly * cs))
    (hxc : c2.xc - c1.xc = S.hcpmpm_reeds_shepp_.distance * cs)
    (hyc : c2.yc - c1.yc = S.hcpmpm_reeds_shepp_.distance * sn)
    (hd : 0 ≤ S.hcpmpm_reeds_shepp_.distance)
    (hRk : 1 / fabs c1.kappa ≤ S.radius_)
    (hs : E.sqrt (fabs (TTcTT_radicand S c1)) ^ 2 = fabs (TTcTT_radicand S c1))
    (hex : TTcTT_exists S c1 c2 = true) :
    TTcTT_tangent_circles E S c1 c2 =
      (TT_path_q2 E S c1 (TTcTT_tgt E S c1 c2).1,
        TcT_path_q E (TTcTT_tgt E S c1 c2).1 (TTcTT_tgt E S c1 c2).2.1,
        TT_path_q2 E S (TTcTT_tgt E S c1 c2).2.1 c2,
        TT_path_q2 E S c1 (TTcTT_tgt E S c1 c2).2.2.1,
        TcT_path_q E (TTcTT_tgt E S c1 c2).2.2.1 (TTcTT_tgt E S c1 c2).2.2.2,
        TT_path_q2 E S (TTcTT_tgt E S c1 c2).2.2.2 c2) ∧
    (center_sq_distance c1 (TTcTT_tgt E S c1 c2).1 = pow2 (2 * S.radius_) ∧
      center_sq_distance (TTcTT_tgt E S c1 c2).2.1 c2 = pow2 (2 * S.radius_) ∧
      center_sq_distance (TTcTT_tgt E S c1 c2).1 (TTcTT_tgt E S c1 c2).2.1 =
        pow2 (2 / fabs c1.kappa)) ∧
    (center_sq_distance c1 (TTcTT_tgt E S c1 c2).2.2.1 = pow2 (2 * S.radius_) ∧
      center_sq_distance (TTcTT_tgt E S c1 c2).2.2.2 c2 = pow2 (2 * S.radius_) ∧
      center_sq_distance (TTcTT_tgt E S c1 c2).2.2.1 (TTcTT_tgt E S c1 c2).2.2.2 =
        pow2 (2 / fabs c1.kappa)) := by
  refine ⟨rfl, ?_⟩
  obtain ⟨hle, hgap⟩ := TTcTT_delta_x_bound S c1 hd hRk (TTcTT_exists_bound S c1 c2 hex)
  have hy : E.sqrt (fabs (TTcTT_radicand S c1)) ^ 2 =
      (2 * S.radius_) ^ 2 - TTcTT_delta_x S c1 ^ 2 := by
    have h0 : 0 ≤ TTcTT_radicand S c1 := by
      simp only [TTcTT_radicand, pow2]
      linarith
    have hf : fabs (TTcTT_radicand S c1) = TTcTT_radicand S c1 := abs_of_nonneg h0
    rw [hs, hf]
    rfl
  have e1 : pow2 (2 / fabs c1.kappa) = (2 / |c1.kappa|) ^ 2 := rfl
  have e2 : pow2 (2 * S.radius_) = (2 * S.radius_) ^ 2 := rfl
  rw [TTcTT_tgt_offset, e1, e2]
  obtain ⟨p1, -, -, p4, p5⟩ := offset_sq_distance E c1 c2 _ _ cs sn hrot hframe hxc hyc
    (TTcTT_delta_x S c1) (E.sqrt (fabs (TTcTT_radicand S c1)))
    (-TTcTT_delta_x S c1) (E.sqrt (fabs (TTcTT_radicand S c1)))
    (!c1.left) c1.forward c1.regular (!c2.left) (!c2.forward) c2.regular S.hc_cc_circle_param_
    S.hc_cc_circle_param_
  obtain ⟨q1, -, -, q4, q5⟩ := offset_sq_distance E c1 c2 _ _ cs sn hrot hframe hxc hyc
    (TTcTT_delta_x S c1) (-E.sqrt (fabs (TTcTT_radicand S c1)))
    (-TTcTT_delta_x S c1) (-E.sqrt (fabs (TTcTT_radicand S c1)))
    (!c1.left) c1.forward c1.regular (!c2.left) (!c2.forward) c2.regular S.hc_cc_circle_param_
    S.hc_cc_circle_param_
  refine ⟨⟨?_, ?_, ?_⟩, ⟨?_, ?_, ?_⟩⟩
  · rw [p1]; linear_combination hy
  · rw [p4]; linear_combination hy
  · rw [p5]; linear_combination hgap
  · rw [q1]; linear_combination hy
  · rw [q4]; linear_combination hy
  · rw [q5]; linear_combination hgap

end TTcTT_geometry
section TTcTT_concrete

open HCpmpm_Reeds_Shepp

theorem gap_near_helper :
    gap_near_space.hcpmpm_reeds_shepp_ = { distance := 4, angle := 0 } :=
  (circle_at_precompute (rational_space (17 / 10) (3 / 5) (4 / 5)) rfl 4 (by norm_num)).2.2.1

theorem gap_far_helper :
    gap_far_space.hcpmpm_reeds_shepp_ = { distance := 8, angle := 0 } :=
  (circle_at_precompute (rational_space (17 / 10) (3 / 5) (4 / 5)) rfl 8 (by norm_num)).2.2.1

/-- Witness for C38, one instance for each branch: a left/forward and a right/forward circle
with rs radius 1 and `R = 17/10`, centres `(0, 1)` and `(4, 1)` (`d = 4 < 4R - 2/k = 24/5`,
`delta_x = 3`) respectively `(0, 1)` and `(8, 1)` (`d = 8`, `delta_x = 3`).  In both, the
routine returns the joins on its candidate circles, and the
first pair of candidate circles has its centres at squared distance `(17/5)²` from the
centres of `c1` and `c2` and at squared distance `2²` from each other. -/
theorem TTcTT_tangent_circles_tangent_witness :
    (TTcTT_tangent_circles exact_env gap_near_space chord_start gap_near_end =
        (TT_path_q2 exact_env gap_near_space chord_start
            (TTcTT_tgt exact_env gap_near_space chord_start gap_near_end).1,
          TcT_path_q exact_env (TTcTT_tgt exact_env gap_near_space chord_start gap_near_end).1
            (TTcTT_tgt exact_env gap_near_space chord_start gap_near_end).2.1,
          TT_path_q2 exact_env gap_near_space
            (TTcTT_tgt exact_env gap_near_space chord_start gap_near_end).2.1 gap_near_end,
          TT_path_q2 exact_env gap_near_space chord_start
            (TTcTT_tgt exact_env gap_near_space chord_start gap_near_end).2.2.1,
          TcT_path_q exact_env
            (TTcTT_tgt exact_env gap_near_space chord_start gap_near_end).2.2.1
            (TTcTT_tgt exact_env gap_near_space chord_start gap_near_end).2.2.2,
          TT_path_q2 exact_env gap_near_space
            (TTcTT_tgt exact_env gap_near_space chord_start gap_near_end).2.2.2
            gap_near_end) ∧
      TTcTT_tangent_circles exact_env gap_far_space chord_start gap_far_end =
        (TT_path_q2 exact_env gap_far_space chord_start
            (TTcTT_tgt exact_env gap_far_space chord_start gap_far_end).1,
          TcT_path_q exact_env (TTcTT_tgt exact_env gap_far_space chord_start gap_far_end).1
            (TTcTT_tgt exact_env gap_far_space chord_start gap_far_end).2.1,
          TT_path_q2 exact_env gap_far_space
            (TTcTT_tgt exact_env gap_far_space chord_start gap_far_end).2.1 gap_far_end,
          TT_path_q2 exact_env gap_far_space chord_start
            (TTcTT_tgt exact_env gap_far_space chord_start gap_far_end).2.2.1,
          TcT_path_q exact_env
            (TTcTT_tgt exact_env gap_far_space chord_start gap_far_end).2.2.1
            (TTcTT_tgt exact_env gap_far_space chord_start gap_far_end).2.2.2,
          TT_path_q2 exact_env gap_far_space
            (TTcTT_tgt exact_env gap_far_space chord_start gap_far_end).2.2.2
            gap_far_end)) ∧
    (center_sq_distance chord_start (TTcTT_tgt exact_env gap_near_space chord_start
          gap_near_end).1 = pow2 (2 * gap_near_space.radius_) ∧
      center_sq_distance (TTcTT_tgt exact_env gap_near_space chord_start gap_near_end).2.1
          gap_near_end = pow2 (2 * gap_near_space.radius_) ∧
      center_sq_distance (TTcTT_tgt exact_env gap_near_space chord_start gap_near_end).1
          (TTcTT_tgt exact_env gap_near_space chord_start gap_near_end).2.1 =
        pow2 (2 / fabs chord_start.kappa)) ∧
    (center_sq_distance chord_start (TTcTT_tgt exact_env gap_far_space chord_start
          gap_far_end).1 = pow2 (2 * gap_far_space.radius_) ∧
      center_sq_distance (TTcTT_tgt exact_env gap_far_space chord_start gap_far_end).2.1
          gap_far_end = pow2 (2 * gap_far_space.radius_) ∧
      center_sq_distance (TTcTT_tgt exact_env gap_far_space chord_start gap_far_end).1
          (TTcTT_tgt exact_env gap_far_space chord_start gap_far_end).2.1 =
        pow2 (2 / fabs chord_start.kappa)) :=
  have h1 := TTcTT_tangent_circles_tangent exact_env gap_near_space chord_start gap_near_end
    1 0 (by norm_num)
    (fun x y lx ly => by simp [exact_env, toy_env])
    (by
      rw [gap_near_helper]
      simp [chord_start, gap_near_end, circle_at, exact_env, toy_env, endpoint_circle,
        HC_CC_Circle.of_start])
    (by
      rw [gap_near_helper]
      simp [chord_start, gap_near_end, circle_at, exact_env, toy_env, endpoint_circle,
        HC_CC_Circle.of_start, rational_space]
      norm_num)
    (by rw [gap_near_helper]; norm_num)
    (by
      simp [chord_start, gap_near_space, precompute, circle_at, endpoint_circle,
        HC_CC_Circle.of_start, rational_space, fabs]
      norm_num)
    (exact_sqrt_of_sq _ (8 / 5) (by norm_num) (by
      rw [TTcTT_radicand, TTcTT_delta_x, gap_near_helper]
      simp [chord_start, gap_near_space, precompute, circle_at, endpoint_circle,
        HC_CC_Circle.of_start, rational_space, fabs, pow2]
      norm_num [abs_div])).1
    (by
      simp [TTcTT_exists, gap_near_helper, chord_start, gap_near_end, circle_at,
        endpoint_circle, HC_CC_Circle.of_start, rational_space, fabs]
      norm_num [gap_near_space, precompute, rational_space])
  have h2 := TTcTT_tangent_circles_tangent exact_env gap_far_space chord_start gap_far_end
    1 0 (by norm_num)
    (fun x y lx ly => by simp [exact_env, toy_env])
    (by
      rw [gap_far_helper]
      simp [chord_start, gap_far_end, circle_at, exact_env, toy_env, endpoint_circle,
        HC_CC_Circle.of_start])
    (by
      rw [gap_far_helper]
      simp [chord_start, gap_far_end, circle_at, exact_env, toy_env, endpoint_circle,
        HC_CC_Circle.of_start, rational_space]
      norm_num)
    (by rw [gap_far_helper]; norm_num)
    (by
      simp [chord_start, gap_far_space, precompute, circle_at, endpoint_circle,
        HC_CC_Circle.of_start, rational_space, fabs]
      norm_num)
    (exact_sqrt_of_sq _ (8 / 5) (by norm_num) (by
      rw [TTcTT_radicand, TTcTT_delta_x, gap_far_helper]
      simp [chord_start, gap_far_space, precompute, circle_at, endpoint_circle,
        HC_CC_Circle.of_start, rational_space, fabs, pow2]
      norm_num [abs_div])).1
    (by
      simp [TTcTT_exists, gap_far_helper, chord_start, gap_far_end, circle_at,
        endpoint_circle, HC_CC_Circle.of_start, rational_space, fabs]
      norm_num [gap_far_space, precompute, rational_space])
  ⟨⟨h1.1, h2.1⟩, h1.2.1, h2.2.1⟩

end TTcTT_concrete

/-! ## The family `TcTTcT` -/

section TcTTcT_geometry

variable (E : Env K) (S : HCpmpm_Reeds_Shepp_State_Space K) (c1 c2 : HC_CC_Circle K)

open HCpmpm_Reeds_Shepp

/-- The two bounds of `TcTTcT_exists`, read off a true predicate. -/
theorem TcTTcT_exists_bounds (h : TcTTcT_exists S c1 c2 = true) :
    S.hcpmpm_reeds_shepp_.distance ≤ 2 * (2 / |c1.kappa|) + 2 * S.radius_ ∧
    2 * (2 / |c1.kappa|) - 2 * S.radius_ ≤ S.hcpmpm_reeds_shepp_.distance := by
  unfold TcTTcT_exists at h
  split_ifs at h
  rw [Bool.and_eq_true] at h
  have h1 : S.hcpmpm_reeds_shepp_.distance ≤ 4 / |c1.kappa| + 2 * S.radius_ :=
    of_decide_eq_true h.1
  have h2 : 4 / |c1.kappa| - 2 * S.radius_ ≤ S.hcpmpm_reeds_shepp_.distance :=
    of_decide_eq_true h.2
  have e : 4 / |c1.kappa| = 2 * (2 / |c1.kappa|) := by
    rw [mul_div_assoc']
    norm_num
  rw [e] at h1 h2
  exact ⟨h1, h2⟩

/-- Two circles of radius `r1` with centres `d > 0` apart and a segment of length `2R` placed
symmetrically about the midpoint, `|r1 - R| ≤ d/2 ≤ r1 + R`: the end at the local coordinates
`(x, ±y)`, `x = (r1² + (d/2)² - R²) / d`, `y² = |r1² - x²|`, is on the first circle, and the
two ends are `2R` apart. -/
theorem half_chord_point (r1 R d y : K) (hd : 0 < d) (h1 : d ≤ 2 * r1 + 2 * R)
    (h2 : 2 * r1 - 2 * R ≤ d) (h3 : 2 * R - 2 * r1 ≤ d)
    (hy : y ^ 2 = |r1 ^ 2 - ((r1 ^ 2 + (d / 2) ^ 2 - R ^ 2) / d) ^ 2|) :
    ((r1 ^ 2 + (d / 2) ^ 2 - R ^ 2) / d) ^ 2 + y ^ 2 = r1 ^ 2 ∧
    (d - 2 * ((r1 ^ 2 + (d / 2) ^ 2 - R ^ 2) / d)) ^ 2 + (2 * y) ^ 2 = (2 * R) ^ 2 := by
  obtain ⟨h0, hc⟩ := chord_offset r1 R (d / 2) (by linarith) (by linarith) (by linarith)
    (by linarith)
  have e : 2 * (d / 2) = d := by ring
  rw [e] at h0 hc
  rw [abs_of_nonneg h0] at hy
  refine ⟨by linear_combination hy, by linear_combination 4 * hy + 4 * hc⟩

/-- Where the construction of `TcTTcT_tangent_circles` succeeds: let the frame change at the
precomputed angle be the rotation by `(cs, sn)` followed by a translation, let the centre of `c2` lie at distance `d > 0` from the
centre of `c1` in that direction, let `2R ≤ d + 4/k` with `k = |c1.kappa|`, and let `sqrt` be
exact at the radicand used.  Whenever `TcTTcT_exists` holds, in each of the two candidate
pairs `(tgt1, tgt2)` and `(tgt3, tgt4)` of `TcTTcT_tangent_circles` the centre of the first
circle is at squared distance `(2/k)²` from the centre of `c1`, the centre of the second at
squared distance `(2/k)²` from the centre of `c2`, and the two centres are at squared distance
`(2R)²` from each other. -/
theorem TcTTcT_tangent_circles_tangent (cs sn : K)
    (hrot : cs ^ 2 + sn ^ 2 = 1)
    (hframe : ∀ x y lx ly : K, E.global_frame_change x y S.hcpmpm_reeds_shepp_.angle lx ly =
      (x + lx * cs - ly * sn, y + lx * sn + ly * cs))
    (hxc : c2.xc - c1.xc = S.hcpmpm_reeds_shepp_.distance * cs)
    (hyc : c2.yc - c1.yc = S.hcpmpm_reeds_shepp_.distance * sn)
    (hd : 0 < S.hcpmpm_reeds_shepp_.distance)
    (hfit : 2 * S.radius_ ≤ S.hcpmpm_reeds_shepp_.distance + 4 / fabs c1.kappa)
    (hs : E.sqrt (fabs (TcTTcT_radicand S c1)) ^ 2 = fabs (TcTTcT_radicand S c1))
    (hex : TcTTcT_exists S c1 c2 = true) :
    (center_sq_distance c1 (TcTTcT_tgt E S c1 c2).1 = pow2 (2 / fabs c1.kappa) ∧
      center_sq_distance (TcTTcT_tgt E S c1 c2).2.1 c2 = pow2 (2 / fabs c1.kappa) ∧
      center_sq_distance (TcTTcT_tgt E S c1 c2).1 (TcTTcT_tgt E S c1 c2).2.1 =
        pow2 (2 * S.radius_)) ∧
    (center_sq_distance c1 (TcTTcT_tgt E S c1 c2).2.2.1 = pow2 (2 / fabs c1.kappa) ∧
      center_sq_distance (TcTTcT_tgt E S c1 c2).2.2.2 c2 = pow2 (2 / fabs c1.kappa) ∧
      center_sq_distance (TcTTcT_tgt E S c1 c2).2.2.1 (TcTTcT_tgt E S c1 c2).2.2.2 =
        pow2 (2 * S.radius_)) := by
  obtain ⟨hb1, hb2⟩ := TcTTcT_exists_bounds S c1 c2 hex
  have hfit' : 2 * S.radius_ ≤ S.hcpmpm_reeds_shepp_.distance + 2 * (2 / |c1.kappa|) := by
    have e : 4 / |c1.kappa| = 2 * (2 / |c1.kappa|) := by
      rw [mul_div_assoc']
      norm_num
    rw [← e]
    exact hfit
  have hy : E.sqrt (fabs (TcTTcT_radicand S c1)) ^ 2 =
      |(2 / |c1.kappa|) ^ 2 - (((2 / |c1.kappa|) ^ 2 + (S.hcpmpm_reeds_shepp_.distance / 2) ^ 2 -
        S.radius_ ^ 2) / S.hcpmpm_reeds_shepp_.distance) ^ 2| := hs
  have hx : TcTTcT_delta_x S c1 = ((2 / |c1.kappa|) ^ 2 +
      (S.hcpmpm_reeds_shepp_.distance / 2) ^ 2 - S.radius_ ^ 2) /
        S.hcpmpm_reeds_shepp_.distance := rfl
  obtain ⟨a1, a2⟩ := half_chord_point _ _ _ _ hd hb1 hb2 (by linarith) hy
  rw [← hx] at a1 a2
  have e1 : pow2 (2 / fabs c1.kappa) = (2 / |c1.kappa|) ^ 2 := rfl
  have e2 : pow2 (2 * S.radius_) = (2 * S.radius_) ^ 2 := rfl
  rw [TcTTcT_tgt_offset, e1, e2]
  obtain ⟨p1, -, -, p4, p5⟩ := offset_sq_distance E c1 c2 _ _ cs sn hrot hframe hxc hyc
    (TcTTcT_delta_x S c1) (E.sqrt (fabs (TcTTcT_radicand S c1)))
    (-TcTTcT_delta_x S c1) (-E.sqrt (fabs (TcTTcT_radicand S c1)))
    (!c1.left) (!c1.forward) c1.regular (!c2.left) c2.forward c2.regular S.hc_cc_circle_param_
    S.hc_cc_circle_param_
  obtain ⟨q1, -, -, q4, q5⟩ := offset_sq_distance E c1 c2 _ _ cs sn hrot hframe hxc hyc
    (TcTTcT_delta_x S c1) (-E.sqrt (fabs (TcTTcT_radicand S c1)))
    (-TcTTcT_delta_x S c1) (E.sqrt (fabs (TcTTcT_radicand S c1)))
    (!c1.left) (!c1.forward) c1.regular (!c2.left) c2.forward c2.regular S.hc_cc_circle_param_
    S.hc_cc_circle_param_
  refine ⟨⟨?_, ?_, ?_⟩, ⟨?_, ?_, ?_⟩⟩
  · rw [p1]; linear_combination a1
  · rw [p4]; linear_combination a1
  · rw [p5]; linear_combination a2
  · rw [q1]; linear_combination a1
  · rw [q4]; linear_combination a1
  · rw [q5]; linear_combination a2

end TcTTcT_geometry

section TcTTcT_concrete

open HCpmpm_Reeds_Shepp

theorem span_helper :
    span_space.hcpmpm_reeds_shepp_ = { distance := 42 / 5, angle := 0 } :=
  (circle_at_precompute (rational_space (17 / 5) (3 / 5) (4 / 5)) rfl (42 / 5)
    (by norm_num)).2.2.2

theorem wide_helper :
    wide_space.hcpmpm_reeds_shepp_ = { distance := 17 / 4, angle := 0 } :=
  (circle_at_precompute (rational_space (35 / 8) (3 / 5) (4 / 5)) rfl (17 / 4)
    (by norm_num)).2.2.2

/-- An instance of `TcTTcT_tangent_circles_tangent`: a left/forward and a right/backward circle
with rs radius 1, centres `(0, 1)` and `(42/5, 1)` and `R = 17/5` (`2R = 34/5 ≤ d + 4/k = 62/5`).  The first
pair of candidate circles, with centres `(6/5, 1 + 8/5)` and `(42/5 - 6/5, 1 - 8/5)`, has its
centres at squared distance `2²` from the centres of `c1` and `c2` and at squared distance
`(34/5)²` from each other. -/
theorem TcTTcT_tangent_circles_tangent_witness :
    center_sq_distance span_start (TcTTcT_tgt exact_env span_space span_start span_end).1 =
      pow2 (2 / fabs span_start.kappa) ∧
    center_sq_distance (TcTTcT_tgt exact_env span_space span_start span_end).2.1 span_end =
      pow2 (2 / fabs span_start.kappa) ∧
    center_sq_distance (TcTTcT_tgt exact_env span_space span_start span_end).1
        (TcTTcT_tgt exact_env span_space span_start span_end).2.1 =
      pow2 (2 * span_space.radius_) :=
  (TcTTcT_tangent_circles_tangent exact_env span_space span_start span_end
    1 0 (by norm_num)
    (fun x y lx ly => by simp [exact_env, toy_env])
    (by
      rw [span_helper]
      simp [span_start, span_end, circle_at, exact_env, toy_env, endpoint_circle,
        HC_CC_Circle.of_start])
    (by
      rw [span_helper]
      simp [span_start, span_end, circle_at, exact_env, toy_env, endpoint_circle,
        HC_CC_Circle.of_start, rational_space]
      norm_num)
    (by rw [span_helper]; norm_num)
    (by
      rw [span_helper]
      simp [span_start, span_space, precompute, circle_at, endpoint_circle,
        HC_CC_Circle.of_start, rational_space, fabs]
      norm_num)
    (exact_sqrt_of_sq _ (8 / 5) (by norm_num) (by
      rw [TcTTcT_radicand, TcTTcT_delta_x, span_helper]
      simp [span_start, span_space, precompute, circle_at, endpoint_circle,
        HC_CC_Circle.of_start, rational_space, fabs, pow2]
      norm_num [abs_div])).1
    (by
      simp [TcTTcT_exists, span_helper, span_start, span_end, circle_at,
        endpoint_circle, HC_CC_Circle.of_start, rational_space, fabs]
      norm_num [span_space, precompute, rational_space])).1

/-- C37 fails on the driver's left/forward start circle at `(0, 0, 0)` and right/backward end
circle at `(17/4, 2, 0)` with rs radius 1 (`k = 1`) and hc/cc radius `R = 35/8 ≥ 1/k`: the
centres are `(0, 1)` and `(17/4, 1)`, `d = 17/4 > 0`.  `TcTTcT_exists` holds
(`4/k - 2R ≤ 17/4 ≤ 4/k + 2R`), so the selector stores the result of `TcTTcT_path` in the row
of the family.  `TcTTcT_tangent_circles` returns the joins on its candidate circles, but
`delta_x = -5/2` exceeds `2/k` in magnitude, the radicand `4 - 25/4` is negative and
`delta_y = sqrt (9/4) = 3/2`: the centre `(-5/2, 1 + 3/2)` of `tgt1` is at squared distance
`17/2`, not `(2/k)² = 4`, from the centre of `c1`, and at squared distance `1513/16`, not
`(2R)² = 1225/16`, from the centre of `tgt2`. -/
theorem TcTTcT_tangent_circles_apart :
    (wide_start = endpoint_circle exact_env (rational_space (35 / 8) (3 / 5) (4 / 5))
        { x := 0, y := 0, theta := 0, kappa := 0 } 0 ∧
      wide_end = endpoint_circle exact_env (rational_space (35 / 8) (3 / 5) (4 / 5))
        { x := 17 / 4, y := 2, theta := 0, kappa := 0 } 3) ∧
    TcTTcT_exists wide_space wide_start wide_end = true ∧
    selector_table exact_env wide_space wide_start wide_end hc_cc_rs_path_type.TcTTcT.index =
      TcTTcT_path exact_env wide_space wide_start wide_end ∧
    TcTTcT_tangent_circles exact_env wide_space wide_start wide_end =
      (TcT_path_q exact_env wide_start (TcTTcT_tgt exact_env wide_space wide_start wide_end).1,
        TT_path_q2 exact_env wide_space (TcTTcT_tgt exact_env wide_space wide_start wide_end).1
          (TcTTcT_tgt exact_env wide_space wide_start wide_end).2.1,
        TcT_path_q exact_env (TcTTcT_tgt exact_env wide_space wide_start wide_end).2.1 wide_end,
        TcT_path_q exact_env wide_start
          (TcTTcT_tgt exact_env wide_space wide_start wide_end).2.2.1,
        TT_path_q2 exact_env wide_space
          (TcTTcT_tgt exact_env wide_space wide_start wide_end).2.2.1
          (TcTTcT_tgt exact_env wide_space wide_start wide_end).2.2.2,
        TcT_path_q exact_env (TcTTcT_tgt exact_env wide_space wide_start wide_end).2.2.2
          wide_end) ∧
    fabs wide_start.kappa = fabs wide_end.kappa ∧
    1 / fabs wide_start.kappa ≤ wide_space.radius_ ∧
    0 < wide_space.hcpmpm_reeds_shepp_.distance ∧
    center_sq_distance wide_start (TcTTcT_tgt exact_env wide_space wide_start wide_end).1 =
      17 / 2 ∧
    pow2 (2 / fabs wide_start.kappa) = 4 ∧
    center_sq_distance (TcTTcT_tgt exact_env wide_space wide_start wide_end).1
        (TcTTcT_tgt exact_env wide_space wide_start wide_end).2.1 = 1513 / 16 ∧
    pow2 (2 * wide_space.radius_) = 1225 / 16 := by
  have hsq : exact_env.sqrt (fabs (TcTTcT_radicand wide_space wide_start)) = 3 / 2 :=
    (exact_sqrt_of_sq _ (3 / 2) (by norm_num) (by
      rw [TcTTcT_radicand, TcTTcT_delta_x, wide_helper]
      simp [wide_start, wide_space, precompute, circle_at, endpoint_circle,
        HC_CC_Circle.of_start, rational_space, fabs, pow2]
      norm_num [abs_div])).2
  have hdx : TcTTcT_delta_x wide_space wide_start = -(5 / 2) := by
    rw [TcTTcT_delta_x, wide_helper]
    simp [wide_start, wide_space, precompute, circle_at, endpoint_circle,
      HC_CC_Circle.of_start, rational_space, fabs, pow2]
    norm_num
  obtain ⟨p1, -, -, -, p5⟩ := offset_sq_distance exact_env wide_start wide_end
    wide_space.hcpmpm_reeds_shepp_.angle wide_space.hcpmpm_reeds_shepp_.distance 1 0
    (by norm_num) (fun x y lx ly => by simp [exact_env, toy_env])
    (by
      rw [wide_helper]
      simp [wide_start, wide_end, circle_at, exact_env, toy_env, endpoint_circle,
        HC_CC_Circle.of_start])
    (by
      rw [wide_helper]
      simp [wide_start, wide_end, circle_at, exact_env, toy_env, endpoint_circle,
        HC_CC_Circle.of_start, rational_space]
      norm_num)
    (TcTTcT_delta_x wide_space wide_start)
    (exact_env.sqrt (fabs (TcTTcT_radicand wide_space wide_start)))
    (-TcTTcT_delta_x wide_space wide_start)
    (-exact_env.sqrt (fabs (TcTTcT_radicand wide_space wide_start)))
    (!wide_start.left) (!wide_start.forward) wide_start.regular (!wide_end.left)
    wide_end.forward wide_end.regular wide_space.hc_cc_circle_param_
    wide_space.hc_cc_circle_param_
  have hex : TcTTcT_exists wide_space wide_start wide_end = true := by
    simp [TcTTcT_exists, wide_helper, wide_start, wide_end, circle_at,
      endpoint_circle, HC_CC_Circle.of_start, rational_space, fabs]
    norm_num [wide_space, precompute, rational_space]
  have hne : exact_env.configuration_equal wide_start.start wide_end.start = false := by
    simp [exact_env, toy_env, wide_start, wide_end, circle_at, endpoint_circle,
      HC_CC_Circle.of_start]
  have hoff : exact_env.configuration_on_hc_cc_circle wide_start wide_end.start = false := by
    simp [exact_env, toy_env, wide_start, wide_end, circle_at, endpoint_circle,
      HC_CC_Circle.of_start, rational_space]
    norm_num
  have htab := selector_table_at exact_env (rational_space (35 / 8) (3 / 5) (4 / 5)) wide_start
    wide_end hne hoff hc_cc_rs_path_type.TcTTcT
  have hfe : family_exists exact_env
      (precompute exact_env (rational_space (35 / 8) (3 / 5) (4 / 5)) wide_start wide_end)
      wide_start wide_end hc_cc_rs_path_type.TcTTcT = true := hex
  rw [hfe, if_pos rfl] at htab
  refine ⟨⟨rfl, rfl⟩, hex, htab, rfl, rfl, ?_, ?_, ?_, ?_, ?_, ?_⟩
  · simp [wide_start, wide_space, precompute, circle_at, endpoint_circle,
      HC_CC_Circle.of_start, rational_space, fabs]
    norm_num
  · rw [wide_helper]; norm_num
  · rw [TcTTcT_tgt_offset, p1, hsq, hdx]; norm_num
  · simp [wide_start, circle_at, endpoint_circle, HC_CC_Circle.of_start, rational_space, fabs,
      pow2]
    norm_num
  · rw [TcTTcT_tgt_offset, p5, hsq, hdx, wide_helper]; norm_num
  · simp [wide_space, precompute, rational_space, pow2]
    norm_num

end TcTTcT_concrete

/-! ## The auxiliary circles of `TcTiSTcT_path` -/

section TcTiSTcT_geometry

variable (E : Env K) (S : HCpmpm_Reeds_Shepp_State_Space K) (c1 c2 : HC_CC_Circle K)

open HCpmpm_Reeds_Shepp

/-- C35: let the frame change at the precomputed angle be the rotation by `(cs, sn)` followed
by a translation, let the centre of `c2` lie at distance `d` from the centre of `c1` in that
direction, let `sin² μ + cos² μ = 1`, `R ≥ 0`, `sin μ ≥ 0`, `|c1.kappa| = |c2.kappa| ≠ 0`, and
let `sqrt` be exact at the radicand of the predicate's bound and at the radicand of `delta_x`.
The configurations `q1` and `q4` that `TcTiSTcT_path` returns are the joins of `TcT_path`
between `c1` and its auxiliary circle `tgt1` and between `tgt2` and `c2`, and `q2`, `q3` are
those of `TiST_path` between `tgt1` and `tgt2`.  When `TcTiSTcT_exists` holds, the centres of
`tgt1` and `tgt2` are at squared distance `(2/|κ|)²` from the centre of `c1` respectively of
`c2`, and at squared distance at least `(2R)²` from each other, with equality exactly when `d`
equals the predicate's bound. -/
theorem TcTiSTcT_tangent_circles_feasible (cs sn : K)
    (hrot : cs ^ 2 + sn ^ 2 = 1)
    (hframe : ∀ x y lx ly : K, E.global_frame_change x y S.hcpmpm_reeds_shepp_.angle lx ly =
      (x + lx * cs - ly * sn, y + lx * sn + ly * cs))
    (hxc : c2.xc - c1.xc = S.hcpmpm_reeds_shepp_.distance * cs)
    (hyc : c2.yc - c1.yc = S.hcpmpm_reeds_shepp_.distance * sn)
    (hmu : S.sin_mu_ ^ 2 + S.cos_mu_ ^ 2 = 1) (hR : 0 ≤ S.radius_) (hsin : 0 ≤ S.sin_mu_)
    (hk : fabs c1.kappa = fabs c2.kappa) (hk0 : c1.kappa ≠ 0)
    (hs1 : 0 ≤ E.sqrt (TcTiSTcT_bound_radicand S c1) ∧
      E.sqrt (TcTiSTcT_bound_radicand S c1) ^ 2 = TcTiSTcT_bound_radicand S c1)
    (hs2 : 0 ≤ TcTiSTcT_delta_radicand S c1 →
      0 ≤ E.sqrt (TcTiSTcT_delta_radicand S c1) ∧
        E.sqrt (TcTiSTcT_delta_radicand S c1) ^ 2 = TcTiSTcT_delta_radicand S c1)
    (hex : TcTiSTcT_exists E S c1 c2 = true) :
    ((TcTiSTcT_path E S c1 c2).qi1 =
        some (TcT_path_q E c1 (TcTiSTcT_tangent_circles E S c1 c2).1) ∧
      (TcTiSTcT_path E S c1 c2).qi2 =
        some (TiST_path_q2q3 E S (TcTiSTcT_tangent_circles E S c1 c2).1
          (TcTiSTcT_tangent_circles E S c1 c2).2).1 ∧
      (TcTiSTcT_path E S c1 c2).qi3 =
        some (TiST_path_q2q3 E S (TcTiSTcT_tangent_circles E S c1 c2).1
          (TcTiSTcT_tangent_circles E S c1 c2).2).2 ∧
      (TcTiSTcT_path E S c1 c2).qi4 =
        some (TcT_path_q E (TcTiSTcT_tangent_circles E S c1 c2).2 c2)) ∧
    center_sq_distance c1 (TcTiSTcT_tangent_circles E S c1 c2).1 = pow2 (2 / fabs c1.kappa) ∧
    center_sq_distance (TcTiSTcT_tangent_circles E S c1 c2).2 c2 = pow2 (2 / fabs c2.kappa) ∧
    pow2 (2 * S.radius_) ≤ center_sq_distance (TcTiSTcT_tangent_circles E S c1 c2).1
      (TcTiSTcT_tangent_circles E S c1 c2).2 ∧
    (center_sq_distance (TcTiSTcT_tangent_circles E S c1 c2).1
        (TcTiSTcT_tangent_circles E S c1 c2).2 = pow2 (2 * S.radius_) ↔
      S.hcpmpm_reeds_shepp_.distance = E.sqrt (TcTiSTcT_bound_radicand S c1)) := by
  refine ⟨TcTiSTcT_path_tangent_circles E S c1 c2, ?_⟩
  have hpred := TcTiSTcT_exists_bound E S c1 c2 hex
  have hkpos : 0 < |c1.kappa| := abs_pos.mpr hk0
  have hm : 0 < 4 / |c1.kappa| := div_pos (by norm_num) hkpos
  have hb : 0 ≤ 2 * S.radius_ * S.sin_mu_ := mul_nonneg (mul_nonneg zero_le_two hR) hsin
  have hA : TcTiSTcT_bound_radicand S c1 =
      (2 * S.radius_ * S.sin_mu_ + 4 / |c1.kappa|) ^ 2 + (2 * S.radius_ * S.cos_mu_) ^ 2 := by
    simp only [TcTiSTcT_bound_radicand, pow2, fabs]
    have h1 : (4 / c1.kappa) ^ 2 = (4 / |c1.kappa|) ^ 2 := by
      rw [div_pow, div_pow, sq_abs]
    have h2 : (2 * S.radius_) ^ 2 =
        (2 * S.radius_ * S.sin_mu_) ^ 2 + (2 * S.radius_ * S.cos_mu_) ^ 2 := by
      have : (2 * S.radius_ * S.sin_mu_) ^ 2 + (2 * S.radius_ * S.cos_mu_) ^ 2 =
          (2 * S.radius_) ^ 2 * (S.sin_mu_ ^ 2 + S.cos_mu_ ^ 2) := by ring
      rw [this, hmu, mul_one]
    rw [h1, h2]
    ring
  obtain ⟨hApos, -⟩ := TcTiSTcT_bound_radicand_ge S c1 hmu hR hsin hk0
  obtain ⟨hd, hd2⟩ := of_sqrt_le E _ _ hApos hs1 hpred
  obtain ⟨hs1a, hs1b⟩ := hs1
  have hw : (2 * S.radius_ * S.sin_mu_ + 4 / |c1.kappa|) ^ 2 ≤
      S.hcpmpm_reeds_shepp_.distance ^ 2 - (2 * S.radius_ * S.cos_mu_) ^ 2 := by
    rw [hA] at hd2
    linarith
  have hBd : TcTiSTcT_delta_radicand S c1 * S.hcpmpm_reeds_shepp_.distance ^ 2 =
      (2 / |c1.kappa|) ^ 2 *
        (S.hcpmpm_reeds_shepp_.distance ^ 2 - (2 * S.radius_ * S.cos_mu_) ^ 2) := by
    simp only [TcTiSTcT_delta_radicand, pow2, fabs]
    have h1 : (2 / c1.kappa) ^ 2 = (2 / |c1.kappa|) ^ 2 := by
      rw [div_pow, div_pow, sq_abs]
    rw [h1, mul_comm S.hcpmpm_reeds_shepp_.distance |c1.kappa|]
    exact delta_radicand_scaled _ _ _ _ hkpos hd
  have hB : 0 ≤ TcTiSTcT_delta_radicand S c1 := by
    have hpos : 0 < S.hcpmpm_reeds_shepp_.distance ^ 2 := by positivity
    refine nonneg_of_mul_nonneg_left ?_ hpos
    rw [hBd]
    exact mul_nonneg (sq_nonneg _) (le_trans (sq_nonneg _) hw)
  obtain ⟨hx0, hx2⟩ := hs2 hB
  have hu : 0 ≤ 2 * (S.hcpmpm_reeds_shepp_.distance * E.sqrt (TcTiSTcT_delta_radicand S c1)) :=
    mul_nonneg zero_le_two (mul_nonneg hd.le hx0)
  have hu2 : (2 * (S.hcpmpm_reeds_shepp_.distance *
      E.sqrt (TcTiSTcT_delta_radicand S c1))) ^ 2 =
      (4 / |c1.kappa|) ^ 2 *
        (S.hcpmpm_reeds_shepp_.distance ^ 2 - (2 * S.radius_ * S.cos_mu_) ^ 2) := by
    have e : (4 / |c1.kappa|) ^ 2 = 4 * (2 / |c1.kappa|) ^ 2 := by
      rw [div_pow, div_pow]
      ring
    rw [e, mul_assoc, ← hBd, mul_pow, mul_pow, hx2]
    ring
  obtain ⟨hge, heq⟩ := tangent_offset_bound _ _ _ _ _ hb hm hu hw hu2
  have hdy : ((4 * S.radius_ * S.cos_mu_) /
      (S.hcpmpm_reeds_shepp_.distance * |c1.kappa|)) ^ 2 =
      (2 / |c1.kappa|) ^ 2 - E.sqrt (TcTiSTcT_delta_radicand S c1) ^ 2 := by
    rw [hx2]
    simp only [TcTiSTcT_delta_radicand, pow2, fabs]
    rw [div_pow 2 c1.kappa, div_pow 2 |c1.kappa|, sq_abs]
    ring
  have hR2 : pow2 (2 * S.radius_) =
      (2 * S.radius_ * S.cos_mu_) ^ 2 + (2 * S.radius_ * S.sin_mu_) ^ 2 := by
    simp only [pow2]
    have : (2 * S.radius_ * S.cos_mu_) ^ 2 + (2 * S.radius_ * S.sin_mu_) ^ 2 =
        (2 * S.radius_) ^ 2 * (S.sin_mu_ ^ 2 + S.cos_mu_ ^ 2) := by ring
    rw [this, hmu, mul_one]
  have hk1 : |c1.kappa| = |c2.kappa| := hk
  have e1 : pow2 (2 / fabs c1.kappa) = (2 / |c1.kappa|) ^ 2 := rfl
  have e2 : pow2 (2 / fabs c2.kappa) = (2 / |c1.kappa|) ^ 2 := by
    rw [← hk]
    rfl
  obtain ⟨p1, -, -, p4, p5⟩ := offset_sq_distance E c1 c2 _ _ cs sn hrot hframe hxc hyc
    (E.sqrt (TcTiSTcT_delta_radicand S c1))
    ((4 * S.radius_ * S.cos_mu_) / (S.hcpmpm_reeds_shepp_.distance * fabs c1.kappa))
    (-E.sqrt (TcTiSTcT_delta_radicand S c1))
    (-((4 * S.radius_ * S.cos_mu_) / (S.hcpmpm_reeds_shepp_.distance * fabs c1.kappa)))
    (!c1.left) (!c1.forward) c1.regular (!c2.left) c2.forward c2.regular S.hc_cc_circle_param_
    S.hc_cc_circle_param_
  have hdy' : ((4 * S.radius_ * S.cos_mu_) /
      (S.hcpmpm_reeds_shepp_.distance * fabs c1.kappa)) ^ 2 =
      (2 / |c1.kappa|) ^ 2 - E.sqrt (TcTiSTcT_delta_radicand S c1) ^ 2 := hdy
  have hmid : center_sq_distance (TcTiSTcT_tangent_circles E S c1 c2).1
      (TcTiSTcT_tangent_circles E S c1 c2).2 =
      S.hcpmpm_reeds_shepp_.distance ^ 2 -
        2 * (2 * (S.hcpmpm_reeds_shepp_.distance * E.sqrt (TcTiSTcT_delta_radicand S c1))) +
        (4 / |c1.kappa|) ^ 2 := by
    have e : (4 / |c1.kappa|) ^ 2 = 4 * (2 / |c1.kappa|) ^ 2 := by
      rw [div_pow, div_pow]
      ring
    rw [TcTiSTcT_tangent_circles_offset, p5, e]
    linear_combination 4 * hdy'
  refine ⟨?_, ?_, ?_, ?_⟩
  · rw [TcTiSTcT_tangent_circles_offset, p1, e1]
    linear_combination hdy'
  · rw [TcTiSTcT_tangent_circles_offset, p4, e2]
    linear_combination hdy'
  · rw [hmid, hR2]
    exact hge
  · rw [hmid, hR2, heq]
    constructor
    · intro h
      have hsq : S.hcpmpm_reeds_shepp_.distance ^ 2 =
          E.sqrt (TcTiSTcT_bound_radicand S c1) ^ 2 := by
        rw [hs1b, hA]
        linarith
      have hfac : (S.hcpmpm_reeds_shepp_.distance - E.sqrt (TcTiSTcT_bound_radicand S c1)) *
          (S.hcpmpm_reeds_shepp_.distance + E.sqrt (TcTiSTcT_bound_radicand S c1)) = 0 := by
        have : (S.hcpmpm_reeds_shepp_.distance - E.sqrt (TcTiSTcT_bound_radicand S c1)) *
          (S.hcpmpm_reeds_shepp_.distance + E.sqrt (TcTiSTcT_bound_radicand S c1)) =
          S.hcpmpm_reeds_shepp_.distance ^ 2 - E.sqrt (TcTiSTcT_bound_radicand S c1) ^ 2 := by
          ring
        rw [this, hsq, sub_self]
      rcases mul_eq_zero.mp hfac with h' | h' <;> linarith
    · intro h
      have hsq : S.hcpmpm_reeds_shepp_.distance ^ 2 = TcTiSTcT_bound_radicand S c1 := by
        rw [h, hs1b]
      rw [hA] at hsq
      linarith

end TcTiSTcT_geometry

section TcTiSTcT_concrete

open HCpmpm_Reeds_Shepp

theorem slim_helper :
    slim_space.hcpmpm_reeds_shepp_ = { distance := 73 / 13, angle := 0 } :=
  (circle_at_precompute (rational_space (35 / 26) (5 / 13) (12 / 13)) rfl (73 / 13)
    (by norm_num)).2.2.2

theorem slim_ahead_helper :
    slim_ahead_space.hcpmpm_reeds_shepp_ = { distance := 4, angle := 0 } :=
  (circle_at_precompute (rational_space (35 / 26) (5 / 13) (12 / 13)) rfl 4 (by norm_num)).1

/-- `Rat.sqrt` at a radicand with the non-negative rational root `q` is exact. -/
theorem exact_sqrt_nonneg_sq (x q : ℚ) (hq : 0 ≤ q) (h : x = q * q) :
    0 ≤ exact_env.sqrt x ∧ exact_env.sqrt x ^ 2 = x := by
  obtain ⟨h1, h2⟩ := exact_sqrt_of_sq x q hq h
  exact ⟨h2 ▸ hq, h1⟩

theorem slim_bound_radicand (S : HCpmpm_Reeds_Shepp_State_Space ℚ)
    (hR : S.radius_ = 35 / 26) (hs : S.sin_mu_ = 5 / 13) (hc : S.cos_mu_ = 12 / 13) :
    TiSTcT_bound_radicand S slim_start = 51 / 13 * (51 / 13) ∧
    TcTiSTcT_bound_radicand S slim_start = 73 / 13 * (73 / 13) := by
  refine ⟨?_, ?_⟩
  · simp [TiSTcT_bound_radicand, hR, hs, hc, slim_start, circle_at, endpoint_circle,
      HC_CC_Circle.of_start, rational_space, fabs, pow2]
    norm_num
  · simp [TcTiSTcT_bound_radicand, hR, hs, hc, slim_start, circle_at, endpoint_circle,
      HC_CC_Circle.of_start, rational_space, fabs, pow2]
    norm_num

theorem slim_delta_radicand :
    TcTiSTcT_delta_radicand slim_space slim_start = 1702 / 949 * (1702 / 949) := by
  rw [TcTiSTcT_delta_radicand, slim_helper]
  simp [slim_space, precompute, slim_start, circle_at, endpoint_circle, HC_CC_Circle.of_start,
    rational_space, fabs, pow2]
  norm_num

theorem slim_exists :
    TcTiSTcT_exists exact_env slim_space slim_start slim_end = true := by
  have h := (slim_bound_radicand slim_space rfl rfl rfl).2
  unfold TcTiSTcT_bound_radicand at h
  have hl : slim_start.left ≠ slim_end.left := by decide
  have hf : slim_start.forward ≠ slim_end.forward := by decide
  simp only [TcTiSTcT_exists, if_neg hl, if_neg hf, h, exact_sqrt_sq (73 / 13) (by norm_num),
    slim_helper]
  norm_num

/-- Witness for C35: a left/forward and a right/backward circle with rs radius 1, centres
`(0, 1)` and `(73/13, 1)`, `R = 35/26`, `sin μ = 5/13`, `cos μ = 12/13`, at the bound
`d = 73/13` of `TcTiSTcT_exists`.  The configurations `q1`, `q4` returned by `TcTiSTcT_path`
are the joins on its auxiliary circles, and these circles, at the offsets
`±(1702/949, 840/949)`, have their centres at squared distance `2²` from the centres of `c1`
and `c2` and at squared distance `(2R)²` from each other. -/
theorem TcTiSTcT_tangent_circles_feasible_witness :
    ((TcTiSTcT_path exact_env slim_space slim_start slim_end).qi1 =
        some (TcT_path_q exact_env slim_start
          (TcTiSTcT_tangent_circles exact_env slim_space slim_start slim_end).1) ∧
      (TcTiSTcT_path exact_env slim_space slim_start slim_end).qi4 =
        some (TcT_path_q exact_env
          (TcTiSTcT_tangent_circles exact_env slim_space slim_start slim_end).2 slim_end)) ∧
    center_sq_distance slim_start
        (TcTiSTcT_tangent_circles exact_env slim_space slim_start slim_end).1 =
      pow2 (2 / fabs slim_start.kappa) ∧
    center_sq_distance (TcTiSTcT_tangent_circles exact_env slim_space slim_start slim_end).2
        slim_end = pow2 (2 / fabs slim_end.kappa) ∧
    center_sq_distance (TcTiSTcT_tangent_circles exact_env slim_space slim_start slim_end).1
        (TcTiSTcT_tangent_circles exact_env slim_space slim_start slim_end).2 =
      pow2 (2 * slim_space.radius_) :=
  have h := TcTiSTcT_tangent_circles_feasible exact_env slim_space slim_start slim_end 1 0
    (by norm_num)
    (fun x y lx ly => by simp [exact_env, toy_env])
    (by
      rw [slim_helper]
      simp [slim_start, slim_end, circle_at, exact_env, toy_env, endpoint_circle,
        HC_CC_Circle.of_start])
    (by
      rw [slim_helper]
      simp [slim_start, slim_end, circle_at, exact_env, toy_env, endpoint_circle,
        HC_CC_Circle.of_start, rational_space]
      norm_num)
    (by norm_num [slim_space, precompute, rational_space])
    (by norm_num [slim_space, precompute, rational_space])
    (by norm_num [slim_space, precompute, rational_space])
    (by
      simp [slim_start, slim_end, circle_at, endpoint_circle, HC_CC_Circle.of_start,
        rational_space, fabs])
    (by norm_num [slim_start, circle_at, endpoint_circle, HC_CC_Circle.of_start,
      rational_space])
    (exact_sqrt_nonneg_sq _ (73 / 13) (by norm_num) (slim_bound_radicand slim_space rfl rfl rfl).2)
    (fun _ => exact_sqrt_nonneg_sq _ (1702 / 949) (by norm_num) slim_delta_radicand)
    slim_exists
  ⟨⟨h.1.1, h.1.2.2.2⟩, h.2.1, h.2.2.1, h.2.2.2.2.mpr (by
    rw [slim_helper, (slim_bound_radicand slim_space rfl rfl rfl).2,
      exact_sqrt_sq (73 / 13) (by norm_num)])⟩

end TcTiSTcT_concrete

section unguarded_roots_concrete

open HCpmpm_Reeds_Shepp

/-- Witness for C39: two left/forward circles with rs radius 1, centres `(0, 1)` and `(4, 1)`,
`R = 35/26`, `sin μ = 5/13`, `cos μ = 12/13`.  `TiSTcT_exists` holds (`d = 4 ≥ 51/13`), the
radicand of the `delta_x` of `TiSTcT_path` is non-negative and `d` is positive. -/
theorem delta_radicand_nonneg_witness :
    0 ≤ TiSTcT_delta_radicand slim_ahead_space slim_ahead ∧
      0 < slim_ahead_space.hcpmpm_reeds_shepp_.distance :=
  (delta_radicand_nonneg exact_env slim_ahead_space slim_start slim_ahead
    (by norm_num [slim_ahead_space, precompute, rational_space])
    (by norm_num [slim_ahead_space, precompute, rational_space])
    (by norm_num [slim_ahead_space, precompute, rational_space])
    (by norm_num [slim_ahead_space, precompute, rational_space])
    rfl
    (by norm_num [slim_ahead, circle_at, endpoint_circle, HC_CC_Circle.of_start,
      rational_space])
    (exact_sqrt_nonneg_sq _ (51 / 13) (by norm_num)
      (slim_bound_radicand slim_ahead_space rfl rfl rfl).1)
    (exact_sqrt_nonneg_sq _ (73 / 13) (by norm_num)
      (slim_bound_radicand slim_ahead_space rfl rfl rfl).2)).1 (by
    have h := (slim_bound_radicand slim_ahead_space rfl rfl rfl).1
    unfold TiSTcT_bound_radicand at h
    have hl : slim_start.left = slim_ahead.left := rfl
    have hf : slim_start.forward = slim_ahead.forward := rfl
    simp only [TiSTcT_exists, hl, hf, ne_eq, not_true_eq_false, if_false, h,
      exact_sqrt_sq (51 / 13) (by norm_num), slim_ahead_helper]
    norm_num)

end unguarded_roots_concrete

/-! ## Sign of the curvature at the joins -/

section join_sign

variable (E : Env K) (S : HCpmpm_Reeds_Shepp_State_Space K) (c1 c2 : HC_CC_Circle K)

open HCpmpm_Reeds_Shepp

set_option maxHeartbeats 4000000 in
/-- For the decomposition of a feasible build routine between endpoint circles whose own
curvature has the sign of their turning direction: every turn entry of the schedule denotes a
circle and a join configuration; the curvature of the join has the sign of the turning
direction of the circle when the entry is the first turn on that join, except for the cc turn,
whose join has curvature 0, and it has the opposite sign when an earlier turn entry is on the
same join. -/
theorem join_sign_aux (r : Build_Routine)
    (hrs : 0 < S.rs_circle_param_.kappa) (hhc : 0 < S.hc_cc_circle_param_.kappa)
    (h1 : sign_matches c1 (start_conf c1) = true) (h2 : sign_matches c2 (start_conf c2) = true)
    (hfeas : r.feasible E S c1 c2 = true) :
    ∀ e ∈ turn_entries [] (schedule r.family),
      ∃ c q, (path_of_row S c1 c2 r.family (r.run E S c1 c2)).turn_pair e.1 = some (c, q) ∧
        (if e.2 then sign_opposes c q = true
         else if e.1.is_cc then q.kappa = 0
         else sign_matches c q = true) := by
  cases r
  all_goals
    simp only [Build_Routine.feasible, TT_exists, TcT_exists, TcTcT_exists, TcTT_exists,
      TTcT_exists, TiST_exists, TeST_exists, TiSTcT_exists, TeSTcT_exists, TcTiST_exists,
      TcTeST_exists, TcTiSTcT_exists, TcTeSTcT_exists, TTcTT_exists, TcTTcT_exists,
      TTT_exists, TciST_exists, TceST_exists, TiScT_exists, TeScT_exists, TciScT_exists,
      TceScT_exists] at hfeas
    split_ifs at hfeas with hl hf
    clear hfeas hf
  all_goals
    simp +decide only [Build_Routine.family, schedule, turn_entries, Segment.join,
      List.forall_mem_cons, List.contains_cons, List.contains_nil, Bool.or_false, Bool.or_true,
      List.not_mem_nil, false_implies, implies_true, and_true, if_true, if_false,
      Bool.false_eq_true, Segment.is_cc]
  all_goals
    simp only [Build_Routine.family, Segment.join,
      HC_CC_RS_Path.turn_pair, Segment.circle, path_of_row, Build_Routine.run,
      TT_path, TcT_path, TcTcT_path,
      TcTT_path, TTcT_path, TiST_path, TeST_path, hc_straight_hc, TiSTcT_path, TeSTcT_path,
      TcTiST_path, TcTeST_path, TcTiSTcT_path, TcTeSTcT_path, TTcTT_path, TcTTcT_path,
      TTT_path, TciST_path, TceST_path, TiScT_path, TeScT_path, TciScT_path, TceScT_path,
      rs_straight_rs, Decomposition.init,
      HC_CC_RS_Path.circle, HC_CC_RS_Path.conf, Option.bind, Option.map,
      TcTcT_tangent_circles_tgt, TcTT_tangent_circles_tgt, TTcT_tangent_circles_tgt,
      TTcTT_tangent_circles_tgt, TcTTcT_tangent_circles_tgt, TTT_tangent_circles_tgt,
      TcTcT_tgt_offset, TcTT_tgt_offset, TTcT_tgt_offset, TTcTT_tgt_offset,
      TcTTcT_tgt_offset, TTT_tgt_offset]
  all_goals try (split_ifs with hlen <;> clear hlen)
  all_goals
    simp only [sign_matches, start_conf] at h1 h2
    first
    | refine ⟨⟨_, _, rfl, ?_⟩, ⟨_, _, rfl, ?_⟩, ⟨_, _, rfl, ?_⟩, ⟨_, _, rfl, ?_⟩⟩
    | refine ⟨⟨_, _, rfl, ?_⟩, ⟨_, _, rfl, ?_⟩, ⟨_, _, rfl, ?_⟩⟩
    | refine ⟨⟨_, _, rfl, ?_⟩, ⟨_, _, rfl, ?_⟩⟩
  all_goals
    try simp only [sign_matches, sign_opposes, HC_CC_Circle.of_start, HC_CC_Circle.offset,
      HC_CC_Circle.of_center, TcT_path_q_kappa, start_conf, TT_path_q2, conf_at]
    first
    | done
    | exact h1
    | exact h2
    | (cases hl1 : c1.left <;> cases hl2 : c2.left <;> simp_all)

end join_sign

section join_sign_statement

variable (E : Env K) (S : HCpmpm_Reeds_Shepp_State_Space K) (c1 c2 : HC_CC_Circle K)

open HCpmpm_Reeds_Shepp

/-- The join of `TcT_path` carries the curvature of `c1`: it has the sign of the turning
direction of `c1` and, between circles of different turning directions, not that of `c2`. -/
theorem TcT_join_sign (h1 : sign_matches c1 (start_conf c1) = true) (hl : c1.left ≠ c2.left) :
    (TcT_path_q E c1 c2).kappa = c1.kappa ∧
    sign_matches c1 (TcT_path_q E c1 c2) = true ∧
    sign_matches c2 (TcT_path_q E c1 c2) = false := by
  simp only [sign_matches, start_conf] at h1
  refine ⟨TcT_path_q_kappa E c1 c2, ?_, ?_⟩
  · simp only [sign_matches, TcT_path_q_kappa]
    exact h1
  · simp only [sign_matches, TcT_path_q_kappa]
    cases hl1 : c1.left <;> cases hl2 : c2.left <;> simp_all
    · exact le_of_lt h1
    · exact le_of_lt h1

/-- C32 (amended): let the rs and the hc/cc maximum curvature be positive, let the curvature
of each endpoint circle have the sign of its turning direction, and let the build routine `r`
be feasible.  Every turn entry of the schedule of its family denotes a circle and a join
configuration of the decomposition it builds.  When the entry is the first turn on that join,
the curvature of the join has the sign of the turning direction of the circle (positive for a
left circle, negative for a right circle), except for the cc turn of `TTT`, whose join has
curvature 0; when an earlier turn entry is on the same join (a cusp), the curvature of the join
has the opposite sign.  In particular for `TcT` the single join `q` is created with the
curvature `c1.kappa`; its sign matches `cstart`, the copy of `c1`, and does not match `cend`,
the copy of `c2`. -/
theorem join_curvature_sign (r : Build_Routine)
    (hrs : 0 < S.rs_circle_param_.kappa) (hhc : 0 < S.hc_cc_circle_param_.kappa)
    (h1 : sign_matches c1 (start_conf c1) = true) (h2 : sign_matches c2 (start_conf c2) = true)
    (hfeas : r.feasible E S c1 c2 = true) :
    (∀ e ∈ turn_entries [] (schedule r.family),
      ∃ c q, (path_of_row S c1 c2 r.family (r.run E S c1 c2)).turn_pair e.1 = some (c, q) ∧
        (if e.2 then sign_opposes c q = true
         else if e.1.is_cc then q.kappa = 0
         else sign_matches c q = true)) ∧
    (r = .TcT →
      (r.run E S c1 c2).cstart = some c1 ∧ (r.run E S c1 c2).cend = some c2 ∧
      (r.run E S c1 c2).qi1 = some (TcT_path_q E c1 c2) ∧
      (TcT_path_q E c1 c2).kappa = c1.kappa ∧
      sign_matches c1 (TcT_path_q E c1 c2) = true ∧
      sign_matches c2 (TcT_path_q E c1 c2) = false) := by
  refine ⟨join_sign_aux E S c1 c2 r hrs hhc h1 h2 hfeas, fun hr => ?_⟩
  subst hr
  have hl : c1.left ≠ c2.left := by
    simp only [Build_Routine.feasible, TcT_exists] at hfeas
    split_ifs at hfeas with hl hf
    exact hl
  exact ⟨rfl, rfl, rfl, TcT_join_sign E c1 c2 h1 hl⟩

end join_sign_statement

section join_sign_concrete

open HCpmpm_Reeds_Shepp

theorem cusp_pair_feasible :
    Build_Routine.TcT.feasible toy_env (precompute toy_env toy_space cusp_start cusp_end)
      cusp_start cusp_end = true := by
  simp [Build_Routine.feasible, TcT_exists, precompute, toy_env, toy_space, cusp_start,
    cusp_end, endpoint_circle, HC_CC_Circle.of_start, State.configuration, state_left,
    state_cusp, fabs]
  norm_num [abs_div]

theorem cusp_pair_signs :
    sign_matches cusp_start (start_conf cusp_start) = true ∧
    sign_matches cusp_end (start_conf cusp_end) = true := by
  constructor <;>
    simp [sign_matches, start_conf, toy_space, cusp_start, cusp_end, endpoint_circle,
      HC_CC_Circle.of_start]

/-- Witness for C32 (amended): between the left/forward circle at `(0, 0, 0)` and the
right/forward circle at `(2, 2, 0)` of the toy instance (curvatures `1` and `-1`, centres
`(0, 1)` and `(2, 1)`), `TcT_path` returns `cstart = c1`, `cend = c2` and a join of curvature
`c1.kappa = 1`, which matches the left circle `cstart` and not the right circle `cend`. -/
theorem join_curvature_sign_witness :
    (Build_Routine.TcT.run toy_env (precompute toy_env toy_space cusp_start cusp_end)
        cusp_start cusp_end).cstart = some cusp_start ∧
    (Build_Routine.TcT.run toy_env (precompute toy_env toy_space cusp_start cusp_end)
        cusp_start cusp_end).cend = some cusp_end ∧
    (Build_Routine.TcT.run toy_env (precompute toy_env toy_space cusp_start cusp_end)
        cusp_start cusp_end).qi1 = some (TcT_path_q toy_env cusp_start cusp_end) ∧
    (TcT_path_q toy_env cusp_start cusp_end).kappa = cusp_start.kappa ∧
    sign_matches cusp_start (TcT_path_q toy_env cusp_start cusp_end) = true ∧
    sign_matches cusp_end (TcT_path_q toy_env cusp_start cusp_end) = false :=
  (join_curvature_sign toy_env (precompute toy_env toy_space cusp_start cusp_end) cusp_start
    cusp_end .TcT (by norm_num [precompute, toy_space]) (by norm_num [precompute, toy_space])
    cusp_pair_signs.1 cusp_pair_signs.2 cusp_pair_feasible).2 rfl

/-- Counterexample to C32 as stated: in the toy instance the build routine `TcT_path` is
feasible between the left/forward circle at `(0, 0, 0)` and the right/forward circle at
`(2, 2, 0)`, whose curvatures `1` and `-1` have the signs of their turning directions.  The
second entry of the schedule of `TcT` pairs the right circle `cend` with the join `q`, and the
curvature of `q` is `c1.kappa = 1 > 0`: its sign does not match the turning direction of
`cend`. -/
theorem TcT_join_sign_mismatch :
    Build_Routine.TcT.feasible toy_env (precompute toy_env toy_space cusp_start cusp_end)
      cusp_start cusp_end = true ∧
    sign_matches cusp_start (start_conf cusp_start) = true ∧
    sign_matches cusp_end (start_conf cusp_end) = true ∧
    ∃ e ∈ turn_entries [] (schedule Build_Routine.TcT.family), ∃ c q,
      (path_of_row (precompute toy_env toy_space cusp_start cusp_end) cusp_start cusp_end
        Build_Routine.TcT.family
        (Build_Routine.TcT.run toy_env (precompute toy_env toy_space cusp_start cusp_end)
          cusp_start cusp_end)).turn_pair e.1 = some (c, q) ∧
      c.left = false ∧ q.kappa = 1 ∧ sign_matches c q = false := by
  refine ⟨cusp_pair_feasible, cusp_pair_signs.1, cusp_pair_signs.2,
    (.rs .cend .qi1 false, true), by decide, cusp_end,
    TcT_path_q toy_env cusp_start cusp_end, rfl, rfl, ?_, ?_⟩
  · rw [TcT_path_q_kappa]
    simp [toy_space, cusp_start, endpoint_circle, HC_CC_Circle.of_start]
  · simp [sign_matches, TcT_path_q_kappa, toy_space, cusp_start, cusp_end, endpoint_circle,
      HC_CC_Circle.of_start]

end join_sign_concrete

/-! ## The straight segment of `TiST_path` -/

section TiST_straight

variable (E : Env K) (S : HCpmpm_Reeds_Shepp_State_Space K) (c1 c2 : HC_CC_Circle K)

open HCpmpm_Reeds_Shepp

end TiST_straight

section TiST_straight_concrete

open HCpmpm_Reeds_Shepp

end TiST_straight_concrete

/-! ## The driver on a query with a cusp -/

section driver_min_concrete
open HCpmpm_Reeds_Shepp

theorem toy_cusp_survives_back : survives state_left state_cusp 0 3 := by
  refine ⟨by norm_num, by norm_num, ?_, ?_⟩
  · rw [skip_circle_pos (by norm_num [state_left])]
    simp
  · rw [skip_circle_neg (by norm_num [state_cusp])]
    simp

/-- The selector's result for the left/forward start circle and the right/backward end circle
of the query `state_left → state_cusp` has a length of at least 3. -/
theorem toy_cusp_pair_back :
    3 ≤ (pair_path toy_env toy_space state_left state_cusp 0 3).length := by
  unfold pair_path
  rcases selector_result_cases toy_env toy_space
      (endpoint_circle toy_env toy_space state_left.configuration 0)
      (endpoint_circle toy_env toy_space state_cusp.configuration 3) with
    ⟨heq, -⟩ | ⟨-, hr⟩ | ⟨-, hon, -⟩ | ⟨-, -, r, hfeas, hr⟩
  · rw [toy_cusp_ne] at heq
    exact absurd heq (by simp)
  · rw [hr]
    show (3 : ℚ) ≤ toy_env.dbl_max
    norm_num [toy_env]
  · rw [toy_cusp_off (Or.inl rfl)] at hon
    exact absurd hon (by simp)
  · rw [hr]
    by_cases h2 : r = .TciScT
    · subst h2
      simp [path_of_row, Build_Routine.run, TciScT_path, rs_straight_rs, conf_at, precompute,
        toy_env, toy_space, endpoint_circle, HC_CC_Circle.of_start, State.configuration,
        state_left, state_cusp, fabs]
      norm_num
    · refine (toy_run_ge _ _ _ r).2 ?_ h2 ?_
      · rintro rfl
        simp [Build_Routine.feasible, TcT_exists, endpoint_circle, HC_CC_Circle.of_start]
          at hfeas
      · rintro rfl
        simp [Build_Routine.feasible, TceScT_exists, endpoint_circle, HC_CC_Circle.of_start]
          at hfeas

/-- Witness for C2: the query `state_left → state_cusp` with the curvatures `1/2` and `-1/2`.
The filter is at work (the pair `(1, 1)` does not survive), the surviving pairs have
different selector lengths (2 for the pair `(0, 1)`, at least 3 for the pair `(0, 3)`), and
the driver returns the selector's result for a surviving pair of minimal length, which
`get_distance` reports as 2. -/
theorem hcpmpm_reeds_shepp_min_witness :
    (∃ i j, survives state_left state_cusp i j ∧
      (hcpmpm_reeds_shepp toy_env toy_space state_left state_cusp).1 =
        some (pair_path toy_env toy_space state_left state_cusp i j) ∧
      (∀ i' j', survives state_left state_cusp i' j' →
        (pair_path toy_env toy_space state_left state_cusp i j).length ≤
          (pair_path toy_env toy_space state_left state_cusp i' j').length) ∧
      get_distance toy_env toy_space state_left state_cusp =
        some (pair_path toy_env toy_space state_left state_cusp i j).length) ∧
    ¬ survives state_left state_cusp 1 1 ∧
    survives state_left state_cusp 0 1 ∧
    (pair_path toy_env toy_space state_left state_cusp 0 1).length = 2 ∧
    survives state_left state_cusp 0 3 ∧
    3 ≤ (pair_path toy_env toy_space state_left state_cusp 0 3).length ∧
    get_distance toy_env toy_space state_left state_cusp = some 2 :=
  ⟨hcpmpm_reeds_shepp_min toy_env toy_space state_left state_cusp
      ⟨0, 1, toy_cusp_survives_first, by
        rw [toy_cusp_pair_length]
        norm_num [toy_env]⟩,
    fun h => by
      have := (toy_cusp_survives h).1
      omega,
    toy_cusp_survives_first, toy_cusp_pair_length, toy_cusp_survives_back, toy_cusp_pair_back,
    by simp [get_distance, toy_cusp_result, toy_cusp_pair_length]⟩

end driver_min_concrete

end steer
